import Mathlib

/-!
# WWVBclock: the ES100 receiver session (`Es100Wire.cpp`)

A shallow embedding of `Es100Wire` (register-level BCD decode, the
reception life cycle of `Es100Wire::loop`, and the DST-schedule inference of
`Es100Wire::ScheduledDst`) together with the two calendar routines of the
Arduino `TimeLib` library the class calls.

Conventions.
* `int16_t` register values are `Int`; `-1` is the "unavailable" sentinel of
  `readRegister`.  Bit operations are only ever executed under a `>= 0`
  guard, so they are taken on `Int.toNat`.
* `uint8_t` / `uint32_t` values are `Nat` with an explicit `%`.
* `float` values are IEEE 754 binary32 bit patterns (`F32`); every arithmetic
  step rounds to nearest, ties to even.
* The I2C bus and the enable pin are an explicit `Board` value threaded
  through every member function that touches the hardware.
-/

namespace WWVBclock

/-! ## TimeLib -/

/-- The `tmElements_t` record of TimeLib (`TimeElements` in the sources);
every field is a `uint8_t`, `Year` is an offset from 1970. The field defaults
give the zero-initialised record the sources start from. -/
structure TimeElements where
  Second : Nat := 0
  Minute : Nat := 0
  Hour : Nat := 0
  Wday : Nat := 0
  Day : Nat := 0
  Month : Nat := 0
  Year : Nat := 0
  deriving DecidableEq, Repr

/-- Modelled from the spec: `SECS_PER_DAY` of TimeLib (`TimeLib.h` is included
by `Es100Wire.h` but is not part of the sources); the number of seconds of the
"whole day" the spec rounds to. -/
def SECS_PER_DAY : Nat := 86400

/-- Modelled from the spec: the `LEAP_YEAR(Y)` test of TimeLib, `Y` counted
from 1970 (Gregorian rule), needed for the spec's "UTC timestamp" of calendar
fields. -/
def LEAP_YEAR (Y : Nat) : Bool :=
  (1970 + Y) % 4 == 0 && ((1970 + Y) % 100 != 0 || (1970 + Y) % 400 == 0)

/-- Modelled from the spec: TimeLib's `monthDays` table. -/
def monthDays : List Nat := [31, 28, 31, 30, 31, 30, 31, 31, 30, 31, 30, 31]

/-- Modelled from the spec: length in days of month `month` (0 = January) of a
year, as both TimeLib loops compute it: February is 29 or 28 by `LEAP_YEAR`,
every other month is read from `monthDays`. A read past the table (undefined
in C++) is taken as 0. -/
def monthLength (leap : Bool) (month : Nat) : Nat :=
  if month = 1 then (if leap then 29 else 28) else monthDays.getD month 0

/-- Modelled from the spec: TimeLib's `makeTime` (external library, not under
the sources): "the UTC timestamp" of the calendar fields, assembled in
`uint32_t` arithmetic: whole years since 1970, one extra day per leap year
before `tm.Year`, the months before `tm.Month`, then `(tm.Day-1)` days
(which wraps for `Day = 0`), hours, minutes and seconds. -/
def makeTime (tm : TimeElements) : Nat :=
  let seconds := tm.Year * (SECS_PER_DAY * 365)
  let seconds := (List.range tm.Year).foldl
    (fun s i => if LEAP_YEAR i then s + SECS_PER_DAY else s) seconds
  let seconds := (List.range' 1 (tm.Month - 1)).foldl
    (fun s i => s + SECS_PER_DAY * monthLength (LEAP_YEAR tm.Year) (i - 1)) seconds
  let seconds := seconds + ((tm.Day + 4294967295) % 4294967296) * SECS_PER_DAY
  let seconds := seconds + tm.Hour * 3600
  let seconds := seconds + tm.Minute * 60
  let seconds := seconds + tm.Second
  seconds % 4294967296

/-- Modelled from the spec: the year search of TimeLib's `breakTime`,
`while ((days += LEAP_YEAR(year) ? 366 : 365) <= time) year++;` with `year` a
`uint8_t`. Returns the final `(year, days)`. The recursion is on a step budget;
`breakTime` supplies `time + 1` steps, more than the loop can take. -/
def yearLoop (time : Nat) : Nat → Nat → Nat → Nat × Nat
  | 0, year, days => (year, days + (if LEAP_YEAR year then 366 else 365))
  | fuel + 1, year, days =>
    let days := days + (if LEAP_YEAR year then 366 else 365)
    if days ≤ time then yearLoop time fuel ((year + 1) % 256) days
    else (year, days)

/-- Modelled from the spec: the month search of TimeLib's `breakTime`,
`for (month = 0; month < 12; month++)`, leaving the loop by `break` as soon as
the remaining day count is inside the month. Returns the final
`(month, time)`. -/
def monthLoop (leap : Bool) : List Nat → Nat → Nat × Nat
  | [], time => (12, time)
  | month :: rest, time =>
    if time ≥ monthLength leap month then
      monthLoop leap rest (time - monthLength leap month)
    else (month, time)

/-- Modelled from the spec: TimeLib's `breakTime` (external library, not under
the sources): splits a `uint32_t` UTC timestamp into calendar fields, the
"current date" the same-day path of `ScheduledDst` asks for. -/
def breakTime (timeInput : Nat) : TimeElements :=
  let time := timeInput % 4294967296
  let second := time % 60
  let time := time / 60
  let minute := time % 60
  let time := time / 60
  let hour := time % 24
  let time := time / 24
  let wday := ((time + 4) % 7) + 1
  let yd := yearLoop time (time + 1) 0 0
  let year := yd.1
  let days := yd.2 - (if LEAP_YEAR year then 366 else 365)
  let time := time - days
  let md := monthLoop (LEAP_YEAR year) (List.range 12) time
  { Second := second, Minute := minute, Hour := hour, Wday := wday,
    Day := (md.2 + 1) % 256, Month := (md.1 + 1) % 256, Year := year }

/-! ## ES100 registers and constants -/

def ES100_CONTROL0_REG : Nat := 0x00
def ES100_IRQ_STATUS_REG : Nat := 0x02
def ES100_STATUS0_REG : Nat := 0x03
def ES100_YEAR_REG : Nat := 0x04
def ES100_MONTH_REG : Nat := 0x05
def ES100_DAY_REG : Nat := 0x06
def ES100_HOUR_REG : Nat := 0x07
def ES100_MINUTE_REG : Nat := 0x08
def ES100_SECOND_REG : Nat := 0x09
def ES100_NEXT_DST_MONTH_REG : Nat := 0x0A
def ES100_NEXT_DST_DAY_REG : Nat := 0x0B
def ES100_NEXT_DST_HOUR_REG : Nat := 0x0C

def CONTROL0_START : Nat := 1
def CONTROL0_ANT2_OFF : Nat := 1 <<< 2

def STATUS_0_RXOK : Nat := 1
def STATUS_0_DST0 : Nat := 1 <<< 5
def STATUS_0_DST1 : Nat := 1 <<< 6

def IRQSTATUS_RX_COMPLETE : Nat := 1

def DST_HOUR_SPECIAL3 : Nat := 1 <<< 7

/-! ## The bus and the session -/

/-- What the `TwoWire` library answers during one bus transaction: the result
of `endTransmission()`, of `requestFrom(..)` and of `read()`. -/
structure WireReply where
  endTransmission : Nat
  requestFrom : Nat
  read : Int

/-- One register transaction issued on the bus. -/
inductive BusOp where
  | readReg (reg : Nat)
  | writeReg (reg val : Nat)
  deriving DecidableEq, Repr

/-- The hardware outside the class: the bus replies still to come (indexed by
transaction number), the number of transactions done, the transactions issued
so far, and the level last driven on the enable pin. -/
structure Board where
  reply : Nat → WireReply
  count : Nat
  log : List BusOp
  enablePin : Bool

inductive ReceptionState where
  | SHUTDOWN
  | ACTIVE
  | IDLE
  deriving DecidableEq, Repr

/-- The data members of `Es100Wire` (and its static flag `isrTriggered`). -/
structure Es100Wire where
  m_state : ReceptionState
  m_time : Nat
  m_status0 : Int
  m_yearOfDst : Nat
  m_nextDstMonthStatus : Int
  m_nextDstDayStatus : Int
  m_nextDstHourStatus : Int
  m_errorReported : Nat
  isrTriggered : Bool
  deriving DecidableEq, Repr

/-- The constructor `Es100Wire::Es100Wire`. -/
def Es100Wire.init : Es100Wire :=
  { m_state := .SHUTDOWN, m_time := 0, m_status0 := 0, m_yearOfDst := 0,
    m_nextDstMonthStatus := -1, m_nextDstDayStatus := -1,
    m_nextDstHourStatus := -1, m_errorReported := 0xff, isrTriggered := false }

/-- The member `Es100Wire::fromBCD`: `((v & 0xF0u) >> 4) * 10u + (v & 0xFu)` cast to
`uint8_t`; the `int16_t` argument is first converted to unsigned. -/
def fromBCD (v : Int) : Nat :=
  let u := (v % 65536).toNat
  (((u &&& 0xF0) >>> 4) * 10 + (u &&& 0xF)) % 256

/-- The member `Es100Wire::readRegister`: `-1` when the address write or the one-byte
request fails, else the byte read. -/
def readRegister (hw : Board) (reg : Nat) : Int × Board :=
  let r := hw.reply hw.count
  let hw1 : Board := { hw with count := hw.count + 1, log := hw.log ++ [BusOp.readReg reg] }
  if r.endTransmission ≠ 0 then (-1, hw1)
  else if r.requestFrom ≠ 1 then (-1, hw1)
  else (r.read % 256, hw1)

/-- The member `Es100Wire::writeRegister`: true when `endTransmission()` reports 0; the
last error code is remembered in `m_errorReported`. -/
def writeRegister (self : Es100Wire) (hw : Board) (reg val : Nat) :
    Bool × Es100Wire × Board :=
  let r := (hw.reply hw.count).endTransmission
  let hw1 : Board := { hw with count := hw.count + 1, log := hw.log ++ [BusOp.writeReg reg val] }
  let self1 : Es100Wire :=
    if r ≠ 0 then { self with m_errorReported := r }
    else if self.m_errorReported ≠ 0 then { self with m_errorReported := 0 }
    else self
  (r == 0, self1, hw1)

/-- The member `Es100Wire::shutdown`: drives the enable pin low and enters
SHUTDOWN. -/
def shutdown (self : Es100Wire) (hw : Board) : Es100Wire × Board :=
  ({ self with m_state := .SHUTDOWN }, { hw with enablePin := false })

/-- The member `Es100Wire::listen`: drives the enable pin high and writes the
start command; the state becomes ACTIVE only when the write succeeds. -/
def listen (self : Es100Wire) (hw : Board) : Es100Wire × Board :=
  let hw1 : Board := { hw with enablePin := true }
  let w := writeRegister self hw1 ES100_CONTROL0_REG (CONTROL0_START ||| CONTROL0_ANT2_OFF)
  if w.1 then ({ w.2.1 with m_state := .ACTIVE }, w.2.2) else (w.2.1, w.2.2)

/-- The member `Es100Wire::loop`: returns the `bool` result, the session and
the board after the call. -/
def loop (self : Es100Wire) (hw : Board) (isSynced : Bool) : Bool × Es100Wire × Board :=
  if isSynced then
    if self.m_state ≠ .SHUTDOWN then
      (false, shutdown self hw)
    else (false, self, hw)
  else if self.m_state ≠ .ACTIVE then
    (false, listen self hw)
  else
    let triggered := self.isrTriggered
    let self : Es100Wire := { self with isrTriggered := false }
    if triggered then
      let irq := readRegister hw ES100_IRQ_STATUS_REG
      if irq.1 < 0 then (false, self, irq.2)
      else if irq.1.toNat &&& IRQSTATUS_RX_COMPLETE ≠ 0 then
        let yr := readRegister irq.2 ES100_YEAR_REG
        if yr.1 < 0 then (false, self, yr.2) else
        let year := ((2000 - 1970) + fromBCD yr.1) % 256
        let self : Es100Wire := { self with m_yearOfDst := year }
        let mo := readRegister yr.2 ES100_MONTH_REG
        if mo.1 < 0 then (false, self, mo.2) else
        let dy := readRegister mo.2 ES100_DAY_REG
        if dy.1 < 0 then (false, self, dy.2) else
        let hr := readRegister dy.2 ES100_HOUR_REG
        if hr.1 < 0 then (false, self, hr.2) else
        let mn := readRegister hr.2 ES100_MINUTE_REG
        if mn.1 < 0 then (false, self, mn.2) else
        let sc := readRegister mn.2 ES100_SECOND_REG
        if sc.1 < 0 then (false, self, sc.2) else
        let toRead : TimeElements :=
          { Year := year, Month := fromBCD mo.1, Day := fromBCD dy.1,
            Hour := fromBCD hr.1, Minute := fromBCD mn.1, Second := fromBCD sc.1 }
        let ndm := readRegister sc.2 ES100_NEXT_DST_MONTH_REG
        let ndd := readRegister ndm.2 ES100_NEXT_DST_DAY_REG
        let ndh := readRegister ndd.2 ES100_NEXT_DST_HOUR_REG
        let st := readRegister ndh.2 ES100_STATUS0_REG
        (true,
          { self with
            m_time := makeTime toRead,
            m_nextDstMonthStatus := ndm.1,
            m_nextDstDayStatus := ndd.1,
            m_nextDstHourStatus := ndh.1,
            m_status0 := st.1,
            m_state := .IDLE },
          st.2)
      else (false, self, irq.2)
    else (false, self, hw)

/-- Which branch of the two-way test in `ScheduledDst` produced the result:
the branch that prints "DST from status0", the branch that prints
"DST from DST HOUR", or neither. -/
inductive DstPath where
  | fromStatus0
  | fromDstHour
  | neither
  deriving DecidableEq, Repr

/-- The `bool` result of `ScheduledDst`, its three reference parameters after
the call, and the branch taken. -/
structure DstResult where
  ret : Bool
  begins : Bool
  when : Nat
  localHour : Nat
  path : DstPath
  deriving DecidableEq, Repr

/-- The member `Es100Wire::ScheduledDst`. `now` is the value of TimeLib's `now()`;
`begins0`, `when0`, `localHour0` are the values the caller's reference
parameters hold on entry. -/
def ScheduledDst (self : Es100Wire) (now : Nat) (begins0 : Bool) (when0 localHour0 : Nat) :
    DstResult :=
  if self.m_status0 ≥ 0 then
    let begins : Bool := (self.m_status0.toNat &&& STATUS_0_DST1) == 0
    if (self.m_status0.toNat &&& STATUS_0_RXOK) ≠ 0 ∧
        0 ≠ (STATUS_0_DST0 &&& (self.m_status0.toNat ^^^ (self.m_status0.toNat >>> 1))) then
      let t := breakTime now
      let t : TimeElements := { t with Hour := 0, Minute := 0, Second := 0 }
      let localHour : Nat :=
        if self.m_nextDstHourStatus ≥ 0 ∧
            0 = (self.m_nextDstHourStatus.toNat &&& DST_HOUR_SPECIAL3) then
          (self.m_nextDstHourStatus.toNat &&& 0xF) % 256
        else 2
      { ret := true, begins := begins, when := makeTime t, localHour := localHour,
        path := .fromStatus0 }
    else if self.m_nextDstHourStatus ≥ 0 ∧ self.m_nextDstDayStatus ≥ 0 ∧
        self.m_nextDstMonthStatus ≥ 0 ∧
        0 = (self.m_nextDstHourStatus.toNat &&& DST_HOUR_SPECIAL3) then
      let t : TimeElements :=
        { Year := self.m_yearOfDst, Month := fromBCD self.m_nextDstMonthStatus,
          Day := fromBCD self.m_nextDstDayStatus }
      { ret := true, begins := begins, when := makeTime t,
        localHour := (self.m_nextDstHourStatus.toNat &&& 0xF) % 256,
        path := .fromDstHour }
    else
      { ret := false, begins := begins, when := when0, localHour := localHour0, path := .neither }
  else
    { ret := false, begins := begins0, when := when0, localHour := localHour0, path := .neither }

/-! ## Predicates of the claims, concrete snapshots and bus scripts -/

/-- The same-day test of `ScheduledDst`, in terms of the status bits. -/
def sameDayPattern (status : Int) : Prop :=
  status.toNat.testBit 0 = true ∧ status.toNat.testBit 5 ≠ status.toNat.testBit 6

instance (status : Int) : Decidable (sameDayPattern status) :=
  inferInstanceAs (Decidable (_ ∧ _))

/-- The advance-notice test of `ScheduledDst`: the three next-DST
registers are available and bit 7 of the hour register is clear. -/
def advanceNotice (self : Es100Wire) : Prop :=
  0 ≤ self.m_nextDstHourStatus ∧ 0 ≤ self.m_nextDstDayStatus ∧
    0 ≤ self.m_nextDstMonthStatus ∧ self.m_nextDstHourStatus.toNat.testBit 7 = false

instance (self : Es100Wire) : Decidable (advanceNotice self) :=
  inferInstanceAs (Decidable (_ ∧ _))

/-- Days from 1970-01-01 to January 1st of year `1970 + y`. -/
def daysBeforeYear : Nat → Nat
  | 0 => 0
  | y + 1 => daysBeforeYear y + (if LEAP_YEAR y then 366 else 365)

/-- A snapshot in which both DST encodings are satisfiable: status `0x21`
(RXOK and DST0 set, DST1 clear) and next-DST registers announcing
November 3rd, 02:00, for a fix of year 2024. -/
def snapshotBoth : Es100Wire :=
  { m_state := .IDLE, m_time := 0, m_status0 := 0x21, m_yearOfDst := 54,
    m_nextDstMonthStatus := 0x11, m_nextDstDayStatus := 0x03,
    m_nextDstHourStatus := 0x02, m_errorReported := 0, isrTriggered := false }

/-- A snapshot with the same-day pattern absent (status `0x01`) and the
next-DST registers announcing November 3rd, 02:00, for a fix of year 2024. -/
def snapshotAdvance : Es100Wire :=
  { snapshotBoth with m_status0 := 0x01 }

/-- A snapshot with the same-day pattern present and all three next-DST
registers unavailable. -/
def snapshotSameDayNoRegs : Es100Wire :=
  { snapshotBoth with
    m_nextDstMonthStatus := -1, m_nextDstDayStatus := -1, m_nextDstHourStatus := -1 }

/-- A snapshot with the same-day pattern absent and a next-DST month byte
`0x00`, which is not the BCD of a month 1..12. -/
def snapshotMonth00 : Es100Wire :=
  { snapshotAdvance with m_nextDstMonthStatus := 0x00 }

/-- A snapshot whose status register is unavailable while the next-DST registers
are all readable. -/
def snapshotNoStatus : Es100Wire :=
  { snapshotBoth with m_status0 := -1 }

/-- The value `readRegister` returns when the bus answers a read with `r`. -/
def readValue (r : WireReply) : Int :=
  if r.endTransmission ≠ 0 then -1 else if r.requestFrom ≠ 1 then -1 else r.read % 256

/-- A successful one-byte read answering `b`. -/
def okReply (b : Int) : WireReply := { endTransmission := 0, requestFrom := 1, read := b }

/-- A transaction the device does not acknowledge. -/
def nackReply : WireReply := { endTransmission := 2, requestFrom := 0, read := -1 }

/-- A board that will answer the coming transactions with `replies`, in order,
and not acknowledge any later one. -/
def boardOf (replies : List WireReply) : Board :=
  { reply := fun n => replies.getD n nackReply, count := 0, log := [], enablePin := true }

/-- A session listening with the interrupt flag pending; the previous fix was
of year 2024 with next-DST registers 11-03 02:00 and status `0x01`. -/
def listeningSession : Es100Wire :=
  { snapshotAdvance with m_state := .ACTIVE, m_time := 1234, isrTriggered := true }

/-- Bus replies of a complete reception: IRQ status `0x01`, the six date/time
registers `0x24 0x03 0x10 0x02 0x00 0x00`, next-DST registers `0x11 0x03 0x02`
and status `0x21`. -/
def fixReplies : List WireReply :=
  [okReply 0x01, okReply 0x24, okReply 0x03, okReply 0x10, okReply 0x02, okReply 0x00,
   okReply 0x00, okReply 0x11, okReply 0x03, okReply 0x02, okReply 0x21]

/-- Bus replies of a reception that breaks off: IRQ status `0x01`, year
register `0x25`, then the month register read is not acknowledged. -/
def brokenReplies : List WireReply :=
  [okReply 0x01, okReply 0x25, nackReply]

/-! ## Es100Wire: DST flag and fix hand-over -/

/-- The member `Es100Wire::isDstNow`: `-1` when the status register is
unavailable or the three flag bits are in no defined pattern, `0` for RXOK
alone, `1` for RXOK with both DST bits. -/
def isDstNow (self : Es100Wire) : Int :=
  if self.m_status0 < 0 then -1
  else
    let stat := (self.m_status0.toNat &&&
      (STATUS_0_DST0 ||| STATUS_0_DST1 ||| STATUS_0_RXOK)) % 256
    if stat = STATUS_0_RXOK then 0
    else if stat = (STATUS_0_DST0 ||| STATUS_0_DST1 ||| STATUS_0_RXOK) then 1
    else -1

/-- The member `Es100Wire::getUTCandClear`: returns `m_time` and zeroes it. -/
def getUTCandClear (self : Es100Wire) : Nat × Es100Wire :=
  let ret := self.m_time
  (ret, { self with m_time := 0 })

/-- The value of `isDstNow` for a valid status, as a function of the flag bits. -/
def dstNowOfBits (rxok dst0 dst1 : Bool) : Int :=
  if rxok && !dst0 && !dst1 then 0 else if rxok && dst0 && dst1 then 1 else -1

/-! ## TimeLib accessors and `time_t` arithmetic -/

/-- Modelled from the spec: addition on `time_t`, which TimeLib declares as
`unsigned long` (32 bits here); an `int` operand is converted and the sum wraps
modulo 2^32. -/
def timeAdd (t : Nat) (d : Int) : Nat :=
  (((t : Int) + d) % 4294967296).toNat

/-- Modelled from the spec: TimeLib's `second(t)`, the seconds field of
`breakTime(t)`. -/
def second (t : Nat) : Int := (breakTime t).Second

/-- Modelled from the spec: TimeLib's `minute(t)`, the minutes field of
`breakTime(t)`. -/
def minute (t : Nat) : Int := (breakTime t).Minute

/-- Modelled from the spec: TimeLib's `hour(t)`, the hours field (0..23) of
`breakTime(t)`. -/
def hour (t : Nat) : Int := (breakTime t).Hour

/-- Modelled from the spec: TimeLib's `hourFormat12(t)`: 12 for hour 0, the
hour less 12 after noon, else the hour. -/
def hourFormat12 (t : Nat) : Int :=
  if (breakTime t).Hour = 0 then 12
  else if (breakTime t).Hour > 12 then ((breakTime t).Hour : Int) - 12
  else (breakTime t).Hour

/-- Modelled from the spec: TimeLib's `day(t)`. -/
def day (t : Nat) : Int := (breakTime t).Day

/-- Modelled from the spec: TimeLib's `month(t)`. -/
def month (t : Nat) : Int := (breakTime t).Month

/-- Modelled from the spec: the result type of TimeLib's `timeStatus()`. -/
inductive timeStatus_t where
  | timeNotSet
  | timeNeedsSync
  | timeSet
  deriving DecidableEq, Repr

/-! ## The displays -/

/-- One call made on the `LiquidCrystal` object. -/
inductive LcdOp where
  | clear
  | setCursor (col row : Nat)
  | print (s : String)
  | printChar (c : Char)
  | printInt (n : Int)
  | write (b : Nat)
  | display
  | noDisplay
  deriving DecidableEq, Repr

/-- One call made on the `Hcms290X` LED object; `displayString` carries the
`DISPLAY_WIDTH` character codes of the buffer. -/
inductive LedOp where
  | setCurrentFontIdx (f : Nat)
  | displayString (p : List Nat)
  | display
  | noDisplay
  deriving DecidableEq, Repr

/-- The calls made so far on the two display objects. -/
structure Displays where
  lcd : List LcdOp
  led : List LedOp
  deriving DecidableEq, Repr

def HCMS_OEM_FONT_IDX : Nat := 0
def HCMS_SMALLDIG_FONT_IDX : Nat := 1
def HCMS_7SEG_FONT_IDX : Nat := 2
def FLIPPED_FONT_INCREMENT : Nat := 3

/-- The width `Hcms290xType_t::DISPLAY_WIDTH` of the single-row LED. -/
def DISPLAY_WIDTH : Nat := 4

/-! ## The `float` type: IEEE 754 binary32 -/

/-- A `float`, given by its 32 bits: the sign in bit 31, the biased exponent in
bits 30..23 and the fraction in bits 22..0. -/
structure F32 where
  bits : Nat
  deriving DecidableEq, Repr

/-- The sign bit: `true` for a negative sign. -/
def F32.sign (x : F32) : Bool := decide (x.bits / 2147483648 % 2 = 1)

/-- The biased exponent field. -/
def F32.expField (x : F32) : Nat := x.bits / 8388608 % 256

/-- The fraction field. -/
def F32.frac (x : F32) : Nat := x.bits % 8388608

/-- A NaN: exponent field 255 with a fraction that is not zero. -/
def F32.isNaN (x : F32) : Bool := decide (x.expField = 255 ∧ x.frac ≠ 0)

/-- An infinity: exponent field 255 with fraction zero. -/
def F32.isInf (x : F32) : Bool := decide (x.expField = 255 ∧ x.frac = 0)

/-- The magnitude of a finite `float` in units of 2^-149 (the smallest
subnormal): the fraction for a subnormal, `(2^23 + fraction) * 2^(e - 1)` for a
normal number with exponent field `e`. -/
def F32.mag (x : F32) : Nat :=
  if x.expField = 0 then x.frac else (8388608 + x.frac) * 2 ^ (x.expField - 1)

/-- The value of a finite `float` in units of 2^-149, with its sign. -/
def F32.signedMag (x : F32) : Int :=
  if x.sign then -(x.mag : Int) else (x.mag : Int)

/-- Bit 31 for a negative sign. -/
def F32.signBit (neg : Bool) : Nat := if neg then 2147483648 else 0

/-- The zero of the given sign. -/
def F32.zero (neg : Bool) : F32 := ⟨F32.signBit neg⟩

/-- The infinity of the given sign. -/
def F32.inf (neg : Bool) : F32 := ⟨F32.signBit neg + 2139095040⟩

/-- The NaN an invalid operation produces (`0x7FC00000`). -/
def F32.defaultNaN : F32 := ⟨2143289344⟩

/-- A NaN with its quiet bit (bit 22) set. -/
def F32.quiet (x : F32) : F32 :=
  ⟨if x.frac < 4194304 then x.bits % 4294967296 + 4194304 else x.bits % 4294967296⟩

/-- The NaN result of an operation with a NaN operand: the first signalling
NaN operand, else the first NaN operand, with the quiet bit set. -/
def F32.propagateNaN (a b : F32) : F32 :=
  if a.isNaN ∧ a.frac < 4194304 then a.quiet
  else if b.isNaN ∧ b.frac < 4194304 then b.quiet
  else if a.isNaN then a.quiet
  else b.quiet

/-- The largest `s` up to the given bound with `d * 2^(s + 23) <= n`, or 0
when there is none: the exponent of the unit in the last place of `n / d`, in
units of 2^-149. -/
def F32.ulpExp (n d : Nat) : Nat → Nat
  | 0 => 0
  | s + 1 => if d * 8388608 * 2 ^ (s + 1) ≤ n then s + 1 else F32.ulpExp n d s

/-- The exponent and fraction bits of the `float` nearest to the positive number
`n / d` units of 2^-149, ties to the even fraction, infinity on overflow. With
`s` the exponent of the unit in the last place and `q` the rounded quotient by
`2^s`, the bits are `s * 2^23 + q`: a quotient of `2^24` carries into the
exponent field, and from exponent field 255 on the result is infinity. -/
def F32.roundMag (n d : Nat) : Nat :=
  let s := F32.ulpExp n d 255
  let den := d * 2 ^ s
  let q := n / den
  let r := n % den
  let q := if 2 * r > den ∨ (2 * r = den ∧ q % 2 = 1) then q + 1 else q
  min 2139095040 (s * 8388608 + q)

/-- The `float` nearest to `n / d` units of 2^-149 with the given sign. -/
def F32.round (neg : Bool) (n d : Nat) : F32 := ⟨F32.signBit neg + F32.roundMag n d⟩

/-- The conversion of an `int` to `float`. -/
def F32.ofInt (i : Int) : F32 :=
  F32.round (decide (i < 0)) (i.natAbs * 2 ^ 149) 1

/-- The `float` addition `a + b` (round to nearest, ties to even). -/
def F32.add (a b : F32) : F32 :=
  if a.isNaN ∨ b.isNaN then F32.propagateNaN a b
  else if a.isInf then
    (if b.isInf ∧ a.sign ≠ b.sign then F32.defaultNaN else F32.inf a.sign)
  else if b.isInf then F32.inf b.sign
  else
    let sum : Int := a.signedMag + b.signedMag
    if sum = 0 then F32.zero (a.sign && b.sign)
    else F32.round (decide (sum < 0)) sum.natAbs 1

/-- The `float` multiplication `a * b`. -/
def F32.mul (a b : F32) : F32 :=
  if a.isNaN ∨ b.isNaN then F32.propagateNaN a b
  else if a.isInf ∨ b.isInf then
    (if (a.isInf ∧ b.mag = 0) ∨ (b.isInf ∧ a.mag = 0) then F32.defaultNaN
      else F32.inf (a.sign ^^ b.sign))
  else F32.round (a.sign ^^ b.sign) (a.mag * b.mag) (2 ^ 149)

/-- The `float` division `a / b`. -/
def F32.div (a b : F32) : F32 :=
  if a.isNaN ∨ b.isNaN then F32.propagateNaN a b
  else if a.isInf then
    (if b.isInf then F32.defaultNaN else F32.inf (a.sign ^^ b.sign))
  else if b.isInf then F32.zero (a.sign ^^ b.sign)
  else if b.mag = 0 then
    (if a.mag = 0 then F32.defaultNaN else F32.inf (a.sign ^^ b.sign))
  else F32.round (a.sign ^^ b.sign) (a.mag * 2 ^ 149) b.mag

/-- The place of a `float` that is not a NaN in the order of the numbers: the
exponent and fraction bits, negated under a negative sign (both zeros at 0). -/
def F32.key (x : F32) : Int :=
  if x.sign then -((x.bits % 2147483648 : Nat) : Int) else ((x.bits % 2147483648 : Nat) : Int)

/-- The comparison `a < b`: false when an operand is a NaN. -/
def F32.lt (a b : F32) : Bool := !a.isNaN && !b.isNaN && decide (a.key < b.key)

/-- The comparison `a != b`: true when an operand is a NaN. -/
def F32.ne (a b : F32) : Bool := a.isNaN || b.isNaN || decide (a.key ≠ b.key)

/-- The conversion `static_cast<unsigned>(x)`: the integer part. The C++
conversion is undefined when the integer part is not a value of `unsigned`;
here a NaN and numbers at or below -1 give 0 and numbers from 2^32 on give
2^32 - 1, as the ARM conversion instruction saturates. -/
def F32.toUnsigned (x : F32) : Nat :=
  if x.isNaN ∨ x.sign then 0
  else if x.isInf then 4294967295
  else min 4294967295 (x.mag / 2 ^ 149)

/-- The test `fabs(modf(x, &intpart)) >= 0.5` on a finite `float`: the part of
the magnitude after the binary point is at least one half. -/
def F32.fractionAtLeastHalf (x : F32) : Bool :=
  decide (2 * (x.mag % 2 ^ 149) ≥ 2 ^ 149)

/-- The integer at or below a finite `float` (used by the stand-in formatter of
the concrete runs). -/
def F32.floor (x : F32) : Int :=
  if x.sign then -(((x.mag + (2 ^ 149 - 1)) / 2 ^ 149 : Nat) : Int)
  else ((x.mag / 2 ^ 149 : Nat) : Int)

/-! ## ClockDisplay -/

inductive TimeDisplaySyle where
  | OEM_FONT
  | SEG7_FONT
  | USE_DECIMAL
  | SMALL_COLON
  | DISPLAY_STYLE_MAX
  deriving DecidableEq, Repr

inductive Blink_t where
  | BLINK_1
  | BLINK_2
  | BLINK_3
  | BLINK_4
  deriving DecidableEq, Repr

/-- The constant `ABSENT_TEMP`: the `float` nearest to -999.9, with the bits
`0xC479F99A` (the number -8191181/8192); the `double` literal of the source
converts to the same `float`. -/
def ABSENT_TEMP : F32 := F32.round true (9999 * 2 ^ 149) 10

/-- The literal `1000.f`. -/
def F32.c1000 : F32 := F32.ofInt 1000

/-- The literal `25.4f`: the `float` nearest to 25.4, with the bits `0x41CB3333`. -/
def F32.c25_4 : F32 := F32.round false (254 * 2 ^ 149) 10

/-- The data members of `ClockDisplay`. `time_t` members are `Nat` below 2^32,
`int` members are `Int`, and the `float` members are binary32 values. -/
structure ClockDisplay where
  lastDisplayedHour : Int
  lastDisplayedMinute : Int
  lastTimet : Nat
  radioSilence : Bool
  utcSecondsOffset : Int
  DST : Bool
  m_DstScheduledBegin : Bool
  m_DstChangesWhen : Nat
  m_unitsInMetric : Bool
  m_12Hour : Bool
  m_displayStyle : TimeDisplaySyle
  m_Blink : Blink_t
  m_flippedFonts : Bool
  m_outdoortempC : F32
  m_outdoortempTime : Nat
  m_rainToday : F32
  m_rainYesterday : F32
  m_clearedRainToday : Bool
  m_rainGaugeCorrectionPerThousand : Nat
  deriving DecidableEq

/-- The constructor `ClockDisplay::ClockDisplay`. -/
def ClockDisplay.init : ClockDisplay :=
  { lastDisplayedHour := -1, lastDisplayedMinute := -1, lastTimet := 0,
    radioSilence := false, utcSecondsOffset := 0, DST := false,
    m_DstScheduledBegin := false, m_DstChangesWhen := 0, m_unitsInMetric := false,
    m_12Hour := false, m_displayStyle := .OEM_FONT, m_Blink := .BLINK_1,
    m_flippedFonts := false, m_outdoortempC := ABSENT_TEMP, m_outdoortempTime := 0,
    m_rainToday := F32.ofInt 0, m_rainYesterday := F32.ofInt 0, m_clearedRainToday := false,
    m_rainGaugeCorrectionPerThousand := 1000 }

/-- The member `ClockDisplay::updateDisplay`. -/
def ClockDisplay.updateDisplay (self : ClockDisplay) : ClockDisplay :=
  { self with lastDisplayedMinute := -1, lastTimet := 0 }

/-- The member `ClockDisplay::scheduleDSTchangeAt`:
`t = utcMidnight + utcSecondsOffset + 3600 * localHour` in `time_t`. -/
def ClockDisplay.scheduleDSTchangeAt (self : ClockDisplay) (begins : Bool) (utcMidnight : Nat)
    (localHour : Nat) : ClockDisplay :=
  let t := timeAdd (timeAdd utcMidnight self.utcSecondsOffset) (3600 * (localHour : Int))
  { self with m_DstScheduledBegin := begins, m_DstChangesWhen := t }

/-- The member `ClockDisplay::setUtcMinutesOffset`. -/
def ClockDisplay.setUtcMinutesOffset (self : ClockDisplay) (minutes : Int) : ClockDisplay :=
  ClockDisplay.updateDisplay { self with utcSecondsOffset := minutes * 60 }

/-- The member `ClockDisplay::setDST`. -/
def ClockDisplay.setDST (self : ClockDisplay) (v : Bool) : ClockDisplay :=
  ClockDisplay.updateDisplay { self with DST := v }

/-- The static function `printdig`: a leading `'0'` below 10, then the number. -/
def printdig (d : Nat) : List LcdOp :=
  (if d < 10 then [LcdOp.printChar '0'] else []) ++ [LcdOp.printInt (d : Int)]

/-- The C string left in `buf` after `buf[3] = 0xdf` when `buf` held the text
`s` followed by zero bytes. -/
def setDegreeAt3 (s : String) : String :=
  if s.length < 3 then s
  else String.mk (s.toList.take 3 ++ [Char.ofNat 0xdf] ++ s.toList.drop 4)

/-- Lines 160-161 of `ClockDisplay::displayRain`: the reading times the gauge
correction (a `uint16_t`, converted to `float`) over `1000.f`, in `float`
arithmetic, then cut to `unsigned` and to `uint16_t`. -/
def ClockDisplay.rainMillimetres (self : ClockDisplay) (rmm : F32) : Nat :=
  let corrected : F32 :=
    F32.div (F32.mul rmm (F32.ofInt (self.m_rainGaugeCorrectionPerThousand : Int))) F32.c1000
  F32.toUnsigned corrected % 65536

/-- The member `ClockDisplay::displayRain`; `dtostrf value width prec` is the
text the C library writes for a `float` (an integer argument is converted, which
is exact below 2^24). -/
def ClockDisplay.displayRain (dtostrf : F32 → Int → Nat → String) (self : ClockDisplay)
    (rmm : F32) : List LcdOp :=
  let mm : Nat := self.rainMillimetres rmm
  [LcdOp.setCursor 4 1] ++
  (if self.m_unitsInMetric then
    (if mm < 999 then
      let buf := dtostrf (F32.ofInt (mm : Int)) 3 0 ++ String.mk ['m']
      List.replicate (4 - buf.length) (LcdOp.write 32) ++ [LcdOp.print buf]
    else [LcdOp.printChar '?'])
  else
    let inch : F32 := F32.div (F32.ofInt (mm : Int)) F32.c25_4
    (if F32.lt inch (F32.ofInt 10) then
      let p := String.mk
        ((dtostrf inch 4 (if F32.lt inch (F32.ofInt 1) then 2 else 1)).toList.drop 1)
      let p := if p.length < 4 then p ++ String.mk [Char.ofNat 34] else p
      List.replicate (4 - p.length) (LcdOp.write 32) ++ [LcdOp.print p]
    else [LcdOp.printChar '?']))

/-- The member `ClockDisplay::ledDisplayAddColon`, on the four character codes
of the buffer. -/
def ClockDisplay.ledDisplayAddColon (self : ClockDisplay) (p : List Nat) : List LedOp :=
  let p0 := p.getD 0 0
  let p1 := p.getD 1 0
  let p2 := p.getD 2 0
  let p3 := p.getD 3 0
  let fp : Nat × List Nat :=
    match self.m_displayStyle with
    | .OEM_FONT => (HCMS_OEM_FONT_IDX, p)
    | .SEG7_FONT => (HCMS_7SEG_FONT_IDX, p)
    | .USE_DECIMAL =>
      (HCMS_SMALLDIG_FONT_IDX,
        [(if p0 ≠ 32 then (p0 + 20) % 256 else p0), (p1 + 30) % 256, (p2 + 40) % 256,
          (p3 + 20) % 256])
    | .SMALL_COLON =>
      (HCMS_SMALLDIG_FONT_IDX,
        if self.m_Blink = .BLINK_1 ∨ self.m_Blink = .BLINK_3 then
          [p0, (p1 + 10) % 256, p2, p3]
        else p)
    | .DISPLAY_STYLE_MAX => (0, p)
  let fontIdx := if self.m_flippedFonts then (fp.1 + FLIPPED_FONT_INCREMENT) % 256 else fp.1
  [LedOp.setCurrentFontIdx fontIdx, LedOp.displayString fp.2]

/-! ## ClockDisplay::loop -/

/-- Lines 223-225 of `ClockDisplay::loop`: the blink phase advances by one and
wraps from `BLINK_4` to `BLINK_1`. -/
def nextBlink (b : Blink_t) : Blink_t :=
  match b with
  | .BLINK_1 => .BLINK_2
  | .BLINK_2 => .BLINK_3
  | .BLINK_3 => .BLINK_4
  | .BLINK_4 => .BLINK_1

/-- Lines 222-225 of `ClockDisplay::loop`: the tick's time is remembered and
the blink phase advanced. -/
def ClockDisplay.startTick (self : ClockDisplay) (t : Nat) : ClockDisplay :=
  { self with lastTimet := t, m_Blink := nextBlink self.m_Blink }

/-- Lines 226-233 of `ClockDisplay::loop`: an armed transition whose instant
has been reached sets `DST` and is disarmed. -/
def ClockDisplay.applyDstChange (self : ClockDisplay) (t : Nat) : ClockDisplay :=
  if self.m_DstChangesWhen ≠ 0 then
    if t ≥ self.m_DstChangesWhen then
      { self with DST := self.m_DstScheduledBegin, m_DstChangesWhen := 0 }
    else self
  else self

/-- Lines 234-236 of `ClockDisplay::loop`: `t += utcSecondsOffset;` and
`t += 3600` under `DST`. -/
def ClockDisplay.localTime (self : ClockDisplay) (t : Nat) : Nat :=
  let t := timeAdd t self.utcSecondsOffset
  if self.DST then timeAdd t 3600 else t

/-- Lines 240-253 of `ClockDisplay::loop`: the rainfall totals roll over at
local 00:00, yesterday's total is dropped at noon, and the roll-over is re-armed
once the hour is no longer 0. -/
def ClockDisplay.rainRollover (self : ClockDisplay) (hr min : Int) : ClockDisplay :=
  let self : ClockDisplay :=
    if hr = 0 ∧ min = 0 ∧ ¬ self.m_clearedRainToday then
      { self with
        m_clearedRainToday := true, m_rainYesterday := self.m_rainToday,
        m_rainToday := F32.ofInt 0 }
    else self
  let self : ClockDisplay :=
    if hr = 12 then { self with m_rainYesterday := F32.ofInt 0 } else self
  if self.m_clearedRainToday ∧ hr ≠ 0 then { self with m_clearedRainToday := false }
  else self

/-- Lines 259-271 of `ClockDisplay::loop`: the LCD is cleared and the time is
written as `HH:MM:SS`, the hour blank-padded in 12-hour mode. -/
def ClockDisplay.lcdClock (self : ClockDisplay) (hr min sec : Int) : List LcdOp :=
  [LcdOp.clear] ++
  (if self.m_12Hour then
    (if hr < 10 then [LcdOp.printChar ' '] else []) ++ [LcdOp.printInt hr]
  else printdig (hr % 256).toNat) ++
  [LcdOp.printChar ':'] ++ printdig (min % 256).toNat ++
  [LcdOp.printChar ':'] ++ printdig (sec % 256).toNat

/-- Lines 286-288 of `ClockDisplay::loop`: `t *= 9; t /= 5; t += 32;` in
`float` arithmetic, each step rounded. -/
def fahrenheit (t : F32) : F32 :=
  F32.add (F32.div (F32.mul t (F32.ofInt 9)) (F32.ofInt 5)) (F32.ofInt 32)

/-- Lines 272-307 of `ClockDisplay::loop`: an outdoor temperature younger than
ten minutes (in `unsigned long` milliseconds) is written on row 1; an older one
is replaced by `ABSENT_TEMP`. -/
def ClockDisplay.lcdTemperature (dtostrf : F32 → Int → Nat → String) (self : ClockDisplay)
    (millis : Nat) : ClockDisplay × List LcdOp :=
  if F32.ne self.m_outdoortempC ABSENT_TEMP then
    if (millis + 4294967296 - self.m_outdoortempTime % 4294967296) % 4294967296
        < 1000 * 60 * 10 then
      let t := self.m_outdoortempC
      (self, [LcdOp.setCursor 0 1] ++
        (if F32.lt t (F32.ofInt 99) ∧ F32.lt (F32.ofInt (-40)) t then
          (if ¬ self.m_unitsInMetric then
            [LcdOp.print (setDegreeAt3 (dtostrf (fahrenheit t) 3 0))]
          else
            [LcdOp.print (dtostrf t 3 0)] ++
            (if F32.fractionAtLeastHalf t then [LcdOp.write 0] else []) ++
            [LcdOp.write 0xdf])
        else [LcdOp.write 63]))
    else ({ self with m_outdoortempC := ABSENT_TEMP }, [])
  else (self, [])

/-- Lines 308-315 of `ClockDisplay::loop`: yesterday's rainfall, prefixed
`Yst:`, in blink phases 1 and 2 when it is positive, else today's when that is
positive. -/
def ClockDisplay.lcdRain (dtostrf : F32 → Int → Nat → String) (self : ClockDisplay) :
    List LcdOp :=
  if F32.lt (F32.ofInt 0) self.m_rainYesterday ∧
      (self.m_Blink = .BLINK_1 ∨ self.m_Blink = .BLINK_2) then
    [LcdOp.setCursor 0 1, LcdOp.print "Yst:"] ++
      ClockDisplay.displayRain dtostrf self self.m_rainYesterday
  else if F32.lt (F32.ofInt 0) self.m_rainToday then
    ClockDisplay.displayRain dtostrf self self.m_rainToday
  else []

/-- Lines 321-332 of `ClockDisplay::loop`: the four character codes of the LED
buffer, tens and units of hour and minute, the first one a blank in 12-hour
mode below 10. -/
def ClockDisplay.ledBuffer (self : ClockDisplay) (hr min : Int) : List Nat :=
  let h1 := hr / 10
  let h2 := hr % 10
  let m1 := min / 10
  let m2 := min % 10
  let b0 : Int := if self.m_12Hour ∧ hr < 10 then 32 else (48 + h1) % 256
  [b0.toNat, ((48 + h2) % 256).toNat, ((48 + m1) % 256).toNat, ((48 + m2) % 256).toNat]

/-- The member `ClockDisplay::loop`. `status` is the value of `timeStatus()`,
`now` of TimeLib's `now()`, `millis` of `millis()`; `dtostrf` is the C library's
`float` formatter. Returns the renderer and the display calls after the tick. -/
def ClockDisplay.loop (dtostrf : F32 → Int → Nat → String) (self : ClockDisplay)
    (out : Displays) (status : timeStatus_t) (now millis : Nat)
    (ledEnabled lcdEnabled : Bool) : ClockDisplay × Displays :=
  if self.radioSilence then (self, out)
  else if status ≠ .timeSet then
    (self,
      { lcd := out.lcd ++ [LcdOp.clear, LcdOp.print "Not Set"],
        led := out.led ++ [LedOp.setCurrentFontIdx HCMS_OEM_FONT_IDX,
          LedOp.displayString [83, 101, 116, 33]] })
  else
    let t := now
    if t = self.lastTimet then (self, out)
    else
    let self := self.startTick t
    let self := self.applyDstChange t
    let t := self.localTime t
    let sec := second t
    let min := minute t
    let hr := hour t
    let self := self.rainRollover hr min
    let hr := if self.m_12Hour then hourFormat12 t else hr
    let hrOrMinChanged : Bool :=
      decide (min ≠ self.lastDisplayedMinute) || decide (hr ≠ self.lastDisplayedHour)
    let so : ClockDisplay × List LcdOp :=
      if lcdEnabled then
        let st := ClockDisplay.lcdTemperature dtostrf self millis
        (st.1, self.lcdClock hr min sec ++ st.2 ++ ClockDisplay.lcdRain dtostrf st.1)
      else (self, [])
    let self := so.1
    let ledOps : List LedOp :=
      if hrOrMinChanged ∨ self.m_displayStyle = .SMALL_COLON then
        if ledEnabled then self.ledDisplayAddColon (self.ledBuffer hr min) else []
      else []
    ({ self with lastDisplayedMinute := min, lastDisplayedHour := hr },
      { lcd := out.lcd ++ so.2, led := out.led ++ ledOps })

/-! ## Concrete renderer inputs -/

/-- A `float` formatter for concrete runs: the integer part in decimal, padded
on the left to `width`; it stands in for the C library's `dtostrf` wherever a
concrete text is needed. -/
def dtostrfInt (v : F32) (width : Int) (_prec : Nat) : String :=
  let s := toString v.floor
  String.mk (List.replicate (width.toNat - s.length) ' ') ++ s

/-- A renderer in Eastern standard time (UTC-5 h) with the transition
"DST begins at 2024-03-10T07:00:00Z" armed. -/
def displayArmed : ClockDisplay :=
  { ClockDisplay.init with
    utcSecondsOffset := -18000, m_DstScheduledBegin := true, m_DstChangesWhen := 1710054000,
    lastTimet := 1710053998 }

/-- No display call made yet. -/
def noDisplays : Displays := { lcd := [], led := [] }

/-! ## ClockSettings -/

def PRESS_HOLD_MSEC : Int := 2000
def PRESS_HOLD_MESSAGE_MSEC : Int := 500
def LONG_PRESS_MSEC : Int := 999
def SETUP_TIMEOUT_MSEC : Int := 15000
def DEBOUNCE_MSEC : Int := 110

/-- The enumerators of `ClockCommands_t` the settings menu uses, with their
positions in the enumeration of `WWVBclock.h`. -/
def ClockCommands_t.TimeZoneOffset : Nat := 1
def ClockCommands_t.ObserveDST : Nat := 2
def ClockCommands_t.LedCurrent : Nat := 3
def ClockCommands_t.DstIsInEffect : Nat := 5
def ClockCommands_t.RotateLed180 : Nat := 7
def ClockCommands_t.MetricUnits : Nat := 11
def ClockCommands_t.C12HourDisplay : Nat := 13
def ClockCommands_t.TimeDisplayFont : Nat := 15
def ClockCommands_t.UseFlippedFonts : Nat := 16
def ClockCommands_t.TryRadioSilence : Nat := 18

/-- The functions an `ApplyFcn_t` pointer of the parameter table can hold. -/
inductive ApplyFcn_t where
  | applySw1
  | tzApply
  | brightApply
  | r180Apply
  | es100UpdatedApply
  deriving DecidableEq, Repr

/-- The functions an `OptionNameFcn_t` pointer of the parameter table can
hold. -/
inductive OptionNameFcn_t where
  | optionName
  | es100UpdatedOption
  deriving DecidableEq, Repr

structure SetupParameter where
  ParamName : String
  CommandOption : Int
  NumOptions : Int
  optionNameFcn : OptionNameFcn_t := .optionName
  applyFcn : ApplyFcn_t := .applySw1
  OptionNames : List String
  deriving DecidableEq, Repr

def tz.options : List String :=
  ["Atlantic", "Eastern", "Central", "Mountain", "Pacific", "Alaska", "Hawaii"]
def tz.p : SetupParameter :=
  { ParamName := "TimeZone", CommandOption := -1, NumOptions := tz.options.length,
    OptionNames := tz.options, applyFcn := .tzApply }

def dst.options : List String := ["Never", "Summer"]
def dst.p : SetupParameter :=
  { ParamName := "DST", CommandOption := ClockCommands_t.ObserveDST,
    NumOptions := dst.options.length, OptionNames := dst.options }

def dstNow.options : List String := ["NO", "YES"]
def dstNow.p : SetupParameter :=
  { ParamName := "DST Now?", CommandOption := ClockCommands_t.DstIsInEffect,
    NumOptions := dstNow.options.length, OptionNames := dstNow.options }

def bright.NUM_BRITES : Nat := 6
def bright.options : List String := ["Min", "Low", "Medim", "High", "Max", "Off"]
def bright.p : SetupParameter :=
  { ParamName := "Bright", CommandOption := -1, NumOptions := bright.NUM_BRITES,
    OptionNames := bright.options, applyFcn := .brightApply }

def r180.options : List String := ["No", "Yes", "No&Mirror", "Yes&Mirro"]
def r180.p : SetupParameter :=
  { ParamName := "Rotate", CommandOption := -1, NumOptions := r180.options.length,
    OptionNames := r180.options, applyFcn := .r180Apply }

def h12.options : List String := ["24HR", "12 AM/PM"]
def h12.p : SetupParameter :=
  { ParamName := "Time Hrs", CommandOption := ClockCommands_t.C12HourDisplay,
    NumOptions := h12.options.length, OptionNames := h12.options }

def fonts.options : List String := ["OEM", "7SEG", "HR..SEC", "HR:SEC"]
def fonts.p : SetupParameter :=
  { ParamName := "Font", CommandOption := ClockCommands_t.TimeDisplayFont,
    NumOptions := fonts.options.length, OptionNames := fonts.options }

def metric.options : List String := ["in & F", "mm & C"]
def metric.p : SetupParameter :=
  { ParamName := "Units", CommandOption := ClockCommands_t.MetricUnits,
    NumOptions := metric.options.length, OptionNames := metric.options }

def radioSilence.options : List String := ["Disabled", "Enabled"]
def radioSilence.p : SetupParameter :=
  { ParamName := "R. Silec", CommandOption := ClockCommands_t.TryRadioSilence,
    NumOptions := radioSilence.options.length, OptionNames := radioSilence.options }

def es100Updated.p : SetupParameter :=
  { ParamName := "WWVB up", CommandOption := -1, NumOptions := 2, OptionNames := [],
    applyFcn := .es100UpdatedApply, optionNameFcn := .es100UpdatedOption }

def last.options : List String := ["NOW"]
def last.p : SetupParameter :=
  { ParamName := "EXIT", CommandOption := -1, NumOptions := last.options.length,
    OptionNames := last.options }

def setupParameters : List SetupParameter :=
  [tz.p, dst.p, dstNow.p, bright.p, r180.p, h12.p, fonts.p, metric.p, radioSilence.p,
    es100Updated.p, last.p]

def NUM_SETUP_PARAMETERS : Int := setupParameters.length
def NO_OPTION : Nat := 0xff

/-- The entry `setupParameters[i]`; an index past the table (undefined in C++)
reads an entry with no name and no options. -/
def setupParameterAt (i : Nat) : SetupParameter :=
  setupParameters.getD i { ParamName := "", CommandOption := -1, NumOptions := 0, OptionNames := [] }

inductive State_t where
  | IDLE
  | HOLD_SW1_FOR_START
  | SW1_IN_PROGRESS
  | HOLD_SW2_FOR_START
  | SW2_IN_PROGRESS
  | WAIT_FOR_SW_RELEASE
  deriving DecidableEq, Repr

/-- The data members of `ClockSettings` (and its static `g_es100UpdatedAt`). -/
structure ClockSettings where
  m_state : State_t
  m_curParam : Nat
  m_curOption : Nat
  m_lastButtonMsec : Nat
  m_prevSw1 : Bool
  m_prevSw2 : Bool
  m_haveSetTime : Bool
  g_es100UpdatedAt : Nat
  deriving DecidableEq, Repr

/-- The constructor `ClockSettings::ClockSettings`. -/
def ClockSettings.init : ClockSettings :=
  { m_state := .IDLE, m_curParam := 0, m_curOption := 0, m_lastButtonMsec := 0,
    m_prevSw1 := false, m_prevSw2 := false, m_haveSetTime := false, g_es100UpdatedAt := 0 }

/-- What the settings code acts on outside the class: the LCD calls made, the
commands handed to `routeCommand` (text and length argument), the apply
functions called (parameter and option), TimeLib's clock as `now()` reads it
and `setTime` writes it, and the values written by `Teensy3Clock.set`. -/
structure SettingsWorld where
  lcd : List LcdOp
  routed : List (String × Nat)
  applied : List (Nat × Nat)
  sysTime : Nat
  rtc : List Nat
  deriving DecidableEq, Repr

/-- The conversion `static_cast<int>` of an `unsigned long` (32 bits, two's
complement). -/
def toInt32 (u : Nat) : Int :=
  if u % 4294967296 < 2147483648 then (u % 4294967296 : Nat)
  else ((u % 4294967296 : Nat) : Int) - 4294967296

/-- The value `static_cast<int>(now - m_lastButtonMsec)`: the milliseconds since
`last`, read as a signed `int`. -/
def msecSince (now last : Nat) : Int :=
  toInt32 ((now + 4294967296 - last % 4294967296) % 4294967296)

/-- The C library's `itoa(value, p, 10)`: the decimal text of an `int`. -/
def itoa (value : Int) : String := toString value

/-- The call `routeCommand(buf, 1 + strlen(buf))`; the length argument is a
`uint8_t`. -/
def routeBuf (w : SettingsWorld) (buf : String) : SettingsWorld :=
  { w with routed := w.routed ++ [(buf, (1 + buf.length) % 256)] }

/-- The function `tz::tzApply`. -/
def tzApply (CLOCKCOMMANDS : Nat → String) (w : SettingsWorld) (tz : Nat) : SettingsWorld :=
  routeBuf w (CLOCKCOMMANDS ClockCommands_t.TimeZoneOffset ++ itoa (-60 * (4 + (tz : Int))))

/-- The function `bright::apply`. -/
def brightApply (CLOCKCOMMANDS : Nat → String) (w : SettingsWorld) (brite : Nat) :
    SettingsWorld :=
  if brite ≥ bright.NUM_BRITES then routeBuf w "LedPwm=0"
  else
    let pc : String × Char :=
      match brite with
      | 0 => ("1", '0')
      | 1 => ("5", '0')
      | 2 => ("8", '1')
      | 3 => ("12", '2')
      | 4 => ("15", '3')
      | _ => ("", '0')
    let w := routeBuf w ("LedPwm=" ++ pc.1)
    routeBuf w (CLOCKCOMMANDS ClockCommands_t.LedCurrent ++ String.mk [pc.2])

/-- The function `r180::apply`. -/
def r180Apply (CLOCKCOMMANDS : Nat → String) (w : SettingsWorld) (rf : Nat) : SettingsWorld :=
  let w := routeBuf w (CLOCKCOMMANDS ClockCommands_t.RotateLed180 ++
    String.mk [if rf &&& 1 = 0 then '0' else '1'])
  routeBuf w (CLOCKCOMMANDS ClockCommands_t.UseFlippedFonts ++
    String.mk [if rf &&& 2 = 0 then '0' else '1'])

/-- The member `ClockSettings::applySw1`. -/
def applySw1 (CLOCKCOMMANDS : Nat → String) (w : SettingsWorld) (p o : Nat) : SettingsWorld :=
  let optionCommand := (setupParameterAt p).CommandOption
  if optionCommand > 0 then routeBuf w (CLOCKCOMMANDS optionCommand.toNat ++ itoa (o : Int))
  else w

/-- The call `(setupParameters[p]->applyFcn)(p, o)`. -/
def callApplyFcn (CLOCKCOMMANDS : Nat → String) (w : SettingsWorld) (p o : Nat) :
    SettingsWorld :=
  let w : SettingsWorld := { w with applied := w.applied ++ [(p, o)] }
  match (setupParameterAt p).applyFcn with
  | .applySw1 => applySw1 CLOCKCOMMANDS w p o
  | .tzApply => tzApply CLOCKCOMMANDS w o
  | .brightApply => brightApply CLOCKCOMMANDS w o
  | .r180Apply => r180Apply CLOCKCOMMANDS w o
  | .es100UpdatedApply => w

/-- Two decimal digits as `es100Updated::option` writes them: a leading `0`
below 10, then `itoa`. -/
def twoDigits (n : Int) : String :=
  (if n < 10 then "0" else "") ++ itoa n

/-- The function `es100Updated::option`: empty when no update was recorded,
the date `MM/DD` of the update for option 0 and its time `HH:MM` otherwise. -/
def es100UpdatedOption (self : ClockSettings) (opt : Nat) : String :=
  let t := self.g_es100UpdatedAt
  if t = 0 then ""
  else if opt = 0 then twoDigits (month t) ++ "/" ++ twoDigits (day t)
  else twoDigits (hour t) ++ ":" ++ twoDigits (minute t)

/-- The member `ClockSettings::optionName`; a lookup past the table (undefined
in C++) reads an empty name. -/
def optionName (param opt : Nat) : String :=
  (setupParameterAt param).OptionNames.getD opt ""

/-- The padding loop `for (int8_t i = (8 - len)/2; i > 0; i -= 1)` of
`displayCurrentSw1`: `8 - len` is taken in `size_t` and the half is cut to
`int8_t`. -/
def padCount (len : Nat) : Nat :=
  let half := ((8 + 4294967296 - len % 4294967296) % 4294967296) / 2
  let i8 : Int := if half % 256 < 128 then (half % 256 : Nat) else ((half % 256 : Nat) : Int) - 256
  i8.toNat

/-- The member `ClockSettings::displayCurrentSw1`. -/
def ClockSettings.displayCurrentSw1 (self : ClockSettings) (w : SettingsWorld) :
    SettingsWorld :=
  let pnam := (setupParameterAt self.m_curParam).ParamName
  let ops : List LcdOp :=
    [LcdOp.clear, LcdOp.setCursor 0 0] ++
    List.replicate (padCount pnam.length) (LcdOp.printChar ' ') ++
    [LcdOp.print pnam, LcdOp.setCursor 0 1]
  let ops : List LcdOp :=
    if self.m_curOption ≠ NO_OPTION then
      let oname :=
        match (setupParameterAt self.m_curParam).optionNameFcn with
        | .optionName => optionName self.m_curParam self.m_curOption
        | .es100UpdatedOption => es100UpdatedOption self self.m_curOption
      ops ++ List.replicate (padCount oname.length) (LcdOp.printChar ' ') ++ [LcdOp.print oname]
    else ops
  { w with lcd := w.lcd ++ ops }

/-! ## ClockSettings: the tick function -/

/-- The member `ClockSettings::processSw1Buttons`. -/
def ClockSettings.processSw1Buttons (CLOCKCOMMANDS : Nat → String) (self : ClockSettings)
    (w : SettingsWorld) (now : Nat) (sw1 sw2 : Bool) : ClockSettings × SettingsWorld :=
  let delay := msecSince now self.m_lastButtonMsec
  if sw1 ∧ ¬ self.m_prevSw1 ∧ delay > DEBOUNCE_MSEC then
    let w :=
      if self.m_curOption ≠ NO_OPTION then
        callApplyFcn CLOCKCOMMANDS w self.m_curParam self.m_curOption
      else w
    let self : ClockSettings := { self with m_curParam := (self.m_curParam + 1) % 256 }
    let self : ClockSettings :=
      if (self.m_curParam : Int) ≥ NUM_SETUP_PARAMETERS then { self with m_curParam := 0 }
      else self
    let self : ClockSettings := { self with m_curOption := NO_OPTION }
    (self, self.displayCurrentSw1 w)
  else if sw2 ∧ ¬ self.m_prevSw2 ∧ delay > DEBOUNCE_MSEC then
    if (self.m_curParam : Int) = NUM_SETUP_PARAMETERS - 1 then
      ({ self with m_state := .WAIT_FOR_SW_RELEASE }, w)
    else
      let self : ClockSettings := { self with m_curOption := (self.m_curOption + 1) % 256 }
      let self : ClockSettings :=
        if (self.m_curOption : Int) ≥ (setupParameterAt self.m_curParam).NumOptions then
          { self with m_curOption := NO_OPTION }
        else self
      (self, self.displayCurrentSw1 w)
  else (self, w)

/-- The member `ClockSettings::processSw2Buttons`. -/
def ClockSettings.processSw2Buttons (self : ClockSettings) (w : SettingsWorld) (tm : Nat)
    (sw1 sw2 : Bool) : ClockSettings × SettingsWorld :=
  let w : SettingsWorld :=
    { w with lcd := w.lcd ++ [LcdOp.setCursor 0 1, LcdOp.print "<<    >>"] }
  if sw1 ∧ sw2 then ({ self with m_state := .WAIT_FOR_SW_RELEASE }, w)
  else
    let delay := msecSince tm self.m_lastButtonMsec
    let self : ClockSettings :=
      if sw1 ∨ sw2 then { self with m_haveSetTime := true } else self
    if sw1 ∧ ¬ self.m_prevSw1 ∧ delay > DEBOUNCE_MSEC then
      (self, { w with sysTime := timeAdd w.sysTime 60 })
    else if sw2 ∧ ¬ self.m_prevSw2 ∧ delay > DEBOUNCE_MSEC then
      (self, { w with sysTime := timeAdd w.sysTime (-60) })
    else if sw1 ∧ delay ≥ LONG_PRESS_MSEC then
      ({ self with m_lastButtonMsec := tm }, { w with sysTime := timeAdd w.sysTime 3600 })
    else if sw2 ∧ delay ≥ LONG_PRESS_MSEC then
      ({ self with m_lastButtonMsec := tm }, { w with sysTime := timeAdd w.sysTime (-3600) })
    else (self, w)

/-- The member `ClockSettings::loop`. `now` is the value of `millis()`;
`CLOCKCOMMANDS` is the table of command names, which is declared but not
defined in the sources. Returns the `bool` result, the settings object and the
outside world after the call. -/
def ClockSettings.loop (CLOCKCOMMANDS : Nat → String) (self : ClockSettings)
    (w : SettingsWorld) (now : Nat) (sw1 sw2 : Bool) : Bool × ClockSettings × SettingsWorld :=
  let delay := msecSince now self.m_lastButtonMsec
  let r : Bool × ClockSettings × SettingsWorld :=
    match self.m_state with
    | .IDLE =>
      let self : ClockSettings := { self with m_haveSetTime := false }
      if sw1 then
        (true, { self with m_lastButtonMsec := now, m_state := .HOLD_SW1_FOR_START },
          { w with
            lcd := w.lcd ++ [LcdOp.clear, LcdOp.print "Hold for", LcdOp.setCursor 0 1,
              LcdOp.print "  Menu"] })
      else if sw2 then
        (true, { self with m_lastButtonMsec := now, m_state := .HOLD_SW2_FOR_START },
          { w with
            lcd := w.lcd ++ [LcdOp.clear, LcdOp.print "Hold to", LcdOp.setCursor 0 1,
              LcdOp.print "set time"] })
      else (false, self, w)
    | .WAIT_FOR_SW_RELEASE =>
      if ¬ sw2 ∧ ¬ self.m_prevSw2 ∧ ¬ self.m_prevSw1 ∧ ¬ sw1 ∧ delay ≥ DEBOUNCE_MSEC then
        (false, { self with m_state := .IDLE }, w)
      else (false, self, w)
    | .HOLD_SW1_FOR_START =>
      if ¬ sw1 ∧ delay ≥ PRESS_HOLD_MESSAGE_MSEC then
        (false, { self with m_state := .IDLE }, w)
      else if delay ≥ PRESS_HOLD_MSEC then
        let self : ClockSettings :=
          { self with m_state := .SW1_IN_PROGRESS, m_curOption := NO_OPTION, m_curParam := 0 }
        let w : SettingsWorld := { w with lcd := w.lcd ++ [LcdOp.display] }
        (true, self, self.displayCurrentSw1 w)
      else (true, self, w)
    | .HOLD_SW2_FOR_START =>
      if ¬ sw2 ∧ delay ≥ PRESS_HOLD_MESSAGE_MSEC then
        (false, { self with m_state := .IDLE }, w)
      else if delay ≥ PRESS_HOLD_MSEC then
        let self : ClockSettings :=
          { self with
            m_state := .SW2_IN_PROGRESS, m_haveSetTime := false, m_curOption := NO_OPTION,
            m_curParam := 0 }
        let w : SettingsWorld := { w with lcd := w.lcd ++ [LcdOp.display] }
        let self : ClockSettings :=
          { self with m_lastButtonMsec := (now + 2000) % 4294967296 }
        let sw := self.processSw2Buttons w now false false
        (false, sw.1, sw.2)
      else (true, self, w)
    | _ =>
      let pr : Bool × ClockSettings × SettingsWorld :=
        if self.m_state = .SW1_IN_PROGRESS then
          (true, self.processSw1Buttons CLOCKCOMMANDS w now sw1 sw2)
        else (false, self.processSw2Buttons w now sw1 sw2)
      let ret := pr.1
      let self := pr.2.1
      let w := pr.2.2
      if sw1 ∨ sw2 then
        if (sw1 ^^ self.m_prevSw1) ∨ (sw2 ^^ self.m_prevSw2) then
          (ret, { self with m_lastButtonMsec := now }, w)
        else (ret, self, w)
      else if delay ≥ SETUP_TIMEOUT_MSEC then
        let w : SettingsWorld :=
          if self.m_haveSetTime then { w with rtc := w.rtc ++ [w.sysTime] } else w
        (false, { self with m_state := .IDLE }, { w with lcd := w.lcd ++ [LcdOp.clear] })
      else (ret, self, w)
  (r.1, { r.2.1 with m_prevSw1 := sw1, m_prevSw2 := sw2 }, r.2.2)

/-! ## Concrete settings inputs -/

/-- A world in which nothing has happened yet; TimeLib's clock reads
2024-03-10T02:00:00Z. -/
def quietWorld : SettingsWorld :=
  { lcd := [], routed := [], applied := [], sysTime := 1710036000, rtc := [] }

/-- Command names for concrete runs: the enumerator's number between `C` and
`=`; the real table `CLOCKCOMMANDS` is not part of the sources. -/
def commandNames (i : Nat) : String := "C" ++ toString i ++ "="

/-- The settings object in `HOLD_SW1_FOR_START`, entered at millisecond 1000. -/
def holdingSw1 : ClockSettings :=
  { ClockSettings.init with
    m_state := .HOLD_SW1_FOR_START, m_lastButtonMsec := 1000, m_prevSw1 := true }

/-- The settings object in the menu (`SW1_IN_PROGRESS`) with the cursor on
parameter 1 (`DST`), option 1 (`Summer`) selected, both buttons released, last
button event at millisecond 5000. -/
def menuOnDst : ClockSettings :=
  { ClockSettings.init with
    m_state := .SW1_IN_PROGRESS, m_curParam := 1, m_curOption := 1,
    m_lastButtonMsec := 5000 }

/-- The settings object in the menu with the cursor on the last entry (`EXIT`),
no option selected, both buttons released, last button event at millisecond
5000. -/
def menuOnExit : ClockSettings :=
  { ClockSettings.init with
    m_state := .SW1_IN_PROGRESS, m_curParam := 10, m_curOption := NO_OPTION,
    m_lastButtonMsec := 5000 }

/-! ## ClockSettings: option cycle -/

/-- The step an accepted button-2 click makes on the option index of a
parameter with `n` options (lines 393-395 of `processSw1Buttons`): the 8-bit
increment, then `NO_OPTION` once the index reaches `n`. -/
def optionStep (n : Int) (o : Nat) : Nat :=
  if (((o + 1) % 256 : Nat) : Int) ≥ n then NO_OPTION else (o + 1) % 256

/-- One button-2 click in the menu: a tick at `t.1` with button 2 pressed,
followed by a tick at `t.2` with both buttons released. -/
def clickSw2 (CLOCKCOMMANDS : Nat → String) (sw : ClockSettings × SettingsWorld)
    (t : Nat × Nat) : ClockSettings × SettingsWorld :=
  let a := sw.1.loop CLOCKCOMMANDS sw.2 t.1 false true
  let b := a.2.1.loop CLOCKCOMMANDS a.2.2 t.2 false false
  (b.2.1, b.2.2)

/-- The clicks are accepted and the menu does not time out: every press comes
more than 110 ms after the previous recorded button event, every release less
than 15000 ms after its press. -/
def clicksTimed (last : Nat) : List (Nat × Nat) → Prop
  | [] => True
  | t :: rest =>
    110 < msecSince t.1 last ∧ msecSince t.2 t.1 < 15000 ∧ clicksTimed t.1 rest

/-- Deciding `clicksTimed` by going through the list. -/
def clicksTimed.dec : (l : List (Nat × Nat)) → (last : Nat) → Decidable (clicksTimed last l)
  | [], _ => isTrue trivial
  | t :: rest, last =>
    have := clicksTimed.dec rest t.1
    (inferInstance : Decidable
      (110 < msecSince t.1 last ∧ msecSince t.2 t.1 < 15000 ∧ clicksTimed t.1 rest))

instance (last : Nat) (l : List (Nat × Nat)) : Decidable (clicksTimed last l) :=
  clicksTimed.dec l last

/-! ## ClockSettings: runs of ticks and concrete adjust-mode inputs -/

/-- A run of calls of `ClockSettings::loop`, one per entry `(millis, sw1, sw2)`
of the list, each on the object and the world the previous call left. -/
def ClockSettings.run (CLOCKCOMMANDS : Nat → String) (sw : ClockSettings × SettingsWorld)
    (ticks : List (Nat × Bool × Bool)) : ClockSettings × SettingsWorld :=
  ticks.foldl
    (fun sw t =>
      ((sw.1.loop CLOCKCOMMANDS sw.2 t.1 t.2.1 t.2.2).2.1,
        (sw.1.loop CLOCKCOMMANDS sw.2 t.1 t.2.1 t.2.2).2.2))
    sw

/-- The run stays in the clock-adjust mode: the object is in `SW2_IN_PROGRESS`
before every tick of the list and after the last one. -/
def staysAdjusting (CLOCKCOMMANDS : Nat → String) :
    ClockSettings → SettingsWorld → List (Nat × Bool × Bool) → Prop
  | s, _, [] => s.m_state = State_t.SW2_IN_PROGRESS
  | s, w, t :: rest =>
    s.m_state = State_t.SW2_IN_PROGRESS ∧
    staysAdjusting CLOCKCOMMANDS (s.loop CLOCKCOMMANDS w t.1 t.2.1 t.2.2).2.1
      (s.loop CLOCKCOMMANDS w t.1 t.2.1 t.2.2).2.2 rest

/-- Deciding `staysAdjusting` by going through the list. -/
def staysAdjusting.dec (CLOCKCOMMANDS : Nat → String) :
    (l : List (Nat × Bool × Bool)) → (s : ClockSettings) → (w : SettingsWorld) →
    Decidable (staysAdjusting CLOCKCOMMANDS s w l)
  | [], s, _ => (inferInstance : Decidable (s.m_state = State_t.SW2_IN_PROGRESS))
  | t :: rest, s, w =>
    have := staysAdjusting.dec CLOCKCOMMANDS rest
      (s.loop CLOCKCOMMANDS w t.1 t.2.1 t.2.2).2.1 (s.loop CLOCKCOMMANDS w t.1 t.2.1 t.2.2).2.2
    (inferInstance : Decidable
      (s.m_state = State_t.SW2_IN_PROGRESS ∧
        staysAdjusting CLOCKCOMMANDS (s.loop CLOCKCOMMANDS w t.1 t.2.1 t.2.2).2.1
          (s.loop CLOCKCOMMANDS w t.1 t.2.1 t.2.2).2.2 rest))

instance (CLOCKCOMMANDS : Nat → String) (s : ClockSettings) (w : SettingsWorld)
    (l : List (Nat × Bool × Bool)) : Decidable (staysAdjusting CLOCKCOMMANDS s w l) :=
  staysAdjusting.dec CLOCKCOMMANDS l s w

/-- The settings object in the clock-adjust mode (`SW2_IN_PROGRESS`), both
buttons released, no button sampled pressed yet in this session, last button
event at millisecond 5000. -/
def adjusting : ClockSettings :=
  { ClockSettings.init with m_state := .SW2_IN_PROGRESS, m_lastButtonMsec := 5000 }

/-- The settings object in `HOLD_SW2_FOR_START`, entered at millisecond 1000. -/
def holdingSw2 : ClockSettings :=
  { ClockSettings.init with
    m_state := .HOLD_SW2_FOR_START, m_lastButtonMsec := 1000, m_prevSw2 := true }

/-- The settings object in `WAIT_FOR_SW_RELEASE` with button 2 still held, last
button event (the press) at millisecond 5200. -/
def waitingRelease : ClockSettings :=
  { ClockSettings.init with
    m_state := .WAIT_FOR_SW_RELEASE, m_curParam := 10, m_curOption := NO_OPTION,
    m_lastButtonMsec := 5200, m_prevSw2 := true }

/-! ## ClockDisplay: notifications, the parts of a tick, runs of events -/

/-- The member `ClockDisplay::notifyOutdoorTemp`; `millis` is the value of
`millis()` at the call. -/
def ClockDisplay.notifyOutdoorTemp (self : ClockDisplay) (tempX10Cent : F32) (millis : Nat) :
    ClockDisplay :=
  { self with m_outdoortempC := tempX10Cent, m_outdoortempTime := millis }

/-- The member `ClockDisplay::notifyRainmm`: `m_rainToday += v` in `float`
arithmetic. -/
def ClockDisplay.notifyRainmm (self : ClockDisplay) (v : F32) : ClockDisplay :=
  { self with m_rainToday := F32.add self.m_rainToday v }

/-- The local time `t` a rendering tick of `ClockDisplay::loop` at UTC time
`now` works with (after lines 222-236). -/
def ClockDisplay.tickLocal (self : ClockDisplay) (now : Nat) : Nat :=
  ((self.startTick now).applyDstChange now).localTime now

/-- The renderer a rendering tick of `ClockDisplay::loop` at UTC time `now` has
reached after the rainfall roll-over (after lines 222-253). -/
def ClockDisplay.tickRolled (self : ClockDisplay) (now : Nat) : ClockDisplay :=
  ((self.startTick now).applyDstChange now).rainRollover
    (hour (self.tickLocal now)) (minute (self.tickLocal now))

/-- The hour a rendering tick of `ClockDisplay::loop` displays (after lines
254-255): `hourFormat12` in 12-hour mode, else `hour`. -/
def ClockDisplay.tickHour (self : ClockDisplay) (now : Nat) : Int :=
  if self.m_12Hour then hourFormat12 (self.tickLocal now) else hour (self.tickLocal now)

/-- The age `millis() - m_outdoortempTime` of the outdoor reading, in
`unsigned long` arithmetic (line 275 of `ClockDisplay::loop`). -/
def ClockDisplay.outdoorTempAge (self : ClockDisplay) (millis : Nat) : Nat :=
  (millis + 4294967296 - self.m_outdoortempTime % 4294967296) % 4294967296

/-- The test of line 308 of `ClockDisplay::loop` on a renderer: yesterday's
rainfall is positive and the blink phase is 1 or 2. -/
def ClockDisplay.showsYesterday (self : ClockDisplay) : Bool :=
  decide (F32.lt (F32.ofInt 0) self.m_rainYesterday ∧
    (self.m_Blink = .BLINK_1 ∨ self.m_Blink = .BLINK_2))

/-- What happens to the renderer between two looks at it: rainfall is notified,
or `ClockDisplay::loop` is called with the time set. -/
inductive DisplayEvent where
  | rain (v : F32)
  | tick (now millis : Nat) (ledEnabled lcdEnabled : Bool)

/-- One event on the renderer and the displays. -/
def ClockDisplay.step (dtostrf : F32 → Int → Nat → String) (sd : ClockDisplay × Displays) :
    DisplayEvent → ClockDisplay × Displays
  | .rain v => (sd.1.notifyRainmm v, sd.2)
  | .tick now millis ledEnabled lcdEnabled =>
    sd.1.loop dtostrf sd.2 .timeSet now millis ledEnabled lcdEnabled

/-- A run of events, each on the renderer and the displays the previous one
left. -/
def ClockDisplay.run (dtostrf : F32 → Int → Nat → String) (sd : ClockDisplay × Displays)
    (events : List DisplayEvent) : ClockDisplay × Displays :=
  events.foldl (ClockDisplay.step dtostrf) sd

/-- Every tick of the run falls in local hour 0. -/
def inHourZero (dtostrf : F32 → Int → Nat → String) :
    ClockDisplay × Displays → List DisplayEvent → Prop
  | _, [] => True
  | sd, .rain v :: rest => inHourZero dtostrf (ClockDisplay.step dtostrf sd (.rain v)) rest
  | sd, .tick now millis ledEnabled lcdEnabled :: rest =>
    hour (sd.1.tickLocal now) = 0 ∧
    inHourZero dtostrf
      (ClockDisplay.step dtostrf sd (.tick now millis ledEnabled lcdEnabled)) rest

/-- Deciding `inHourZero` by going through the run. -/
def inHourZero.dec (dtostrf : F32 → Int → Nat → String) :
    (l : List DisplayEvent) → (sd : ClockDisplay × Displays) →
    Decidable (inHourZero dtostrf sd l)
  | [], _ => isTrue trivial
  | .rain v :: rest, sd =>
    inHourZero.dec dtostrf rest (ClockDisplay.step dtostrf sd (.rain v))
  | .tick now millis ledEnabled lcdEnabled :: rest, sd =>
    have := inHourZero.dec dtostrf rest
      (ClockDisplay.step dtostrf sd (.tick now millis ledEnabled lcdEnabled))
    (inferInstance : Decidable
      (hour (sd.1.tickLocal now) = 0 ∧
        inHourZero dtostrf
          (ClockDisplay.step dtostrf sd (.tick now millis ledEnabled lcdEnabled)) rest))

instance (dtostrf : F32 → Int → Nat → String) (sd : ClockDisplay × Displays)
    (l : List DisplayEvent) : Decidable (inHourZero dtostrf sd l) :=
  inHourZero.dec dtostrf l sd

/-- The running total of a run: from `total`, each notified amount is added in
`float` arithmetic, in the order of the notifications. -/
def rainNotified (total : F32) : List DisplayEvent → F32
  | [] => total
  | .rain v :: rest => rainNotified (F32.add total v) rest
  | .tick _ _ _ _ :: rest => rainNotified total rest

/-- A renderer at UTC with 5 mm of rainfall today and the roll-over armed, last
rendered at 2024-03-09T23:59:59Z. -/
def displayRainy : ClockDisplay :=
  { ClockDisplay.init with lastTimet := 1710028799, m_rainToday := F32.ofInt 5 }

/-- A renderer at UTC holding an outdoor reading of 20 degrees notified at
millisecond 1000. -/
def displayWarm : ClockDisplay :=
  ClockDisplay.notifyOutdoorTemp ClockDisplay.init (F32.ofInt 20) 1000

/-- A renderer at UTC in blink phase 4 with 7 mm of rainfall yesterday and 2 mm
today, last rendered at 2024-03-10T01:59:59Z. -/
def displayAfterRain : ClockDisplay :=
  { ClockDisplay.init with
    lastTimet := 1710035999, m_Blink := .BLINK_4, m_rainToday := F32.ofInt 2,
    m_rainYesterday := F32.ofInt 7 }

/-! ## The raster generator's glyph bands, and further `ClockDisplay` members -/

/-- The enumeration `FontOverlay_t` of `5x7Rasters.cpp`. -/
inductive FontOverlay_t where
  | AS_IS
  | COLON
  | NO_DECIMAL
  | RIGHT_DECIMAL
  | LEFT_DECIMAL
  deriving DecidableEq, Repr

def NUM_FONT_DIGITS : Nat := 10

/-- The overlay list `main` of `5x7Rasters.cpp` starts from (and keeps unless
`-nooverlays` is given). -/
def overlays : List FontOverlay_t :=
  [.AS_IS, .COLON, .NO_DECIMAL, .RIGHT_DECIMAL, .LEFT_DECIMAL]

/-- The character `main` of `5x7Rasters.cpp` passes as `initialFontCharacter`,
the code of `'0'`. -/
def initialFontCharacter : Nat := 48

/-- The bookkeeping of `writeDeclarations` in `5x7Rasters.cpp`: each overlay of
the list writes `NUM_FONT_DIGITS` glyphs starting at the current value of
`numEntriesInFont`. Returns every overlay with the index its band starts at,
and the final `numEntriesInFont`. -/
def writeDeclarationsBands (overlays : List FontOverlay_t) : List (FontOverlay_t × Nat) × Nat :=
  overlays.foldl (fun acc overlay => (acc.1 ++ [(overlay, acc.2)], acc.2 + NUM_FONT_DIGITS))
    ([], 0)

/-- The member `ClockDisplay::setRadioSilence`. -/
def ClockDisplay.setRadioSilence (self : ClockDisplay) (out : Displays) (v : Bool) :
    ClockDisplay × Displays :=
  let out : Displays :=
    if v ≠ self.radioSilence then
      if v then { lcd := out.lcd ++ [LcdOp.noDisplay], led := out.led ++ [LedOp.noDisplay] }
      else { lcd := out.lcd ++ [LcdOp.display], led := out.led ++ [LedOp.display] }
    else out
  ({ self with radioSilence := v }, out)

/-- The member `ClockDisplay::setRainGaugeCorrection`; `t` is a `uint16_t`. -/
def ClockDisplay.setRainGaugeCorrection (self : ClockDisplay) (t : Nat) :
    Bool × ClockDisplay :=
  if t ≥ 500 ∧ t ≤ 2000 then (true, { self with m_rainGaugeCorrectionPerThousand := t })
  else (false, self)

/-- A muted renderer with an armed transition, rainfall and an outdoor
reading. -/
def displayMuted : ClockDisplay :=
  { displayArmed with
    radioSilence := true, m_rainToday := F32.ofInt 2, m_rainYesterday := F32.ofInt 7,
    m_outdoortempC := F32.ofInt 20, m_outdoortempTime := 1000 }

/-! ## ClockSettings: the cursor invariant -/

/-- The cursor of the settings menu is inside the table: the parameter index
is below 11, the option index is `NO_OPTION` or below the parameter's
`NumOptions`, and it is `NO_OPTION` on the last entry. -/
def cursorInRange (s : ClockSettings) : Prop :=
  s.m_curParam < 11 ∧
  (s.m_curOption = NO_OPTION ∨
    (s.m_curOption : Int) < (setupParameterAt s.m_curParam).NumOptions) ∧
  (s.m_curParam = 10 → s.m_curOption = NO_OPTION)

instance (s : ClockSettings) : Decidable (cursorInRange s) :=
  inferInstanceAs (Decidable (_ ∧ _))

/-- An apply call `(p, o)` with both indices inside the table. -/
def applyInRange (e : Nat × Nat) : Prop :=
  e.1 < 11 ∧ e.2 ≠ NO_OPTION ∧ (e.2 : Int) < (setupParameterAt e.1).NumOptions

instance (e : Nat × Nat) : Decidable (applyInRange e) :=
  inferInstanceAs (Decidable (_ ∧ _))

/-- A board whose next transaction is not acknowledged; the two after it would
succeed. -/
def flakyBoard : Board :=
  boardOf [nackReply, okReply 0x01, okReply 0x24]

/-! ## Further concrete inputs -/

/-- A renderer at UTC in blink phase 3 with 7 mm of rainfall yesterday, last
rendered at 2024-03-10T11:59:57Z. -/
def displayBeforeNoon : ClockDisplay :=
  { ClockDisplay.init with
    lastTimet := 1710071997, m_Blink := .BLINK_3, m_rainYesterday := F32.ofInt 7 }

/-- The renderer `displayAfterRain` switched to metric units. -/
def displayAfterRainMetric : ClockDisplay :=
  { displayAfterRain with m_unitsInMetric := true }

/-- Bus replies of a run from power-up: the start command is acknowledged; a
complete reception follows (IRQ status `0x01`, date and time registers
`0x24 0x03 0x10 0x02 0x00 0x00`, next-DST registers `0x11 0x03 0x02`, status
`0x01`); the next start command is acknowledged; the next reception breaks off
(IRQ status `0x01`, year register `0x25`, month register not acknowledged). -/
def yearSlipReplies : List WireReply :=
  [okReply 0, okReply 0x01, okReply 0x24, okReply 0x03, okReply 0x10, okReply 0x02,
   okReply 0x00, okReply 0x00, okReply 0x11, okReply 0x03, okReply 0x02, okReply 0x01,
   okReply 0, okReply 0x01, okReply 0x25, nackReply]

/-- The run from the constructed session up to its first fix: a tick that
starts listening, the receiver's interrupt, and the tick that reads the fix. -/
def sessionAfterFix : Bool × Es100Wire × Board :=
  let a := loop Es100Wire.init (boardOf yearSlipReplies) false
  loop { a.2.1 with isrTriggered := true } a.2.2 false

/-- The run continued: a tick that starts listening again, the receiver's
interrupt, and the tick whose reception breaks off at the month register. -/
def sessionAfterAbort : Bool × Es100Wire × Board :=
  let c := loop sessionAfterFix.2.1 sessionAfterFix.2.2 false
  loop { c.2.1 with isrTriggered := true } c.2.2 false

/-! ## TimeLib: `makeTime` and `breakTime` are inverse on calendar dates -/

theorem daysBeforeYear_ge (y : Nat) : 365 * y ≤ daysBeforeYear y := by
  induction y with
  | zero => simp [daysBeforeYear]
  | succ n ih => simp only [daysBeforeYear]; split <;> omega

theorem leapFold_eq (y s : Nat) :
    (List.range y).foldl (fun s i => if LEAP_YEAR i then s + SECS_PER_DAY else s) s
      + y * (SECS_PER_DAY * 365) = s + SECS_PER_DAY * daysBeforeYear y := by
  induction y with
  | zero => simp [daysBeforeYear]
  | succ n ih =>
    rw [List.range_succ, List.foldl_append]
    simp only [List.foldl_cons, List.foldl_nil, daysBeforeYear]
    split <;> simp only [SECS_PER_DAY] at * <;> omega

theorem foldl_add_start (f : Nat → Nat) (l : List Nat) (s : Nat) :
    l.foldl (fun s i => s + f i) s = s + l.foldl (fun s i => s + f i) 0 := by
  induction l generalizing s with
  | nil => simp
  | cons a t ih => simp only [List.foldl_cons]; rw [ih, ih (0 + f a)]; omega

theorem foldl_leap_start (l : List Nat) (s : Nat) :
    l.foldl (fun s i => if LEAP_YEAR i then s + SECS_PER_DAY else s) s
      = s + l.foldl (fun s i => if LEAP_YEAR i then s + SECS_PER_DAY else s) 0 := by
  induction l generalizing s with
  | nil => simp
  | cons a t ih =>
    simp only [List.foldl_cons]; rw [ih, ih (if LEAP_YEAR a then 0 + SECS_PER_DAY else 0)]
    split <;> omega

theorem yearLoop_spec (time : Nat) (ht : time < 49711) :
    ∀ fuel year, daysBeforeYear year ≤ time → time < daysBeforeYear year + fuel →
      daysBeforeYear (yearLoop time fuel year (daysBeforeYear year)).1 ≤ time ∧
      time < (yearLoop time fuel year (daysBeforeYear year)).2 ∧
      (yearLoop time fuel year (daysBeforeYear year)).2 =
        daysBeforeYear ((yearLoop time fuel year (daysBeforeYear year)).1 + 1) := by
  intro fuel
  induction fuel with
  | zero => intro year h1 h2; omega
  | succ n ih =>
    intro year h1 h2
    have hy := daysBeforeYear_ge year
    have hlt : (year + 1) % 256 = year + 1 := Nat.mod_eq_of_lt (by omega)
    simp only [yearLoop]
    by_cases hc : daysBeforeYear year + (if LEAP_YEAR year then 366 else 365) ≤ time
    · rw [if_pos hc, hlt]
      have e : daysBeforeYear year + (if LEAP_YEAR year then 366 else 365)
          = daysBeforeYear (year + 1) := rfl
      rw [e]
      rw [e] at hc
      apply ih (year + 1) hc
      rw [← e]; split <;> omega
    · rw [if_neg hc]
      refine ⟨h1, by omega, rfl⟩

set_option maxRecDepth 100000 in
theorem monthLoop_spec : ∀ leap : Bool, ∀ d, d < 366 → (leap = true ∨ d < 365) →
    (monthLoop leap (List.range 12) d).1 < 12 ∧ (monthLoop leap (List.range 12) d).2 < 31 ∧
    (List.range' 1 (monthLoop leap (List.range 12) d).1).foldl
        (fun s i => s + SECS_PER_DAY * monthLength leap (i - 1)) 0
      + SECS_PER_DAY * (monthLoop leap (List.range 12) d).2 = SECS_PER_DAY * d := by
  decide

theorem makeTime_of_parts (leap : Bool) (w a : Nat) (md : Nat × Nat) (T : Nat)
    (hleap : leap = LEAP_YEAR a)
    (ht : T < 49711) (m1 : md.1 < 12) (m2 : md.2 < 31)
    (m3 : (List.range' 1 md.1).foldl
        (fun s i => s + SECS_PER_DAY * monthLength leap (i - 1)) 0
      + SECS_PER_DAY * md.2 = SECS_PER_DAY * (T - daysBeforeYear a))
    (y1 : daysBeforeYear a ≤ T) :
    makeTime
      { Second := 0, Minute := 0, Hour := 0, Wday := w,
        Day := (md.2 + 1) % 256, Month := (md.1 + 1) % 256, Year := a } = T * 86400 := by
  have hl := leapFold_eq a 0
  subst hleap
  simp only [makeTime]
  rw [Nat.mod_eq_of_lt (show md.1 + 1 < 256 by omega), Nat.mod_eq_of_lt (show md.2 + 1 < 256 by omega)]
  rw [Nat.add_sub_cancel, foldl_add_start, foldl_leap_start]
  have e1 : (md.2 + 1 + 4294967295) % 4294967296 = md.2 := by omega
  rw [e1]
  simp only [SECS_PER_DAY] at *
  have : T * 86400 < 4294967296 := by omega
  omega

theorem makeTime_midnight_aux (T : Nat) (ht : T < 49711) (w : Nat) :
    makeTime
      { Second := 0, Minute := 0, Hour := 0, Wday := w,
        Day := ((monthLoop (LEAP_YEAR (yearLoop T (T + 1) 0 0).1) (List.range 12)
          (T - ((yearLoop T (T + 1) 0 0).2 -
            (if LEAP_YEAR (yearLoop T (T + 1) 0 0).1 then 366 else 365)))).2 + 1) % 256,
        Month := ((monthLoop (LEAP_YEAR (yearLoop T (T + 1) 0 0).1) (List.range 12)
          (T - ((yearLoop T (T + 1) 0 0).2 -
            (if LEAP_YEAR (yearLoop T (T + 1) 0 0).1 then 366 else 365)))).1 + 1) % 256,
        Year := (yearLoop T (T + 1) 0 0).1 } = T * 86400 := by
  obtain ⟨y1, y2, y3⟩ := yearLoop_spec T ht (T + 1) 0 (by simp [daysBeforeYear]) (by simp [daysBeforeYear])
  simp only [daysBeforeYear] at y1 y2 y3
  have y3' : (yearLoop T (T + 1) 0 0).2 - (if LEAP_YEAR (yearLoop T (T + 1) 0 0).1 then 366 else 365)
      = daysBeforeYear (yearLoop T (T + 1) 0 0).1 := by
    rw [y3]; omega
  have hd : T - daysBeforeYear (yearLoop T (T + 1) 0 0).1 < 366 := by
    rw [y3] at y2; split at y2 <;> omega
  have hd' : LEAP_YEAR (yearLoop T (T + 1) 0 0).1 = true
      ∨ T - daysBeforeYear (yearLoop T (T + 1) 0 0).1 < 365 := by
    rw [y3] at y2
    by_cases hl : LEAP_YEAR (yearLoop T (T + 1) 0 0).1 = true
    · exact Or.inl hl
    · right; rw [if_neg hl] at y2; omega
  obtain ⟨m1, m2, m3⟩ := monthLoop_spec (LEAP_YEAR (yearLoop T (T + 1) 0 0).1) _ hd hd'
  rw [y3']
  exact makeTime_of_parts _ w _ _ T rfl ht m1 m2 m3 y1

theorem makeTime_breakTime_midnight (now : Nat) :
    makeTime { breakTime now with Hour := 0, Minute := 0, Second := 0 }
      = now % 4294967296 / 86400 * 86400 := by
  have hdiv : now % 4294967296 / 60 / 60 / 24 = now % 4294967296 / 86400 := by
    rw [Nat.div_div_eq_div_mul, Nat.div_div_eq_div_mul]
  have hlt : now % 4294967296 < 4294967296 := Nat.mod_lt _ (by norm_num)
  have ht : now % 4294967296 / 86400 < 49711 := by omega
  simp only [breakTime, hdiv]
  exact makeTime_midnight_aux _ ht _

theorem daysBeforeYear_lt_succ (y : Nat) : daysBeforeYear y < daysBeforeYear (y + 1) := by
  simp only [daysBeforeYear]; split <;> omega

theorem daysBeforeYear_mono {a b : Nat} (h : a ≤ b) : daysBeforeYear a ≤ daysBeforeYear b := by
  induction b with
  | zero => have : a = 0 := by omega
            subst this; exact Nat.le_refl _
  | succ n ih =>
    by_cases hab : a = n + 1
    · subst hab; exact Nat.le_refl _
    · have := ih (by omega)
      have := daysBeforeYear_lt_succ n
      omega

theorem daysBeforeYear_le (y : Nat) : daysBeforeYear y ≤ 366 * y := by
  induction y with
  | zero => simp [daysBeforeYear]
  | succ n ih => simp only [daysBeforeYear]; split <;> omega

theorem yearLoop_of_bounds (T y : Nat) (ht : T < 49711)
    (h1 : daysBeforeYear y ≤ T) (h2 : T < daysBeforeYear (y + 1)) :
    yearLoop T (T + 1) 0 0 = (y, daysBeforeYear (y + 1)) := by
  obtain ⟨y1, y2, y3⟩ := yearLoop_spec T ht (T + 1) 0 (by simp [daysBeforeYear])
    (by simp [daysBeforeYear])
  simp only [daysBeforeYear] at y1 y2 y3
  have e : (yearLoop T (T + 1) 0 0).1 = y := by
    by_contra hne
    rcases Nat.lt_or_gt_of_ne hne with h | h
    · have := daysBeforeYear_mono (show (yearLoop T (T + 1) 0 0).1 + 1 ≤ y by omega)
      simp only [daysBeforeYear] at this
      omega
    · have := daysBeforeYear_mono (show y + 1 ≤ (yearLoop T (T + 1) 0 0).1 by omega)
      omega
  apply Prod.ext
  · exact e
  · rw [y3]; simp only [e, daysBeforeYear]

set_option maxRecDepth 100000 in
theorem monthLoop_of_date : ∀ leap : Bool, ∀ m, m < 12 → ∀ d, d < 31 →
    d < monthLength leap m →
    monthLoop leap (List.range 12)
      ((List.range' 1 m).foldl (fun s i => s + monthLength leap (i - 1)) 0 + d) = (m, d) ∧
    (List.range' 1 m).foldl (fun s i => s + monthLength leap (i - 1)) 0 + d
      < (if leap then 366 else 365) := by
  decide

theorem foldl_mul_start (c : Nat) (f : Nat → Nat) (l : List Nat) (s : Nat) :
    l.foldl (fun s i => s + c * f i) (c * s) = c * l.foldl (fun s i => s + f i) s := by
  induction l generalizing s with
  | nil => simp
  | cons a t ih => simp only [List.foldl_cons]; rw [← ih, Nat.mul_add]

set_option maxRecDepth 100000 in
theorem daysBeforeYear_135 : daysBeforeYear 135 = 49308 := by decide

theorem monthLength_le : ∀ leap : Bool, ∀ m, m < 12 → monthLength leap m ≤ 31 := by decide

theorem split_seconds (T h mi s : Nat) (hh : h < 24) (hmi : mi < 60) (hs : s < 60)
    (hlt : 86400 * T + (3600 * h + 60 * mi + s) < 4294967296) :
    (86400 * T + (3600 * h + 60 * mi + s)) % 4294967296 % 60 = s ∧
    (86400 * T + (3600 * h + 60 * mi + s)) % 4294967296 / 60 % 60 = mi ∧
    (86400 * T + (3600 * h + 60 * mi + s)) % 4294967296 / 60 / 60 % 24 = h ∧
    (86400 * T + (3600 * h + 60 * mi + s)) % 4294967296 / 60 / 60 / 24 = T ∧
    (86400 * T + (3600 * h + 60 * mi + s)) / 86400 = T := by
  rw [Nat.mod_eq_of_lt hlt]
  refine ⟨?_, ?_, ?_, ?_, ?_⟩ <;> omega

theorem makeTime_of_date (y m d h mi s w : Nat) (hy : y ≤ 135) (hm : m < 12) (hd31 : d < 31)
    (hd : d < monthLength (LEAP_YEAR y) m) (hh : h < 24) (hmi : mi < 60) (hs : s < 60) :
    makeTime
      { Second := s, Minute := mi, Hour := h, Wday := w, Day := d + 1, Month := m + 1,
        Year := y } =
      86400 * (daysBeforeYear y +
        ((List.range' 1 m).foldl (fun s i => s + monthLength (LEAP_YEAR y) (i - 1)) 0 + d))
        + (3600 * h + 60 * mi + s) ∧
    86400 * (daysBeforeYear y +
        ((List.range' 1 m).foldl (fun s i => s + monthLength (LEAP_YEAR y) (i - 1)) 0 + d))
        + (3600 * h + 60 * mi + s) < 4294967296 := by
  have hl := leapFold_eq y 0
  have hmd := (monthLoop_of_date (LEAP_YEAR y) m hm d hd31 hd).2
  have hmono := daysBeforeYear_mono hy
  rw [daysBeforeYear_135] at hmono
  have hfold := foldl_mul_start SECS_PER_DAY (fun i => monthLength (LEAP_YEAR y) (i - 1))
    (List.range' 1 m) 0
  have hyd : (if LEAP_YEAR y = true then 366 else 365) ≤ 366 := by split <;> omega
  generalize (List.range' 1 m).foldl (fun s i => s + monthLength (LEAP_YEAR y) (i - 1)) 0
    = MS at *
  have hlt : 86400 * (daysBeforeYear y + (MS + d)) + (3600 * h + 60 * mi + s)
      < 4294967296 := by omega
  refine ⟨?_, hlt⟩
  simp only [makeTime]
  rw [Nat.add_sub_cancel, foldl_add_start, foldl_leap_start]
  rw [Nat.mul_zero] at hfold
  rw [hfold]
  have e1 : (d + 1 + 4294967295) % 4294967296 = d := by omega
  rw [e1]
  simp only [SECS_PER_DAY] at *
  omega

/-- On a real calendar date and time of day of the years 1970..2105,
`breakTime` recovers the fields `makeTime` was given. -/
theorem breakTime_makeTime (y m d h mi s w : Nat) (hy : y ≤ 135) (hm : m < 12)
    (hd : d < monthLength (LEAP_YEAR y) m) (hh : h < 24) (hmi : mi < 60) (hs : s < 60) :
    breakTime (makeTime
      { Second := s, Minute := mi, Hour := h, Wday := w, Day := d + 1, Month := m + 1,
        Year := y }) =
      { Second := s, Minute := mi, Hour := h,
        Wday := (makeTime
          { Second := s, Minute := mi, Hour := h, Wday := w, Day := d + 1, Month := m + 1,
            Year := y } / 86400 + 4) % 7 + 1,
        Day := d + 1, Month := m + 1, Year := y } := by
  have hd31 : d < 31 := by
    have := monthLength_le (LEAP_YEAR y) m hm
    omega
  obtain ⟨e, hlt⟩ := makeTime_of_date y m d h mi s w hy hm hd31 hd hh hmi hs
  obtain ⟨hml, hmd⟩ := monthLoop_of_date (LEAP_YEAR y) m hm d hd31 hd
  have hmono := daysBeforeYear_mono hy
  rw [daysBeforeYear_135] at hmono
  rw [e]
  clear e
  generalize (List.range' 1 m).foldl (fun s i => s + monthLength (LEAP_YEAR y) (i - 1)) 0
    = MS at *
  have hyd : (if LEAP_YEAR y = true then 366 else 365) ≤ 366 := by split <;> omega
  have hms : MS + d < 366 := by omega
  have hY := yearLoop_of_bounds (daysBeforeYear y + (MS + d)) y (by omega) (by omega)
    (by simp only [daysBeforeYear]; omega)
  have hdays : daysBeforeYear (y + 1) - (if LEAP_YEAR y = true then 366 else 365)
      = daysBeforeYear y := by
    simp only [daysBeforeYear]; omega
  have hrem : daysBeforeYear y + (MS + d) - daysBeforeYear y = MS + d := by omega
  have hm256 : (m + 1) % 256 = m + 1 := Nat.mod_eq_of_lt (by omega)
  have hd256 : (d + 1) % 256 = d + 1 := Nat.mod_eq_of_lt (by omega)
  obtain ⟨hS, hM, hH, hT, hW⟩ :=
    split_seconds (daysBeforeYear y + (MS + d)) h mi s hh hmi hs hlt
  simp only [breakTime, hT, hS, hM, hH, hW, hY, hdays, hrem, hml, hm256, hd256]

theorem breakTime_makeTime_fields (tm : TimeElements) (hy : tm.Year ≤ 135)
    (hm1 : 1 ≤ tm.Month) (hm2 : tm.Month ≤ 12) (hd1 : 1 ≤ tm.Day)
    (hd2 : tm.Day ≤ monthLength (LEAP_YEAR tm.Year) (tm.Month - 1))
    (hh : tm.Hour < 24) (hmi : tm.Minute < 60) (hs : tm.Second < 60) :
    (breakTime (makeTime tm)).Year = tm.Year ∧ (breakTime (makeTime tm)).Month = tm.Month ∧
    (breakTime (makeTime tm)).Day = tm.Day ∧ (breakTime (makeTime tm)).Hour = tm.Hour ∧
    (breakTime (makeTime tm)).Minute = tm.Minute ∧
    (breakTime (makeTime tm)).Second = tm.Second := by
  obtain ⟨s, mi, h, w, D, M, y⟩ := tm
  simp only at hy hm1 hm2 hd1 hd2 hh hmi hs ⊢
  obtain ⟨m, rfl⟩ : ∃ m, M = m + 1 := ⟨M - 1, by omega⟩
  obtain ⟨d, rfl⟩ : ∃ d, D = d + 1 := ⟨D - 1, by omega⟩
  rw [Nat.add_sub_cancel] at hd2
  rw [breakTime_makeTime y m d h mi s w hy (by omega) (by omega) hh hmi hs]
  exact ⟨rfl, rfl, rfl, rfl, rfl, rfl⟩

/-! ## The bit tests and the branches of `ScheduledDst` -/

theorem and_two_pow_eq_zero (n k : Nat) : n &&& 2 ^ k = 0 ↔ n.testBit k = false := by
  rw [Nat.and_two_pow]
  cases h : n.testBit k <;> simp

theorem two_pow_and_eq_zero (n k : Nat) : 2 ^ k &&& n = 0 ↔ n.testBit k = false := by
  rw [Nat.and_comm]; exact and_two_pow_eq_zero n k

theorem rxok_test (n : Nat) : n &&& STATUS_0_RXOK ≠ 0 ↔ n.testBit 0 = true := by
  have := and_two_pow_eq_zero n 0
  simp only [STATUS_0_RXOK] at *
  rw [show (2:Nat)^0 = 1 from rfl] at this
  rw [Ne, this]; simp

theorem dst_xor_test (n : Nat) :
    0 ≠ (STATUS_0_DST0 &&& (n ^^^ (n >>> 1))) ↔ n.testBit 5 ≠ n.testBit 6 := by
  have := two_pow_and_eq_zero (n ^^^ (n >>> 1)) 5
  rw [show STATUS_0_DST0 = 2 ^ 5 from rfl, ne_comm, Ne, this]
  simp only [Nat.testBit_xor, Nat.testBit_shiftRight]
  cases n.testBit 5 <;> cases n.testBit (1 + 5) <;> simp

theorem dst1_test (n : Nat) : ((n &&& STATUS_0_DST1) == 0) = !n.testBit 6 := by
  have := and_two_pow_eq_zero n 6
  rw [show STATUS_0_DST1 = 2 ^ 6 from rfl]
  cases h : n.testBit 6 <;> simp [h] at this ⊢ <;> exact this

theorem special3_test (n : Nat) : 0 = (n &&& DST_HOUR_SPECIAL3) ↔ n.testBit 7 = false := by
  rw [show DST_HOUR_SPECIAL3 = 2 ^ 7 from rfl, eq_comm]; exact and_two_pow_eq_zero n 7

theorem low_nibble (n : Nat) : (n &&& 0xF) % 256 = n % 16 := by
  have := Nat.and_pow_two_sub_one_eq_mod n 4
  rw [show (2:Nat) ^ 4 - 1 = 0xF from rfl] at this
  rw [this]; omega

theorem scheduledDst_sameDay (self : Es100Wire) (now : Nat) (b0 : Bool) (w0 l0 : Nat)
    (hs : 0 ≤ self.m_status0) (hp : sameDayPattern self.m_status0) :
    ScheduledDst self now b0 w0 l0 =
      { ret := true, begins := !self.m_status0.toNat.testBit 6,
        when := now % 4294967296 / 86400 * 86400,
        localHour := if 0 ≤ self.m_nextDstHourStatus ∧
            self.m_nextDstHourStatus.toNat.testBit 7 = false
          then self.m_nextDstHourStatus.toNat % 16 else 2,
        path := DstPath.fromStatus0 } := by
  have h1 := (rxok_test self.m_status0.toNat).2 hp.1
  have h2 := (dst_xor_test self.m_status0.toNat).2 hp.2
  simp only [ScheduledDst, ge_iff_le, hs, if_true, h1, h2, and_self, ne_eq, not_false_eq_true,
    makeTime_breakTime_midnight, dst1_test, special3_test, low_nibble]

theorem scheduledDst_advance (self : Es100Wire) (now : Nat) (b0 : Bool) (w0 l0 : Nat)
    (hs : 0 ≤ self.m_status0) (hp : ¬ sameDayPattern self.m_status0)
    (ha : advanceNotice self) :
    ScheduledDst self now b0 w0 l0 =
      { ret := true, begins := !self.m_status0.toNat.testBit 6,
        when := makeTime
          { Year := self.m_yearOfDst, Month := fromBCD self.m_nextDstMonthStatus,
            Day := fromBCD self.m_nextDstDayStatus },
        localHour := self.m_nextDstHourStatus.toNat % 16,
        path := DstPath.fromDstHour } := by
  have h1 : ¬ (self.m_status0.toNat &&& STATUS_0_RXOK ≠ 0 ∧
      0 ≠ (STATUS_0_DST0 &&& (self.m_status0.toNat ^^^ (self.m_status0.toNat >>> 1)))) := by
    rw [rxok_test, dst_xor_test]; exact hp
  obtain ⟨a1, a2, a3, a4⟩ := ha
  have h2 : self.m_nextDstHourStatus ≥ 0 ∧ self.m_nextDstDayStatus ≥ 0 ∧
        self.m_nextDstMonthStatus ≥ 0 ∧
        0 = (self.m_nextDstHourStatus.toNat &&& DST_HOUR_SPECIAL3) :=
    ⟨a1, a2, a3, (special3_test _).2 a4⟩
  simp only [ScheduledDst, ge_iff_le, hs, if_true]
  rw [if_neg h1, if_pos h2, dst1_test, low_nibble]

theorem scheduledDst_unavailable (self : Es100Wire) (now : Nat) (b0 : Bool) (w0 l0 : Nat)
    (hs : self.m_status0 < 0) :
    ScheduledDst self now b0 w0 l0 =
      { ret := false, begins := b0, when := w0, localHour := l0, path := DstPath.neither } := by
  have : ¬ self.m_status0 ≥ 0 := by omega
  simp only [ScheduledDst, this, if_false]

theorem scheduledDst_neither (self : Es100Wire) (now : Nat) (b0 : Bool) (w0 l0 : Nat)
    (hs : 0 ≤ self.m_status0) (hp : ¬ sameDayPattern self.m_status0)
    (ha : ¬ advanceNotice self) :
    ScheduledDst self now b0 w0 l0 =
      { ret := false, begins := !self.m_status0.toNat.testBit 6, when := w0, localHour := l0,
        path := DstPath.neither } := by
  have h1 : ¬ (self.m_status0.toNat &&& STATUS_0_RXOK ≠ 0 ∧
      0 ≠ (STATUS_0_DST0 &&& (self.m_status0.toNat ^^^ (self.m_status0.toNat >>> 1)))) := by
    rw [rxok_test, dst_xor_test]; exact hp
  have h2 : ¬ (self.m_nextDstHourStatus ≥ 0 ∧ self.m_nextDstDayStatus ≥ 0 ∧
        self.m_nextDstMonthStatus ≥ 0 ∧
        0 = (self.m_nextDstHourStatus.toNat &&& DST_HOUR_SPECIAL3)) := by
    rw [special3_test]; exact ha
  simp only [ScheduledDst, ge_iff_le, hs, if_true]
  rw [if_neg h1, if_neg h2, dst1_test]

theorem scheduledDst_path_iff (self : Es100Wire) (now : Nat) (b0 : Bool) (w0 l0 : Nat) :
    (ScheduledDst self now b0 w0 l0).path = DstPath.fromStatus0 ↔
      0 ≤ self.m_status0 ∧ sameDayPattern self.m_status0 := by
  by_cases hs : 0 ≤ self.m_status0
  · by_cases hp : sameDayPattern self.m_status0
    · rw [scheduledDst_sameDay self now b0 w0 l0 hs hp]; simp [hs, hp]
    · by_cases ha : advanceNotice self
      · rw [scheduledDst_advance self now b0 w0 l0 hs hp ha]; simp [hp]
      · rw [scheduledDst_neither self now b0 w0 l0 hs hp ha]; simp [hp]
  · rw [scheduledDst_unavailable self now b0 w0 l0 (by omega)]; simp [hs]

theorem scheduledDst_ret_false_iff (self : Es100Wire) (now : Nat) (b0 : Bool) (w0 l0 : Nat) :
    (ScheduledDst self now b0 w0 l0).ret = false ↔
      self.m_status0 < 0 ∨ (¬ sameDayPattern self.m_status0 ∧ ¬ advanceNotice self) := by
  by_cases hs : 0 ≤ self.m_status0
  · have hs' : ¬ self.m_status0 < 0 := by omega
    by_cases hp : sameDayPattern self.m_status0
    · rw [scheduledDst_sameDay self now b0 w0 l0 hs hp]; simp [hs', hp]
    · by_cases ha : advanceNotice self
      · rw [scheduledDst_advance self now b0 w0 l0 hs hp ha]; simp [hs', ha]
      · rw [scheduledDst_neither self now b0 w0 l0 hs hp ha]; simp [hp, ha]
  · have hs' : self.m_status0 < 0 := by omega
    rw [scheduledDst_unavailable self now b0 w0 l0 hs']; simp [hs']

/-! ## Register reads and the listening tick of `loop` -/

theorem readRegister_fst (hw : Board) (reg : Nat) :
    (readRegister hw reg).1 = readValue (hw.reply hw.count) := by
  unfold readRegister readValue
  dsimp only
  split_ifs <;> rfl

theorem readRegister_snd (hw : Board) (reg : Nat) :
    (readRegister hw reg).2 =
      { hw with count := hw.count + 1, log := hw.log ++ [BusOp.readReg reg] } := by
  unfold readRegister
  dsimp only
  split_ifs <;> rfl

theorem readValue_lt_256 (r : WireReply) : readValue r < 256 := by
  unfold readValue
  split
  · omega
  · split <;> omega

theorem fromBCD_le (v : Int) : fromBCD v ≤ 165 := by
  unfold fromBCD
  have h1 : ((v % 65536).toNat &&& 0xF0) ≤ 0xF0 := Nat.and_le_right
  have h2 : ((v % 65536).toNat &&& 0xF) ≤ 0xF := Nat.and_le_right
  have h3 : ((v % 65536).toNat &&& 0xF0) >>> 4 = ((v % 65536).toNat &&& 0xF0) / 16 :=
    Nat.shiftRight_eq_div_pow _ 4
  simp only [h3]
  generalize (v % 65536).toNat &&& 0xF0 = a at *
  generalize (v % 65536).toNat &&& 0xF = b at *
  have hx : a / 16 * 10 + b ≤ 165 := by omega
  exact le_trans (Nat.mod_le _ _) hx

theorem irq_test (n : Nat) : n &&& IRQSTATUS_RX_COMPLETE ≠ 0 ↔ n.testBit 0 = true :=
  rxok_test n

theorem loop_active_result (self : Es100Wire) (hw : Board)
    (hst : self.m_state = ReceptionState.ACTIVE) :
    ((loop self hw false).1 = false ∧
      (loop self hw false).2.1.m_state = ReceptionState.ACTIVE ∧
      (loop self hw false).2.1.m_time = self.m_time ∧
      (loop self hw false).2.1.m_status0 = self.m_status0 ∧
      (loop self hw false).2.1.m_nextDstMonthStatus = self.m_nextDstMonthStatus ∧
      (loop self hw false).2.1.m_nextDstDayStatus = self.m_nextDstDayStatus ∧
      (loop self hw false).2.1.m_nextDstHourStatus = self.m_nextDstHourStatus) ∨
    ((loop self hw false).1 = true ∧ self.isrTriggered = true ∧
      ∀ k, k < 7 → 0 ≤ readValue (hw.reply (hw.count + k))) := by
  generalize hL : loop self hw false = L
  simp only [loop, hst, readRegister_fst, readRegister_snd, Bool.false_eq_true, if_false,
    ne_eq, not_true_eq_false] at hL
  by_cases ht : self.isrTriggered = true
  swap
  · rw [if_neg ht] at hL; subst hL; left; exact ⟨rfl, rfl, rfl, rfl, rfl, rfl, rfl⟩
  rw [if_pos ht] at hL
  by_cases h0 : readValue (hw.reply hw.count) < 0
  · rw [if_pos h0] at hL; subst hL; left; exact ⟨rfl, rfl, rfl, rfl, rfl, rfl, rfl⟩
  rw [if_neg h0] at hL
  by_cases hb : ¬(readValue (hw.reply hw.count)).toNat &&& IRQSTATUS_RX_COMPLETE = 0
  swap
  · rw [if_neg hb] at hL; subst hL; left; exact ⟨rfl, rfl, rfl, rfl, rfl, rfl, rfl⟩
  rw [if_pos hb] at hL
  by_cases h1 : readValue (hw.reply (hw.count + 1)) < 0
  · rw [if_pos h1] at hL; subst hL; left; exact ⟨rfl, rfl, rfl, rfl, rfl, rfl, rfl⟩
  rw [if_neg h1] at hL
  by_cases h2 : readValue (hw.reply (hw.count + 1 + 1)) < 0
  · rw [if_pos h2] at hL; subst hL; left; exact ⟨rfl, rfl, rfl, rfl, rfl, rfl, rfl⟩
  rw [if_neg h2] at hL
  by_cases h3 : readValue (hw.reply (hw.count + 1 + 1 + 1)) < 0
  · rw [if_pos h3] at hL; subst hL; left; exact ⟨rfl, rfl, rfl, rfl, rfl, rfl, rfl⟩
  rw [if_neg h3] at hL
  by_cases h4 : readValue (hw.reply (hw.count + 1 + 1 + 1 + 1)) < 0
  · rw [if_pos h4] at hL; subst hL; left; exact ⟨rfl, rfl, rfl, rfl, rfl, rfl, rfl⟩
  rw [if_neg h4] at hL
  by_cases h5 : readValue (hw.reply (hw.count + 1 + 1 + 1 + 1 + 1)) < 0
  · rw [if_pos h5] at hL; subst hL; left; exact ⟨rfl, rfl, rfl, rfl, rfl, rfl, rfl⟩
  rw [if_neg h5] at hL
  by_cases h6 : readValue (hw.reply (hw.count + 1 + 1 + 1 + 1 + 1 + 1)) < 0
  · rw [if_pos h6] at hL; subst hL; left; exact ⟨rfl, rfl, rfl, rfl, rfl, rfl, rfl⟩
  rw [if_neg h6] at hL
  subst hL
  right
  refine ⟨rfl, ht, ?_⟩
  intro k hk
  have e2 : hw.count + 1 + 1 = hw.count + 2 := rfl
  have e3 : hw.count + 1 + 1 + 1 = hw.count + 3 := rfl
  have e4 : hw.count + 1 + 1 + 1 + 1 = hw.count + 4 := rfl
  have e5 : hw.count + 1 + 1 + 1 + 1 + 1 = hw.count + 5 := rfl
  have e6 : hw.count + 1 + 1 + 1 + 1 + 1 + 1 = hw.count + 6 := rfl
  rw [e2] at h2; rw [e3] at h3; rw [e4] at h4; rw [e5] at h5; rw [e6] at h6
  interval_cases k
  · exact not_lt.1 h0
  · exact not_lt.1 h1
  · exact not_lt.1 h2
  · exact not_lt.1 h3
  · exact not_lt.1 h4
  · exact not_lt.1 h5
  · exact not_lt.1 h6

/-! ## DST inference (`ScheduledDst`) -/

/-- C1: `ScheduledDst` takes the same-day branch exactly when the stored status
is valid, its bit 0 (RXOK) is set and `STATUS_0_DST0 & (status ^ (status >> 1))`
is non-zero; that test is non-zero exactly when status bits 5 and 6 differ; the
choice is the same whatever the three next-DST registers hold; and when the
advance-notice test is satisfiable too, the schedule returned is the same-day
one, with `when` the UTC midnight of the current date. -/
theorem C1_sameDay_encoding_preferred (self : Es100Wire) (now : Nat) (b0 : Bool)
    (w0 l0 : Nat) :
    ((ScheduledDst self now b0 w0 l0).path = DstPath.fromStatus0 ↔
      (0 ≤ self.m_status0 ∧ self.m_status0.toNat.testBit 0 = true ∧
        STATUS_0_DST0 &&& (self.m_status0.toNat ^^^ (self.m_status0.toNat >>> 1)) ≠ 0)) ∧
    (STATUS_0_DST0 &&& (self.m_status0.toNat ^^^ (self.m_status0.toNat >>> 1)) ≠ 0 ↔
      self.m_status0.toNat.testBit 5 ≠ self.m_status0.toNat.testBit 6) ∧
    (∀ m d h : Int,
      ((ScheduledDst
          { self with
            m_nextDstMonthStatus := m, m_nextDstDayStatus := d, m_nextDstHourStatus := h }
          now b0 w0 l0).path = DstPath.fromStatus0 ↔
        (ScheduledDst self now b0 w0 l0).path = DstPath.fromStatus0)) ∧
    (0 ≤ self.m_status0 → sameDayPattern self.m_status0 → advanceNotice self →
      (ScheduledDst self now b0 w0 l0).ret = true ∧
      (ScheduledDst self now b0 w0 l0).path = DstPath.fromStatus0 ∧
      (ScheduledDst self now b0 w0 l0).when = now % 4294967296 / 86400 * 86400) := by
  have hx : STATUS_0_DST0 &&& (self.m_status0.toNat ^^^ (self.m_status0.toNat >>> 1)) ≠ 0 ↔
      self.m_status0.toNat.testBit 5 ≠ self.m_status0.toNat.testBit 6 := by
    rw [ne_comm]; exact dst_xor_test _
  refine ⟨?_, hx, ?_, ?_⟩
  · rw [scheduledDst_path_iff, hx]; rfl
  · intro m d h
    rw [scheduledDst_path_iff, scheduledDst_path_iff]
  · intro hs hp _
    rw [scheduledDst_sameDay self now b0 w0 l0 hs hp]
    exact ⟨rfl, rfl, rfl⟩

/-- C1 at a snapshot where both encodings are satisfiable (status `0x21`,
next-DST registers 11-03 02:00) at 2024-03-10T02:00:00Z: the same-day branch is
taken and `when` is 2024-03-10T00:00:00Z. -/
theorem C1_sameDay_encoding_preferred_witness :
    (ScheduledDst snapshotBoth 1710036000 false 0 0).ret = true ∧
    (ScheduledDst snapshotBoth 1710036000 false 0 0).path = DstPath.fromStatus0 ∧
    (ScheduledDst snapshotBoth 1710036000 false 0 0).when = 1710028800 :=
  (C1_sameDay_encoding_preferred snapshotBoth 1710036000 false 0 0).2.2.2
    (by decide) (by decide) (by decide)

/-- C2: whenever `ScheduledDst` takes the same-day branch it returns true with
`when` the current UTC clock value rounded down to a whole day, `begins` the
negation of status bit 6 (DST1), and `localHour` the low nibble of the
next-DST-hour register when that register is available with bit 7 clear, else 2;
`when` does not depend on the next-DST month and day registers. -/
theorem C2_sameDay_schedule (self : Es100Wire) (now : Nat) (b0 : Bool) (w0 l0 : Nat)
    (hnow : now < 4294967296)
    (hpath : (ScheduledDst self now b0 w0 l0).path = DstPath.fromStatus0) :
    (ScheduledDst self now b0 w0 l0).ret = true ∧
    (ScheduledDst self now b0 w0 l0).when = now / 86400 * 86400 ∧
    (ScheduledDst self now b0 w0 l0).when = now - now % 86400 ∧
    (ScheduledDst self now b0 w0 l0).begins = (!self.m_status0.toNat.testBit 6) ∧
    (ScheduledDst self now b0 w0 l0).localHour =
      (if 0 ≤ self.m_nextDstHourStatus ∧ self.m_nextDstHourStatus.toNat.testBit 7 = false
        then self.m_nextDstHourStatus.toNat % 16 else 2) ∧
    (∀ m d : Int,
      (ScheduledDst { self with m_nextDstMonthStatus := m, m_nextDstDayStatus := d }
        now b0 w0 l0).when = (ScheduledDst self now b0 w0 l0).when) := by
  obtain ⟨hs, hp⟩ := (scheduledDst_path_iff self now b0 w0 l0).1 hpath
  have hmod : now % 4294967296 = now := Nat.mod_eq_of_lt hnow
  refine ⟨?_, ?_, ?_, ?_, ?_, ?_⟩
  · rw [scheduledDst_sameDay self now b0 w0 l0 hs hp]
  · rw [scheduledDst_sameDay self now b0 w0 l0 hs hp, hmod]
  · rw [scheduledDst_sameDay self now b0 w0 l0 hs hp, hmod]
    show now / 86400 * 86400 = now - now % 86400
    omega
  · rw [scheduledDst_sameDay self now b0 w0 l0 hs hp]
  · rw [scheduledDst_sameDay self now b0 w0 l0 hs hp]
  · intro m d
    rw [scheduledDst_sameDay self now b0 w0 l0 hs hp,
      scheduledDst_sameDay { self with m_nextDstMonthStatus := m, m_nextDstDayStatus := d }
        now b0 w0 l0 hs hp]

/-- C2 at status `0x21` with every next-DST register unavailable, at
2024-03-10T02:00:00Z: the schedule begins DST at 2024-03-10T00:00:00Z with the
default local hour 2. -/
theorem C2_sameDay_schedule_witness :
    (ScheduledDst snapshotSameDayNoRegs 1710036000 false 0 0).ret = true ∧
    (ScheduledDst snapshotSameDayNoRegs 1710036000 false 0 0).when = 1710028800 ∧
    (ScheduledDst snapshotSameDayNoRegs 1710036000 false 0 0).begins = true ∧
    (ScheduledDst snapshotSameDayNoRegs 1710036000 false 0 0).localHour = 2 :=
  have h := C2_sameDay_schedule snapshotSameDayNoRegs 1710036000 false 0 0
    (by decide) (by decide)
  ⟨h.1, h.2.1, h.2.2.2.1, h.2.2.2.2.1⟩

/-- A reception that breaks off at the month register, after the IRQ-status and
year reads succeeded: no fix, but the stored year is already the one just
read. -/
theorem loop_year_before_fix (self : Es100Wire) (hw : Board)
    (hst : self.m_state = ReceptionState.ACTIVE) (htrig : self.isrTriggered = true)
    (hirq : 0 ≤ readValue (hw.reply hw.count))
    (hbit : (readValue (hw.reply hw.count)).toNat.testBit 0 = true)
    (hyr : 0 ≤ readValue (hw.reply (hw.count + 1)))
    (hmo : readValue (hw.reply (hw.count + 2)) < 0) :
    loop self hw false =
      (false,
        { self with
          isrTriggered := false,
          m_yearOfDst := (2000 - 1970) + fromBCD (readValue (hw.reply (hw.count + 1))) },
        { hw with
          count := hw.count + 3,
          log := hw.log ++
            [BusOp.readReg ES100_IRQ_STATUS_REG, BusOp.readReg ES100_YEAR_REG,
             BusOp.readReg ES100_MONTH_REG] }) := by
  have hy : ((2000 - 1970) + fromBCD (readValue (hw.reply (hw.count + 1)))) % 256
      = (2000 - 1970) + fromBCD (readValue (hw.reply (hw.count + 1))) := by
    have := fromBCD_le (readValue (hw.reply (hw.count + 1)))
    omega
  have hb := (irq_test _).2 hbit
  simp only [loop, hst, htrig, readRegister_fst, readRegister_snd, hy]
  simp [hirq, hyr, hmo, hb, not_lt.2, Nat.add_assoc]

/-- The stored year after a complete reception is the year of that fix. -/
theorem loop_fix_year (self : Es100Wire) (hw : Board)
    (hst : self.m_state = ReceptionState.ACTIVE) (htrig : self.isrTriggered = true)
    (hirq : 0 ≤ readValue (hw.reply hw.count))
    (hbit : (readValue (hw.reply hw.count)).toNat.testBit 0 = true)
    (hyr : 0 ≤ readValue (hw.reply (hw.count + 1)))
    (hmo : 0 ≤ readValue (hw.reply (hw.count + 2)))
    (hdy : 0 ≤ readValue (hw.reply (hw.count + 3)))
    (hhr : 0 ≤ readValue (hw.reply (hw.count + 4)))
    (hmn : 0 ≤ readValue (hw.reply (hw.count + 5)))
    (hsc : 0 ≤ readValue (hw.reply (hw.count + 6))) :
    (loop self hw false).1 = true ∧
    (loop self hw false).2.1.m_yearOfDst
      = (2000 - 1970) + fromBCD (readValue (hw.reply (hw.count + 1))) ∧
    (loop self hw false).2.1.m_time =
      makeTime
        { Year := (loop self hw false).2.1.m_yearOfDst,
          Month := fromBCD (readValue (hw.reply (hw.count + 2))),
          Day := fromBCD (readValue (hw.reply (hw.count + 3))),
          Hour := fromBCD (readValue (hw.reply (hw.count + 4))),
          Minute := fromBCD (readValue (hw.reply (hw.count + 5))),
          Second := fromBCD (readValue (hw.reply (hw.count + 6))) } := by
  have hy : ((2000 - 1970) + fromBCD (readValue (hw.reply (hw.count + 1)))) % 256
      = (2000 - 1970) + fromBCD (readValue (hw.reply (hw.count + 1))) := by
    have := fromBCD_le (readValue (hw.reply (hw.count + 1)))
    omega
  have hb := (irq_test _).2 hbit
  simp only [loop, hst, htrig, readRegister_fst, readRegister_snd, hy]
  simp [hirq, hyr, hmo, hdy, hhr, hmn, hsc, hb, not_lt.2, Nat.add_assoc]

/-- C3 fails on the code. What holds: with a valid status register, the
same-day pattern absent, the three next-DST registers available and bit 7 of the
hour register clear, `ScheduledDst` returns true with `when` the `makeTime` of
00:00:00 on (the stored `m_yearOfDst`, `fromBCD` month, `fromBCD` day),
`localHour` the low nibble of the hour register and `begins` the negation of
status bit 6; and a complete reception stores the year of its fix in
`m_yearOfDst`. But `m_yearOfDst` is stored right after the year read, so a
reception that breaks off at the month register leaves no fix and yet the year
it read. On the run from power-up with a fix of 2024-03-10T02:00:00Z
(next-DST registers 11-03 02:00) followed by a reception that reads year `0x25`
and breaks off, the last fix is still the one of 2024, and the schedule is
2025-11-03T00:00:00Z (1762128000) instead of 2024-11-03T00:00:00Z
(1730592000). -/
theorem C3_schedule_year_from_broken_reception :
    (∀ (self : Es100Wire) (now : Nat) (b0 : Bool) (w0 l0 : Nat),
      0 ≤ self.m_status0 → ¬ sameDayPattern self.m_status0 →
      0 ≤ self.m_nextDstMonthStatus → 0 ≤ self.m_nextDstDayStatus →
      0 ≤ self.m_nextDstHourStatus →
      self.m_nextDstHourStatus.toNat.testBit 7 = false →
      (ScheduledDst self now b0 w0 l0).ret = true ∧
      (ScheduledDst self now b0 w0 l0).path = DstPath.fromDstHour ∧
      (ScheduledDst self now b0 w0 l0).when =
        makeTime
          { Year := self.m_yearOfDst, Month := fromBCD self.m_nextDstMonthStatus,
            Day := fromBCD self.m_nextDstDayStatus, Hour := 0, Minute := 0, Second := 0 } ∧
      (ScheduledDst self now b0 w0 l0).localHour = self.m_nextDstHourStatus.toNat % 16 ∧
      (ScheduledDst self now b0 w0 l0).begins = (!self.m_status0.toNat.testBit 6)) ∧
    (∀ (self : Es100Wire) (hw : Board),
      self.m_state = ReceptionState.ACTIVE → self.isrTriggered = true →
      0 ≤ readValue (hw.reply hw.count) →
      (readValue (hw.reply hw.count)).toNat.testBit 0 = true →
      0 ≤ readValue (hw.reply (hw.count + 1)) →
      ((∀ k, k < 7 → 0 ≤ readValue (hw.reply (hw.count + k))) →
        (loop self hw false).1 = true ∧
        (loop self hw false).2.1.m_yearOfDst
          = (2000 - 1970) + fromBCD (readValue (hw.reply (hw.count + 1))) ∧
        (loop self hw false).2.1.m_time =
          makeTime
            { Year := (loop self hw false).2.1.m_yearOfDst,
              Month := fromBCD (readValue (hw.reply (hw.count + 2))),
              Day := fromBCD (readValue (hw.reply (hw.count + 3))),
              Hour := fromBCD (readValue (hw.reply (hw.count + 4))),
              Minute := fromBCD (readValue (hw.reply (hw.count + 5))),
              Second := fromBCD (readValue (hw.reply (hw.count + 6))) }) ∧
      (readValue (hw.reply (hw.count + 2)) < 0 →
        (loop self hw false).1 = false ∧
        (loop self hw false).2.1.m_time = self.m_time ∧
        (loop self hw false).2.1.m_nextDstMonthStatus = self.m_nextDstMonthStatus ∧
        (loop self hw false).2.1.m_nextDstDayStatus = self.m_nextDstDayStatus ∧
        (loop self hw false).2.1.m_nextDstHourStatus = self.m_nextDstHourStatus ∧
        (loop self hw false).2.1.m_status0 = self.m_status0 ∧
        (loop self hw false).2.1.m_yearOfDst
          = (2000 - 1970) + fromBCD (readValue (hw.reply (hw.count + 1))))) ∧
    (sessionAfterFix.1 = true ∧
      sessionAfterFix.2.1.m_time = 1710036000 ∧
      (breakTime sessionAfterFix.2.1.m_time).Year = 54 ∧
      sessionAfterFix.2.1.m_yearOfDst = 54 ∧
      (ScheduledDst sessionAfterFix.2.1 1710036000 false 0 0).when = 1730592000 ∧
      makeTime { Year := 54, Month := 11, Day := 3, Hour := 0, Minute := 0, Second := 0 }
        = 1730592000) ∧
    (sessionAfterAbort.1 = false ∧
      sessionAfterAbort.2.1.m_time = 1710036000 ∧
      sessionAfterAbort.2.1.m_status0 = 0x01 ∧
      sessionAfterAbort.2.1.m_nextDstMonthStatus = 0x11 ∧
      sessionAfterAbort.2.1.m_nextDstDayStatus = 0x03 ∧
      sessionAfterAbort.2.1.m_nextDstHourStatus = 0x02 ∧
      sessionAfterAbort.2.1.m_yearOfDst = 55 ∧
      (ScheduledDst sessionAfterAbort.2.1 1710036000 false 0 0).ret = true ∧
      (ScheduledDst sessionAfterAbort.2.1 1710036000 false 0 0).path
        = DstPath.fromDstHour ∧
      (ScheduledDst sessionAfterAbort.2.1 1710036000 false 0 0).when = 1762128000 ∧
      (ScheduledDst sessionAfterAbort.2.1 1710036000 false 0 0).when ≠
        makeTime
          { Year := (breakTime sessionAfterAbort.2.1.m_time).Year,
            Month := fromBCD sessionAfterAbort.2.1.m_nextDstMonthStatus,
            Day := fromBCD sessionAfterAbort.2.1.m_nextDstDayStatus,
            Hour := 0, Minute := 0, Second := 0 }) := by
  refine ⟨?_, ?_, by decide, by decide⟩
  · intro self now b0 w0 l0 hs hp hm hd hh h7
    rw [scheduledDst_advance self now b0 w0 l0 hs hp ⟨hh, hd, hm, h7⟩]
    exact ⟨rfl, rfl, rfl, rfl, rfl⟩
  · intro self hw hst htrig hirq hbit hyr
    constructor
    · intro hall
      exact loop_fix_year self hw hst htrig hirq hbit hyr (hall 2 (by decide))
        (hall 3 (by decide)) (hall 4 (by decide)) (hall 5 (by decide)) (hall 6 (by decide))
    · intro hmo
      rw [loop_year_before_fix self hw hst htrig hirq hbit hyr hmo]
      exact ⟨rfl, rfl, rfl, rfl, rfl, rfl, rfl⟩

/-- C4: `ScheduledDst` returns false exactly when the status register is
unavailable, or the same-day pattern is absent and the advance-notice test
(three next-DST registers available, hour bit 7 clear) fails; in particular it
returns false whenever the status register is unavailable, whatever the
next-DST registers hold. -/
theorem C4_no_schedule_iff (self : Es100Wire) (now : Nat) (b0 : Bool) (w0 l0 : Nat) :
    ((ScheduledDst self now b0 w0 l0).ret = false ↔
      (self.m_status0 < 0 ∨
        (¬ sameDayPattern self.m_status0 ∧
          ¬ (0 ≤ self.m_nextDstHourStatus ∧ 0 ≤ self.m_nextDstDayStatus ∧
            0 ≤ self.m_nextDstMonthStatus ∧
            self.m_nextDstHourStatus.toNat.testBit 7 = false)))) ∧
    (self.m_status0 < 0 → ∀ m d h : Int,
      (ScheduledDst
        { self with
          m_nextDstMonthStatus := m, m_nextDstDayStatus := d, m_nextDstHourStatus := h }
        now b0 w0 l0).ret = false) := by
  refine ⟨scheduledDst_ret_false_iff self now b0 w0 l0, ?_⟩
  intro hs m d h
  rw [scheduledDst_unavailable
    { self with
      m_nextDstMonthStatus := m, m_nextDstDayStatus := d, m_nextDstHourStatus := h }
    now b0 w0 l0 hs]

/-- C4 at a snapshot with the status register unavailable and all three
next-DST registers readable: no schedule. -/
theorem C4_no_schedule_iff_witness :
    (ScheduledDst snapshotNoStatus 1710036000 false 0 0).ret = false :=
  (C4_no_schedule_iff snapshotNoStatus 1710036000 false 0 0).1.2 (Or.inl (by decide))

/-- C5, as stated, fails: with the same-day pattern present and all three
next-DST registers unavailable a schedule is returned, with the default local
hour 2; and with the next-DST month register `0x00` (not the BCD of a month
1..12) a schedule is returned, built from month 0. -/
theorem C5_counterexample :
    (snapshotSameDayNoRegs.m_nextDstMonthStatus < 0 ∧
      snapshotSameDayNoRegs.m_nextDstDayStatus < 0 ∧
      snapshotSameDayNoRegs.m_nextDstHourStatus < 0 ∧
      (ScheduledDst snapshotSameDayNoRegs 1710036000 false 0 0).ret = true ∧
      (ScheduledDst snapshotSameDayNoRegs 1710036000 false 0 0).localHour = 2) ∧
    (fromBCD snapshotMonth00.m_nextDstMonthStatus = 0 ∧
      (ScheduledDst snapshotMonth00 1710036000 false 0 0).ret = true ∧
      (ScheduledDst snapshotMonth00 1710036000 false 0 0).when =
        makeTime { Year := 54, Month := 0, Day := 3 }) := by
  decide

/-- C5, amended: when the same-day pattern is absent (or the status register is
unavailable) and a next-DST register is unavailable, `ScheduledDst` returns
false and leaves `when` and `localHour` as the caller passed them. -/
theorem C5_missing_register_no_schedule (self : Es100Wire) (now : Nat) (b0 : Bool)
    (w0 l0 : Nat)
    (hp : self.m_status0 < 0 ∨ ¬ sameDayPattern self.m_status0)
    (hmiss : self.m_nextDstMonthStatus < 0 ∨ self.m_nextDstDayStatus < 0 ∨
      self.m_nextDstHourStatus < 0) :
    (ScheduledDst self now b0 w0 l0).ret = false ∧
    (ScheduledDst self now b0 w0 l0).when = w0 ∧
    (ScheduledDst self now b0 w0 l0).localHour = l0 := by
  by_cases hs : 0 ≤ self.m_status0
  · have hp' : ¬ sameDayPattern self.m_status0 := by
      rcases hp with h | h
      · omega
      · exact h
    have ha : ¬ advanceNotice self := by
      rintro ⟨a1, a2, a3, _⟩; omega
    rw [scheduledDst_neither self now b0 w0 l0 hs hp' ha]
    exact ⟨rfl, rfl, rfl⟩
  · rw [scheduledDst_unavailable self now b0 w0 l0 (by omega)]
    exact ⟨rfl, rfl, rfl⟩

/-- C5 amended, at status `0x01` with the next-DST day register unavailable. -/
theorem C5_missing_register_no_schedule_witness :
    (ScheduledDst { snapshotAdvance with m_nextDstDayStatus := -1 } 1710036000 true 7 9).ret
      = false ∧
    (ScheduledDst { snapshotAdvance with m_nextDstDayStatus := -1 } 1710036000 true 7 9).when
      = 7 ∧
    (ScheduledDst { snapshotAdvance with m_nextDstDayStatus := -1 } 1710036000 true 7 9).localHour
      = 9 :=
  C5_missing_register_no_schedule { snapshotAdvance with m_nextDstDayStatus := -1 }
    1710036000 true 7 9 (Or.inr (by decide)) (Or.inr (Or.inl (by decide)))

/-! ## The reception state machine (`loop`) -/

/-- C6: in Listening state with `isSynced = false` and the interrupt flag
pending, when the IRQ-status read succeeds with bit 0 (reception complete) set
and the six date/time reads succeed, `loop` returns true, enters the
fix-available state (IDLE), stores in `m_time` the `makeTime` of year
`(2000 - 1970) + fromBCD(yr)` and the `fromBCD` of month, day, hour, minute and
second, and stores the results of the three next-DST reads and of the status
read (each possibly `-1`); the eleven reads are issued in the order of the
source. When the six decoded fields are a real date and time of day, `m_time`
is the UTC timestamp of those fields: `breakTime` maps it back to them. -/
theorem C6_fix_decoded (self : Es100Wire) (hw : Board)
    (hst : self.m_state = ReceptionState.ACTIVE) (htrig : self.isrTriggered = true)
    (hirq : 0 ≤ readValue (hw.reply hw.count))
    (hbit : (readValue (hw.reply hw.count)).toNat.testBit 0 = true)
    (hyr : 0 ≤ readValue (hw.reply (hw.count + 1)))
    (hmo : 0 ≤ readValue (hw.reply (hw.count + 2)))
    (hdy : 0 ≤ readValue (hw.reply (hw.count + 3)))
    (hhr : 0 ≤ readValue (hw.reply (hw.count + 4)))
    (hmn : 0 ≤ readValue (hw.reply (hw.count + 5)))
    (hsc : 0 ≤ readValue (hw.reply (hw.count + 6))) :
    (loop self hw false).1 = true ∧
    (loop self hw false).2.1.m_state = ReceptionState.IDLE ∧
    (loop self hw false).2.1.m_time =
      makeTime
        { Year := (2000 - 1970) + fromBCD (readValue (hw.reply (hw.count + 1))),
          Month := fromBCD (readValue (hw.reply (hw.count + 2))),
          Day := fromBCD (readValue (hw.reply (hw.count + 3))),
          Hour := fromBCD (readValue (hw.reply (hw.count + 4))),
          Minute := fromBCD (readValue (hw.reply (hw.count + 5))),
          Second := fromBCD (readValue (hw.reply (hw.count + 6))) } ∧
    (loop self hw false).2.1.m_nextDstMonthStatus = readValue (hw.reply (hw.count + 7)) ∧
    (loop self hw false).2.1.m_nextDstDayStatus = readValue (hw.reply (hw.count + 8)) ∧
    (loop self hw false).2.1.m_nextDstHourStatus = readValue (hw.reply (hw.count + 9)) ∧
    (loop self hw false).2.1.m_status0 = readValue (hw.reply (hw.count + 10)) ∧
    (loop self hw false).2.2.log = hw.log ++
      [BusOp.readReg ES100_IRQ_STATUS_REG, BusOp.readReg ES100_YEAR_REG,
       BusOp.readReg ES100_MONTH_REG, BusOp.readReg ES100_DAY_REG,
       BusOp.readReg ES100_HOUR_REG, BusOp.readReg ES100_MINUTE_REG,
       BusOp.readReg ES100_SECOND_REG, BusOp.readReg ES100_NEXT_DST_MONTH_REG,
       BusOp.readReg ES100_NEXT_DST_DAY_REG, BusOp.readReg ES100_NEXT_DST_HOUR_REG,
       BusOp.readReg ES100_STATUS0_REG] ∧
    (fromBCD (readValue (hw.reply (hw.count + 1))) ≤ 99 →
      1 ≤ fromBCD (readValue (hw.reply (hw.count + 2))) →
      fromBCD (readValue (hw.reply (hw.count + 2))) ≤ 12 →
      1 ≤ fromBCD (readValue (hw.reply (hw.count + 3))) →
      fromBCD (readValue (hw.reply (hw.count + 3))) ≤
        monthLength (LEAP_YEAR ((2000 - 1970) + fromBCD (readValue (hw.reply (hw.count + 1)))))
          (fromBCD (readValue (hw.reply (hw.count + 2))) - 1) →
      fromBCD (readValue (hw.reply (hw.count + 4))) < 24 →
      fromBCD (readValue (hw.reply (hw.count + 5))) < 60 →
      fromBCD (readValue (hw.reply (hw.count + 6))) < 60 →
      (breakTime (loop self hw false).2.1.m_time).Year
        = (2000 - 1970) + fromBCD (readValue (hw.reply (hw.count + 1))) ∧
      (breakTime (loop self hw false).2.1.m_time).Month
        = fromBCD (readValue (hw.reply (hw.count + 2))) ∧
      (breakTime (loop self hw false).2.1.m_time).Day
        = fromBCD (readValue (hw.reply (hw.count + 3))) ∧
      (breakTime (loop self hw false).2.1.m_time).Hour
        = fromBCD (readValue (hw.reply (hw.count + 4))) ∧
      (breakTime (loop self hw false).2.1.m_time).Minute
        = fromBCD (readValue (hw.reply (hw.count + 5))) ∧
      (breakTime (loop self hw false).2.1.m_time).Second
        = fromBCD (readValue (hw.reply (hw.count + 6)))) := by
  have hy : ((2000 - 1970) + fromBCD (readValue (hw.reply (hw.count + 1)))) % 256
      = (2000 - 1970) + fromBCD (readValue (hw.reply (hw.count + 1))) := by
    have := fromBCD_le (readValue (hw.reply (hw.count + 1)))
    omega
  have hb := (irq_test _).2 hbit
  have hL : loop self hw false =
      (true,
        { self with
          isrTriggered := false,
          m_yearOfDst := (2000 - 1970) + fromBCD (readValue (hw.reply (hw.count + 1))),
          m_time := makeTime
            { Year := (2000 - 1970) + fromBCD (readValue (hw.reply (hw.count + 1))),
              Month := fromBCD (readValue (hw.reply (hw.count + 2))),
              Day := fromBCD (readValue (hw.reply (hw.count + 3))),
              Hour := fromBCD (readValue (hw.reply (hw.count + 4))),
              Minute := fromBCD (readValue (hw.reply (hw.count + 5))),
              Second := fromBCD (readValue (hw.reply (hw.count + 6))) },
          m_nextDstMonthStatus := readValue (hw.reply (hw.count + 7)),
          m_nextDstDayStatus := readValue (hw.reply (hw.count + 8)),
          m_nextDstHourStatus := readValue (hw.reply (hw.count + 9)),
          m_status0 := readValue (hw.reply (hw.count + 10)),
          m_state := ReceptionState.IDLE },
        { hw with
          count := hw.count + 11,
          log := hw.log ++
            [BusOp.readReg ES100_IRQ_STATUS_REG, BusOp.readReg ES100_YEAR_REG,
             BusOp.readReg ES100_MONTH_REG, BusOp.readReg ES100_DAY_REG,
             BusOp.readReg ES100_HOUR_REG, BusOp.readReg ES100_MINUTE_REG,
             BusOp.readReg ES100_SECOND_REG, BusOp.readReg ES100_NEXT_DST_MONTH_REG,
             BusOp.readReg ES100_NEXT_DST_DAY_REG, BusOp.readReg ES100_NEXT_DST_HOUR_REG,
             BusOp.readReg ES100_STATUS0_REG] }) := by
    simp only [loop, hst, htrig, readRegister_fst, readRegister_snd, hy]
    simp [hirq, hyr, hmo, hdy, hhr, hmn, hsc, hb, not_lt.2, Nat.add_assoc]
  rw [hL]
  refine ⟨rfl, rfl, rfl, rfl, rfl, rfl, rfl, rfl, ?_⟩
  intro hy99 hm1 hm2 hd1 hd2 hh hmi hs
  exact breakTime_makeTime_fields _ (by simp only; omega) hm1 hm2 hd1 hd2 hh hmi hs

/-- C6 at the replies `0x01` (IRQ status), `0x24 0x03 0x10 0x02 0x00 0x00`,
`0x11 0x03 0x02` and `0x21`: the fix is 2024-03-10T02:00:00Z = 1710036000. -/
theorem C6_fix_decoded_witness :
    (loop listeningSession (boardOf fixReplies) false).1 = true ∧
    (loop listeningSession (boardOf fixReplies) false).2.1.m_state = ReceptionState.IDLE ∧
    (loop listeningSession (boardOf fixReplies) false).2.1.m_time = 1710036000 ∧
    (loop listeningSession (boardOf fixReplies) false).2.1.m_nextDstMonthStatus = 0x11 ∧
    (loop listeningSession (boardOf fixReplies) false).2.1.m_nextDstDayStatus = 0x03 ∧
    (loop listeningSession (boardOf fixReplies) false).2.1.m_nextDstHourStatus = 0x02 ∧
    (loop listeningSession (boardOf fixReplies) false).2.1.m_status0 = 0x21 :=
  have h := C6_fix_decoded listeningSession (boardOf fixReplies) (by decide) (by decide)
    (by decide) (by decide) (by decide) (by decide) (by decide) (by decide) (by decide)
    (by decide)
  ⟨h.1, h.2.1, h.2.2.1, h.2.2.2.1, h.2.2.2.2.1, h.2.2.2.2.2.1, h.2.2.2.2.2.2.1⟩

/-- C7: in Listening state with the interrupt flag pending, if the reply to the
IRQ-status read or to one of the six date/time register reads is a failure,
`loop` returns false, the state stays Listening and `m_time` is unchanged. -/
theorem C7_read_failure_no_fix (self : Es100Wire) (hw : Board)
    (hst : self.m_state = ReceptionState.ACTIVE) (_htrig : self.isrTriggered = true)
    (hfail : ∃ k, k < 7 ∧ readValue (hw.reply (hw.count + k)) < 0) :
    (loop self hw false).1 = false ∧
    (loop self hw false).2.1.m_state = ReceptionState.ACTIVE ∧
    (loop self hw false).2.1.m_time = self.m_time := by
  rcases loop_active_result self hw hst with h | h
  · exact ⟨h.1, h.2.1, h.2.2.1⟩
  · obtain ⟨k, hk, hneg⟩ := hfail
    have := h.2.2 k hk
    omega

/-- C7 at a reception whose month register read is not acknowledged (replies
`0x01`, `0x25`, failure): no fix, still Listening, `m_time` still 1234. -/
theorem C7_read_failure_no_fix_witness :
    (loop listeningSession (boardOf brokenReplies) false).1 = false ∧
    (loop listeningSession (boardOf brokenReplies) false).2.1.m_state
      = ReceptionState.ACTIVE ∧
    (loop listeningSession (boardOf brokenReplies) false).2.1.m_time = 1234 :=
  C7_read_failure_no_fix listeningSession (boardOf brokenReplies) (by decide) (by decide)
    ⟨2, by decide, by decide⟩

/-- C8 fails on the code: in a tick whose year register read succeeds (`0x25`)
and whose month register read fails, `loop` returns false but has already
overwritten `m_yearOfDst` (2024 becomes 2025) while the next-DST registers of
the earlier fix stay; the advance-notice schedule `ScheduledDst` builds from
the session moves from 2024-11-03 to 2025-11-03. -/
theorem C8_year_stored_before_fix_completes :
    (loop listeningSession (boardOf brokenReplies) false).1 = false ∧
    listeningSession.m_yearOfDst = 54 ∧
    (loop listeningSession (boardOf brokenReplies) false).2.1.m_yearOfDst = 55 ∧
    (loop listeningSession (boardOf brokenReplies) false).2.1.m_nextDstMonthStatus = 0x11 ∧
    (loop listeningSession (boardOf brokenReplies) false).2.1.m_nextDstDayStatus = 0x03 ∧
    (ScheduledDst listeningSession 1710036000 false 0 0).when = 1730592000 ∧
    (ScheduledDst (loop listeningSession (boardOf brokenReplies) false).2.1
      1710036000 false 0 0).when = 1762128000 := by
  decide

/-- C9: in Shutdown or fix-available (IDLE) state, `loop` with
`isSynced = false` returns false and issues exactly one bus transaction, the
write of `CONTROL0_START | CONTROL0_ANT2_OFF` to the control register (no
register read); the state becomes Listening (ACTIVE) when that write is
acknowledged and is unchanged when it is not. -/
theorem C9_idle_tick_starts_listening (self : Es100Wire) (hw : Board)
    (hst : self.m_state = ReceptionState.SHUTDOWN ∨ self.m_state = ReceptionState.IDLE) :
    (loop self hw false).1 = false ∧
    (loop self hw false).2.2.log =
      hw.log ++ [BusOp.writeReg ES100_CONTROL0_REG (CONTROL0_START ||| CONTROL0_ANT2_OFF)] ∧
    (∀ reg, BusOp.readReg reg ∉ (loop self hw false).2.2.log.drop hw.log.length) ∧
    ((hw.reply hw.count).endTransmission = 0 →
      (loop self hw false).2.1.m_state = ReceptionState.ACTIVE) ∧
    ((hw.reply hw.count).endTransmission ≠ 0 →
      (loop self hw false).2.1.m_state = self.m_state) ∧
    (loop self hw false).2.1.m_time = self.m_time := by
  have hne : self.m_state ≠ ReceptionState.ACTIVE := by
    rcases hst with h | h <;> rw [h] <;> decide
  have hloop : loop self hw false = (false, listen self hw) := by
    simp only [loop, Bool.false_eq_true, if_false, if_pos hne]
  rw [hloop]
  by_cases hw0 : (hw.reply hw.count).endTransmission = 0
  · simp [listen, writeRegister, hw0]
    split_ifs <;> rfl
  · simp [listen, writeRegister, hw0]

/-- C9 from the constructed (Shutdown) session: with the start write
acknowledged the session is Listening after the tick, with the write refused
it is still in Shutdown; no fix either way. -/
theorem C9_idle_tick_starts_listening_witness :
    ((loop Es100Wire.init (boardOf [okReply 0]) false).1 = false ∧
      (loop Es100Wire.init (boardOf [okReply 0]) false).2.1.m_state
        = ReceptionState.ACTIVE) ∧
    ((loop Es100Wire.init (boardOf [nackReply]) false).1 = false ∧
      (loop Es100Wire.init (boardOf [nackReply]) false).2.1.m_state
        = ReceptionState.SHUTDOWN) :=
  have h1 := C9_idle_tick_starts_listening Es100Wire.init (boardOf [okReply 0])
    (Or.inl rfl)
  have h2 := C9_idle_tick_starts_listening Es100Wire.init (boardOf [nackReply])
    (Or.inl rfl)
  ⟨⟨h1.1, h1.2.2.2.1 (by decide)⟩, ⟨h2.1, h2.2.2.2.2.1 (by decide)⟩⟩

/-- C10: `loop` with `isSynced = true` returns false, leaves the session in
Shutdown whatever the state was, issues no bus transaction, and leaves `m_time`
and the status / next-DST snapshot unchanged. -/
theorem C10_synced_tick_shuts_down (self : Es100Wire) (hw : Board) :
    (loop self hw true).1 = false ∧
    (loop self hw true).2.1.m_state = ReceptionState.SHUTDOWN ∧
    (loop self hw true).2.2.log = hw.log ∧
    (loop self hw true).2.2.count = hw.count ∧
    (loop self hw true).2.1.m_time = self.m_time ∧
    (loop self hw true).2.1.m_status0 = self.m_status0 ∧
    (loop self hw true).2.1.m_nextDstMonthStatus = self.m_nextDstMonthStatus ∧
    (loop self hw true).2.1.m_nextDstDayStatus = self.m_nextDstDayStatus ∧
    (loop self hw true).2.1.m_nextDstHourStatus = self.m_nextDstHourStatus ∧
    (loop self hw true).2.1.m_yearOfDst = self.m_yearOfDst := by
  by_cases hs : self.m_state = ReceptionState.SHUTDOWN
  · simp [loop, hs]
  · simp [loop, hs, shutdown]

/-! ## C11: BCD decoding -/

theorem and_mod_256 (u m : Nat) (hm : m < 256) : u &&& m = (u % 256) &&& m := by
  have h : m = 255 &&& m := by
    apply Nat.eq_of_testBit_eq
    intro i
    rw [Nat.testBit_and, show (255 : Nat) = 2 ^ 8 - 1 from rfl, Nat.testBit_two_pow_sub_one]
    by_cases hi : i < 8
    · simp [hi]
    · have : m.testBit i = false := by
        apply Nat.testBit_lt_two_pow
        calc m < 256 := hm
          _ = 2 ^ 8 := rfl
          _ ≤ 2 ^ i := Nat.pow_le_pow_right (by decide) (by omega)
      simp [this, hi]
  have h2 : u &&& 255 = u % 256 := Nat.and_pow_two_sub_one_eq_mod u 8
  calc u &&& m = u &&& (255 &&& m) := by rw [← h]
    _ = (u &&& 255) &&& m := by rw [Nat.and_assoc]
    _ = (u % 256) &&& m := by rw [h2]

theorem fromBCD_low_byte (v : Int) : fromBCD v = fromBCD (v % 256) := by
  have e : (v % 65536).toNat % 256 = ((v % 256) % 65536).toNat % 256 := by omega
  unfold fromBCD
  simp only []
  rw [and_mod_256 (v % 65536).toNat 0xF0 (by decide),
    and_mod_256 (v % 65536).toNat 0xF (by decide),
    and_mod_256 ((v % 256) % 65536).toNat 0xF0 (by decide),
    and_mod_256 ((v % 256) % 65536).toNat 0xF (by decide), e]

set_option maxRecDepth 100000 in
theorem fromBCD_bytes : ∀ b : Nat, b < 256 →
    fromBCD (b : Int) = 10 * (b / 16) + b % 16 := by
  decide

/-- C11: on a byte whose nibbles are both at most 9, `fromBCD` returns ten
times the high nibble plus the low nibble (`0x42` gives 42); every value 0..99
is the decode of exactly one such byte; and for every input the result depends
only on the low byte, is at most 165, and equals the value before the cast to
`uint8_t`. -/
theorem C11_fromBCD_decodes :
    (∀ hi lo : Nat, hi ≤ 9 → lo ≤ 9 → fromBCD ((16 * hi + lo : Nat) : Int) = 10 * hi + lo) ∧
    fromBCD 0x42 = 42 ∧
    (∀ n : Nat, n < 100 →
      ∃! b : Nat, b < 256 ∧ b / 16 ≤ 9 ∧ b % 16 ≤ 9 ∧ fromBCD (b : Int) = n) ∧
    (∀ v : Int, fromBCD v = fromBCD (v % 256) ∧ fromBCD v ≤ 165 ∧
      fromBCD v = (((v % 65536).toNat &&& 0xF0) >>> 4) * 10 + ((v % 65536).toNat &&& 0xF)) := by
  refine ⟨?_, by decide, ?_, ?_⟩
  · intro hi lo hhi hlo
    rw [fromBCD_bytes (16 * hi + lo) (by omega)]
    omega
  · intro n hn
    refine ⟨16 * (n / 10) + n % 10, ⟨by omega, by omega, by omega, ?_⟩, ?_⟩
    · rw [fromBCD_bytes _ (by omega)]; omega
    · rintro b ⟨hb, h1, h2, h3⟩
      rw [fromBCD_bytes b hb] at h3
      have h3' : 10 * (b / 16) + b % 16 = n := by exact_mod_cast h3
      omega
  · intro v
    refine ⟨fromBCD_low_byte v, fromBCD_le v, ?_⟩
    have hle := fromBCD_le v
    unfold fromBCD at hle ⊢
    simp only [] at hle ⊢
    apply Nat.mod_eq_of_lt
    have h3 : ((v % 65536).toNat &&& 0xF0) >>> 4 = ((v % 65536).toNat &&& 0xF0) / 16 :=
      Nat.shiftRight_eq_div_pow _ 4
    have h1 : ((v % 65536).toNat &&& 0xF0) ≤ 0xF0 := Nat.and_le_right
    have h2 : ((v % 65536).toNat &&& 0xF) ≤ 0xF := Nat.and_le_right
    rw [h3]
    generalize (v % 65536).toNat &&& 0xF0 = a at *
    generalize (v % 65536).toNat &&& 0xF = b at *
    omega

/-! ## C12, C13: DST flag and fix hand-over -/

theorem testBit_mod_128 (n k : Nat) (hk : k < 7) : (n % 128).testBit k = n.testBit k := by
  rw [show (128 : Nat) = 2 ^ 7 from rfl, Nat.testBit_mod_two_pow]
  simp [hk]

theorem statBits_mod_128 (n : Nat) :
    (n &&& (STATUS_0_DST0 ||| STATUS_0_DST1 ||| STATUS_0_RXOK)) % 256 =
      ((n % 128) &&& (STATUS_0_DST0 ||| STATUS_0_DST1 ||| STATUS_0_RXOK)) % 256 := by
  congr 1
  apply Nat.eq_of_testBit_eq
  intro i
  rw [Nat.testBit_and, Nat.testBit_and]
  by_cases hi : i < 7
  · rw [testBit_mod_128 n i hi]
  · have : (STATUS_0_DST0 ||| STATUS_0_DST1 ||| STATUS_0_RXOK).testBit i = false := by
      apply Nat.testBit_lt_two_pow
      calc (STATUS_0_DST0 ||| STATUS_0_DST1 ||| STATUS_0_RXOK) < 2 ^ 7 := by decide
        _ ≤ 2 ^ i := Nat.pow_le_pow_right (by decide) (by omega)
    simp [this]

set_option maxRecDepth 100000 in
theorem isDstNow_small : ∀ m : Nat, m < 128 →
    (if (m &&& (STATUS_0_DST0 ||| STATUS_0_DST1 ||| STATUS_0_RXOK)) % 256 = STATUS_0_RXOK
      then (0 : Int)
      else if (m &&& (STATUS_0_DST0 ||| STATUS_0_DST1 ||| STATUS_0_RXOK)) % 256
          = (STATUS_0_DST0 ||| STATUS_0_DST1 ||| STATUS_0_RXOK) then 1 else -1)
      = dstNowOfBits (m.testBit 0) (m.testBit 5) (m.testBit 6) := by
  decide

theorem isDstNow_of_bits (self : Es100Wire) (hs : 0 ≤ self.m_status0) :
    isDstNow self = dstNowOfBits (self.m_status0.toNat.testBit 0)
      (self.m_status0.toNat.testBit 5) (self.m_status0.toNat.testBit 6) := by
  have h := isDstNow_small (self.m_status0.toNat % 128) (Nat.mod_lt _ (by decide))
  rw [testBit_mod_128 _ 0 (by decide), testBit_mod_128 _ 5 (by decide),
    testBit_mod_128 _ 6 (by decide), ← statBits_mod_128] at h
  have hn : ¬ self.m_status0 < 0 := by omega
  simp only [isDstNow, hn, if_false]
  exact h

/-- C12: `isDstNow` returns -1 when the status register is unavailable;
otherwise the result is 0 exactly when bit 0 is set and bits 5 and 6 are clear,
1 exactly when bits 0, 5 and 6 are all set, and -1 in every other case; two
valid status values that agree on bits 0, 5 and 6 give the same result. -/
theorem C12_isDstNow_three_bits (self : Es100Wire) :
    (self.m_status0 < 0 → isDstNow self = -1) ∧
    (0 ≤ self.m_status0 →
      (isDstNow self = 0 ↔
        (self.m_status0.toNat.testBit 0 = true ∧ self.m_status0.toNat.testBit 5 = false ∧
          self.m_status0.toNat.testBit 6 = false)) ∧
      (isDstNow self = 1 ↔
        (self.m_status0.toNat.testBit 0 = true ∧ self.m_status0.toNat.testBit 5 = true ∧
          self.m_status0.toNat.testBit 6 = true)) ∧
      (isDstNow self = -1 ↔
        ¬ (self.m_status0.toNat.testBit 0 = true ∧
          self.m_status0.toNat.testBit 5 = self.m_status0.toNat.testBit 6)) ∧
      (isDstNow self = 0 ∨ isDstNow self = 1 ∨ isDstNow self = -1)) ∧
    (∀ other : Es100Wire, 0 ≤ self.m_status0 → 0 ≤ other.m_status0 →
      other.m_status0.toNat.testBit 0 = self.m_status0.toNat.testBit 0 →
      other.m_status0.toNat.testBit 5 = self.m_status0.toNat.testBit 5 →
      other.m_status0.toNat.testBit 6 = self.m_status0.toNat.testBit 6 →
      isDstNow other = isDstNow self) := by
  refine ⟨?_, ?_, ?_⟩
  · intro hs
    simp only [isDstNow, hs, if_true]
  · intro hs
    rw [isDstNow_of_bits self hs]
    cases self.m_status0.toNat.testBit 0 <;> cases self.m_status0.toNat.testBit 5 <;>
      cases self.m_status0.toNat.testBit 6 <;> decide
  · intro other hs ho h0 h5 h6
    rw [isDstNow_of_bits self hs, isDstNow_of_bits other ho, h0, h5, h6]

/-- C12 at status `0x61` (RXOK, DST0 and DST1 set; result 1), `0x9f` (bits 1..4
and 7 set besides RXOK; result 0), `0x21` (RXOK and DST0 only; result -1) and at
an unavailable status (result -1). -/
theorem C12_isDstNow_three_bits_witness :
    isDstNow { snapshotBoth with m_status0 := 0x61 } = 1 ∧
    isDstNow { snapshotBoth with m_status0 := 0x9f } = 0 ∧
    isDstNow snapshotBoth = -1 ∧
    isDstNow snapshotNoStatus = -1 :=
  ⟨((C12_isDstNow_three_bits { snapshotBoth with m_status0 := 0x61 }).2.1
      (by decide)).2.1.2 (by decide),
    ((C12_isDstNow_three_bits { snapshotBoth with m_status0 := 0x9f }).2.1
      (by decide)).1.2 (by decide),
    ((C12_isDstNow_three_bits snapshotBoth).2.1 (by decide)).2.2.1.2 (by decide),
    (C12_isDstNow_three_bits snapshotNoStatus).1 (by decide)⟩

/-- C13: `getUTCandClear` returns the pending `m_time` and leaves it 0, so a
second call right after returns 0; every other field of the session (reception
state, status and next-DST snapshot, year, last bus error, interrupt flag) is
unchanged. -/
theorem C13_getUTCandClear_takes_once (self : Es100Wire) :
    (getUTCandClear self).1 = self.m_time ∧
    (getUTCandClear self).2.m_time = 0 ∧
    (getUTCandClear (getUTCandClear self).2).1 = 0 ∧
    (getUTCandClear self).2 = { self with m_time := 0 } ∧
    (getUTCandClear self).2.m_state = self.m_state ∧
    (getUTCandClear self).2.m_status0 = self.m_status0 ∧
    (getUTCandClear self).2.m_nextDstMonthStatus = self.m_nextDstMonthStatus ∧
    (getUTCandClear self).2.m_nextDstDayStatus = self.m_nextDstDayStatus ∧
    (getUTCandClear self).2.m_nextDstHourStatus = self.m_nextDstHourStatus ∧
    (getUTCandClear self).2.m_yearOfDst = self.m_yearOfDst ∧
    (getUTCandClear self).2.m_errorReported = self.m_errorReported ∧
    (getUTCandClear self).2.isrTriggered = self.isrTriggered :=
  ⟨rfl, rfl, rfl, rfl, rfl, rfl, rfl, rfl, rfl, rfl, rfl, rfl⟩

/-! ## C14: arming the scheduled DST change -/

theorem timeAdd_timeAdd (t : Nat) (a b : Int) :
    timeAdd (timeAdd t a) b = (((t : Int) + a + b) % 4294967296).toNat := by
  unfold timeAdd
  have h : 0 ≤ ((t : Int) + a) % 4294967296 := Int.emod_nonneg _ (by decide)
  rw [Int.toNat_of_nonneg h]
  congr 1
  omega

theorem timeAdd_exact (t : Nat) (d : Int) (h0 : 0 ≤ (t : Int) + d)
    (h1 : (t : Int) + d < 4294967296) : (timeAdd t d : Int) = (t : Int) + d := by
  unfold timeAdd
  rw [Int.emod_eq_of_lt h0 h1, Int.toNat_of_nonneg h0]

/-- C14: `scheduleDSTchangeAt` stores `begins` and the instant
`utcMidnight + utcSecondsOffset + 3600 * localHour` (taken in 32-bit `time_t`
arithmetic, so exactly that sum whenever it lies in 0..2^32-1) and touches no
other field; what was armed before plays no part: arming A and then B leaves the
renderer exactly as arming B alone. -/
theorem C14_scheduleDSTchangeAt_overwrites (self : ClockDisplay) (begins : Bool)
    (utcMidnight localHour : Nat) :
    (self.scheduleDSTchangeAt begins utcMidnight localHour).m_DstScheduledBegin = begins ∧
    (self.scheduleDSTchangeAt begins utcMidnight localHour).m_DstChangesWhen =
      (((utcMidnight : Int) + self.utcSecondsOffset + 3600 * (localHour : Int))
        % 4294967296).toNat ∧
    (0 ≤ (utcMidnight : Int) + self.utcSecondsOffset + 3600 * (localHour : Int) →
      (utcMidnight : Int) + self.utcSecondsOffset + 3600 * (localHour : Int) < 4294967296 →
      ((self.scheduleDSTchangeAt begins utcMidnight localHour).m_DstChangesWhen : Int) =
        (utcMidnight : Int) + self.utcSecondsOffset + 3600 * (localHour : Int)) ∧
    self.scheduleDSTchangeAt begins utcMidnight localHour =
      { self with
        m_DstScheduledBegin := begins,
        m_DstChangesWhen := (self.scheduleDSTchangeAt begins utcMidnight localHour).m_DstChangesWhen } ∧
    (∀ (beginsA : Bool) (utcMidnightA localHourA : Nat),
      (self.scheduleDSTchangeAt beginsA utcMidnightA localHourA).scheduleDSTchangeAt
          begins utcMidnight localHour =
        self.scheduleDSTchangeAt begins utcMidnight localHour) := by
  have hw : (self.scheduleDSTchangeAt begins utcMidnight localHour).m_DstChangesWhen =
      (((utcMidnight : Int) + self.utcSecondsOffset + 3600 * (localHour : Int))
        % 4294967296).toNat := by
    simp only [ClockDisplay.scheduleDSTchangeAt, timeAdd_timeAdd]
  refine ⟨rfl, hw, ?_, rfl, ?_⟩
  · intro h0 h1
    rw [hw, Int.emod_eq_of_lt h0 h1, Int.toNat_of_nonneg h0]
  · intro bA mA hA
    rfl

/-- C14 on a renderer at UTC-5 h: arming "DST begins, 2024-03-10, local hour 2"
gives the instant 1710028800 - 18000 + 7200 = 1710018000, also after "DST ends,
2024-11-03, local hour 2" had been armed. -/
theorem C14_scheduleDSTchangeAt_overwrites_witness :
    (displayArmed.scheduleDSTchangeAt true 1710028800 2).m_DstChangesWhen = 1710018000 ∧
    (displayArmed.scheduleDSTchangeAt true 1710028800 2).m_DstScheduledBegin = true ∧
    (displayArmed.scheduleDSTchangeAt false 1730592000 2).scheduleDSTchangeAt
        true 1710028800 2 = displayArmed.scheduleDSTchangeAt true 1710028800 2 :=
  have h := C14_scheduleDSTchangeAt_overwrites displayArmed true 1710028800 2
  ⟨Int.ofNat_inj.1 (h.2.2.1 (by decide) (by decide)), h.1, h.2.2.2.2 false 1730592000 2⟩

/-! ## C15: the DST check of the clock tick -/

theorem rainRollover_frame (s : ClockDisplay) (hr min : Int) :
    (s.rainRollover hr min).DST = s.DST ∧
    (s.rainRollover hr min).m_DstChangesWhen = s.m_DstChangesWhen ∧
    (s.rainRollover hr min).m_DstScheduledBegin = s.m_DstScheduledBegin ∧
    (s.rainRollover hr min).m_12Hour = s.m_12Hour ∧
    (s.rainRollover hr min).utcSecondsOffset = s.utcSecondsOffset ∧
    (s.rainRollover hr min).radioSilence = s.radioSilence := by
  unfold ClockDisplay.rainRollover
  dsimp only
  split_ifs <;> exact ⟨rfl, rfl, rfl, rfl, rfl, rfl⟩

theorem lcdTemperature_frame (dtostrf : F32 → Int → Nat → String) (s : ClockDisplay)
    (millis : Nat) :
    (ClockDisplay.lcdTemperature dtostrf s millis).1.DST = s.DST ∧
    (ClockDisplay.lcdTemperature dtostrf s millis).1.m_DstChangesWhen = s.m_DstChangesWhen ∧
    (ClockDisplay.lcdTemperature dtostrf s millis).1.m_DstScheduledBegin
      = s.m_DstScheduledBegin ∧
    (ClockDisplay.lcdTemperature dtostrf s millis).1.m_12Hour = s.m_12Hour ∧
    (ClockDisplay.lcdTemperature dtostrf s millis).1.utcSecondsOffset = s.utcSecondsOffset ∧
    (ClockDisplay.lcdTemperature dtostrf s millis).1.radioSilence = s.radioSilence := by
  unfold ClockDisplay.lcdTemperature
  dsimp only
  split_ifs <;> exact ⟨rfl, rfl, rfl, rfl, rfl, rfl⟩

theorem applyDstChange_frame (s : ClockDisplay) (t : Nat) :
    (s.applyDstChange t).m_12Hour = s.m_12Hour ∧
    (s.applyDstChange t).utcSecondsOffset = s.utcSecondsOffset ∧
    (s.applyDstChange t).radioSilence = s.radioSilence := by
  unfold ClockDisplay.applyDstChange
  split_ifs <;> exact ⟨rfl, rfl, rfl⟩

/-- What a rendering tick leaves in the DST fields and in the last displayed
hour and minute, and what it writes first on the LCD. -/
theorem loop_render (dtostrf : F32 → Int → Nat → String) (self : ClockDisplay)
    (out : Displays) (now millis : Nat) (ledEnabled lcdEnabled : Bool)
    (hrs : self.radioSilence = false) (hnew : now ≠ self.lastTimet) :
    (self.loop dtostrf out .timeSet now millis ledEnabled lcdEnabled).1.DST
      = ((self.startTick now).applyDstChange now).DST ∧
    (self.loop dtostrf out .timeSet now millis ledEnabled lcdEnabled).1.m_DstChangesWhen
      = ((self.startTick now).applyDstChange now).m_DstChangesWhen ∧
    (self.loop dtostrf out .timeSet now millis ledEnabled lcdEnabled).1.radioSilence
      = false ∧
    (self.loop dtostrf out .timeSet now millis ledEnabled lcdEnabled).1.lastDisplayedMinute
      = minute (((self.startTick now).applyDstChange now).localTime now) ∧
    (self.loop dtostrf out .timeSet now millis ledEnabled lcdEnabled).1.lastDisplayedHour
      = (if self.m_12Hour then
          hourFormat12 (((self.startTick now).applyDstChange now).localTime now)
        else hour (((self.startTick now).applyDstChange now).localTime now)) ∧
    (lcdEnabled = true → ∃ rest,
      (self.loop dtostrf out .timeSet now millis ledEnabled lcdEnabled).2.lcd =
        out.lcd ++ self.lcdClock
          (if self.m_12Hour then
            hourFormat12 (((self.startTick now).applyDstChange now).localTime now)
          else hour (((self.startTick now).applyDstChange now).localTime now))
          (minute (((self.startTick now).applyDstChange now).localTime now))
          (second (((self.startTick now).applyDstChange now).localTime now)) ++ rest) := by
  simp only [ClockDisplay.loop, hrs, Bool.false_eq_true, if_false, ne_eq, not_true_eq_false,
    hnew, not_false_eq_true]
  have hA := applyDstChange_frame (self.startTick now) now
  have h12 : ((self.startTick now).applyDstChange now).m_12Hour = self.m_12Hour := hA.1
  have hrs' : ((self.startTick now).applyDstChange now).radioSilence = false := by
    rw [hA.2.2]; exact hrs
  clear hA
  generalize (self.startTick now).applyDstChange now = s1 at *
  have hR := rainRollover_frame s1 (hour (s1.localTime now)) (minute (s1.localTime now))
  have hT := lcdTemperature_frame dtostrf
    (s1.rainRollover (hour (s1.localTime now)) (minute (s1.localTime now))) millis
  cases lcdEnabled
  · simp only [Bool.false_eq_true, if_false, hR, h12, hrs', false_implies, and_true]
  · simp only [if_true, hT, hR, h12, hrs', true_implies, true_and]
    refine ⟨(ClockDisplay.lcdTemperature dtostrf
        (s1.rainRollover (hour (s1.localTime now)) (minute (s1.localTime now))) millis).2 ++
      ClockDisplay.lcdRain dtostrf (ClockDisplay.lcdTemperature dtostrf
        (s1.rainRollover (hour (s1.localTime now)) (minute (s1.localTime now))) millis).1, ?_⟩
    simp only [ClockDisplay.lcdClock, hR, h12, List.append_assoc]

theorem applyDstChange_fired (s : ClockDisplay) (t : Nat) (ha : s.m_DstChangesWhen ≠ 0)
    (ht : s.m_DstChangesWhen ≤ t) :
    (s.applyDstChange t).DST = s.m_DstScheduledBegin ∧
    (s.applyDstChange t).m_DstChangesWhen = 0 := by
  unfold ClockDisplay.applyDstChange
  rw [if_pos ha, if_pos ht]
  exact ⟨rfl, rfl⟩

theorem applyDstChange_idle (s : ClockDisplay) (t : Nat)
    (h : s.m_DstChangesWhen = 0 ∨ t < s.m_DstChangesWhen) :
    s.applyDstChange t = s := by
  unfold ClockDisplay.applyDstChange
  rcases h with h | h
  · rw [if_neg (by simp [h])]
  · have : ¬ t ≥ s.m_DstChangesWhen := by omega
    rw [if_neg this]; simp

theorem loop_unarmed (dtostrf : F32 → Int → Nat → String) (self : ClockDisplay)
    (out : Displays) (status : timeStatus_t) (now millis : Nat) (ledEnabled lcdEnabled : Bool)
    (h0 : self.m_DstChangesWhen = 0) :
    (self.loop dtostrf out status now millis ledEnabled lcdEnabled).1.DST = self.DST ∧
    (self.loop dtostrf out status now millis ledEnabled lcdEnabled).1.m_DstChangesWhen = 0 := by
  by_cases hrs : self.radioSilence = true
  · have e : self.loop dtostrf out status now millis ledEnabled lcdEnabled = (self, out) := by
      simp only [ClockDisplay.loop, hrs, if_true]
    rw [e]; exact ⟨rfl, h0⟩
  by_cases hst : status = .timeSet
  swap
  · have e : (self.loop dtostrf out status now millis ledEnabled lcdEnabled).1 = self := by
      simp only [ClockDisplay.loop, hrs, if_false, ne_eq, hst, not_false_eq_true, if_true,
        Bool.false_eq_true]
    rw [e]; exact ⟨rfl, h0⟩
  by_cases hnew : now = self.lastTimet
  · have e : (self.loop dtostrf out status now millis ledEnabled lcdEnabled).1 = self := by
      simp only [ClockDisplay.loop, hrs, if_false, ne_eq, hst, not_true_eq_false, hnew, if_true,
        Bool.false_eq_true]
    rw [e]; exact ⟨rfl, h0⟩
  subst hst
  have hrs' : self.radioSilence = false := by
    cases h : self.radioSilence
    · rfl
    · exact absurd h hrs
  obtain ⟨h1, h2, _⟩ := loop_render dtostrf self out now millis ledEnabled lcdEnabled hrs' hnew
  rw [h1, h2, applyDstChange_idle (self.startTick now) now (Or.inl h0)]
  exact ⟨rfl, h0⟩

/-- C15: on a rendering tick of `ClockDisplay::loop` (not muted, time set, a
new second `now`): an armed transition whose instant has been reached sets `DST`
to its begins flag and is disarmed; otherwise `DST` and the armed transition are
unchanged; once it has fired, no later call of `loop` changes `DST` or arms
anything; and the hour and minute kept for display, and the `HH:MM:SS` written
on the LCD, are those of `now + utcSecondsOffset + (DST ? 3600 : 0)` with the
`DST` value after the check. -/
theorem C15_dst_check_on_tick (dtostrf : F32 → Int → Nat → String) (self : ClockDisplay)
    (out : Displays) (now millis : Nat) (ledEnabled lcdEnabled : Bool)
    (hrs : self.radioSilence = false) (hnew : now ≠ self.lastTimet) :
    (self.m_DstChangesWhen ≠ 0 → self.m_DstChangesWhen ≤ now →
      (self.loop dtostrf out .timeSet now millis ledEnabled lcdEnabled).1.DST
        = self.m_DstScheduledBegin ∧
      (self.loop dtostrf out .timeSet now millis ledEnabled lcdEnabled).1.m_DstChangesWhen
        = 0) ∧
    ((self.m_DstChangesWhen = 0 ∨ now < self.m_DstChangesWhen) →
      (self.loop dtostrf out .timeSet now millis ledEnabled lcdEnabled).1.DST = self.DST ∧
      (self.loop dtostrf out .timeSet now millis ledEnabled lcdEnabled).1.m_DstChangesWhen
        = self.m_DstChangesWhen) ∧
    (self.m_DstChangesWhen ≠ 0 → self.m_DstChangesWhen ≤ now →
      ∀ (out2 : Displays) (status2 : timeStatus_t) (now2 millis2 : Nat) (led2 lcd2 : Bool),
        ((self.loop dtostrf out .timeSet now millis ledEnabled lcdEnabled).1.loop
            dtostrf out2 status2 now2 millis2 led2 lcd2).1.DST
          = (self.loop dtostrf out .timeSet now millis ledEnabled lcdEnabled).1.DST ∧
        ((self.loop dtostrf out .timeSet now millis ledEnabled lcdEnabled).1.loop
            dtostrf out2 status2 now2 millis2 led2 lcd2).1.m_DstChangesWhen = 0) ∧
    (∀ L : Nat,
      L = timeAdd (timeAdd now self.utcSecondsOffset)
        (if (self.loop dtostrf out .timeSet now millis ledEnabled lcdEnabled).1.DST
          then 3600 else 0) →
      (self.loop dtostrf out .timeSet now millis ledEnabled lcdEnabled).1.lastDisplayedMinute
        = minute L ∧
      (self.loop dtostrf out .timeSet now millis ledEnabled lcdEnabled).1.lastDisplayedHour
        = (if self.m_12Hour then hourFormat12 L else hour L) ∧
      (lcdEnabled = true → ∃ rest,
        (self.loop dtostrf out .timeSet now millis ledEnabled lcdEnabled).2.lcd =
          out.lcd ++ self.lcdClock (if self.m_12Hour then hourFormat12 L else hour L)
            (minute L) (second L) ++ rest) ∧
      (0 ≤ (now : Int) + self.utcSecondsOffset +
          (if (self.loop dtostrf out .timeSet now millis ledEnabled lcdEnabled).1.DST
            then 3600 else 0) →
        (now : Int) + self.utcSecondsOffset +
          (if (self.loop dtostrf out .timeSet now millis ledEnabled lcdEnabled).1.DST
            then 3600 else 0) < 4294967296 →
        (L : Int) = (now : Int) + self.utcSecondsOffset +
          (if (self.loop dtostrf out .timeSet now millis ledEnabled lcdEnabled).1.DST
            then 3600 else 0))) := by
  obtain ⟨h1, h2, _, h4, h5, h6⟩ :=
    loop_render dtostrf self out now millis ledEnabled lcdEnabled hrs hnew
  have hoff : ((self.startTick now).applyDstChange now).utcSecondsOffset
      = self.utcSecondsOffset := (applyDstChange_frame (self.startTick now) now).2.1
  have hL : ((self.startTick now).applyDstChange now).localTime now =
      timeAdd (timeAdd now self.utcSecondsOffset)
        (if (self.loop dtostrf out .timeSet now millis ledEnabled lcdEnabled).1.DST
          then 3600 else 0) := by
    rw [h1]
    unfold ClockDisplay.localTime
    simp only [hoff]
    split
    · rfl
    · unfold timeAdd
      have h : 0 ≤ ((now : Int) + self.utcSecondsOffset) % 4294967296 :=
        Int.emod_nonneg _ (by decide)
      have h' : ((now : Int) + self.utcSecondsOffset) % 4294967296 < 4294967296 :=
        Int.emod_lt_of_pos _ (by decide)
      rw [Int.toNat_of_nonneg h, Int.add_zero, Int.emod_eq_of_lt h h']
  refine ⟨?_, ?_, ?_, ?_⟩
  · intro ha ht
    rw [h1, h2]
    exact applyDstChange_fired (self.startTick now) now ha ht
  · intro h
    rw [h1, h2, applyDstChange_idle (self.startTick now) now h]
    exact ⟨rfl, rfl⟩
  · intro ha ht out2 status2 now2 millis2 led2 lcd2
    have hz : (self.loop dtostrf out .timeSet now millis ledEnabled lcdEnabled).1.m_DstChangesWhen
        = 0 := by
      rw [h2]; exact (applyDstChange_fired (self.startTick now) now ha ht).2
    exact loop_unarmed dtostrf _ out2 status2 now2 millis2 led2 lcd2 hz
  · intro L hLdef
    rw [← hL] at hLdef
    subst hLdef
    refine ⟨h4, h5, h6, ?_⟩
    intro h0 hlt
    rw [hL, timeAdd_timeAdd]
    rw [Int.emod_eq_of_lt h0 hlt, Int.toNat_of_nonneg h0]

/-- C15 on a renderer at UTC-5 h with "DST begins" armed for 1710054000: the
tick at 1710053999 leaves it armed and `DST` off, the tick at 1710054000 turns
`DST` on and disarms, and the local time then shown is 03:00 (1710054000 -
18000 + 3600). -/
theorem C15_dst_check_on_tick_witness :
    ((displayArmed.loop dtostrfInt noDisplays .timeSet 1710053999 0 true true).1.DST = false ∧
      (displayArmed.loop dtostrfInt noDisplays .timeSet 1710053999 0 true true).1.m_DstChangesWhen
        = 1710054000) ∧
    ((displayArmed.loop dtostrfInt noDisplays .timeSet 1710054000 0 true true).1.DST = true ∧
      (displayArmed.loop dtostrfInt noDisplays .timeSet 1710054000 0 true true).1.m_DstChangesWhen
        = 0) ∧
    (displayArmed.loop dtostrfInt noDisplays .timeSet 1710054000 0 true true).1.lastDisplayedHour
      = 3 ∧
    (displayArmed.loop dtostrfInt noDisplays .timeSet 1710054000 0 true true).1.lastDisplayedMinute
      = 0 :=
  have h1 := C15_dst_check_on_tick dtostrfInt displayArmed noDisplays 1710053999 0 true true
    (by decide) (by decide)
  have h2 := C15_dst_check_on_tick dtostrfInt displayArmed noDisplays 1710054000 0 true true
    (by decide) (by decide)
  have hd := h2.1 (by decide) (by decide)
  have hL := h2.2.2.2 1710039600 (by rw [hd.1]; decide)
  ⟨h1.2.1 (Or.inr (by decide)), hd, hL.2.1, hL.1⟩

/-! ## C16: holding button 1 enters the menu -/

theorem msecSince_of_le (now last : Nat) (h1 : last ≤ now) (h2 : now < 4294967296)
    (h3 : now - last < 2147483648) : msecSince now last = ((now - last : Nat) : Int) := by
  unfold msecSince toInt32
  have e : (now + 4294967296 - last % 4294967296) % 4294967296 = now - last := by omega
  rw [e]
  have e2 : (now - last) % 4294967296 = now - last := by omega
  rw [e2, if_pos h3]

theorem loop_hold_sw1 (CLOCKCOMMANDS : Nat → String) (self : ClockSettings)
    (w : SettingsWorld) (now : Nat) (sw1 sw2 : Bool)
    (hst : self.m_state = State_t.HOLD_SW1_FOR_START) :
    self.loop CLOCKCOMMANDS w now sw1 sw2 =
      if ¬ sw1 ∧ msecSince now self.m_lastButtonMsec ≥ PRESS_HOLD_MESSAGE_MSEC then
        (false, { self with m_state := .IDLE, m_prevSw1 := sw1, m_prevSw2 := sw2 }, w)
      else if msecSince now self.m_lastButtonMsec ≥ PRESS_HOLD_MSEC then
        (true,
          { self with
            m_state := .SW1_IN_PROGRESS, m_curOption := NO_OPTION, m_curParam := 0,
            m_prevSw1 := sw1, m_prevSw2 := sw2 },
          ClockSettings.displayCurrentSw1
            { self with m_state := .SW1_IN_PROGRESS, m_curOption := NO_OPTION, m_curParam := 0 }
            { w with lcd := w.lcd ++ [LcdOp.display] })
      else (true, { self with m_prevSw1 := sw1, m_prevSw2 := sw2 }, w) := by
  simp only [ClockSettings.loop, hst]
  split_ifs <;> first | rfl | simp only [hst]

/-- C16: on a tick of `ClockSettings::loop` in `HOLD_SW1_FOR_START` the next
state is `SW1_IN_PROGRESS` exactly when button 1 is sampled pressed and the
milliseconds since the state was entered (`now - m_lastButtonMsec`, as the
signed `int` the code reads) are at least 2000; at exactly 2000 the transition
happens with the cursor on parameter 0 and no option selected, at 1999 it does
not; the state is entered from IDLE with `m_lastButtonMsec` set to the time of
entry. -/
theorem C16_hold_for_menu_threshold (CLOCKCOMMANDS : Nat → String) (self : ClockSettings)
    (w : SettingsWorld) (now : Nat) (sw1 sw2 : Bool)
    (hst : self.m_state = State_t.HOLD_SW1_FOR_START) :
    ((self.loop CLOCKCOMMANDS w now sw1 sw2).2.1.m_state = State_t.SW1_IN_PROGRESS ↔
      (sw1 = true ∧ 2000 ≤ msecSince now self.m_lastButtonMsec)) ∧
    (sw1 = true → msecSince now self.m_lastButtonMsec = 2000 →
      (self.loop CLOCKCOMMANDS w now sw1 sw2).1 = true ∧
      (self.loop CLOCKCOMMANDS w now sw1 sw2).2.1.m_state = State_t.SW1_IN_PROGRESS ∧
      (self.loop CLOCKCOMMANDS w now sw1 sw2).2.1.m_curParam = 0 ∧
      (self.loop CLOCKCOMMANDS w now sw1 sw2).2.1.m_curOption = NO_OPTION) ∧
    (msecSince now self.m_lastButtonMsec = 1999 →
      (self.loop CLOCKCOMMANDS w now sw1 sw2).2.1.m_state ≠ State_t.SW1_IN_PROGRESS ∧
      (sw1 = true →
        (self.loop CLOCKCOMMANDS w now sw1 sw2).2.1.m_state = State_t.HOLD_SW1_FOR_START)) ∧
    (self.m_lastButtonMsec ≤ now → now < 4294967296 → now - self.m_lastButtonMsec < 2147483648 →
      msecSince now self.m_lastButtonMsec = ((now - self.m_lastButtonMsec : Nat) : Int)) ∧
    (∀ (idle : ClockSettings) (w0 : SettingsWorld) (t0 : Nat) (b2 : Bool),
      idle.m_state = State_t.IDLE →
      (idle.loop CLOCKCOMMANDS w0 t0 true b2).2.1.m_state = State_t.HOLD_SW1_FOR_START ∧
      (idle.loop CLOCKCOMMANDS w0 t0 true b2).2.1.m_lastButtonMsec = t0) := by
  have hL := loop_hold_sw1 CLOCKCOMMANDS self w now sw1 sw2 hst
  simp only [PRESS_HOLD_MESSAGE_MSEC, PRESS_HOLD_MSEC, ge_iff_le] at hL
  refine ⟨?_, ?_, ?_, msecSince_of_le now self.m_lastButtonMsec, ?_⟩
  · rw [hL]
    by_cases h1 : ¬ sw1 = true ∧ 500 ≤ msecSince now self.m_lastButtonMsec
    · rw [if_pos h1]
      constructor
      · intro h; cases h
      · rintro ⟨h2, _⟩; exact absurd h2 h1.1
    · rw [if_neg h1]
      by_cases h2 : 2000 ≤ msecSince now self.m_lastButtonMsec
      · rw [if_pos h2]
        constructor
        · intro _
          refine ⟨?_, h2⟩
          by_contra hc
          exact h1 ⟨hc, by omega⟩
        · intro _; rfl
      · rw [if_neg h2]
        constructor
        · intro h
          rw [show ({ self with m_prevSw1 := sw1, m_prevSw2 := sw2 } : ClockSettings).m_state
            = self.m_state from rfl, hst] at h
          cases h
        · rintro ⟨_, h⟩; exact absurd h h2
  · intro h1 h2
    rw [hL, h2, if_neg (by simp [h1]), if_pos (by decide)]
    exact ⟨rfl, rfl, rfl, rfl⟩
  · intro h
    rw [hL, h]
    refine ⟨?_, ?_⟩
    · by_cases h1 : ¬ sw1 = true ∧ (500 : Int) ≤ 1999
      · rw [if_pos h1]; intro hc; cases hc
      · rw [if_neg h1, if_neg (by decide)]
        intro hc
        rw [show ({ self with m_prevSw1 := sw1, m_prevSw2 := sw2 } : ClockSettings).m_state
          = self.m_state from rfl, hst] at hc
        cases hc
    · intro h1
      rw [if_neg (by simp [h1]), if_neg (by decide)]
      exact hst
  · intro idle w0 t0 b2 hi
    simp only [ClockSettings.loop, hi]
    exact ⟨rfl, rfl⟩

/-- C16 for the state entered at millisecond 1000 with button 1 held: the
tick at 3000 enters the menu on parameter 0 with no option selected, the tick at
2999 stays in `HOLD_SW1_FOR_START`; and a button-1 press at 1000 from the
constructed (IDLE) object enters `HOLD_SW1_FOR_START` with time stamp 1000. -/
theorem C16_hold_for_menu_threshold_witness :
    ((holdingSw1.loop commandNames quietWorld 3000 true false).2.1.m_state
        = State_t.SW1_IN_PROGRESS ∧
      (holdingSw1.loop commandNames quietWorld 3000 true false).2.1.m_curParam = 0 ∧
      (holdingSw1.loop commandNames quietWorld 3000 true false).2.1.m_curOption = NO_OPTION) ∧
    (holdingSw1.loop commandNames quietWorld 2999 true false).2.1.m_state
      = State_t.HOLD_SW1_FOR_START ∧
    ((ClockSettings.init.loop commandNames quietWorld 1000 true false).2.1.m_state
        = State_t.HOLD_SW1_FOR_START ∧
      (ClockSettings.init.loop commandNames quietWorld 1000 true false).2.1.m_lastButtonMsec
        = 1000) :=
  have h1 := C16_hold_for_menu_threshold commandNames holdingSw1 quietWorld 3000 true false rfl
  have h2 := C16_hold_for_menu_threshold commandNames holdingSw1 quietWorld 2999 true false rfl
  ⟨(h1.2.1 rfl (by decide)).2, (h2.2.2.1 (by decide)).2 rfl,
    h1.2.2.2.2 ClockSettings.init quietWorld 1000 false rfl⟩

/-! ## C17: the debounce gate -/

/-- The result of `processSw1Buttons` on an accepted button-1 click. -/
theorem processSw1_accept (CLOCKCOMMANDS : Nat → String) (self : ClockSettings)
    (w : SettingsWorld) (now : Nat) (sw2 : Bool)
    (hp : self.m_prevSw1 = false) (hd : 110 < msecSince now self.m_lastButtonMsec) :
    self.processSw1Buttons CLOCKCOMMANDS w now true sw2 =
      (({ self with
          m_curParam := if ((self.m_curParam + 1) % 256 : Nat) ≥ (11 : Int) then 0
            else (self.m_curParam + 1) % 256,
          m_curOption := NO_OPTION } : ClockSettings),
        ClockSettings.displayCurrentSw1
          { self with
            m_curParam := if ((self.m_curParam + 1) % 256 : Nat) ≥ (11 : Int) then 0
              else (self.m_curParam + 1) % 256,
            m_curOption := NO_OPTION }
          (if self.m_curOption ≠ NO_OPTION then
            callApplyFcn CLOCKCOMMANDS w self.m_curParam self.m_curOption
          else w)) := by
  have hN : NUM_SETUP_PARAMETERS = 11 := rfl
  have hd' : msecSince now self.m_lastButtonMsec > DEBOUNCE_MSEC := hd
  simp only [ClockSettings.processSw1Buttons, hN, hp, hd', Bool.false_eq_true,
    not_false_eq_true, and_self, if_true]
  split_ifs <;> rfl

/-- The result of `processSw1Buttons` when the debounce gate is closed. -/
theorem processSw1_gate_closed (CLOCKCOMMANDS : Nat → String) (self : ClockSettings)
    (w : SettingsWorld) (now : Nat) (sw1 sw2 : Bool)
    (hd : msecSince now self.m_lastButtonMsec ≤ 110) :
    self.processSw1Buttons CLOCKCOMMANDS w now sw1 sw2 = (self, w) := by
  have h1 : ¬ (sw1 = true ∧ ¬ self.m_prevSw1 = true ∧
      msecSince now self.m_lastButtonMsec > DEBOUNCE_MSEC) := by
    rintro ⟨_, _, h⟩; simp only [DEBOUNCE_MSEC] at h; omega
  have h2 : ¬ (sw2 = true ∧ ¬ self.m_prevSw2 = true ∧
      msecSince now self.m_lastButtonMsec > DEBOUNCE_MSEC) := by
    rintro ⟨_, _, h⟩; simp only [DEBOUNCE_MSEC] at h; omega
  simp only [ClockSettings.processSw1Buttons, if_neg h1, if_neg h2]

/-- The menu tick of `loop`, in terms of `processSw1Buttons`. -/
theorem loop_menu (CLOCKCOMMANDS : Nat → String) (self : ClockSettings)
    (w : SettingsWorld) (now : Nat) (sw1 sw2 : Bool)
    (hst : self.m_state = State_t.SW1_IN_PROGRESS) :
    self.loop CLOCKCOMMANDS w now sw1 sw2 =
      if sw1 ∨ sw2 then
        if (sw1 ^^ self.m_prevSw1) ∨ (sw2 ^^ self.m_prevSw2) then
          (true,
            { (self.processSw1Buttons CLOCKCOMMANDS w now sw1 sw2).1 with
              m_lastButtonMsec := now, m_prevSw1 := sw1, m_prevSw2 := sw2 },
            (self.processSw1Buttons CLOCKCOMMANDS w now sw1 sw2).2)
        else
          (true,
            { (self.processSw1Buttons CLOCKCOMMANDS w now sw1 sw2).1 with
              m_prevSw1 := sw1, m_prevSw2 := sw2 },
            (self.processSw1Buttons CLOCKCOMMANDS w now sw1 sw2).2)
      else if msecSince now self.m_lastButtonMsec ≥ SETUP_TIMEOUT_MSEC then
        (false,
          { (self.processSw1Buttons CLOCKCOMMANDS w now sw1 sw2).1 with
            m_state := .IDLE, m_prevSw1 := sw1, m_prevSw2 := sw2 },
          { (if (self.processSw1Buttons CLOCKCOMMANDS w now sw1 sw2).1.m_haveSetTime then
              { (self.processSw1Buttons CLOCKCOMMANDS w now sw1 sw2).2 with
                rtc := (self.processSw1Buttons CLOCKCOMMANDS w now sw1 sw2).2.rtc ++
                  [(self.processSw1Buttons CLOCKCOMMANDS w now sw1 sw2).2.sysTime] }
            else (self.processSw1Buttons CLOCKCOMMANDS w now sw1 sw2).2) with
            lcd := (self.processSw1Buttons CLOCKCOMMANDS w now sw1 sw2).2.lcd ++ [LcdOp.clear] })
      else
        (true,
          { (self.processSw1Buttons CLOCKCOMMANDS w now sw1 sw2).1 with
            m_prevSw1 := sw1, m_prevSw2 := sw2 },
          (self.processSw1Buttons CLOCKCOMMANDS w now sw1 sw2).2) := by
  have hprev : ∀ s : ClockSettings × SettingsWorld,
      s = self.processSw1Buttons CLOCKCOMMANDS w now sw1 sw2 →
      s.1.m_prevSw1 = self.m_prevSw1 ∧ s.1.m_prevSw2 = self.m_prevSw2 := by
    intro s hs
    subst hs
    unfold ClockSettings.processSw1Buttons
    dsimp only
    split_ifs <;> exact ⟨rfl, rfl⟩
  obtain ⟨hp1, hp2⟩ := hprev _ rfl
  simp only [ClockSettings.loop, hst, if_true, hp1, hp2]
  split_ifs <;> rfl

/-- With neither button pressed `processSw1Buttons` does nothing. -/
theorem processSw1_released (CLOCKCOMMANDS : Nat → String) (self : ClockSettings)
    (w : SettingsWorld) (now : Nat) :
    self.processSw1Buttons CLOCKCOMMANDS w now false false = (self, w) := by
  simp only [ClockSettings.processSw1Buttons, Bool.false_eq_true, false_and, if_false]

/-- With button 2 released `processSw1Buttons` keeps the state and the time
stamp. -/
theorem processSw1_keeps_state (CLOCKCOMMANDS : Nat → String) (self : ClockSettings)
    (w : SettingsWorld) (now : Nat) (sw1 : Bool) :
    (self.processSw1Buttons CLOCKCOMMANDS w now sw1 false).1.m_state = self.m_state ∧
    (self.processSw1Buttons CLOCKCOMMANDS w now sw1 false).1.m_lastButtonMsec
      = self.m_lastButtonMsec := by
  simp only [ClockSettings.processSw1Buttons, Bool.false_eq_true, false_and, if_false]
  split_ifs <;> exact ⟨rfl, rfl⟩

/-- The menu tick on a button-1 rising edge: the time stamp is renewed. -/
theorem loop_menu_press (CLOCKCOMMANDS : Nat → String) (self : ClockSettings)
    (w : SettingsWorld) (now : Nat) (b : Bool)
    (hst : self.m_state = State_t.SW1_IN_PROGRESS) (hprev : self.m_prevSw1 = false) :
    self.loop CLOCKCOMMANDS w now true b =
      (true,
        { (self.processSw1Buttons CLOCKCOMMANDS w now true b).1 with
          m_lastButtonMsec := now, m_prevSw1 := true, m_prevSw2 := b },
        (self.processSw1Buttons CLOCKCOMMANDS w now true b).2) := by
  have hedge : (true ^^ self.m_prevSw1) = true := by rw [hprev]; rfl
  rw [loop_menu CLOCKCOMMANDS self w now true b hst, if_pos (Or.inl rfl),
    if_pos (Or.inl hedge)]

theorem displayCurrentSw1_frame (s : ClockSettings) (w : SettingsWorld) :
    (s.displayCurrentSw1 w).applied = w.applied ∧ (s.displayCurrentSw1 w).routed = w.routed ∧
    (s.displayCurrentSw1 w).sysTime = w.sysTime ∧ (s.displayCurrentSw1 w).rtc = w.rtc :=
  ⟨rfl, rfl, rfl, rfl⟩

theorem brightApply_applied (CLOCKCOMMANDS : Nat → String) (w : SettingsWorld) (o : Nat) :
    (brightApply CLOCKCOMMANDS w o).applied = w.applied := by
  unfold brightApply
  split_ifs <;> rfl

theorem applySw1_applied (CLOCKCOMMANDS : Nat → String) (w : SettingsWorld) (p o : Nat) :
    (applySw1 CLOCKCOMMANDS w p o).applied = w.applied := by
  unfold applySw1
  dsimp only
  split_ifs <;> rfl

theorem callApplyFcn_applied (CLOCKCOMMANDS : Nat → String) (w : SettingsWorld) (p o : Nat) :
    (callApplyFcn CLOCKCOMMANDS w p o).applied = w.applied ++ [(p, o)] := by
  unfold callApplyFcn
  dsimp only
  split
  · rw [applySw1_applied]
  · rfl
  · rw [brightApply_applied]
  · rfl
  · rfl

/-- C17, as stated, fails: in the menu with `DST` / `Summer` selected and the
last button event at millisecond 5000, a button-1 rising edge at 5110, when 110
ms have elapsed, is not accepted (nothing applied, cursor unchanged); the same
edge at 5111 is accepted. -/
theorem C17_counterexample :
    msecSince 5110 menuOnDst.m_lastButtonMsec = 110 ∧
    menuOnDst.m_prevSw1 = false ∧
    (menuOnDst.loop commandNames quietWorld 5110 true false).2.1.m_curParam = 1 ∧
    (menuOnDst.loop commandNames quietWorld 5110 true false).2.1.m_curOption = 1 ∧
    (menuOnDst.loop commandNames quietWorld 5110 true false).2.2.applied = [] ∧
    (menuOnDst.loop commandNames quietWorld 5111 true false).2.1.m_curParam = 2 ∧
    (menuOnDst.loop commandNames quietWorld 5111 true false).2.2.applied = [(1, 1)] := by
  decide

/-- C17, amended: in the menu, a button-1 rising edge is accepted exactly when
more than 110 ms (in the code's signed reading of `now - m_lastButtonMsec`)
have passed since the last recorded button event: then the selected option, if
any, is applied and the cursor moves on; with 110 ms or less nothing is applied,
no command is routed and the cursor stays. Hence of two button-1 presses no more
than 110 ms apart, with a release in between, the second is not accepted. -/
theorem C17_debounce_gate (CLOCKCOMMANDS : Nat → String) (self : ClockSettings)
    (w : SettingsWorld) (now : Nat) (sw2 : Bool)
    (hst : self.m_state = State_t.SW1_IN_PROGRESS) (hprev : self.m_prevSw1 = false) :
    (110 < msecSince now self.m_lastButtonMsec →
      (self.loop CLOCKCOMMANDS w now true sw2).2.1.m_curOption = NO_OPTION ∧
      (self.loop CLOCKCOMMANDS w now true sw2).2.1.m_curParam =
        (if ((self.m_curParam + 1) % 256 : Nat) ≥ (11 : Int) then 0
          else (self.m_curParam + 1) % 256) ∧
      (self.loop CLOCKCOMMANDS w now true sw2).2.2.applied = w.applied ++
        (if self.m_curOption ≠ NO_OPTION then [(self.m_curParam, self.m_curOption)] else [])) ∧
    (msecSince now self.m_lastButtonMsec ≤ 110 →
      (self.loop CLOCKCOMMANDS w now true sw2).2.1.m_curParam = self.m_curParam ∧
      (self.loop CLOCKCOMMANDS w now true sw2).2.1.m_curOption = self.m_curOption ∧
      (self.loop CLOCKCOMMANDS w now true sw2).2.1.m_state = State_t.SW1_IN_PROGRESS ∧
      (self.loop CLOCKCOMMANDS w now true sw2).2.2 = w) ∧
    (self.m_curParam < 256 →
      ((self.loop CLOCKCOMMANDS w now true sw2).2.1.m_curParam ≠ self.m_curParam ↔
        110 < msecSince now self.m_lastButtonMsec)) ∧
    (∀ (tRelease tSecond : Nat) (b2 : Bool),
      msecSince tRelease now < 15000 → msecSince tSecond now ≤ 110 →
      ((((self.loop CLOCKCOMMANDS w now true false).2.1.loop CLOCKCOMMANDS
          (self.loop CLOCKCOMMANDS w now true false).2.2 tRelease false false).2.1.loop
        CLOCKCOMMANDS
        ((self.loop CLOCKCOMMANDS w now true false).2.1.loop CLOCKCOMMANDS
          (self.loop CLOCKCOMMANDS w now true false).2.2 tRelease false false).2.2
        tSecond true b2).2.1.m_curParam
          = (self.loop CLOCKCOMMANDS w now true false).2.1.m_curParam) ∧
      ((((self.loop CLOCKCOMMANDS w now true false).2.1.loop CLOCKCOMMANDS
          (self.loop CLOCKCOMMANDS w now true false).2.2 tRelease false false).2.1.loop
        CLOCKCOMMANDS
        ((self.loop CLOCKCOMMANDS w now true false).2.1.loop CLOCKCOMMANDS
          (self.loop CLOCKCOMMANDS w now true false).2.2 tRelease false false).2.2
        tSecond true b2).2.1.m_curOption
          = (self.loop CLOCKCOMMANDS w now true false).2.1.m_curOption) ∧
      ((((self.loop CLOCKCOMMANDS w now true false).2.1.loop CLOCKCOMMANDS
          (self.loop CLOCKCOMMANDS w now true false).2.2 tRelease false false).2.1.loop
        CLOCKCOMMANDS
        ((self.loop CLOCKCOMMANDS w now true false).2.1.loop CLOCKCOMMANDS
          (self.loop CLOCKCOMMANDS w now true false).2.2 tRelease false false).2.2
        tSecond true b2).2.2
          = (self.loop CLOCKCOMMANDS w now true false).2.2)) := by
  have hL : ∀ b : Bool, self.loop CLOCKCOMMANDS w now true b =
      (true,
        { (self.processSw1Buttons CLOCKCOMMANDS w now true b).1 with
          m_lastButtonMsec := now, m_prevSw1 := true, m_prevSw2 := b },
        (self.processSw1Buttons CLOCKCOMMANDS w now true b).2) :=
    fun b => loop_menu_press CLOCKCOMMANDS self w now b hst hprev
  refine ⟨?_, ?_, ?_, ?_⟩
  · intro hd
    rw [hL sw2, processSw1_accept CLOCKCOMMANDS self w now sw2 hprev hd]
    refine ⟨rfl, rfl, ?_⟩
    rw [(displayCurrentSw1_frame _ _).1]
    split_ifs
    · exact callApplyFcn_applied CLOCKCOMMANDS w _ _
    · simp
  · intro hd
    rw [hL sw2, processSw1_gate_closed CLOCKCOMMANDS self w now true sw2 hd]
    exact ⟨rfl, rfl, hst, rfl⟩
  · intro hp
    by_cases hd : 110 < msecSince now self.m_lastButtonMsec
    · rw [hL sw2, processSw1_accept CLOCKCOMMANDS self w now sw2 hprev hd]
      simp only [hd, iff_true]
      show (if ((self.m_curParam + 1) % 256 : Nat) ≥ (11 : Int) then 0
          else (self.m_curParam + 1) % 256) ≠ self.m_curParam
      split_ifs with h <;> omega
    · rw [hL sw2, processSw1_gate_closed CLOCKCOMMANDS self w now true sw2 (by omega)]
      simp only [hd, iff_false, ne_eq, not_not]
  · intro tRelease tSecond b2 hrel hsec
    have hk := processSw1_keeps_state CLOCKCOMMANDS self w now true
    have h1st : (self.loop CLOCKCOMMANDS w now true false).2.1.m_state
        = State_t.SW1_IN_PROGRESS := by
      rw [hL false]; exact hk.1.trans hst
    have h1last : (self.loop CLOCKCOMMANDS w now true false).2.1.m_lastButtonMsec = now := by
      rw [hL false]
    generalize (self.loop CLOCKCOMMANDS w now true false).2.1 = s1 at *
    generalize (self.loop CLOCKCOMMANDS w now true false).2.2 = w1 at *
    have h2 : s1.loop CLOCKCOMMANDS w1 tRelease false false =
        (true, { s1 with m_prevSw1 := false, m_prevSw2 := false }, w1) := by
      rw [loop_menu CLOCKCOMMANDS s1 w1 tRelease false false h1st,
        if_neg (by simp), if_neg (by rw [h1last]; simp only [SETUP_TIMEOUT_MSEC]; omega),
        processSw1_released]
    rw [h2]
    have h3 : ({ s1 with m_prevSw1 := false, m_prevSw2 := false } : ClockSettings).loop
        CLOCKCOMMANDS w1 tSecond true b2 =
        (true,
          { s1 with m_lastButtonMsec := tSecond, m_prevSw1 := true, m_prevSw2 := b2 }, w1) := by
      rw [loop_menu_press CLOCKCOMMANDS
          ({ s1 with m_prevSw1 := false, m_prevSw2 := false } : ClockSettings)
          w1 tSecond b2 h1st rfl,
        processSw1_gate_closed CLOCKCOMMANDS
          ({ s1 with m_prevSw1 := false, m_prevSw2 := false } : ClockSettings)
          w1 tSecond true b2 (by rw [← h1last] at hsec; exact hsec)]
    rw [h3]
    exact ⟨rfl, rfl, rfl⟩

/-- C17 amended, in the menu with `DST` / `Summer` selected and the last button
event at millisecond 5000: a button-1 edge at 5111 applies (1, 1) and moves
the cursor to parameter 2 with no option; an edge at 5110 changes nothing. -/
theorem C17_debounce_gate_witness :
    ((menuOnDst.loop commandNames quietWorld 5111 true false).2.1.m_curOption = NO_OPTION ∧
      (menuOnDst.loop commandNames quietWorld 5111 true false).2.1.m_curParam = 2 ∧
      (menuOnDst.loop commandNames quietWorld 5111 true false).2.2.applied = [(1, 1)]) ∧
    ((menuOnDst.loop commandNames quietWorld 5110 true false).2.1.m_curParam = 1 ∧
      (menuOnDst.loop commandNames quietWorld 5110 true false).2.1.m_curOption = 1 ∧
      (menuOnDst.loop commandNames quietWorld 5110 true false).2.1.m_state
        = State_t.SW1_IN_PROGRESS ∧
      (menuOnDst.loop commandNames quietWorld 5110 true false).2.2 = quietWorld) :=
  have h1 := C17_debounce_gate commandNames menuOnDst quietWorld 5111 false rfl rfl
  have h2 := C17_debounce_gate commandNames menuOnDst quietWorld 5110 false rfl rfl
  ⟨h1.1 (by decide), h2.2.1 (by decide)⟩

/-! ## C18: leaving the menu from EXIT -/

/-- The result of `processSw1Buttons` on an accepted button-2 click. -/
theorem processSw1_accept_sw2 (CLOCKCOMMANDS : Nat → String) (self : ClockSettings)
    (w : SettingsWorld) (now : Nat) (sw1 : Bool)
    (hb1 : ¬ (sw1 = true ∧ self.m_prevSw1 = false))
    (hp2 : self.m_prevSw2 = false) (hd : 110 < msecSince now self.m_lastButtonMsec) :
    self.processSw1Buttons CLOCKCOMMANDS w now sw1 true =
      if self.m_curParam = 10 then
        ({ self with m_state := .WAIT_FOR_SW_RELEASE }, w)
      else
        (({ self with
            m_curOption := optionStep (setupParameterAt self.m_curParam).NumOptions
              self.m_curOption } : ClockSettings),
          ClockSettings.displayCurrentSw1
            { self with
              m_curOption := optionStep (setupParameterAt self.m_curParam).NumOptions
                self.m_curOption } w) := by
  have hN : NUM_SETUP_PARAMETERS = 11 := rfl
  have hd' : msecSince now self.m_lastButtonMsec > DEBOUNCE_MSEC := hd
  have h1 : ¬ (sw1 = true ∧ ¬ self.m_prevSw1 = true ∧
      msecSince now self.m_lastButtonMsec > DEBOUNCE_MSEC) := by
    rintro ⟨a, b, _⟩
    exact hb1 ⟨a, by simpa using b⟩
  have h2 : (true = true ∧ ¬ self.m_prevSw2 = true ∧
      msecSince now self.m_lastButtonMsec > DEBOUNCE_MSEC) := ⟨rfl, by simp [hp2], hd'⟩
  unfold ClockSettings.processSw1Buttons
  dsimp only
  rw [if_neg h1, if_pos h2, hN]
  by_cases hp : self.m_curParam = 10
  · rw [if_pos hp, if_pos (by rw [hp]; rfl)]
  · rw [if_neg hp, if_neg (by omega)]
    unfold optionStep
    split_ifs <;> rfl

/-- C18: in the menu with the cursor on the last table entry (index 10, the
`EXIT` parameter), an accepted button-2 click moves the machine to
`WAIT_FOR_SW_RELEASE`, leaves the option index as it was (so `NO_OPTION` stays
`NO_OPTION`, which is not option 0), leaves the cursor on `EXIT`, and touches
nothing outside: no apply call, no routed command, no LCD write. -/
theorem C18_exit_via_button2 (CLOCKCOMMANDS : Nat → String) (self : ClockSettings)
    (w : SettingsWorld) (now : Nat) (sw1 : Bool)
    (hst : self.m_state = State_t.SW1_IN_PROGRESS) (hexit : self.m_curParam = 10)
    (hb1 : ¬ (sw1 = true ∧ self.m_prevSw1 = false))
    (hp2 : self.m_prevSw2 = false) (hd : 110 < msecSince now self.m_lastButtonMsec) :
    (setupParameters.length = 11 ∧ setupParameterAt 10 = last.p ∧ last.p.ParamName = "EXIT") ∧
    (self.loop CLOCKCOMMANDS w now sw1 true).1 = true ∧
    (self.loop CLOCKCOMMANDS w now sw1 true).2.1.m_state = State_t.WAIT_FOR_SW_RELEASE ∧
    (self.loop CLOCKCOMMANDS w now sw1 true).2.1.m_curOption = self.m_curOption ∧
    (self.m_curOption = NO_OPTION →
      (self.loop CLOCKCOMMANDS w now sw1 true).2.1.m_curOption = NO_OPTION ∧
      (self.loop CLOCKCOMMANDS w now sw1 true).2.1.m_curOption ≠ 0) ∧
    (self.loop CLOCKCOMMANDS w now sw1 true).2.1.m_curParam = 10 ∧
    (self.loop CLOCKCOMMANDS w now sw1 true).2.2 = w := by
  have hedge : (true ^^ self.m_prevSw2) = true := by rw [hp2]; rfl
  have hL : self.loop CLOCKCOMMANDS w now sw1 true =
      (true,
        { self with
          m_state := .WAIT_FOR_SW_RELEASE, m_lastButtonMsec := now, m_prevSw1 := sw1,
          m_prevSw2 := true }, w) := by
    rw [loop_menu CLOCKCOMMANDS self w now sw1 true hst, if_pos (Or.inr rfl),
      if_pos (Or.inr hedge),
      processSw1_accept_sw2 CLOCKCOMMANDS self w now sw1 hb1 hp2 hd, if_pos hexit]
  rw [hL]
  refine ⟨⟨rfl, rfl, rfl⟩, rfl, rfl, rfl, ?_, hexit, rfl⟩
  intro h
  refine ⟨h, ?_⟩
  show self.m_curOption ≠ 0
  rw [h]; decide

/-- C18 on the `EXIT` entry with no option selected, last button event at
millisecond 5000: a button-2 press at 5200 gives `WAIT_FOR_SW_RELEASE` with the
option index still `0xff`. -/
theorem C18_exit_via_button2_witness :
    (menuOnExit.loop commandNames quietWorld 5200 false true).2.1.m_state
      = State_t.WAIT_FOR_SW_RELEASE ∧
    (menuOnExit.loop commandNames quietWorld 5200 false true).2.1.m_curOption = 0xff ∧
    (menuOnExit.loop commandNames quietWorld 5200 false true).2.2 = quietWorld :=
  have h := C18_exit_via_button2 commandNames menuOnExit quietWorld 5200 false rfl rfl
    (by decide) rfl (by decide)
  ⟨h.2.2.1, h.2.2.2.1, h.2.2.2.2.2.2⟩

/-! ## C19: button 1 commits and advances -/

/-- Every table entry before `EXIT` has between 1 and 7 options. -/
theorem numOptions_bounds : ∀ p : Nat, p < 10 →
    1 ≤ (setupParameterAt p).NumOptions ∧ (setupParameterAt p).NumOptions ≤ 7 := by
  decide

set_option maxRecDepth 100000 in
/-- On every table entry before `EXIT`, `n + 1` option steps return to the
option they started from, for each option of the cycle. -/
theorem optionStep_cycle : ∀ p : Nat, p < 10 → ∀ o : Nat, o < 256 →
    (o = NO_OPTION ∨ (o : Int) < (setupParameterAt p).NumOptions) →
    (optionStep (setupParameterAt p).NumOptions)^[(setupParameterAt p).NumOptions.toNat + 1] o
      = o := by
  decide

/-- The menu tick of `loop` on an accepted button-2 click away from `EXIT`. -/
theorem loop_menu_click_sw2 (CLOCKCOMMANDS : Nat → String) (self : ClockSettings)
    (w : SettingsWorld) (now : Nat) (sw1 : Bool)
    (hst : self.m_state = State_t.SW1_IN_PROGRESS) (hp : self.m_curParam < 10)
    (hb1 : ¬ (sw1 = true ∧ self.m_prevSw1 = false))
    (hp2 : self.m_prevSw2 = false) (hd : 110 < msecSince now self.m_lastButtonMsec) :
    self.loop CLOCKCOMMANDS w now sw1 true =
      (true,
        { self with
          m_curOption := optionStep (setupParameterAt self.m_curParam).NumOptions
            self.m_curOption,
          m_lastButtonMsec := now, m_prevSw1 := sw1, m_prevSw2 := true },
        ClockSettings.displayCurrentSw1
          { self with
            m_curOption := optionStep (setupParameterAt self.m_curParam).NumOptions
              self.m_curOption } w) := by
  have hedge : (true ^^ self.m_prevSw2) = true := by rw [hp2]; rfl
  rw [loop_menu CLOCKCOMMANDS self w now sw1 true hst, if_pos (Or.inr rfl),
    if_pos (Or.inr hedge),
    processSw1_accept_sw2 CLOCKCOMMANDS self w now sw1 hb1 hp2 hd, if_neg (by omega)]

/-- One timed button-2 click in the menu away from `EXIT`: the option index
makes one step, the cursor stays, the machine stays in the menu with button 2
released and the press as the last button event, and nothing is applied. -/
theorem clickSw2_step (CLOCKCOMMANDS : Nat → String) (s : ClockSettings)
    (w : SettingsWorld) (t : Nat × Nat)
    (hst : s.m_state = State_t.SW1_IN_PROGRESS) (hp : s.m_curParam < 10)
    (hp2 : s.m_prevSw2 = false) (h1 : 110 < msecSince t.1 s.m_lastButtonMsec)
    (h2 : msecSince t.2 t.1 < 15000) :
    (clickSw2 CLOCKCOMMANDS (s, w) t).1.m_state = State_t.SW1_IN_PROGRESS ∧
    (clickSw2 CLOCKCOMMANDS (s, w) t).1.m_curParam = s.m_curParam ∧
    (clickSw2 CLOCKCOMMANDS (s, w) t).1.m_prevSw2 = false ∧
    (clickSw2 CLOCKCOMMANDS (s, w) t).1.m_lastButtonMsec = t.1 ∧
    (clickSw2 CLOCKCOMMANDS (s, w) t).1.m_curOption
      = optionStep (setupParameterAt s.m_curParam).NumOptions s.m_curOption ∧
    (clickSw2 CLOCKCOMMANDS (s, w) t).2.applied = w.applied ∧
    (clickSw2 CLOCKCOMMANDS (s, w) t).2.routed = w.routed := by
  have hb1 : ¬ ((false : Bool) = true ∧ s.m_prevSw1 = false) := by
    rintro ⟨h, _⟩; exact Bool.noConfusion h
  have hto : ¬ (msecSince t.2 t.1 ≥ SETUP_TIMEOUT_MSEC) := by
    simp only [SETUP_TIMEOUT_MSEC]; omega
  have hno : ¬ ((false : Bool) = true ∨ (false : Bool) = true) := by
    rintro (h | h) <;> exact Bool.noConfusion h
  unfold clickSw2
  dsimp only
  rw [loop_menu_click_sw2 CLOCKCOMMANDS s w t.1 false hst hp hb1 hp2 h1]
  dsimp only
  rw [loop_menu CLOCKCOMMANDS
    ({ s with
      m_curOption := optionStep (setupParameterAt s.m_curParam).NumOptions s.m_curOption,
      m_lastButtonMsec := t.1, m_prevSw1 := false, m_prevSw2 := true } : ClockSettings)
    _ t.2 false false hst, if_neg hno, if_neg hto, processSw1_released]
  exact ⟨hst, rfl, rfl, rfl, rfl, rfl, rfl⟩

/-- A run of timed button-2 clicks in the menu away from `EXIT` steps the option
index once per click and changes nothing else of the cursor. -/
theorem clicks_fold (CLOCKCOMMANDS : Nat → String) :
    ∀ (clicks : List (Nat × Nat)) (s : ClockSettings) (w : SettingsWorld),
      s.m_state = State_t.SW1_IN_PROGRESS → s.m_curParam < 10 → s.m_prevSw2 = false →
      clicksTimed s.m_lastButtonMsec clicks →
      (clicks.foldl (clickSw2 CLOCKCOMMANDS) (s, w)).1.m_state = State_t.SW1_IN_PROGRESS ∧
      (clicks.foldl (clickSw2 CLOCKCOMMANDS) (s, w)).1.m_curParam = s.m_curParam ∧
      (clicks.foldl (clickSw2 CLOCKCOMMANDS) (s, w)).1.m_curOption
        = (optionStep (setupParameterAt s.m_curParam).NumOptions)^[clicks.length]
            s.m_curOption ∧
      (clicks.foldl (clickSw2 CLOCKCOMMANDS) (s, w)).2.applied = w.applied ∧
      (clicks.foldl (clickSw2 CLOCKCOMMANDS) (s, w)).2.routed = w.routed := by
  intro clicks
  induction clicks with
  | nil => intro s w hst _ _ _; exact ⟨hst, rfl, rfl, rfl, rfl⟩
  | cons t rest ih =>
    intro s w hst hp hp2 ht
    obtain ⟨h1, h2, hrest⟩ := ht
    obtain ⟨a, b, c, d, e, f, g⟩ := clickSw2_step CLOCKCOMMANDS s w t hst hp hp2 h1 h2
    have := ih (clickSw2 CLOCKCOMMANDS (s, w) t).1 (clickSw2 CLOCKCOMMANDS (s, w) t).2
      a (by rw [b]; exact hp) c (by rw [d]; exact hrest)
    rw [List.foldl_cons, List.length_cons, Function.iterate_succ, Function.comp_apply]
    rw [b, e, f, g] at this
    exact this

/-- C20: in the menu with the cursor on a table entry before `EXIT` that has `n`
options, an accepted button-2 click replaces the option index by its successor
on the cycle none, 0, 1, ..., n-1, none (`0xff` wraps to 0 in the 8-bit
increment; after the last option comes `NO_OPTION`), keeps the parameter index
and the menu state, and applies nothing; `n + 1` timed clicks in a row, started
from an option of the cycle, end on the option they started from. -/
theorem C20_option_cycle (CLOCKCOMMANDS : Nat → String) (self : ClockSettings)
    (w : SettingsWorld)
    (hst : self.m_state = State_t.SW1_IN_PROGRESS) (hp : self.m_curParam < 10)
    (hp2 : self.m_prevSw2 = false) :
    (∀ (now : Nat) (sw1 : Bool), ¬ (sw1 = true ∧ self.m_prevSw1 = false) →
      110 < msecSince now self.m_lastButtonMsec →
      (self.loop CLOCKCOMMANDS w now sw1 true).2.1.m_curOption
        = optionStep (setupParameterAt self.m_curParam).NumOptions self.m_curOption ∧
      (self.loop CLOCKCOMMANDS w now sw1 true).2.1.m_curParam = self.m_curParam ∧
      (self.loop CLOCKCOMMANDS w now sw1 true).2.1.m_state = State_t.SW1_IN_PROGRESS ∧
      (self.loop CLOCKCOMMANDS w now sw1 true).2.2.applied = w.applied ∧
      (self.loop CLOCKCOMMANDS w now sw1 true).2.2.routed = w.routed) ∧
    (NO_OPTION = 0xff ∧
      optionStep (setupParameterAt self.m_curParam).NumOptions NO_OPTION = 0 ∧
      (∀ k : Nat, ((k : Int) + 1 < (setupParameterAt self.m_curParam).NumOptions →
        optionStep (setupParameterAt self.m_curParam).NumOptions k = k + 1) ∧
        ((k : Int) + 1 = (setupParameterAt self.m_curParam).NumOptions →
        optionStep (setupParameterAt self.m_curParam).NumOptions k = NO_OPTION))) ∧
    (∀ clicks : List (Nat × Nat),
      clicksTimed self.m_lastButtonMsec clicks →
      (clicks.length : Int) = (setupParameterAt self.m_curParam).NumOptions + 1 →
      (self.m_curOption = NO_OPTION ∨
        (self.m_curOption : Int) < (setupParameterAt self.m_curParam).NumOptions) →
      (clicks.foldl (clickSw2 CLOCKCOMMANDS) (self, w)).1.m_curOption = self.m_curOption ∧
      (clicks.foldl (clickSw2 CLOCKCOMMANDS) (self, w)).1.m_curParam = self.m_curParam ∧
      (clicks.foldl (clickSw2 CLOCKCOMMANDS) (self, w)).1.m_state
        = State_t.SW1_IN_PROGRESS ∧
      (clicks.foldl (clickSw2 CLOCKCOMMANDS) (self, w)).2.applied = w.applied) := by
  obtain ⟨hn1, hn7⟩ := numOptions_bounds self.m_curParam hp
  refine ⟨?_, ⟨rfl, ?_, ?_⟩, ?_⟩
  · intro now sw1 hb1 hd
    rw [loop_menu_click_sw2 CLOCKCOMMANDS self w now sw1 hst hp hb1 hp2 hd]
    exact ⟨rfl, rfl, hst, rfl, rfl⟩
  · unfold optionStep
    rw [if_neg (by simp only [NO_OPTION]; omega)]
    rfl
  · intro k
    constructor
    · intro hk
      unfold optionStep
      have : (k + 1) % 256 = k + 1 := by omega
      rw [this, if_neg (by push_cast; omega)]
    · intro hk
      unfold optionStep
      have : (k + 1) % 256 = k + 1 := by omega
      rw [this, if_pos (by push_cast; omega)]
  · intro clicks ht hlen hcyc
    obtain ⟨a, b, c, d, _⟩ := clicks_fold CLOCKCOMMANDS clicks self w hst hp hp2 ht
    have hl : clicks.length = (setupParameterAt self.m_curParam).NumOptions.toNat + 1 := by
      omega
    have ho : self.m_curOption < 256 := by
      rcases hcyc with h | h
      · rw [h]; decide
      · omega
    refine ⟨?_, b, a, d⟩
    rw [c, hl]
    exact optionStep_cycle self.m_curParam hp self.m_curOption ho hcyc

/-- C20 on `DST` (two options) with `Summer` (option 1) selected and the last
button event at millisecond 5000: one press of button 2 at 5200 gives no
option, and three clicks (5200, 5600, 6000) end on option 1 again. -/
theorem C20_option_cycle_witness :
    (menuOnDst.loop commandNames quietWorld 5200 false true).2.1.m_curOption = NO_OPTION ∧
    ([(5200, 5300), (5600, 5700), (6000, 6100)].foldl (clickSw2 commandNames)
      (menuOnDst, quietWorld)).1.m_curOption = 1 :=
  have h := C20_option_cycle commandNames menuOnDst quietWorld rfl (by decide) rfl
  ⟨(h.1 5200 false (by decide) (by decide)).1,
    (h.2.2 [(5200, 5300), (5600, 5700), (6000, 6100)] (by decide) (by decide)
      (by decide)).1⟩

/-! ## C21: the menu times out -/

/-- The state after `processSw1Buttons` is the state before or
`WAIT_FOR_SW_RELEASE`. -/
theorem processSw1_state (CLOCKCOMMANDS : Nat → String) (self : ClockSettings)
    (w : SettingsWorld) (now : Nat) (sw1 sw2 : Bool) :
    (self.processSw1Buttons CLOCKCOMMANDS w now sw1 sw2).1.m_state = self.m_state ∨
    (self.processSw1Buttons CLOCKCOMMANDS w now sw1 sw2).1.m_state
      = State_t.WAIT_FOR_SW_RELEASE := by
  unfold ClockSettings.processSw1Buttons
  dsimp only
  split_ifs <;> first | exact Or.inl rfl | exact Or.inr rfl

/-- C21: in the menu (`SW1_IN_PROGRESS`), a tick with both buttons released and
at least 15000 ms (the code's signed reading of `now - m_lastButtonMsec`) since
the last recorded button event returns `false` and leaves the machine in IDLE
with no apply call and no routed command, whatever option was selected; with
less than 15000 ms the machine stays in the menu and nothing changes outside;
and a tick with a button pressed returns `true` and does not lead to IDLE. -/
theorem C21_menu_timeout (CLOCKCOMMANDS : Nat → String) (self : ClockSettings)
    (w : SettingsWorld) (now : Nat) (sw1 sw2 : Bool)
    (hst : self.m_state = State_t.SW1_IN_PROGRESS) :
    (sw1 = false → sw2 = false → 15000 ≤ msecSince now self.m_lastButtonMsec →
      (self.loop CLOCKCOMMANDS w now sw1 sw2).1 = false ∧
      (self.loop CLOCKCOMMANDS w now sw1 sw2).2.1.m_state = State_t.IDLE ∧
      (self.loop CLOCKCOMMANDS w now sw1 sw2).2.2.applied = w.applied ∧
      (self.loop CLOCKCOMMANDS w now sw1 sw2).2.2.routed = w.routed ∧
      (self.loop CLOCKCOMMANDS w now sw1 sw2).2.2.sysTime = w.sysTime) ∧
    (sw1 = false → sw2 = false → msecSince now self.m_lastButtonMsec < 15000 →
      (self.loop CLOCKCOMMANDS w now sw1 sw2).1 = true ∧
      (self.loop CLOCKCOMMANDS w now sw1 sw2).2.1.m_state = State_t.SW1_IN_PROGRESS ∧
      (self.loop CLOCKCOMMANDS w now sw1 sw2).2.1.m_curParam = self.m_curParam ∧
      (self.loop CLOCKCOMMANDS w now sw1 sw2).2.1.m_curOption = self.m_curOption ∧
      (self.loop CLOCKCOMMANDS w now sw1 sw2).2.2 = w) ∧
    ((sw1 = true ∨ sw2 = true) →
      (self.loop CLOCKCOMMANDS w now sw1 sw2).1 = true ∧
      (self.loop CLOCKCOMMANDS w now sw1 sw2).2.1.m_state ≠ State_t.IDLE) ∧
    (self.m_lastButtonMsec ≤ now → now < 4294967296 → now - self.m_lastButtonMsec < 2147483648 →
      msecSince now self.m_lastButtonMsec = ((now - self.m_lastButtonMsec : Nat) : Int)) := by
  have hL := loop_menu CLOCKCOMMANDS self w now sw1 sw2 hst
  refine ⟨?_, ?_, ?_, msecSince_of_le now self.m_lastButtonMsec⟩
  · intro h1 h2 hd
    subst h1; subst h2
    have hno : ¬ ((false : Bool) = true ∨ (false : Bool) = true) := by
      rintro (h | h) <;> exact Bool.noConfusion h
    have hto : msecSince now self.m_lastButtonMsec ≥ SETUP_TIMEOUT_MSEC := hd
    rw [hL, if_neg hno, if_pos hto, processSw1_released]
    dsimp only
    refine ⟨rfl, rfl, ?_, ?_, ?_⟩ <;> split_ifs <;> rfl
  · intro h1 h2 hd
    subst h1; subst h2
    have hno : ¬ ((false : Bool) = true ∨ (false : Bool) = true) := by
      rintro (h | h) <;> exact Bool.noConfusion h
    have hto : ¬ msecSince now self.m_lastButtonMsec ≥ SETUP_TIMEOUT_MSEC := by
      simp only [SETUP_TIMEOUT_MSEC]; omega
    rw [hL, if_neg hno, if_neg hto, processSw1_released]
    exact ⟨rfl, hst, rfl, rfl, rfl⟩
  · intro hp
    have hst' : (self.processSw1Buttons CLOCKCOMMANDS w now sw1 sw2).1.m_state
        ≠ State_t.IDLE := by
      rcases processSw1_state CLOCKCOMMANDS self w now sw1 sw2 with h | h
      · rw [h, hst]; decide
      · rw [h]; decide
    rw [hL, if_pos hp]
    split_ifs <;> exact ⟨rfl, hst'⟩

/-- C21 in the menu with `DST` / `Summer` selected and the last button event at
millisecond 5000: the idle tick at 20000 ends in IDLE with nothing applied, the
idle tick at 19999 stays in the menu with option 1 still selected. -/
theorem C21_menu_timeout_witness :
    ((menuOnDst.loop commandNames quietWorld 20000 false false).1 = false ∧
      (menuOnDst.loop commandNames quietWorld 20000 false false).2.1.m_state = State_t.IDLE ∧
      (menuOnDst.loop commandNames quietWorld 20000 false false).2.2.applied = []) ∧
    ((menuOnDst.loop commandNames quietWorld 19999 false false).2.1.m_state
        = State_t.SW1_IN_PROGRESS ∧
      (menuOnDst.loop commandNames quietWorld 19999 false false).2.1.m_curOption = 1) :=
  have h1 := (C21_menu_timeout commandNames menuOnDst quietWorld 20000 false false rfl).1
    rfl rfl (by decide)
  have h2 := (C21_menu_timeout commandNames menuOnDst quietWorld 19999 false false rfl).2.1
    rfl rfl (by decide)
  ⟨⟨h1.1, h1.2.1, h1.2.2.1⟩, ⟨h2.2.1, h2.2.2.2.1⟩⟩

/-! ## C22: nudging the clock -/

/-- The clock-adjust tick of `loop`, in terms of `processSw2Buttons`. -/
theorem loop_adjust (CLOCKCOMMANDS : Nat → String) (self : ClockSettings)
    (w : SettingsWorld) (now : Nat) (sw1 sw2 : Bool)
    (hst : self.m_state = State_t.SW2_IN_PROGRESS) :
    self.loop CLOCKCOMMANDS w now sw1 sw2 =
      if sw1 ∨ sw2 then
        if (sw1 ^^ self.m_prevSw1) ∨ (sw2 ^^ self.m_prevSw2) then
          (false,
            { (self.processSw2Buttons w now sw1 sw2).1 with
              m_lastButtonMsec := now, m_prevSw1 := sw1, m_prevSw2 := sw2 },
            (self.processSw2Buttons w now sw1 sw2).2)
        else
          (false,
            { (self.processSw2Buttons w now sw1 sw2).1 with
              m_prevSw1 := sw1, m_prevSw2 := sw2 },
            (self.processSw2Buttons w now sw1 sw2).2)
      else if msecSince now self.m_lastButtonMsec ≥ SETUP_TIMEOUT_MSEC then
        (false,
          { (self.processSw2Buttons w now sw1 sw2).1 with
            m_state := .IDLE, m_prevSw1 := sw1, m_prevSw2 := sw2 },
          { (if (self.processSw2Buttons w now sw1 sw2).1.m_haveSetTime then
              { (self.processSw2Buttons w now sw1 sw2).2 with
                rtc := (self.processSw2Buttons w now sw1 sw2).2.rtc ++
                  [(self.processSw2Buttons w now sw1 sw2).2.sysTime] }
            else (self.processSw2Buttons w now sw1 sw2).2) with
            lcd := (self.processSw2Buttons w now sw1 sw2).2.lcd ++ [LcdOp.clear] })
      else
        (false,
          { (self.processSw2Buttons w now sw1 sw2).1 with
            m_prevSw1 := sw1, m_prevSw2 := sw2 },
          (self.processSw2Buttons w now sw1 sw2).2) := by
  have hprev : ∀ s : ClockSettings × SettingsWorld,
      s = self.processSw2Buttons w now sw1 sw2 →
      s.1.m_prevSw1 = self.m_prevSw1 ∧ s.1.m_prevSw2 = self.m_prevSw2 := by
    intro s hs
    subst hs
    unfold ClockSettings.processSw2Buttons
    dsimp only
    split_ifs <;> exact ⟨rfl, rfl⟩
  obtain ⟨hp1, hp2⟩ := hprev _ rfl
  simp only [ClockSettings.loop, hst, hp1, hp2]
  split_ifs <;> first | rfl | simp_all

/-- What `processSw2Buttons` does to the clock, the time stamp, the state and
the set-time flag, case by case. -/
theorem processSw2_cases (self : ClockSettings) (w : SettingsWorld) (tm : Nat)
    (sw1 sw2 : Bool) :
    (self.processSw2Buttons w tm sw1 sw2).2.sysTime =
      (if sw1 = true ∧ sw2 = true then w.sysTime
      else if sw1 = true ∧ self.m_prevSw1 = false ∧ 110 < msecSince tm self.m_lastButtonMsec then
        timeAdd w.sysTime 60
      else if sw2 = true ∧ self.m_prevSw2 = false ∧ 110 < msecSince tm self.m_lastButtonMsec then
        timeAdd w.sysTime (-60)
      else if sw1 = true ∧ 999 ≤ msecSince tm self.m_lastButtonMsec then
        timeAdd w.sysTime 3600
      else if sw2 = true ∧ 999 ≤ msecSince tm self.m_lastButtonMsec then
        timeAdd w.sysTime (-3600)
      else w.sysTime) ∧
    (self.processSw2Buttons w tm sw1 sw2).1.m_lastButtonMsec =
      (if sw1 = true ∧ sw2 = true then self.m_lastButtonMsec
      else if sw1 = true ∧ self.m_prevSw1 = false ∧ 110 < msecSince tm self.m_lastButtonMsec then
        self.m_lastButtonMsec
      else if sw2 = true ∧ self.m_prevSw2 = false ∧ 110 < msecSince tm self.m_lastButtonMsec then
        self.m_lastButtonMsec
      else if sw1 = true ∧ 999 ≤ msecSince tm self.m_lastButtonMsec then tm
      else if sw2 = true ∧ 999 ≤ msecSince tm self.m_lastButtonMsec then tm
      else self.m_lastButtonMsec) ∧
    (self.processSw2Buttons w tm sw1 sw2).1.m_state =
      (if sw1 = true ∧ sw2 = true then State_t.WAIT_FOR_SW_RELEASE else self.m_state) ∧
    (self.processSw2Buttons w tm sw1 sw2).1.m_haveSetTime =
      (if sw1 = true ∧ sw2 = true then self.m_haveSetTime
      else if sw1 = true ∨ sw2 = true then true else self.m_haveSetTime) ∧
    (self.processSw2Buttons w tm sw1 sw2).2.rtc = w.rtc ∧
    (self.processSw2Buttons w tm sw1 sw2).2.applied = w.applied ∧
    (self.processSw2Buttons w tm sw1 sw2).2.routed = w.routed := by
  unfold ClockSettings.processSw2Buttons
  simp only [DEBOUNCE_MSEC, LONG_PRESS_MSEC, gt_iff_lt, ge_iff_le, Bool.not_eq_true]
  by_cases hb : sw1 = true ∧ sw2 = true
  · simp only [hb, and_self, if_true]
  · simp only [hb, if_false]
    refine ⟨?_, ?_, ?_, ?_, ?_, ?_, ?_⟩ <;> split_ifs <;> rfl

/-- The fields of the object and of the world after a clock-adjust tick, in
terms of `processSw2Buttons`. -/
theorem loop_adjust_fields (CLOCKCOMMANDS : Nat → String) (self : ClockSettings)
    (w : SettingsWorld) (now : Nat) (sw1 sw2 : Bool)
    (hst : self.m_state = State_t.SW2_IN_PROGRESS) :
    (self.loop CLOCKCOMMANDS w now sw1 sw2).1 = false ∧
    (self.loop CLOCKCOMMANDS w now sw1 sw2).2.2.sysTime
      = (self.processSw2Buttons w now sw1 sw2).2.sysTime ∧
    (self.loop CLOCKCOMMANDS w now sw1 sw2).2.1.m_prevSw1 = sw1 ∧
    (self.loop CLOCKCOMMANDS w now sw1 sw2).2.1.m_prevSw2 = sw2 ∧
    (self.loop CLOCKCOMMANDS w now sw1 sw2).2.1.m_haveSetTime
      = (self.processSw2Buttons w now sw1 sw2).1.m_haveSetTime ∧
    (self.loop CLOCKCOMMANDS w now sw1 sw2).2.1.m_lastButtonMsec =
      (if (sw1 = true ∨ sw2 = true) ∧
          ((sw1 ^^ self.m_prevSw1) = true ∨ (sw2 ^^ self.m_prevSw2) = true) then now
        else (self.processSw2Buttons w now sw1 sw2).1.m_lastButtonMsec) ∧
    (self.loop CLOCKCOMMANDS w now sw1 sw2).2.1.m_state =
      (if ¬ (sw1 = true ∨ sw2 = true) ∧ 15000 ≤ msecSince now self.m_lastButtonMsec then
        State_t.IDLE
      else (self.processSw2Buttons w now sw1 sw2).1.m_state) ∧
    (self.loop CLOCKCOMMANDS w now sw1 sw2).2.2.rtc =
      (if ¬ (sw1 = true ∨ sw2 = true) ∧ 15000 ≤ msecSince now self.m_lastButtonMsec ∧
          (self.processSw2Buttons w now sw1 sw2).1.m_haveSetTime = true then
        (self.processSw2Buttons w now sw1 sw2).2.rtc ++
          [(self.processSw2Buttons w now sw1 sw2).2.sysTime]
      else (self.processSw2Buttons w now sw1 sw2).2.rtc) ∧
    (self.loop CLOCKCOMMANDS w now sw1 sw2).2.2.applied
      = (self.processSw2Buttons w now sw1 sw2).2.applied ∧
    (self.loop CLOCKCOMMANDS w now sw1 sw2).2.2.routed
      = (self.processSw2Buttons w now sw1 sw2).2.routed := by
  rw [loop_adjust CLOCKCOMMANDS self w now sw1 sw2 hst]
  simp only [SETUP_TIMEOUT_MSEC, ge_iff_le]
  generalize self.processSw2Buttons w now sw1 sw2 = P
  by_cases hp : sw1 = true ∨ sw2 = true
  · have n1 : ¬ (¬ (sw1 = true ∨ sw2 = true) ∧
        15000 ≤ msecSince now self.m_lastButtonMsec) := fun h => h.1 hp
    have n2 : ¬ (¬ (sw1 = true ∨ sw2 = true) ∧
        15000 ≤ msecSince now self.m_lastButtonMsec ∧ P.1.m_haveSetTime = true) :=
      fun h => h.1 hp
    by_cases he : (sw1 ^^ self.m_prevSw1) = true ∨ (sw2 ^^ self.m_prevSw2) = true
    · have p1 : (sw1 = true ∨ sw2 = true) ∧
          ((sw1 ^^ self.m_prevSw1) = true ∨ (sw2 ^^ self.m_prevSw2) = true) := ⟨hp, he⟩
      simp only [if_pos hp, if_pos he, if_neg n1, if_neg n2, if_pos p1]
      first | done | trivial
    · have p1 : ¬ ((sw1 = true ∨ sw2 = true) ∧
          ((sw1 ^^ self.m_prevSw1) = true ∨ (sw2 ^^ self.m_prevSw2) = true)) :=
        fun h => he h.2
      simp only [if_pos hp, if_neg he, if_neg n1, if_neg n2, if_neg p1]
      first | done | trivial
  · have p1 : ¬ ((sw1 = true ∨ sw2 = true) ∧
        ((sw1 ^^ self.m_prevSw1) = true ∨ (sw2 ^^ self.m_prevSw2) = true)) :=
      fun h => hp h.1
    by_cases ht : 15000 ≤ msecSince now self.m_lastButtonMsec
    · have n1 : ¬ (sw1 = true ∨ sw2 = true) ∧
          15000 ≤ msecSince now self.m_lastButtonMsec := ⟨hp, ht⟩
      by_cases hh : P.1.m_haveSetTime = true
      · have n2 : ¬ (sw1 = true ∨ sw2 = true) ∧
            15000 ≤ msecSince now self.m_lastButtonMsec ∧ P.1.m_haveSetTime = true :=
          ⟨hp, ht, hh⟩
        simp only [if_neg hp, if_pos ht, if_pos n1, if_pos n2, if_neg p1, if_pos hh]
        first | done | trivial
      · have n2 : ¬ (¬ (sw1 = true ∨ sw2 = true) ∧
            15000 ≤ msecSince now self.m_lastButtonMsec ∧ P.1.m_haveSetTime = true) :=
          fun h => hh h.2.2
        simp only [if_neg hp, if_pos ht, if_pos n1, if_neg n2, if_neg p1, if_neg hh]
        first | done | trivial
    · have n1 : ¬ (¬ (sw1 = true ∨ sw2 = true) ∧
          15000 ≤ msecSince now self.m_lastButtonMsec) := fun h => ht h.2
      have n2 : ¬ (¬ (sw1 = true ∨ sw2 = true) ∧
          15000 ≤ msecSince now self.m_lastButtonMsec ∧ P.1.m_haveSetTime = true) :=
        fun h => ht h.2.1
      simp only [if_neg hp, if_neg ht, if_neg n1, if_neg n2, if_neg p1]
      first | done | trivial

/-- A clock-adjust tick with button 1 sampled pressed at the previous tick and
held alone: the coarse step is made exactly when 999 ms have passed. -/
theorem adjust_held_sw1 (CLOCKCOMMANDS : Nat → String) (s : ClockSettings)
    (w : SettingsWorld) (now : Nat)
    (hst : s.m_state = State_t.SW2_IN_PROGRESS) (hp : s.m_prevSw1 = true) :
    (s.loop CLOCKCOMMANDS w now true false).2.2.sysTime =
      (if 999 ≤ msecSince now s.m_lastButtonMsec then timeAdd w.sysTime 3600
        else w.sysTime) := by
  rw [(loop_adjust_fields CLOCKCOMMANDS s w now true false hst).2.1,
    (processSw2_cases s w now true false).1]
  simp [hp]

/-- A clock-adjust tick with button 2 sampled pressed at the previous tick and
held alone: the coarse step is made exactly when 999 ms have passed. -/
theorem adjust_held_sw2 (CLOCKCOMMANDS : Nat → String) (s : ClockSettings)
    (w : SettingsWorld) (now : Nat)
    (hst : s.m_state = State_t.SW2_IN_PROGRESS) (hp : s.m_prevSw2 = true) :
    (s.loop CLOCKCOMMANDS w now false true).2.2.sysTime =
      (if 999 ≤ msecSince now s.m_lastButtonMsec then timeAdd w.sysTime (-3600)
        else w.sysTime) := by
  rw [(loop_adjust_fields CLOCKCOMMANDS s w now false true hst).2.1,
    (processSw2_cases s w now false true).1]
  simp [hp]

/-- C22: a tick in the clock-adjust mode (`SW2_IN_PROGRESS`). With button 1
alone pressed the clock moves by +60 s on an accepted click (released at the
previous sample, more than 110 ms since the last recorded event), by +3600 s
when there is no accepted click and at least 999 ms have passed (the time stamp
then becomes `now`), and not at all otherwise; with button 2 alone the same with
-60 s and -3600 s; with no button the clock is unchanged; with both it is
unchanged and the state becomes `WAIT_FOR_SW_RELEASE`. The clock moves in
`time_t` arithmetic, which is the exact sum while that is in range; after a
coarse step the next tick with the button still held steps again exactly when
999 ms have passed since the first. -/
theorem C22_adjust_nudges (CLOCKCOMMANDS : Nat → String) (self : ClockSettings)
    (w : SettingsWorld) (now : Nat) (sw1 sw2 : Bool)
    (hst : self.m_state = State_t.SW2_IN_PROGRESS) :
    (sw1 = true → sw2 = false →
      ((self.m_prevSw1 = false ∧ 110 < msecSince now self.m_lastButtonMsec) →
        (self.loop CLOCKCOMMANDS w now sw1 sw2).2.2.sysTime = timeAdd w.sysTime 60) ∧
      (¬ (self.m_prevSw1 = false ∧ 110 < msecSince now self.m_lastButtonMsec) →
        999 ≤ msecSince now self.m_lastButtonMsec →
        (self.loop CLOCKCOMMANDS w now sw1 sw2).2.2.sysTime = timeAdd w.sysTime 3600 ∧
        (self.loop CLOCKCOMMANDS w now sw1 sw2).2.1.m_lastButtonMsec = now ∧
        ∀ now2 : Nat,
          ((self.loop CLOCKCOMMANDS w now sw1 sw2).2.1.loop CLOCKCOMMANDS
            (self.loop CLOCKCOMMANDS w now sw1 sw2).2.2 now2 true false).2.2.sysTime =
          (if 999 ≤ msecSince now2 now then timeAdd (timeAdd w.sysTime 3600) 3600
            else timeAdd w.sysTime 3600)) ∧
      (¬ (self.m_prevSw1 = false ∧ 110 < msecSince now self.m_lastButtonMsec) →
        msecSince now self.m_lastButtonMsec < 999 →
        (self.loop CLOCKCOMMANDS w now sw1 sw2).2.2.sysTime = w.sysTime)) ∧
    (sw1 = false → sw2 = true →
      ((self.m_prevSw2 = false ∧ 110 < msecSince now self.m_lastButtonMsec) →
        (self.loop CLOCKCOMMANDS w now sw1 sw2).2.2.sysTime = timeAdd w.sysTime (-60)) ∧
      (¬ (self.m_prevSw2 = false ∧ 110 < msecSince now self.m_lastButtonMsec) →
        999 ≤ msecSince now self.m_lastButtonMsec →
        (self.loop CLOCKCOMMANDS w now sw1 sw2).2.2.sysTime = timeAdd w.sysTime (-3600) ∧
        (self.loop CLOCKCOMMANDS w now sw1 sw2).2.1.m_lastButtonMsec = now ∧
        ∀ now2 : Nat,
          ((self.loop CLOCKCOMMANDS w now sw1 sw2).2.1.loop CLOCKCOMMANDS
            (self.loop CLOCKCOMMANDS w now sw1 sw2).2.2 now2 false true).2.2.sysTime =
          (if 999 ≤ msecSince now2 now then timeAdd (timeAdd w.sysTime (-3600)) (-3600)
            else timeAdd w.sysTime (-3600))) ∧
      (¬ (self.m_prevSw2 = false ∧ 110 < msecSince now self.m_lastButtonMsec) →
        msecSince now self.m_lastButtonMsec < 999 →
        (self.loop CLOCKCOMMANDS w now sw1 sw2).2.2.sysTime = w.sysTime)) ∧
    (sw1 = false → sw2 = false →
      (self.loop CLOCKCOMMANDS w now sw1 sw2).2.2.sysTime = w.sysTime) ∧
    (sw1 = true → sw2 = true →
      (self.loop CLOCKCOMMANDS w now sw1 sw2).2.2.sysTime = w.sysTime ∧
      (self.loop CLOCKCOMMANDS w now sw1 sw2).2.1.m_state = State_t.WAIT_FOR_SW_RELEASE) ∧
    (∀ d : Int, 0 ≤ (w.sysTime : Int) + d → (w.sysTime : Int) + d < 4294967296 →
      (timeAdd w.sysTime d : Int) = (w.sysTime : Int) + d) := by
  obtain ⟨_, hsys, hq1, hq2, _, hlast, hstate, _, _, _⟩ :=
    loop_adjust_fields CLOCKCOMMANDS self w now sw1 sw2 hst
  obtain ⟨csys, clast, cstate, _, _, _, _⟩ := processSw2_cases self w now sw1 sw2
  have esys := hsys.trans csys
  rw [clast] at hlast
  rw [cstate] at hstate
  clear hsys csys clast cstate
  refine ⟨?_, ?_, ?_, ?_, fun d h0 h1 => timeAdd_exact w.sysTime d h0 h1⟩
  · intro h1 h2
    subst h1; subst h2
    refine ⟨?_, ?_, ?_⟩
    · intro hA
      rw [esys]; simp [hA]
    · intro hA hd
      have e1 : (self.loop CLOCKCOMMANDS w now true false).2.2.sysTime
          = timeAdd w.sysTime 3600 := by rw [esys]; simp [hA, hd]
      have e2 : (self.loop CLOCKCOMMANDS w now true false).2.1.m_lastButtonMsec = now := by
        rw [hlast]; simp [hA, hd]
      have e3 : (self.loop CLOCKCOMMANDS w now true false).2.1.m_state
          = State_t.SW2_IN_PROGRESS := by rw [hstate]; simp [hst]
      refine ⟨e1, e2, ?_⟩
      intro now2
      rw [adjust_held_sw1 CLOCKCOMMANDS _ _ now2 e3 hq1, e2, e1]
    · intro hA hd
      have hd' : ¬ 999 ≤ msecSince now self.m_lastButtonMsec := by omega
      rw [esys]; simp [hA, hd']
  · intro h1 h2
    subst h1; subst h2
    refine ⟨?_, ?_, ?_⟩
    · intro hA
      rw [esys]; simp [hA]
    · intro hA hd
      have e1 : (self.loop CLOCKCOMMANDS w now false true).2.2.sysTime
          = timeAdd w.sysTime (-3600) := by rw [esys]; simp [hA, hd]
      have e2 : (self.loop CLOCKCOMMANDS w now false true).2.1.m_lastButtonMsec = now := by
        rw [hlast]; simp [hA, hd]
      have e3 : (self.loop CLOCKCOMMANDS w now false true).2.1.m_state
          = State_t.SW2_IN_PROGRESS := by rw [hstate]; simp [hst]
      refine ⟨e1, e2, ?_⟩
      intro now2
      rw [adjust_held_sw2 CLOCKCOMMANDS _ _ now2 e3 hq2, e2, e1]
    · intro hA hd
      have hd' : ¬ 999 ≤ msecSince now self.m_lastButtonMsec := by omega
      rw [esys]; simp [hA, hd']
  · intro h1 h2
    subst h1; subst h2
    rw [esys]; simp
  · intro h1 h2
    subst h1; subst h2
    rw [esys, hstate]; simp

/-- C22 in the clock-adjust mode with both buttons released before, last button
event at millisecond 5000 and the clock at 1710036000: button 1 at 5200 gives
1710036060, button 2 at 5200 gives 1710035940, both buttons give no change and
`WAIT_FOR_SW_RELEASE`; with button 1 already held, the tick at 5999 steps by
3600 s and the tick at 5998 does not. -/
theorem C22_adjust_nudges_witness :
    (adjusting.loop commandNames quietWorld 5200 true false).2.2.sysTime = 1710036060 ∧
    (adjusting.loop commandNames quietWorld 5200 false true).2.2.sysTime = 1710035940 ∧
    ((adjusting.loop commandNames quietWorld 5200 true true).2.2.sysTime = 1710036000 ∧
      (adjusting.loop commandNames quietWorld 5200 true true).2.1.m_state
        = State_t.WAIT_FOR_SW_RELEASE) ∧
    (ClockSettings.loop commandNames { adjusting with m_prevSw1 := true } quietWorld 5999
      true false).2.2.sysTime = 1710039600 ∧
    (ClockSettings.loop commandNames { adjusting with m_prevSw1 := true } quietWorld 5998
      true false).2.2.sysTime = 1710036000 :=
  ⟨((C22_adjust_nudges commandNames adjusting quietWorld 5200 true false rfl).1 rfl rfl).1
      ⟨rfl, by decide⟩,
    ((C22_adjust_nudges commandNames adjusting quietWorld 5200 false true rfl).2.1 rfl rfl).1
      ⟨rfl, by decide⟩,
    (C22_adjust_nudges commandNames adjusting quietWorld 5200 true true rfl).2.2.2.1 rfl rfl,
    (((C22_adjust_nudges commandNames { adjusting with m_prevSw1 := true } quietWorld 5999
      true false rfl).1 rfl rfl).2.1 (by decide) (by decide)).1,
    ((C22_adjust_nudges commandNames { adjusting with m_prevSw1 := true } quietWorld 5998
      true false rfl).1 rfl rfl).2.2 (by decide) (by decide)⟩

/-! ## C23: writing the RTC at the end of a clock-adjust session -/

theorem run_nil (CLOCKCOMMANDS : Nat → String) (sw : ClockSettings × SettingsWorld) :
    ClockSettings.run CLOCKCOMMANDS sw [] = sw := rfl

theorem run_cons (CLOCKCOMMANDS : Nat → String) (s : ClockSettings) (w : SettingsWorld)
    (t : Nat × Bool × Bool) (rest : List (Nat × Bool × Bool)) :
    ClockSettings.run CLOCKCOMMANDS (s, w) (t :: rest) =
      ClockSettings.run CLOCKCOMMANDS
        ((s.loop CLOCKCOMMANDS w t.1 t.2.1 t.2.2).2.1,
          (s.loop CLOCKCOMMANDS w t.1 t.2.1 t.2.2).2.2) rest := rfl

/-- A clock-adjust tick that stays in the clock-adjust mode: the set-time flag
is raised exactly by a sample with one button pressed, nothing is written to
the RTC, and the clock can only have moved if one button was sampled pressed. -/
theorem adjust_tick_stays (CLOCKCOMMANDS : Nat → String) (s : ClockSettings)
    (w : SettingsWorld) (now : Nat) (sw1 sw2 : Bool)
    (hst : s.m_state = State_t.SW2_IN_PROGRESS)
    (hst2 : (s.loop CLOCKCOMMANDS w now sw1 sw2).2.1.m_state = State_t.SW2_IN_PROGRESS) :
    (s.loop CLOCKCOMMANDS w now sw1 sw2).2.1.m_haveSetTime
      = (s.m_haveSetTime || (sw1 != sw2)) ∧
    (s.loop CLOCKCOMMANDS w now sw1 sw2).2.2.rtc = w.rtc ∧
    ((s.loop CLOCKCOMMANDS w now sw1 sw2).2.2.sysTime ≠ w.sysTime → (sw1 != sw2) = true) := by
  obtain ⟨_, hsys, _, _, hflag, _, hstate, hrtc, _, _⟩ :=
    loop_adjust_fields CLOCKCOMMANDS s w now sw1 sw2 hst
  obtain ⟨csys, _, cstate, cflag, crtc, _, _⟩ := processSw2_cases s w now sw1 sw2
  rw [hstate, cstate] at hst2
  rw [hflag, cflag, hrtc, crtc, hsys, csys]
  clear hsys hflag hstate hrtc csys cstate cflag crtc
  cases sw1 <;> cases sw2
  · have hto : ¬ 15000 ≤ msecSince now s.m_lastButtonMsec := by
      intro h
      simp [h] at hst2
    simp [hto]
  · simp
  · simp
  · simp at hst2

/-- Over a run that stays in the clock-adjust mode the set-time flag ends
raised exactly if it was raised before or some tick sampled one button
pressed; nothing is written to the RTC; and the clock can only have moved if
some tick sampled one button pressed. -/
theorem run_adjust_flag (CLOCKCOMMANDS : Nat → String) :
    ∀ (ticks : List (Nat × Bool × Bool)) (s : ClockSettings) (w : SettingsWorld),
      staysAdjusting CLOCKCOMMANDS s w ticks →
      (ClockSettings.run CLOCKCOMMANDS (s, w) ticks).1.m_state = State_t.SW2_IN_PROGRESS ∧
      (ClockSettings.run CLOCKCOMMANDS (s, w) ticks).1.m_haveSetTime
        = (s.m_haveSetTime || ticks.any (fun t => t.2.1 != t.2.2)) ∧
      (ClockSettings.run CLOCKCOMMANDS (s, w) ticks).2.rtc = w.rtc ∧
      ((ClockSettings.run CLOCKCOMMANDS (s, w) ticks).2.sysTime ≠ w.sysTime →
        ticks.any (fun t => t.2.1 != t.2.2) = true) := by
  intro ticks
  induction ticks with
  | nil =>
    intro s w h
    refine ⟨h, ?_, rfl, ?_⟩
    · simp [run_nil]
    · intro hne; exact absurd rfl hne
  | cons t rest ih =>
    intro s w h
    obtain ⟨hst, hrest⟩ := h
    have hst2 : (s.loop CLOCKCOMMANDS w t.1 t.2.1 t.2.2).2.1.m_state
        = State_t.SW2_IN_PROGRESS := by
      cases rest with
      | nil => exact hrest
      | cons _ _ => exact hrest.1
    obtain ⟨a, b, c⟩ := adjust_tick_stays CLOCKCOMMANDS s w t.1 t.2.1 t.2.2 hst hst2
    obtain ⟨i1, i2, i3, i4⟩ := ih _ _ hrest
    rw [run_cons]
    refine ⟨i1, ?_, ?_, ?_⟩
    · rw [i2, a, List.any_cons, Bool.or_assoc]
    · rw [i3, b]
    · intro hne
      rw [List.any_cons]
      by_cases hx : (s.loop CLOCKCOMMANDS w t.1 t.2.1 t.2.2).2.2.sysTime = w.sysTime
      · rw [hx] at i4
        rw [i4 hne, Bool.or_true]
      · rw [c hx, Bool.true_or]

/-- C23, as stated, fails: from `HOLD_SW2_FOR_START` (button 2 pressed at
millisecond 1000) with the clock at 1710036000, the ticks at 3000 and 3001 with
button 2 still held and at 3002 with it released never move the clock, yet the
time-out tick at 20000 writes the clock to the RTC. -/
theorem C23_counterexample :
    (ClockSettings.run commandNames (holdingSw2, quietWorld)
      [(3000, false, true)]).1.m_state = State_t.SW2_IN_PROGRESS ∧
    (ClockSettings.run commandNames (holdingSw2, quietWorld)
      [(3000, false, true)]).2.sysTime = 1710036000 ∧
    (ClockSettings.run commandNames (holdingSw2, quietWorld)
      [(3000, false, true), (3001, false, true)]).2.sysTime = 1710036000 ∧
    (ClockSettings.run commandNames (holdingSw2, quietWorld)
      [(3000, false, true), (3001, false, true), (3002, false, false)]).2.sysTime
        = 1710036000 ∧
    (ClockSettings.run commandNames (holdingSw2, quietWorld)
      [(3000, false, true), (3001, false, true), (3002, false, false)]).2.rtc = [] ∧
    (ClockSettings.run commandNames (holdingSw2, quietWorld)
      [(3000, false, true), (3001, false, true), (3002, false, false),
        (20000, false, false)]).1.m_state = State_t.IDLE ∧
    (ClockSettings.run commandNames (holdingSw2, quietWorld)
      [(3000, false, true), (3001, false, true), (3002, false, false),
        (20000, false, false)]).2.rtc = [1710036000] := by
  decide

/-- The tick of `loop` in `HOLD_SW2_FOR_START`. -/
theorem loop_hold_sw2 (CLOCKCOMMANDS : Nat → String) (self : ClockSettings)
    (w : SettingsWorld) (now : Nat) (sw1 sw2 : Bool)
    (hst : self.m_state = State_t.HOLD_SW2_FOR_START) :
    self.loop CLOCKCOMMANDS w now sw1 sw2 =
      if ¬ sw2 ∧ msecSince now self.m_lastButtonMsec ≥ PRESS_HOLD_MESSAGE_MSEC then
        (false, { self with m_state := .IDLE, m_prevSw1 := sw1, m_prevSw2 := sw2 }, w)
      else if msecSince now self.m_lastButtonMsec ≥ PRESS_HOLD_MSEC then
        (false,
          { self with
            m_state := .SW2_IN_PROGRESS, m_haveSetTime := false, m_curOption := NO_OPTION,
            m_curParam := 0, m_lastButtonMsec := (now + 2000) % 4294967296,
            m_prevSw1 := sw1, m_prevSw2 := sw2 },
          { w with
            lcd := w.lcd ++ [LcdOp.display] ++ [LcdOp.setCursor 0 1, LcdOp.print "<<    >>"] })
      else (true, { self with m_prevSw1 := sw1, m_prevSw2 := sw2 }, w) := by
  simp only [ClockSettings.loop, hst, ClockSettings.processSw2Buttons, Bool.false_eq_true,
    false_and, and_self, if_false, false_or]
  split_ifs <;> first | rfl | simp only [hst]

/-- C23, amended: a clock-adjust session that starts with the set-time flag
down (as the entry from `HOLD_SW2_FOR_START` leaves it), stays in
`SW2_IN_PROGRESS` over `ticks` and then times out on a tick with both buttons
released. The time-out tick ends in IDLE; it appends the clock to the RTC
writes exactly if some tick of the session sampled one button pressed without
the other, and writes nothing otherwise; nothing is written before the
time-out; and the clock can differ from its value at the start only if some
tick sampled one button pressed, so every adjusted time is written. -/
theorem C23_rtc_written_iff_button_sampled (CLOCKCOMMANDS : Nat → String)
    (s : ClockSettings) (w : SettingsWorld) (ticks : List (Nat × Bool × Bool)) (now : Nat)
    (hflag : s.m_haveSetTime = false)
    (hstay : staysAdjusting CLOCKCOMMANDS s w ticks)
    (hto : 15000 ≤ msecSince now (ClockSettings.run CLOCKCOMMANDS (s, w) ticks).1.m_lastButtonMsec) :
    (((ClockSettings.run CLOCKCOMMANDS (s, w) ticks).1.loop CLOCKCOMMANDS
        (ClockSettings.run CLOCKCOMMANDS (s, w) ticks).2 now false false).2.1.m_state
      = State_t.IDLE) ∧
    ((∃ t ∈ ticks, t.2.1 ≠ t.2.2) →
      ((ClockSettings.run CLOCKCOMMANDS (s, w) ticks).1.loop CLOCKCOMMANDS
        (ClockSettings.run CLOCKCOMMANDS (s, w) ticks).2 now false false).2.2.rtc
      = w.rtc ++ [(ClockSettings.run CLOCKCOMMANDS (s, w) ticks).2.sysTime]) ∧
    ((¬ ∃ t ∈ ticks, t.2.1 ≠ t.2.2) →
      ((ClockSettings.run CLOCKCOMMANDS (s, w) ticks).1.loop CLOCKCOMMANDS
        (ClockSettings.run CLOCKCOMMANDS (s, w) ticks).2 now false false).2.2.rtc = w.rtc) ∧
    (ClockSettings.run CLOCKCOMMANDS (s, w) ticks).2.rtc = w.rtc ∧
    ((ClockSettings.run CLOCKCOMMANDS (s, w) ticks).2.sysTime ≠ w.sysTime →
      ∃ t ∈ ticks, t.2.1 ≠ t.2.2) ∧
    (∀ (h : ClockSettings) (w0 : SettingsWorld) (t0 : Nat) (b1 b2 : Bool),
      h.m_state = State_t.HOLD_SW2_FOR_START →
      (h.loop CLOCKCOMMANDS w0 t0 b1 b2).2.1.m_state = State_t.SW2_IN_PROGRESS →
      (h.loop CLOCKCOMMANDS w0 t0 b1 b2).2.1.m_haveSetTime = false) := by
  have hany : (∃ t ∈ ticks, t.2.1 ≠ t.2.2) ↔
      ticks.any (fun t => t.2.1 != t.2.2) = true := by
    rw [List.any_eq_true]
    constructor
    · rintro ⟨t, ht, hne⟩; exact ⟨t, ht, by simpa using hne⟩
    · rintro ⟨t, ht, hne⟩; exact ⟨t, ht, by simpa using hne⟩
  obtain ⟨i1, i2, i3, i4⟩ := run_adjust_flag CLOCKCOMMANDS ticks s w hstay
  rw [hflag, Bool.false_or] at i2
  obtain ⟨_, hsys, _, _, hf, _, hstate, hrtc, _, _⟩ :=
    loop_adjust_fields CLOCKCOMMANDS (ClockSettings.run CLOCKCOMMANDS (s, w) ticks).1
      (ClockSettings.run CLOCKCOMMANDS (s, w) ticks).2 now false false i1
  obtain ⟨csys, _, cstate, cflag, crtc, _, _⟩ :=
    processSw2_cases (ClockSettings.run CLOCKCOMMANDS (s, w) ticks).1
      (ClockSettings.run CLOCKCOMMANDS (s, w) ticks).2 now false false
  have hno : ¬ ((false : Bool) = true ∨ (false : Bool) = true) := by
    rintro (h | h) <;> exact Bool.noConfusion h
  have hnb : ¬ ((false : Bool) = true ∧ (false : Bool) = true) := fun h => Bool.noConfusion h.1
  rw [if_neg hnb, if_neg hno] at cflag
  simp only [Bool.false_eq_true, false_and, false_or, if_false] at csys
  rw [crtc, csys, cflag, i2, i3] at hrtc
  refine ⟨?_, ?_, ?_, i3, fun h => hany.2 (i4 h), ?_⟩
  · rw [hstate, if_pos ⟨hno, hto⟩]
  · intro he
    rw [hrtc, if_pos ⟨hno, hto, hany.1 he⟩]
  · intro he
    rw [hrtc, if_neg (fun h => he (hany.2 h.2.2))]
  · intro h w0 t0 b1 b2 hh hs
    rw [loop_hold_sw2 CLOCKCOMMANDS h w0 t0 b1 b2 hh] at hs ⊢
    by_cases c1 : ¬ b2 = true ∧ msecSince t0 h.m_lastButtonMsec ≥ PRESS_HOLD_MESSAGE_MSEC
    · rw [if_pos c1] at hs
      cases hs
    · rw [if_neg c1] at hs ⊢
      by_cases c2 : msecSince t0 h.m_lastButtonMsec ≥ PRESS_HOLD_MSEC
      · rw [if_pos c2]
      · rw [if_neg c2] at hs
        have hs2 : h.m_state = State_t.SW2_IN_PROGRESS := hs
        rw [hh] at hs2
        cases hs2

/-- C23 amended, on clock-adjust sessions whose last button event was at
millisecond 5000: a session with one click of button 1 (at 5200, released at
5300) timing out at 20200 writes the clock once; a session with no button
sampled pressed timing out at 20000 writes nothing. -/
theorem C23_rtc_written_iff_button_sampled_witness :
    ((ClockSettings.run commandNames (adjusting, quietWorld)
        [(5200, true, false), (5300, false, false)]).1.loop commandNames
      (ClockSettings.run commandNames (adjusting, quietWorld)
        [(5200, true, false), (5300, false, false)]).2 20200 false false).2.2.rtc
      = quietWorld.rtc ++ [(ClockSettings.run commandNames (adjusting, quietWorld)
        [(5200, true, false), (5300, false, false)]).2.sysTime] ∧
    ((ClockSettings.run commandNames (adjusting, quietWorld)
        [(5300, false, false)]).1.loop commandNames
      (ClockSettings.run commandNames (adjusting, quietWorld)
        [(5300, false, false)]).2 20000 false false).2.2.rtc = quietWorld.rtc :=
  ⟨(C23_rtc_written_iff_button_sampled commandNames adjusting quietWorld
      [(5200, true, false), (5300, false, false)] 20200 rfl (by decide) (by decide)).2.1
      ⟨(5200, true, false), by simp, by decide⟩,
    (C23_rtc_written_iff_button_sampled commandNames adjusting quietWorld
      [(5300, false, false)] 20000 rfl (by decide) (by decide)).2.2.1 (by simp)⟩

/-! ## C24: waiting for the buttons to be released -/

/-- The tick of `loop` in `WAIT_FOR_SW_RELEASE`. -/
theorem loop_wait (CLOCKCOMMANDS : Nat → String) (self : ClockSettings)
    (w : SettingsWorld) (now : Nat) (sw1 sw2 : Bool)
    (hst : self.m_state = State_t.WAIT_FOR_SW_RELEASE) :
    self.loop CLOCKCOMMANDS w now sw1 sw2 =
      if ¬ sw2 ∧ ¬ self.m_prevSw2 ∧ ¬ self.m_prevSw1 ∧ ¬ sw1 ∧
          msecSince now self.m_lastButtonMsec ≥ DEBOUNCE_MSEC then
        (false, { self with m_state := .IDLE, m_prevSw1 := sw1, m_prevSw2 := sw2 }, w)
      else (false, { self with m_prevSw1 := sw1, m_prevSw2 := sw2 }, w) := by
  simp only [ClockSettings.loop, hst]
  split_ifs <;> first | rfl | simp only [hst]

/-- C24, as stated, fails: in `WAIT_FOR_SW_RELEASE` with the last button event
(the press of button 2) at millisecond 5200 and the button held until after the
tick at 9000, the first released sample at 9001 keeps the state and the next
one, at 9002, gives IDLE, when the buttons have read released for 1 ms. -/
theorem C24_counterexample :
    (ClockSettings.run commandNames (waitingRelease, quietWorld)
      [(9000, false, true)]).1.m_state = State_t.WAIT_FOR_SW_RELEASE ∧
    (ClockSettings.run commandNames (waitingRelease, quietWorld)
      [(9000, false, true), (9001, false, false)]).1.m_state = State_t.WAIT_FOR_SW_RELEASE ∧
    (ClockSettings.run commandNames (waitingRelease, quietWorld)
      [(9000, false, true), (9001, false, false), (9002, false, false)]).1.m_state
        = State_t.IDLE ∧
    (ClockSettings.run commandNames (waitingRelease, quietWorld)
      [(9000, false, true), (9001, false, false)]).1.m_lastButtonMsec = 5200 := by
  decide

/-- C24, amended: a tick in `WAIT_FOR_SW_RELEASE` gives IDLE exactly when both
buttons read released at this and at the previous sample and at least 110 ms
(signed reading) have passed since `m_lastButtonMsec`; otherwise the state is
kept, in particular while a button is sampled pressed. The tick returns
`false`, changes nothing outside and does not touch `m_lastButtonMsec`, so the
110 ms run from the last event recorded before the state was entered, not from
the release: of two released samples in a row the second gives IDLE as soon as
that event is 110 ms old. -/
theorem C24_release_wait (CLOCKCOMMANDS : Nat → String) (self : ClockSettings)
    (w : SettingsWorld) (now : Nat) (sw1 sw2 : Bool)
    (hst : self.m_state = State_t.WAIT_FOR_SW_RELEASE) :
    ((self.loop CLOCKCOMMANDS w now sw1 sw2).2.1.m_state = State_t.IDLE ↔
      (sw1 = false ∧ sw2 = false ∧ self.m_prevSw1 = false ∧ self.m_prevSw2 = false ∧
        110 ≤ msecSince now self.m_lastButtonMsec)) ∧
    ((self.loop CLOCKCOMMANDS w now sw1 sw2).2.1.m_state ≠ State_t.IDLE →
      (self.loop CLOCKCOMMANDS w now sw1 sw2).2.1.m_state = State_t.WAIT_FOR_SW_RELEASE) ∧
    ((sw1 = true ∨ sw2 = true) →
      (self.loop CLOCKCOMMANDS w now sw1 sw2).2.1.m_state = State_t.WAIT_FOR_SW_RELEASE) ∧
    (self.loop CLOCKCOMMANDS w now sw1 sw2).2.1.m_lastButtonMsec = self.m_lastButtonMsec ∧
    (self.loop CLOCKCOMMANDS w now sw1 sw2).1 = false ∧
    (self.loop CLOCKCOMMANDS w now sw1 sw2).2.2 = w ∧
    (∀ now2 : Nat, sw1 = false → sw2 = false →
      (self.loop CLOCKCOMMANDS w now sw1 sw2).2.1.m_state = State_t.WAIT_FOR_SW_RELEASE →
      (((self.loop CLOCKCOMMANDS w now sw1 sw2).2.1.loop CLOCKCOMMANDS
          (self.loop CLOCKCOMMANDS w now sw1 sw2).2.2 now2 false false).2.1.m_state
        = State_t.IDLE ↔ 110 ≤ msecSince now2 self.m_lastButtonMsec)) := by
  have hL := loop_wait CLOCKCOMMANDS self w now sw1 sw2 hst
  simp only [DEBOUNCE_MSEC, ge_iff_le, Bool.not_eq_true] at hL
  have key : ∀ (s : ClockSettings) (w1 : SettingsWorld) (t : Nat) (b1 b2 : Bool),
      s.m_state = State_t.WAIT_FOR_SW_RELEASE →
      ((s.loop CLOCKCOMMANDS w1 t b1 b2).2.1.m_state = State_t.IDLE ↔
        (b1 = false ∧ b2 = false ∧ s.m_prevSw1 = false ∧ s.m_prevSw2 = false ∧
          110 ≤ msecSince t s.m_lastButtonMsec)) := by
    intro s w1 t b1 b2 hs
    have h := loop_wait CLOCKCOMMANDS s w1 t b1 b2 hs
    simp only [DEBOUNCE_MSEC, ge_iff_le, Bool.not_eq_true] at h
    rw [h]
    by_cases c : b2 = false ∧ s.m_prevSw2 = false ∧ s.m_prevSw1 = false ∧ b1 = false ∧
        110 ≤ msecSince t s.m_lastButtonMsec
    · rw [if_pos c]
      exact ⟨fun _ => ⟨c.2.2.2.1, c.1, c.2.2.1, c.2.1, c.2.2.2.2⟩, fun _ => rfl⟩
    · rw [if_neg c]
      constructor
      · intro h2
        have h3 : s.m_state = State_t.IDLE := h2
        rw [hs] at h3
        cases h3
      · rintro ⟨a, b, c', d, e⟩
        exact absurd ⟨b, d, c', a, e⟩ c
  have hlast : (self.loop CLOCKCOMMANDS w now sw1 sw2).2.1.m_lastButtonMsec
      = self.m_lastButtonMsec := by
    rw [hL]; split_ifs <;> rfl
  have hp1 : (self.loop CLOCKCOMMANDS w now sw1 sw2).2.1.m_prevSw1 = sw1 := by
    rw [hL]; split_ifs <;> rfl
  have hp2 : (self.loop CLOCKCOMMANDS w now sw1 sw2).2.1.m_prevSw2 = sw2 := by
    rw [hL]; split_ifs <;> rfl
  have hor : (self.loop CLOCKCOMMANDS w now sw1 sw2).2.1.m_state = State_t.IDLE ∨
      (self.loop CLOCKCOMMANDS w now sw1 sw2).2.1.m_state = State_t.WAIT_FOR_SW_RELEASE := by
    rw [hL]; split_ifs
    · exact Or.inl rfl
    · exact Or.inr hst
  refine ⟨key self w now sw1 sw2 hst, ?_, ?_, hlast, ?_, ?_, ?_⟩
  · intro hne
    rcases hor with h | h
    · exact absurd h hne
    · exact h
  · intro hp
    rcases hor with h | h
    · have := (key self w now sw1 sw2 hst).1 h
      rcases hp with hp | hp
      · rw [this.1] at hp; cases hp
      · rw [this.2.1] at hp; cases hp
    · exact h
  · rw [hL]; split_ifs <;> rfl
  · rw [hL]; split_ifs <;> rfl
  · intro now2 h1 h2 hw
    rw [key _ _ now2 false false hw, hlast, hp1, hp2]
    constructor
    · intro h; exact h.2.2.2.2
    · intro h; exact ⟨rfl, rfl, h1, h2, h⟩

/-- C24 amended, with the last button event at millisecond 5200 and button 2
held at the previous sample: the released sample at 9001 keeps
`WAIT_FOR_SW_RELEASE`, and the next released sample at 9002 gives IDLE. -/
theorem C24_release_wait_witness :
    (waitingRelease.loop commandNames quietWorld 9001 false false).2.1.m_state
      = State_t.WAIT_FOR_SW_RELEASE ∧
    ((waitingRelease.loop commandNames quietWorld 9001 false false).2.1.loop commandNames
      (waitingRelease.loop commandNames quietWorld 9001 false false).2.2 9002
      false false).2.1.m_state = State_t.IDLE :=
  have h := C24_release_wait commandNames waitingRelease quietWorld 9001 false false rfl
  have hw : (waitingRelease.loop commandNames quietWorld 9001 false false).2.1.m_state
      = State_t.WAIT_FOR_SW_RELEASE := h.2.1 (by decide)
  ⟨hw, (h.2.2.2.2.2.2 9002 rfl rfl hw).2 (by decide)⟩

/-! ## C25: releasing the button during the hold -/

/-- C25, as stated, fails: in `HOLD_SW1_FOR_START` entered at millisecond 1000,
a tick at 1200 that samples button 1 released (200 ms after entry) keeps the
state; the released sample at 1500 gives IDLE. The same holds for button 2 in
`HOLD_SW2_FOR_START`. -/
theorem C25_counterexample :
    msecSince 1200 holdingSw1.m_lastButtonMsec = 200 ∧
    (holdingSw1.loop commandNames quietWorld 1200 false false).2.1.m_state
      = State_t.HOLD_SW1_FOR_START ∧
    (holdingSw1.loop commandNames quietWorld 1500 false false).2.1.m_state = State_t.IDLE ∧
    (holdingSw2.loop commandNames quietWorld 1200 false false).2.1.m_state
      = State_t.HOLD_SW2_FOR_START ∧
    (holdingSw2.loop commandNames quietWorld 1500 false false).2.1.m_state = State_t.IDLE := by
  decide

/-- C25, amended: in `HOLD_SW1_FOR_START` a tick that samples button 1
released gives IDLE exactly when at least 500 ms (signed reading) have passed
since the state was entered; with fewer than 500 ms it returns `true`, keeps
the state and the time stamp and changes nothing outside, so that a later
released sample at 500 ms or more gives IDLE. The same holds for button 2 in
`HOLD_SW2_FOR_START`. -/
theorem C25_release_during_hold (CLOCKCOMMANDS : Nat → String) (self : ClockSettings)
    (w : SettingsWorld) (now : Nat) (sw1 sw2 : Bool) :
    (self.m_state = State_t.HOLD_SW1_FOR_START → sw1 = false →
      ((self.loop CLOCKCOMMANDS w now sw1 sw2).2.1.m_state = State_t.IDLE ↔
        500 ≤ msecSince now self.m_lastButtonMsec) ∧
      (msecSince now self.m_lastButtonMsec < 500 →
        (self.loop CLOCKCOMMANDS w now sw1 sw2).1 = true ∧
        (self.loop CLOCKCOMMANDS w now sw1 sw2).2.1.m_state = State_t.HOLD_SW1_FOR_START ∧
        (self.loop CLOCKCOMMANDS w now sw1 sw2).2.1.m_lastButtonMsec = self.m_lastButtonMsec ∧
        (self.loop CLOCKCOMMANDS w now sw1 sw2).2.2 = w ∧
        ∀ (now2 : Nat) (b2 : Bool),
          (((self.loop CLOCKCOMMANDS w now sw1 sw2).2.1.loop CLOCKCOMMANDS
              (self.loop CLOCKCOMMANDS w now sw1 sw2).2.2 now2 false b2).2.1.m_state
            = State_t.IDLE ↔ 500 ≤ msecSince now2 self.m_lastButtonMsec))) ∧
    (self.m_state = State_t.HOLD_SW2_FOR_START → sw2 = false →
      ((self.loop CLOCKCOMMANDS w now sw1 sw2).2.1.m_state = State_t.IDLE ↔
        500 ≤ msecSince now self.m_lastButtonMsec) ∧
      (msecSince now self.m_lastButtonMsec < 500 →
        (self.loop CLOCKCOMMANDS w now sw1 sw2).1 = true ∧
        (self.loop CLOCKCOMMANDS w now sw1 sw2).2.1.m_state = State_t.HOLD_SW2_FOR_START ∧
        (self.loop CLOCKCOMMANDS w now sw1 sw2).2.1.m_lastButtonMsec = self.m_lastButtonMsec ∧
        (self.loop CLOCKCOMMANDS w now sw1 sw2).2.2 = w ∧
        ∀ (now2 : Nat) (b1 : Bool),
          (((self.loop CLOCKCOMMANDS w now sw1 sw2).2.1.loop CLOCKCOMMANDS
              (self.loop CLOCKCOMMANDS w now sw1 sw2).2.2 now2 b1 false).2.1.m_state
            = State_t.IDLE ↔ 500 ≤ msecSince now2 self.m_lastButtonMsec))) := by
  have key1 : ∀ (s : ClockSettings) (w1 : SettingsWorld) (t : Nat) (b : Bool),
      s.m_state = State_t.HOLD_SW1_FOR_START →
      ((s.loop CLOCKCOMMANDS w1 t false b).2.1.m_state = State_t.IDLE ↔
        500 ≤ msecSince t s.m_lastButtonMsec) := by
    intro s w1 t b hs
    rw [loop_hold_sw1 CLOCKCOMMANDS s w1 t false b hs]
    simp only [PRESS_HOLD_MESSAGE_MSEC, PRESS_HOLD_MSEC, ge_iff_le]
    by_cases c : 500 ≤ msecSince t s.m_lastButtonMsec
    · rw [if_pos ⟨by decide, c⟩]
      exact ⟨fun _ => c, fun _ => rfl⟩
    · rw [if_neg (fun h => c h.2), if_neg (by omega)]
      constructor
      · intro h
        have h2 : s.m_state = State_t.IDLE := h
        rw [hs] at h2
        cases h2
      · intro h; exact absurd h c
  have key2 : ∀ (s : ClockSettings) (w1 : SettingsWorld) (t : Nat) (b : Bool),
      s.m_state = State_t.HOLD_SW2_FOR_START →
      ((s.loop CLOCKCOMMANDS w1 t b false).2.1.m_state = State_t.IDLE ↔
        500 ≤ msecSince t s.m_lastButtonMsec) := by
    intro s w1 t b hs
    rw [loop_hold_sw2 CLOCKCOMMANDS s w1 t b false hs]
    simp only [PRESS_HOLD_MESSAGE_MSEC, PRESS_HOLD_MSEC, ge_iff_le]
    by_cases c : 500 ≤ msecSince t s.m_lastButtonMsec
    · rw [if_pos ⟨by decide, c⟩]
      exact ⟨fun _ => c, fun _ => rfl⟩
    · rw [if_neg (fun h => c h.2), if_neg (by omega)]
      constructor
      · intro h
        have h2 : s.m_state = State_t.IDLE := h
        rw [hs] at h2
        cases h2
      · intro h; exact absurd h c
  constructor
  · intro hst h1
    subst h1
    refine ⟨key1 self w now sw2 hst, ?_⟩
    intro hd
    have e : self.loop CLOCKCOMMANDS w now false sw2 =
        (true, { self with m_prevSw1 := false, m_prevSw2 := sw2 }, w) := by
      rw [loop_hold_sw1 CLOCKCOMMANDS self w now false sw2 hst]
      simp only [PRESS_HOLD_MESSAGE_MSEC, PRESS_HOLD_MSEC, ge_iff_le]
      rw [if_neg (by omega), if_neg (by omega)]
    rw [e]
    refine ⟨rfl, hst, rfl, rfl, ?_⟩
    intro now2 b2
    exact key1 _ w now2 b2 hst
  · intro hst h2
    subst h2
    refine ⟨key2 self w now sw1 hst, ?_⟩
    intro hd
    have e : self.loop CLOCKCOMMANDS w now sw1 false =
        (true, { self with m_prevSw1 := sw1, m_prevSw2 := false }, w) := by
      rw [loop_hold_sw2 CLOCKCOMMANDS self w now sw1 false hst]
      simp only [PRESS_HOLD_MESSAGE_MSEC, PRESS_HOLD_MSEC, ge_iff_le]
      rw [if_neg (by omega), if_neg (by omega)]
    rw [e]
    refine ⟨rfl, hst, rfl, rfl, ?_⟩
    intro now2 b1
    exact key2 _ w now2 b1 hst

/-- C25 amended, in `HOLD_SW1_FOR_START` and in `HOLD_SW2_FOR_START` entered
at millisecond 1000: the released sample at 1499 keeps the state, the released
sample at 1500 gives IDLE. -/
theorem C25_release_during_hold_witness :
    ((holdingSw1.loop commandNames quietWorld 1499 false false).2.1.m_state
        = State_t.HOLD_SW1_FOR_START ∧
      (holdingSw1.loop commandNames quietWorld 1500 false false).2.1.m_state = State_t.IDLE) ∧
    ((holdingSw2.loop commandNames quietWorld 1499 false false).2.1.m_state
        = State_t.HOLD_SW2_FOR_START ∧
      (holdingSw2.loop commandNames quietWorld 1500 false false).2.1.m_state = State_t.IDLE) :=
  ⟨⟨(((C25_release_during_hold commandNames holdingSw1 quietWorld 1499 false false).1 rfl
        rfl).2 (by decide)).2.1,
      (((C25_release_during_hold commandNames holdingSw1 quietWorld 1500 false false).1 rfl
        rfl).1).2 (by decide)⟩,
    ⟨(((C25_release_during_hold commandNames holdingSw2 quietWorld 1499 false false).2 rfl
        rfl).2 (by decide)).2.1,
      (((C25_release_during_hold commandNames holdingSw2 quietWorld 1500 false false).2 rfl
        rfl).1).2 (by decide)⟩⟩

/-! ## C26: the generic apply function -/

/-- The text `itoa` writes for an option index is its decimal digits. -/
theorem itoa_natCast (o : Nat) : itoa (o : Int) = String.mk (Nat.toDigits 10 o) := rfl

/-- C26: for a table entry `p` with a command identifier (`CommandOption > 0`)
and any option index `o`, `applySw1 p o` hands exactly one command to
`routeCommand`: the name `CLOCKCOMMANDS[CommandOption]` followed by the decimal
digits of `o`, with the length argument text length + 1 (the argument is a
`uint8_t`; the text is built in an 80-byte buffer); nothing else changes. For an
entry whose identifier is -1, or any identifier not above 0, nothing is
emitted. The table entries with an identifier are exactly 1, 2, 5, 6, 7, 8. -/
theorem C26_applySw1_command (CLOCKCOMMANDS : Nat → String) (w : SettingsWorld) (p o : Nat) :
    ((setupParameterAt p).CommandOption > 0 →
      (applySw1 CLOCKCOMMANDS w p o).routed =
        w.routed ++
          [(CLOCKCOMMANDS (setupParameterAt p).CommandOption.toNat ++
              String.mk (Nat.toDigits 10 o),
            (1 + (CLOCKCOMMANDS (setupParameterAt p).CommandOption.toNat ++
              String.mk (Nat.toDigits 10 o)).length) % 256)] ∧
      ((CLOCKCOMMANDS (setupParameterAt p).CommandOption.toNat ++
          String.mk (Nat.toDigits 10 o)).length < 80 →
        (applySw1 CLOCKCOMMANDS w p o).routed =
          w.routed ++
            [(CLOCKCOMMANDS (setupParameterAt p).CommandOption.toNat ++
                String.mk (Nat.toDigits 10 o),
              (CLOCKCOMMANDS (setupParameterAt p).CommandOption.toNat ++
                String.mk (Nat.toDigits 10 o)).length + 1)]) ∧
      (applySw1 CLOCKCOMMANDS w p o).lcd = w.lcd ∧
      (applySw1 CLOCKCOMMANDS w p o).applied = w.applied ∧
      (applySw1 CLOCKCOMMANDS w p o).sysTime = w.sysTime ∧
      (applySw1 CLOCKCOMMANDS w p o).rtc = w.rtc) ∧
    ((setupParameterAt p).CommandOption = -1 → applySw1 CLOCKCOMMANDS w p o = w) ∧
    (¬ (setupParameterAt p).CommandOption > 0 → applySw1 CLOCKCOMMANDS w p o = w) ∧
    (∀ q : Nat, (setupParameterAt q).CommandOption > 0 ↔
      (q = 1 ∨ q = 2 ∨ q = 5 ∨ q = 6 ∨ q = 7 ∨ q = 8)) := by
  refine ⟨?_, ?_, ?_, ?_⟩
  · intro hc
    have e : applySw1 CLOCKCOMMANDS w p o =
        routeBuf w (CLOCKCOMMANDS (setupParameterAt p).CommandOption.toNat ++
          String.mk (Nat.toDigits 10 o)) := by
      unfold applySw1
      dsimp only
      rw [if_pos hc, itoa_natCast]
    rw [e]
    refine ⟨rfl, ?_, rfl, rfl, rfl, rfl⟩
    intro hlen
    unfold routeBuf
    dsimp only
    rw [Nat.mod_eq_of_lt (by omega), Nat.add_comm]
  · intro hc
    unfold applySw1
    dsimp only
    rw [if_neg (by rw [hc]; decide)]
  · intro hc
    unfold applySw1
    dsimp only
    rw [if_neg hc]
  · intro q
    by_cases hq : q < 11
    · interval_cases q <;> decide
    · have e : setupParameterAt q =
          { ParamName := "", CommandOption := -1, NumOptions := 0, OptionNames := [] } := by
        unfold setupParameterAt
        rw [List.getD_eq_default]
        have : setupParameters.length = 11 := rfl
        omega
      rw [e]
      constructor
      · intro h; exact absurd h (by decide)
      · intro h; omega

/-- C26 on `DST` (parameter 1, command identifier 2) with option 1 and on
`TimeZone` (parameter 0, identifier -1): the first routes `C2=1` with length
argument 5, the second routes nothing. -/
theorem C26_applySw1_command_witness :
    (applySw1 commandNames quietWorld 1 1).routed = [("C2=1", 5)] ∧
    applySw1 commandNames quietWorld 0 3 = quietWorld :=
  ⟨((C26_applySw1_command commandNames quietWorld 1 1).1 (by decide)).2.1 (by decide),
    (C26_applySw1_command commandNames quietWorld 0 3).2.1 (by decide)⟩

/-! ## The parts of a rendering tick of `ClockDisplay::loop` -/

/-- The fields `rainRollover` leaves alone. -/
theorem rainRollover_keeps (s : ClockDisplay) (hr min : Int) :
    (s.rainRollover hr min).m_12Hour = s.m_12Hour ∧
    (s.rainRollover hr min).lastDisplayedMinute = s.lastDisplayedMinute ∧
    (s.rainRollover hr min).lastDisplayedHour = s.lastDisplayedHour ∧
    (s.rainRollover hr min).m_displayStyle = s.m_displayStyle ∧
    (s.rainRollover hr min).m_Blink = s.m_Blink ∧
    (s.rainRollover hr min).m_outdoortempC = s.m_outdoortempC ∧
    (s.rainRollover hr min).m_outdoortempTime = s.m_outdoortempTime ∧
    (s.rainRollover hr min).m_unitsInMetric = s.m_unitsInMetric ∧
    (s.rainRollover hr min).lastTimet = s.lastTimet ∧
    (s.rainRollover hr min).m_flippedFonts = s.m_flippedFonts ∧
    (s.rainRollover hr min).m_rainGaugeCorrectionPerThousand
      = s.m_rainGaugeCorrectionPerThousand := by
  unfold ClockDisplay.rainRollover
  dsimp only
  split_ifs <;> exact ⟨rfl, rfl, rfl, rfl, rfl, rfl, rfl, rfl, rfl, rfl, rfl⟩

/-- The rainfall fields after `rainRollover`. -/
theorem rainRollover_rain (s : ClockDisplay) (hr min : Int) :
    (s.rainRollover hr min).m_rainToday =
      (if hr = 0 ∧ min = 0 ∧ s.m_clearedRainToday = false then F32.ofInt 0
        else s.m_rainToday) ∧
    (s.rainRollover hr min).m_rainYesterday =
      (if hr = 0 ∧ min = 0 ∧ s.m_clearedRainToday = false then s.m_rainToday
        else if hr = 12 then F32.ofInt 0 else s.m_rainYesterday) ∧
    (s.rainRollover hr min).m_clearedRainToday =
      (if hr = 0 then (if min = 0 then true else s.m_clearedRainToday) else false) := by
  unfold ClockDisplay.rainRollover
  simp only [Bool.not_eq_true]
  by_cases h0 : hr = 0
  · have h12 : ¬ hr = 12 := by omega
    by_cases hm : min = 0
    · cases hc : s.m_clearedRainToday <;> simp [h0, hm, hc]
    · cases hc : s.m_clearedRainToday <;> simp [h0, hm, hc]
  · by_cases h12 : hr = 12
    · cases hc : s.m_clearedRainToday <;> simp [h0, h12, hc]
    · cases hc : s.m_clearedRainToday <;> simp [h0, h12, hc]

/-- The fields `applyDstChange` leaves alone. -/
theorem applyDstChange_keeps (s : ClockDisplay) (t : Nat) :
    (s.applyDstChange t).m_12Hour = s.m_12Hour ∧
    (s.applyDstChange t).lastDisplayedMinute = s.lastDisplayedMinute ∧
    (s.applyDstChange t).lastDisplayedHour = s.lastDisplayedHour ∧
    (s.applyDstChange t).m_displayStyle = s.m_displayStyle ∧
    (s.applyDstChange t).m_Blink = s.m_Blink ∧
    (s.applyDstChange t).m_outdoortempC = s.m_outdoortempC ∧
    (s.applyDstChange t).m_outdoortempTime = s.m_outdoortempTime ∧
    (s.applyDstChange t).m_unitsInMetric = s.m_unitsInMetric ∧
    (s.applyDstChange t).lastTimet = s.lastTimet ∧
    (s.applyDstChange t).m_flippedFonts = s.m_flippedFonts ∧
    (s.applyDstChange t).m_rainGaugeCorrectionPerThousand
      = s.m_rainGaugeCorrectionPerThousand ∧
    (s.applyDstChange t).m_rainToday = s.m_rainToday ∧
    (s.applyDstChange t).m_rainYesterday = s.m_rainYesterday ∧
    (s.applyDstChange t).m_clearedRainToday = s.m_clearedRainToday := by
  unfold ClockDisplay.applyDstChange
  split_ifs <;> exact ⟨rfl, rfl, rfl, rfl, rfl, rfl, rfl, rfl, rfl, rfl, rfl, rfl, rfl, rfl⟩

/-- The renderer after the roll-over of a rendering tick, field by field. -/
theorem tickRolled_fields (s : ClockDisplay) (now : Nat) :
    (s.tickRolled now).m_12Hour = s.m_12Hour ∧
    (s.tickRolled now).lastDisplayedMinute = s.lastDisplayedMinute ∧
    (s.tickRolled now).lastDisplayedHour = s.lastDisplayedHour ∧
    (s.tickRolled now).m_displayStyle = s.m_displayStyle ∧
    (s.tickRolled now).m_Blink = nextBlink s.m_Blink ∧
    (s.tickRolled now).m_outdoortempC = s.m_outdoortempC ∧
    (s.tickRolled now).m_outdoortempTime = s.m_outdoortempTime ∧
    (s.tickRolled now).m_unitsInMetric = s.m_unitsInMetric ∧
    (s.tickRolled now).lastTimet = now ∧
    (s.tickRolled now).m_flippedFonts = s.m_flippedFonts ∧
    (s.tickRolled now).m_rainGaugeCorrectionPerThousand
      = s.m_rainGaugeCorrectionPerThousand ∧
    (s.tickRolled now).m_rainToday =
      (if hour (s.tickLocal now) = 0 ∧ minute (s.tickLocal now) = 0 ∧
          s.m_clearedRainToday = false then F32.ofInt 0 else s.m_rainToday) ∧
    (s.tickRolled now).m_rainYesterday =
      (if hour (s.tickLocal now) = 0 ∧ minute (s.tickLocal now) = 0 ∧
          s.m_clearedRainToday = false then s.m_rainToday
        else if hour (s.tickLocal now) = 12 then F32.ofInt 0 else s.m_rainYesterday) ∧
    (s.tickRolled now).m_clearedRainToday =
      (if hour (s.tickLocal now) = 0 then
        (if minute (s.tickLocal now) = 0 then true else s.m_clearedRainToday)
      else false) := by
  unfold ClockDisplay.tickRolled
  obtain ⟨a1, a2, a3, a4, a5, a6, a7, a8, a9, a10, a11⟩ :=
    rainRollover_keeps ((s.startTick now).applyDstChange now)
      (hour (s.tickLocal now)) (minute (s.tickLocal now))
  obtain ⟨r1, r2, r3⟩ :=
    rainRollover_rain ((s.startTick now).applyDstChange now)
      (hour (s.tickLocal now)) (minute (s.tickLocal now))
  obtain ⟨b1, b2, b3, b4, b5, b6, b7, b8, b9, b10, b11, b12, b13, b14⟩ :=
    applyDstChange_keeps (s.startTick now) now
  rw [a1, a2, a3, a4, a5, a6, a7, a8, a9, a10, a11, r1, r2, r3,
    b1, b2, b3, b4, b5, b6, b7, b8, b9, b10, b11, b12, b13, b14]
  exact ⟨rfl, rfl, rfl, rfl, rfl, rfl, rfl, rfl, rfl, rfl, rfl, rfl, rfl, rfl⟩

/-- The renderer after `lcdTemperature`, field by field, and when it writes. -/
theorem lcdTemperature_fields (dtostrf : F32 → Int → Nat → String) (s : ClockDisplay)
    (millis : Nat) :
    (ClockDisplay.lcdTemperature dtostrf s millis).1.m_12Hour = s.m_12Hour ∧
    (ClockDisplay.lcdTemperature dtostrf s millis).1.m_displayStyle = s.m_displayStyle ∧
    (ClockDisplay.lcdTemperature dtostrf s millis).1.m_Blink = s.m_Blink ∧
    (ClockDisplay.lcdTemperature dtostrf s millis).1.m_outdoortempTime
      = s.m_outdoortempTime ∧
    (ClockDisplay.lcdTemperature dtostrf s millis).1.m_unitsInMetric = s.m_unitsInMetric ∧
    (ClockDisplay.lcdTemperature dtostrf s millis).1.lastTimet = s.lastTimet ∧
    (ClockDisplay.lcdTemperature dtostrf s millis).1.m_flippedFonts = s.m_flippedFonts ∧
    (ClockDisplay.lcdTemperature dtostrf s millis).1.m_rainGaugeCorrectionPerThousand
      = s.m_rainGaugeCorrectionPerThousand ∧
    (ClockDisplay.lcdTemperature dtostrf s millis).1.m_rainToday = s.m_rainToday ∧
    (ClockDisplay.lcdTemperature dtostrf s millis).1.m_rainYesterday = s.m_rainYesterday ∧
    (ClockDisplay.lcdTemperature dtostrf s millis).1.m_clearedRainToday
      = s.m_clearedRainToday ∧
    (ClockDisplay.lcdTemperature dtostrf s millis).1.m_outdoortempC =
      (if F32.ne s.m_outdoortempC ABSENT_TEMP = true ∧ 600000 ≤ s.outdoorTempAge millis then
        ABSENT_TEMP
      else s.m_outdoortempC) := by
  unfold ClockDisplay.lcdTemperature ClockDisplay.outdoorTempAge
  dsimp only
  by_cases ha : F32.ne s.m_outdoortempC ABSENT_TEMP = true
  swap
  · simp [ha]
  · by_cases hf : (millis + 4294967296 - s.m_outdoortempTime % 4294967296) % 4294967296
        < 1000 * 60 * 10
    · have hf2 : ¬ 600000 ≤
          (millis + 4294967296 - s.m_outdoortempTime % 4294967296) % 4294967296 := by omega
      simp [ha, hf, hf2]
    · have hf2 : 600000 ≤
          (millis + 4294967296 - s.m_outdoortempTime % 4294967296) % 4294967296 := by omega
      simp [ha, hf, hf2]

/-- A rendering tick of `ClockDisplay::loop`, in terms of its parts. -/
theorem loop_tick (dtostrf : F32 → Int → Nat → String) (s : ClockDisplay)
    (out : Displays) (now millis : Nat) (ledEnabled lcdEnabled : Bool)
    (hrs : s.radioSilence = false) (hnew : now ≠ s.lastTimet) :
    s.loop dtostrf out .timeSet now millis ledEnabled lcdEnabled =
      ({ (if lcdEnabled then
            (ClockDisplay.lcdTemperature dtostrf (s.tickRolled now) millis).1
          else s.tickRolled now) with
          lastDisplayedMinute := minute (s.tickLocal now),
          lastDisplayedHour := s.tickHour now },
        { lcd := out.lcd ++
            (if lcdEnabled then
              (s.tickRolled now).lcdClock (s.tickHour now) (minute (s.tickLocal now))
                (second (s.tickLocal now)) ++
              (ClockDisplay.lcdTemperature dtostrf (s.tickRolled now) millis).2 ++
              ClockDisplay.lcdRain dtostrf
                (ClockDisplay.lcdTemperature dtostrf (s.tickRolled now) millis).1
            else []),
          led := out.led ++
            (if (minute (s.tickLocal now) ≠ s.lastDisplayedMinute ∨
                  s.tickHour now ≠ s.lastDisplayedHour) ∨
                s.m_displayStyle = .SMALL_COLON then
              if ledEnabled then
                ClockDisplay.ledDisplayAddColon
                  (if lcdEnabled then
                    (ClockDisplay.lcdTemperature dtostrf (s.tickRolled now) millis).1
                  else s.tickRolled now)
                  (ClockDisplay.ledBuffer
                    (if lcdEnabled then
                      (ClockDisplay.lcdTemperature dtostrf (s.tickRolled now) millis).1
                    else s.tickRolled now)
                    (s.tickHour now) (minute (s.tickLocal now)))
              else []
            else []) }) := by
  obtain ⟨f1, f2, f3, f4, _⟩ := tickRolled_fields s now
  obtain ⟨_, g2, _⟩ := lcdTemperature_fields dtostrf (s.tickRolled now) millis
  have hH : (if (s.tickRolled now).m_12Hour then hourFormat12 (s.tickLocal now)
      else hour (s.tickLocal now)) = s.tickHour now := by
    rw [f1]; rfl
  have e : s.loop dtostrf out .timeSet now millis ledEnabled lcdEnabled =
      (let self := s.tickRolled now
      let t := s.tickLocal now
      let hr := if self.m_12Hour then hourFormat12 t else hour t
      let hrOrMinChanged : Bool :=
        decide (minute t ≠ self.lastDisplayedMinute) || decide (hr ≠ self.lastDisplayedHour)
      let so : ClockDisplay × List LcdOp :=
        if lcdEnabled then
          let st := ClockDisplay.lcdTemperature dtostrf self millis
          (st.1, self.lcdClock hr (minute t) (second t) ++ st.2 ++
            ClockDisplay.lcdRain dtostrf st.1)
        else (self, [])
      let self := so.1
      let ledOps : List LedOp :=
        if hrOrMinChanged ∨ self.m_displayStyle = .SMALL_COLON then
          if ledEnabled then self.ledDisplayAddColon (self.ledBuffer hr (minute t)) else []
        else []
      ({ self with lastDisplayedMinute := minute t, lastDisplayedHour := hr },
        { lcd := out.lcd ++ so.2, led := out.led ++ ledOps })) := by
    simp only [ClockDisplay.loop, hrs, Bool.false_eq_true, if_false, ne_eq, not_true_eq_false,
      hnew, not_false_eq_true, ClockDisplay.tickRolled, ClockDisplay.tickLocal]
  rw [e]
  dsimp only
  rw [hH, f2, f3]
  cases lcdEnabled
  · simp only [Bool.false_eq_true, if_false, f4, Bool.or_eq_true, decide_eq_true_eq]
  · simp only [if_true, g2, f4, Bool.or_eq_true, decide_eq_true_eq]

/-- A call of `ClockDisplay::loop` that does not render leaves the renderer
as it is. -/
theorem loop_idle_state (dtostrf : F32 → Int → Nat → String) (s : ClockDisplay)
    (out : Displays) (status : timeStatus_t) (now millis : Nat) (ledEnabled lcdEnabled : Bool)
    (h : s.radioSilence = true ∨ status ≠ .timeSet ∨ now = s.lastTimet) :
    (s.loop dtostrf out status now millis ledEnabled lcdEnabled).1 = s := by
  by_cases hrs : s.radioSilence = true
  · simp only [ClockDisplay.loop, hrs, if_true]
  by_cases hst : status = .timeSet
  swap
  · simp only [ClockDisplay.loop, hrs, if_false, ne_eq, hst, not_false_eq_true, if_true,
      Bool.false_eq_true]
  by_cases hnew : now = s.lastTimet
  · simp only [ClockDisplay.loop, hrs, if_false, ne_eq, hst, not_true_eq_false, hnew, if_true,
      Bool.false_eq_true]
  · rcases h with h | h | h
    · exact absurd h hrs
    · exact absurd hst h
    · exact absurd h hnew

/-- The rainfall overlay depends on the rainfall totals, the blink phase, the
units and the gauge correction only. -/
theorem lcdRain_congr (dtostrf : F32 → Int → Nat → String) (a b : ClockDisplay)
    (h1 : a.m_rainYesterday = b.m_rainYesterday) (h2 : a.m_rainToday = b.m_rainToday)
    (h3 : a.m_Blink = b.m_Blink) (h4 : a.m_unitsInMetric = b.m_unitsInMetric)
    (h5 : a.m_rainGaugeCorrectionPerThousand = b.m_rainGaugeCorrectionPerThousand) :
    ClockDisplay.lcdRain dtostrf a = ClockDisplay.lcdRain dtostrf b := by
  simp only [ClockDisplay.lcdRain, ClockDisplay.displayRain, ClockDisplay.rainMillimetres,
    h1, h2, h3, h4, h5]

/-- The rainfall overlay of a tick is that of the renderer after the
roll-over. -/
theorem lcdRain_after_temperature (dtostrf : F32 → Int → Nat → String) (s : ClockDisplay)
    (millis : Nat) :
    ClockDisplay.lcdRain dtostrf (ClockDisplay.lcdTemperature dtostrf s millis).1
      = ClockDisplay.lcdRain dtostrf s := by
  obtain ⟨_, _, g3, _, g5, _, _, g8, g9, g10, _, _⟩ := lcdTemperature_fields dtostrf s millis
  exact lcdRain_congr dtostrf _ _ g10 g9 g3 g5 g8

/-- What `lcdTemperature` writes: row 1 and a non-empty text for a reading
younger than ten minutes, nothing otherwise. -/
theorem lcdTemperature_out (dtostrf : F32 → Int → Nat → String) (s : ClockDisplay)
    (millis : Nat) :
    (F32.ne s.m_outdoortempC ABSENT_TEMP = true → s.outdoorTempAge millis < 600000 →
      (∃ body, body ≠ [] ∧
        (ClockDisplay.lcdTemperature dtostrf s millis).2 = LcdOp.setCursor 0 1 :: body) ∧
      (F32.lt s.m_outdoortempC (F32.ofInt 99) = true →
        F32.lt (F32.ofInt (-40)) s.m_outdoortempC = true →
        (s.m_unitsInMetric = false →
          (ClockDisplay.lcdTemperature dtostrf s millis).2 =
            [LcdOp.setCursor 0 1,
              LcdOp.print (setDegreeAt3 (dtostrf (fahrenheit s.m_outdoortempC) 3 0))]) ∧
        (s.m_unitsInMetric = true →
          (ClockDisplay.lcdTemperature dtostrf s millis).2 =
            [LcdOp.setCursor 0 1, LcdOp.print (dtostrf s.m_outdoortempC 3 0)] ++
              (if F32.fractionAtLeastHalf s.m_outdoortempC = true then [LcdOp.write 0]
                else []) ++
              [LcdOp.write 0xdf])) ∧
      (¬ (F32.lt s.m_outdoortempC (F32.ofInt 99) = true ∧
          F32.lt (F32.ofInt (-40)) s.m_outdoortempC = true) →
        (ClockDisplay.lcdTemperature dtostrf s millis).2
          = [LcdOp.setCursor 0 1, LcdOp.write 63])) ∧
    ((F32.ne s.m_outdoortempC ABSENT_TEMP = false ∨ 600000 ≤ s.outdoorTempAge millis) →
      (ClockDisplay.lcdTemperature dtostrf s millis).2 = []) := by
  unfold ClockDisplay.outdoorTempAge
  constructor
  · intro ha hf
    have hf' : (millis + 4294967296 - s.m_outdoortempTime % 4294967296) % 4294967296
        < 1000 * 60 * 10 := by omega
    have e : (ClockDisplay.lcdTemperature dtostrf s millis).2 =
        [LcdOp.setCursor 0 1] ++
        (if F32.lt s.m_outdoortempC (F32.ofInt 99) = true ∧
            F32.lt (F32.ofInt (-40)) s.m_outdoortempC = true then
          (if ¬ s.m_unitsInMetric = true then
            [LcdOp.print (setDegreeAt3 (dtostrf (fahrenheit s.m_outdoortempC) 3 0))]
          else
            [LcdOp.print (dtostrf s.m_outdoortempC 3 0)] ++
            (if F32.fractionAtLeastHalf s.m_outdoortempC = true then [LcdOp.write 0]
              else []) ++
            [LcdOp.write 0xdf])
        else [LcdOp.write 63]) := by
      unfold ClockDisplay.lcdTemperature
      rw [if_pos ha, if_pos hf']
    rw [e]
    refine ⟨⟨_, ?_, rfl⟩, ?_, ?_⟩
    · split_ifs <;> simp
    · intro h1 h2
      constructor
      · intro hm
        rw [if_pos ⟨h1, h2⟩, if_pos (by rw [hm]; decide)]
        rfl
      · intro hm
        rw [if_pos ⟨h1, h2⟩, if_neg (by rw [hm]; decide)]
        rfl
    · intro hn
      rw [if_neg hn]
      rfl
  · rintro (ha | hf)
    · unfold ClockDisplay.lcdTemperature
      rw [if_neg (by rw [ha]; decide)]
    · unfold ClockDisplay.lcdTemperature
      have hf' : ¬ (millis + 4294967296 - s.m_outdoortempTime % 4294967296) % 4294967296
          < 1000 * 60 * 10 := by omega
      split_ifs <;> rfl

/-- The renderer after the roll-over of a tick is not muted if it was not. -/
theorem tickRolled_radioSilence (s : ClockDisplay) (now : Nat) :
    (s.tickRolled now).radioSilence = s.radioSilence := by
  unfold ClockDisplay.tickRolled
  rw [(rainRollover_frame _ _ _).2.2.2.2.2, (applyDstChange_frame _ _).2.2]
  rfl

/-- The LCD calls and the outdoor reading of a rendering tick with the LCD
enabled. -/
theorem loop_tick_lcd (dtostrf : F32 → Int → Nat → String) (a : ClockDisplay)
    (o : Displays) (n ms : Nat) (l : Bool)
    (ha : a.radioSilence = false) (hn : n ≠ a.lastTimet) :
    (a.loop dtostrf o .timeSet n ms l true).2.lcd =
      o.lcd ++
        (a.tickRolled n).lcdClock (a.tickHour n) (minute (a.tickLocal n))
          (second (a.tickLocal n)) ++
        (ClockDisplay.lcdTemperature dtostrf (a.tickRolled n) ms).2 ++
        ClockDisplay.lcdRain dtostrf (a.tickRolled n) ∧
    (a.loop dtostrf o .timeSet n ms l true).1.m_outdoortempC =
      (ClockDisplay.lcdTemperature dtostrf (a.tickRolled n) ms).1.m_outdoortempC ∧
    (a.loop dtostrf o .timeSet n ms l true).1.m_outdoortempTime = a.m_outdoortempTime ∧
    (a.loop dtostrf o .timeSet n ms l true).1.radioSilence = false ∧
    (a.loop dtostrf o .timeSet n ms l true).1.lastTimet = n := by
  rw [loop_tick dtostrf a o n ms l true ha hn]
  obtain ⟨_, _, _, f7, _, f9, _⟩ := lcdTemperature_fields dtostrf (a.tickRolled n) ms
  obtain ⟨_, _, _, _, _, _, t7, _, t9, _⟩ := tickRolled_fields a n
  have hr : (ClockDisplay.lcdTemperature dtostrf (a.tickRolled n) ms).1.radioSilence
      = false := by
    rw [(lcdTemperature_frame dtostrf _ ms).2.2.2.2.2, tickRolled_radioSilence, ha]
  refine ⟨?_, rfl, f7.trans t7, hr, f9.trans t9⟩
  show o.lcd ++ _ = _
  simp only [if_true, lcdRain_after_temperature, List.append_assoc]

/-- No call of `ClockDisplay::loop` replaces the `ABSENT_TEMP` mark. -/
theorem loop_keeps_absent (dtostrf : F32 → Int → Nat → String) (a : ClockDisplay)
    (o : Displays) (status : timeStatus_t) (n ms : Nat) (l lc : Bool)
    (h : a.m_outdoortempC = ABSENT_TEMP) :
    (a.loop dtostrf o status n ms l lc).1.m_outdoortempC = ABSENT_TEMP := by
  by_cases hi : a.radioSilence = true ∨ status ≠ .timeSet ∨ n = a.lastTimet
  · rw [loop_idle_state dtostrf a o status n ms l lc hi]; exact h
  · have h1 : a.radioSilence = false := by
      cases hc : a.radioSilence
      · rfl
      · exact absurd (Or.inl hc) hi
    have h2 : status = .timeSet := by
      by_contra hc; exact hi (Or.inr (Or.inl hc))
    have h3 : n ≠ a.lastTimet := fun hc => hi (Or.inr (Or.inr hc))
    subst h2
    rw [loop_tick dtostrf a o n ms l lc h1 h3]
    have t6 : (a.tickRolled n).m_outdoortempC = ABSENT_TEMP := by
      rw [(tickRolled_fields a n).2.2.2.2.2.1]; exact h
    cases lc
    · exact t6
    · show (ClockDisplay.lcdTemperature dtostrf (a.tickRolled n) ms).1.m_outdoortempC = _
      rw [(lcdTemperature_fields dtostrf (a.tickRolled n) ms).2.2.2.2.2.2.2.2.2.2.2, t6]
      split_ifs <;> rfl

/-! ## C27: the outdoor temperature expires after ten minutes -/

/-- C27: a rendering tick of `ClockDisplay::loop` with the LCD enabled, on a
renderer holding an outdoor reading (one that `!=` tells from the `ABSENT_TEMP`
mark) notified at millisecond `m_outdoortempTime`. With age
`millis - m_outdoortempTime` (in 32-bit unsigned arithmetic) below 600000 the
LCD gets, between the clock and the rainfall overlay, row 1 and a non-empty
temperature text, and the reading is kept: for a reading between -40 and 99 the
text `dtostrf` writes for `t * 9 / 5 + 32` (each step a rounded `float`
operation) with the degree sign, or in metric units the text for the reading
itself, the half mark when its fraction is at least one half, and the degree
sign; for any other reading a question mark. From 600000 on nothing is written
for the temperature and the reading becomes `ABSENT_TEMP`, after which no call
of `loop` writes a temperature or changes the mark; `notifyOutdoorTemp` stores
reading and time, and `k` ms after a notification the age is `k`. The mark is
the `float` with bits `0xC479F99A`, which `!=` tells from its two neighbours
and from a NaN; the reading `0x3F555552` (0.83333313) becomes `0x42060000`
(33.5) in Fahrenheit; 99 and -40 themselves and a NaN are outside the range,
`0x42C5FFFF` (98.9999924) and `0xC21FFFFF` (-39.9999962) inside; the half mark
is set for 0.5 and -2.5 and not for `0x3EFFFFFF` (0.49999997). -/
theorem C27_outdoor_temp_ten_minutes (dtostrf : F32 → Int → Nat → String) (s : ClockDisplay)
    (out : Displays) (now millis : Nat) (ledEnabled : Bool)
    (hrs : s.radioSilence = false) (hnew : now ≠ s.lastTimet)
    (htemp : F32.ne s.m_outdoortempC ABSENT_TEMP = true) :
    (s.outdoorTempAge millis < 600000 →
      (∃ body, body ≠ [] ∧
        (s.loop dtostrf out .timeSet now millis ledEnabled true).2.lcd =
          out.lcd ++
            (s.tickRolled now).lcdClock (s.tickHour now) (minute (s.tickLocal now))
              (second (s.tickLocal now)) ++
            LcdOp.setCursor 0 1 :: body ++
            ClockDisplay.lcdRain dtostrf (s.tickRolled now)) ∧
      (F32.lt s.m_outdoortempC (F32.ofInt 99) = true →
        F32.lt (F32.ofInt (-40)) s.m_outdoortempC = true →
        (s.m_unitsInMetric = false →
          (s.loop dtostrf out .timeSet now millis ledEnabled true).2.lcd =
            out.lcd ++
              (s.tickRolled now).lcdClock (s.tickHour now) (minute (s.tickLocal now))
                (second (s.tickLocal now)) ++
              [LcdOp.setCursor 0 1,
                LcdOp.print (setDegreeAt3
                  (dtostrf
                    (F32.add (F32.div (F32.mul s.m_outdoortempC (F32.ofInt 9)) (F32.ofInt 5))
                      (F32.ofInt 32)) 3 0))] ++
              ClockDisplay.lcdRain dtostrf (s.tickRolled now)) ∧
        (s.m_unitsInMetric = true →
          (s.loop dtostrf out .timeSet now millis ledEnabled true).2.lcd =
            out.lcd ++
              (s.tickRolled now).lcdClock (s.tickHour now) (minute (s.tickLocal now))
                (second (s.tickLocal now)) ++
              ([LcdOp.setCursor 0 1, LcdOp.print (dtostrf s.m_outdoortempC 3 0)] ++
                (if F32.fractionAtLeastHalf s.m_outdoortempC = true then [LcdOp.write 0]
                  else []) ++
                [LcdOp.write 0xdf]) ++
              ClockDisplay.lcdRain dtostrf (s.tickRolled now))) ∧
      (¬ (F32.lt s.m_outdoortempC (F32.ofInt 99) = true ∧
          F32.lt (F32.ofInt (-40)) s.m_outdoortempC = true) →
        (s.loop dtostrf out .timeSet now millis ledEnabled true).2.lcd =
          out.lcd ++
            (s.tickRolled now).lcdClock (s.tickHour now) (minute (s.tickLocal now))
              (second (s.tickLocal now)) ++
            [LcdOp.setCursor 0 1, LcdOp.write 63] ++
            ClockDisplay.lcdRain dtostrf (s.tickRolled now)) ∧
      (s.loop dtostrf out .timeSet now millis ledEnabled true).1.m_outdoortempC
        = s.m_outdoortempC ∧
      (s.loop dtostrf out .timeSet now millis ledEnabled true).1.m_outdoortempTime
        = s.m_outdoortempTime) ∧
    (600000 ≤ s.outdoorTempAge millis →
      (s.loop dtostrf out .timeSet now millis ledEnabled true).2.lcd =
        out.lcd ++
          (s.tickRolled now).lcdClock (s.tickHour now) (minute (s.tickLocal now))
            (second (s.tickLocal now)) ++
          ClockDisplay.lcdRain dtostrf (s.tickRolled now) ∧
      (s.loop dtostrf out .timeSet now millis ledEnabled true).1.m_outdoortempC
        = ABSENT_TEMP ∧
      ∀ (out2 : Displays) (status2 : timeStatus_t) (now2 millis2 : Nat) (led2 lcd2 : Bool),
        ((s.loop dtostrf out .timeSet now millis ledEnabled true).1.loop dtostrf out2
          status2 now2 millis2 led2 lcd2).1.m_outdoortempC = ABSENT_TEMP ∧
        (status2 = .timeSet → now2 ≠ now → lcd2 = true →
          ((s.loop dtostrf out .timeSet now millis ledEnabled true).1.loop dtostrf out2
            status2 now2 millis2 led2 lcd2).2.lcd =
            out2.lcd ++
              ((s.loop dtostrf out .timeSet now millis ledEnabled true).1.tickRolled
                  now2).lcdClock
                ((s.loop dtostrf out .timeSet now millis ledEnabled true).1.tickHour now2)
                (minute
                  ((s.loop dtostrf out .timeSet now millis ledEnabled true).1.tickLocal now2))
                (second
                  ((s.loop dtostrf out .timeSet now millis ledEnabled true).1.tickLocal
                    now2)) ++
              ClockDisplay.lcdRain dtostrf
                ((s.loop dtostrf out .timeSet now millis ledEnabled true).1.tickRolled
                  now2))) ∧
    (∀ (x : ClockDisplay) (v : F32) (m : Nat),
      (x.notifyOutdoorTemp v m).m_outdoortempC = v ∧
      (x.notifyOutdoorTemp v m).m_outdoortempTime = m ∧
      (x.notifyOutdoorTemp v m).radioSilence = x.radioSilence ∧
      (x.notifyOutdoorTemp v m).lastTimet = x.lastTimet ∧
      ∀ k : Nat, m < 4294967296 → k < 4294967296 →
        (x.notifyOutdoorTemp v m).outdoorTempAge (m + k) = k ∧
        (x.notifyOutdoorTemp v m).outdoorTempAge ((m + k) % 4294967296) = k) ∧
    (ABSENT_TEMP = ⟨0xC479F99A⟩ ∧
      F32.add (F32.div (F32.mul ⟨0x3F555552⟩ (F32.ofInt 9)) (F32.ofInt 5)) (F32.ofInt 32)
        = ⟨0x42060000⟩ ∧
      F32.add (F32.div (F32.mul (F32.ofInt 20) (F32.ofInt 9)) (F32.ofInt 5)) (F32.ofInt 32)
        = F32.ofInt 68 ∧
      (F32.ne ABSENT_TEMP ABSENT_TEMP = false ∧ F32.ne ⟨0xC479F999⟩ ABSENT_TEMP = true ∧
        F32.ne ⟨0xC479F99B⟩ ABSENT_TEMP = true ∧ F32.ne ⟨0x7FC00000⟩ ABSENT_TEMP = true) ∧
      (F32.lt (F32.ofInt 99) (F32.ofInt 99) = false ∧
        F32.lt (F32.ofInt (-40)) (F32.ofInt (-40)) = false ∧
        F32.lt ⟨0x42C5FFFF⟩ (F32.ofInt 99) = true ∧
        F32.lt (F32.ofInt (-40)) ⟨0xC21FFFFF⟩ = true ∧
        F32.lt ⟨0x7FC00000⟩ (F32.ofInt 99) = false ∧
        F32.lt (F32.ofInt (-40)) ⟨0x7FC00000⟩ = false) ∧
      (F32.fractionAtLeastHalf ⟨0x3F000000⟩ = true ∧
        F32.fractionAtLeastHalf ⟨0xC0200000⟩ = true ∧
        F32.fractionAtLeastHalf ⟨0x3EFFFFFF⟩ = false)) := by
  obtain ⟨hlcd, hC, hT, hR, hL⟩ := loop_tick_lcd dtostrf s out now millis ledEnabled hrs hnew
  obtain ⟨_, _, _, _, _, t6, t7, t8, _⟩ := tickRolled_fields s now
  have hage : (s.tickRolled now).outdoorTempAge millis = s.outdoorTempAge millis := by
    unfold ClockDisplay.outdoorTempAge; rw [t7]
  obtain ⟨o1, o2⟩ := lcdTemperature_out dtostrf (s.tickRolled now) millis
  have hX := (lcdTemperature_fields dtostrf (s.tickRolled now) millis).2.2.2.2.2.2.2.2.2.2.2
  rw [hage] at o1 o2 hX
  rw [t6] at o1 hX
  rw [t8] at o1
  refine ⟨?_, ?_, ?_, ?_⟩
  · intro hf
    obtain ⟨⟨body, hb, hbody⟩, hF, hQ⟩ := o1 htemp hf
    refine ⟨⟨body, hb, ?_⟩, ?_, ?_, ?_, hT⟩
    · rw [hlcd, hbody]
    · intro h1 h2
      constructor
      · intro h3
        rw [hlcd, (hF h1 h2).1 h3]
        rfl
      · intro h3
        rw [hlcd, (hF h1 h2).2 h3]
    · intro hn
      rw [hlcd, hQ hn]
    · rw [hC, hX, if_neg (by omega)]
  · intro hf
    have hA : (s.loop dtostrf out .timeSet now millis ledEnabled true).1.m_outdoortempC
        = ABSENT_TEMP := by
      rw [hC, hX, if_pos ⟨htemp, hf⟩]
    refine ⟨?_, hA, ?_⟩
    · rw [hlcd, o2 (Or.inr hf), List.append_nil]
    · intro out2 status2 now2 millis2 led2 lcd2
      refine ⟨loop_keeps_absent dtostrf _ out2 status2 now2 millis2 led2 lcd2 hA, ?_⟩
      intro h1 h2 h3
      subst h1; subst h3
      have hn2 : now2 ≠ (s.loop dtostrf out .timeSet now millis ledEnabled true).1.lastTimet := by
        rw [hL]; exact h2
      obtain ⟨k1, _⟩ := loop_tick_lcd dtostrf _ out2 now2 millis2 led2 hR hn2
      rw [k1, (lcdTemperature_out dtostrf _ millis2).2 (Or.inl ?_), List.append_nil]
      rw [(tickRolled_fields _ now2).2.2.2.2.2.1, hA]
      decide
  · intro x v m
    refine ⟨rfl, rfl, rfl, rfl, ?_⟩
    intro k hm hk
    unfold ClockDisplay.outdoorTempAge ClockDisplay.notifyOutdoorTemp
    dsimp only
    constructor <;> omega
  · set_option maxRecDepth 100000 in decide

/-- C27 on the renderer holding 20 degrees notified at millisecond 1000: the
tick at millisecond 600999 writes `68` and the degree sign on row 1 and keeps
the reading, the tick at 601000 writes the clock only and replaces the reading
by `ABSENT_TEMP`. -/
theorem C27_outdoor_temp_ten_minutes_witness :
    (displayWarm.loop dtostrfInt noDisplays .timeSet 1710036000 600999 false true).2.lcd =
      [LcdOp.clear, LcdOp.printChar '0', LcdOp.printInt 2, LcdOp.printChar ':',
        LcdOp.printChar '0', LcdOp.printInt 0, LcdOp.printChar ':', LcdOp.printChar '0',
        LcdOp.printInt 0, LcdOp.setCursor 0 1,
        LcdOp.print (String.mk [' ', '6', '8', Char.ofNat 0xdf])] ∧
    (displayWarm.loop dtostrfInt noDisplays .timeSet 1710036000 600999 false true).1.m_outdoortempC
      = displayWarm.m_outdoortempC ∧
    (displayWarm.loop dtostrfInt noDisplays .timeSet 1710036000 601000 false true).2.lcd =
      [LcdOp.clear, LcdOp.printChar '0', LcdOp.printInt 2, LcdOp.printChar ':',
        LcdOp.printChar '0', LcdOp.printInt 0, LcdOp.printChar ':', LcdOp.printChar '0',
        LcdOp.printInt 0] ∧
    (displayWarm.loop dtostrfInt noDisplays .timeSet 1710036000 601000 false true).1.m_outdoortempC
      = ABSENT_TEMP :=
  ⟨((((C27_outdoor_temp_ten_minutes dtostrfInt displayWarm noDisplays 1710036000 600999 false
      rfl (by decide) (by decide)).1 (by decide)).2.1 (by decide) (by decide)).1 rfl).trans
      (by set_option maxRecDepth 100000 in decide),
    ((C27_outdoor_temp_ten_minutes dtostrfInt displayWarm noDisplays 1710036000 600999 false
      rfl (by decide) (by decide)).1 (by decide)).2.2.2.1,
    ((C27_outdoor_temp_ten_minutes dtostrfInt displayWarm noDisplays 1710036000 601000 false
      rfl (by decide) (by decide)).2.1 (by decide)).1.trans
      (by set_option maxRecDepth 100000 in decide),
    ((C27_outdoor_temp_ten_minutes dtostrfInt displayWarm noDisplays 1710036000 601000 false
      rfl (by decide) (by decide)).2.1 (by decide)).2.1⟩

/-! ## C28: the rainfall roll-over at local midnight -/

/-- The rainfall fields, the blink phase and the bookkeeping fields after a
rendering tick. -/
theorem loop_tick_state (dtostrf : F32 → Int → Nat → String) (s : ClockDisplay)
    (out : Displays) (now millis : Nat) (ledEnabled lcdEnabled : Bool)
    (hrs : s.radioSilence = false) (hnew : now ≠ s.lastTimet) :
    (s.loop dtostrf out .timeSet now millis ledEnabled lcdEnabled).1.m_rainToday
      = (s.tickRolled now).m_rainToday ∧
    (s.loop dtostrf out .timeSet now millis ledEnabled lcdEnabled).1.m_rainYesterday
      = (s.tickRolled now).m_rainYesterday ∧
    (s.loop dtostrf out .timeSet now millis ledEnabled lcdEnabled).1.m_clearedRainToday
      = (s.tickRolled now).m_clearedRainToday ∧
    (s.loop dtostrf out .timeSet now millis ledEnabled lcdEnabled).1.m_Blink
      = nextBlink s.m_Blink ∧
    (s.loop dtostrf out .timeSet now millis ledEnabled lcdEnabled).1.radioSilence = false ∧
    (s.loop dtostrf out .timeSet now millis ledEnabled lcdEnabled).1.lastTimet = now ∧
    (s.loop dtostrf out .timeSet now millis ledEnabled lcdEnabled).1.m_unitsInMetric
      = s.m_unitsInMetric ∧
    (s.loop dtostrf out .timeSet now millis ledEnabled lcdEnabled).1.m_rainGaugeCorrectionPerThousand
      = s.m_rainGaugeCorrectionPerThousand ∧
    (s.loop dtostrf out .timeSet now millis ledEnabled lcdEnabled).1.m_12Hour = s.m_12Hour := by
  rw [loop_tick dtostrf s out now millis ledEnabled lcdEnabled hrs hnew]
  obtain ⟨t1, _, _, _, t5, _, _, t8, t9, _, t11, _⟩ := tickRolled_fields s now
  have tr := tickRolled_radioSilence s now
  obtain ⟨g1, _, g3, _, g5, g6, _, g8, g9, g10, g11, _⟩ :=
    lcdTemperature_fields dtostrf (s.tickRolled now) millis
  have gr := (lcdTemperature_frame dtostrf (s.tickRolled now) millis).2.2.2.2.2
  cases lcdEnabled
  · exact ⟨rfl, rfl, rfl, t5, tr.trans hrs, t9, t8, t11, t1⟩
  · exact ⟨g9, g10, g11, g3.trans t5, (gr.trans tr).trans hrs, g6.trans t9, g5.trans t8,
      g8.trans t11, g1.trans t1⟩

/-- A tick in local hour 0 on a renderer whose roll-over is already done
changes neither rainfall total and keeps the roll-over done. -/
theorem tick_hour_zero_done (dtostrf : F32 → Int → Nat → String) (a : ClockDisplay)
    (o : Displays) (n ms : Nat) (l lc : Bool)
    (hc : a.m_clearedRainToday = true) (h0 : hour (a.tickLocal n) = 0) :
    (a.loop dtostrf o .timeSet n ms l lc).1.m_rainToday = a.m_rainToday ∧
    (a.loop dtostrf o .timeSet n ms l lc).1.m_rainYesterday = a.m_rainYesterday ∧
    (a.loop dtostrf o .timeSet n ms l lc).1.m_clearedRainToday = true ∧
    (a.loop dtostrf o .timeSet n ms l lc).1.radioSilence = a.radioSilence := by
  by_cases hi : a.radioSilence = true ∨ timeStatus_t.timeSet ≠ .timeSet ∨ n = a.lastTimet
  · rw [loop_idle_state dtostrf a o .timeSet n ms l lc hi]; exact ⟨rfl, rfl, hc, rfl⟩
  · have h1 : a.radioSilence = false := by
      cases hx : a.radioSilence
      · rfl
      · exact absurd (Or.inl hx) hi
    have h3 : n ≠ a.lastTimet := fun hx => hi (Or.inr (Or.inr hx))
    obtain ⟨e1, e2, e3, _, e5, _⟩ := loop_tick_state dtostrf a o n ms l lc h1 h3
    obtain ⟨_, _, _, _, _, _, _, _, _, _, _, r1, r2, r3⟩ := tickRolled_fields a n
    rw [e1, e2, e3, e5, r1, r2, r3, h1]
    have hn : ¬ (hour (a.tickLocal n) = 0 ∧ minute (a.tickLocal n) = 0 ∧
        a.m_clearedRainToday = false) := by
      rintro ⟨_, _, hx⟩; rw [hc] at hx; cases hx
    have h12 : ¬ hour (a.tickLocal n) = 12 := by omega
    rw [if_neg hn, if_neg hn, if_neg h12, if_pos h0, hc]
    refine ⟨rfl, rfl, ?_, rfl⟩
    split_ifs <;> rfl

theorem display_run_cons (dtostrf : F32 → Int → Nat → String) (sd : ClockDisplay × Displays)
    (e : DisplayEvent) (rest : List DisplayEvent) :
    ClockDisplay.run dtostrf sd (e :: rest)
      = ClockDisplay.run dtostrf (ClockDisplay.step dtostrf sd e) rest := rfl

/-- Over a run in local hour 0 that starts with the roll-over done, today's
total is the running total of what is notified and is never reset, and
yesterday's total and the roll-over mark stay. -/
theorem run_hour_zero (dtostrf : F32 → Int → Nat → String) :
    ∀ (events : List DisplayEvent) (sd : ClockDisplay × Displays),
      sd.1.m_clearedRainToday = true → inHourZero dtostrf sd events →
      (ClockDisplay.run dtostrf sd events).1.m_rainToday
        = rainNotified sd.1.m_rainToday events ∧
      (ClockDisplay.run dtostrf sd events).1.m_rainYesterday = sd.1.m_rainYesterday ∧
      (ClockDisplay.run dtostrf sd events).1.m_clearedRainToday = true ∧
      (ClockDisplay.run dtostrf sd events).1.radioSilence = sd.1.radioSilence := by
  intro events
  induction events with
  | nil =>
    intro sd hc _
    exact ⟨rfl, rfl, hc, rfl⟩
  | cons e rest ih =>
    intro sd hc hz
    rw [display_run_cons]
    cases e with
    | rain v =>
      have hz2 : inHourZero dtostrf (ClockDisplay.step dtostrf sd (.rain v)) rest := hz
      obtain ⟨i1, i2, i3, i4⟩ := ih (ClockDisplay.step dtostrf sd (.rain v)) hc hz2
      exact ⟨i1, i2, i3, i4⟩
    | tick n ms l lc =>
      obtain ⟨h0, hz2⟩ := hz
      obtain ⟨a1, a2, a3, a4⟩ := tick_hour_zero_done dtostrf sd.1 sd.2 n ms l lc hc h0
      obtain ⟨i1, i2, i3, i4⟩ := ih (ClockDisplay.step dtostrf sd (.tick n ms l lc)) a3 hz2
      refine ⟨?_, ?_, i3, ?_⟩
      · rw [i1]
        show rainNotified (sd.1.loop dtostrf sd.2 .timeSet n ms l lc).1.m_rainToday rest
          = rainNotified sd.1.m_rainToday rest
        rw [a1]
      · rw [i2]; exact a2
      · rw [i4]; exact a4

/-- C28: a rendering tick of `ClockDisplay::loop` resets today's rainfall
exactly when its local time is 00:00 and the roll-over mark is down; it then
copies today's total into yesterday's, sets today's to zero and raises the
mark. After the first such tick, over any run of notifications and ticks in
local hour 0, today's total is the running `float` total of what was notified
since, starting from zero (no second reset), yesterday's total is the one
copied and the mark stays up; the first rendering tick in another hour lowers
the mark again and resets nothing. The running total adds in `float`
arithmetic: ten notifications of `0x3E99999A` (0.3) from zero give
`0x403FFFFF` (2.99999976), not `0x40400000` (3); a notification of 1 is
absorbed by a total of 2^24 (`0x4B800000`), and 2^-24 by a total of 1 (a tie,
rounded to the even fraction); a NaN stays a NaN. -/
theorem C28_rain_reset_once (dtostrf : F32 → Int → Nat → String) (s : ClockDisplay)
    (out : Displays) (now millis : Nat) (ledEnabled lcdEnabled : Bool)
    (hrs : s.radioSilence = false) (hnew : now ≠ s.lastTimet) :
    ((s.loop dtostrf out .timeSet now millis ledEnabled lcdEnabled).1.m_rainToday =
      (if hour (s.tickLocal now) = 0 ∧ minute (s.tickLocal now) = 0 ∧
          s.m_clearedRainToday = false then F32.ofInt 0 else s.m_rainToday)) ∧
    ((s.loop dtostrf out .timeSet now millis ledEnabled lcdEnabled).1.m_rainYesterday =
      (if hour (s.tickLocal now) = 0 ∧ minute (s.tickLocal now) = 0 ∧
          s.m_clearedRainToday = false then s.m_rainToday
        else if hour (s.tickLocal now) = 12 then F32.ofInt 0 else s.m_rainYesterday)) ∧
    ((s.loop dtostrf out .timeSet now millis ledEnabled lcdEnabled).1.m_clearedRainToday =
      (if hour (s.tickLocal now) = 0 then
        (if minute (s.tickLocal now) = 0 then true else s.m_clearedRainToday)
      else false)) ∧
    (hour (s.tickLocal now) = 0 → minute (s.tickLocal now) = 0 →
      s.m_clearedRainToday = false →
      (s.loop dtostrf out .timeSet now millis ledEnabled lcdEnabled).1.m_rainToday
        = F32.ofInt 0 ∧
      (s.loop dtostrf out .timeSet now millis ledEnabled lcdEnabled).1.m_rainYesterday
        = s.m_rainToday ∧
      (s.loop dtostrf out .timeSet now millis ledEnabled lcdEnabled).1.m_clearedRainToday
        = true ∧
      ∀ events : List DisplayEvent,
        inHourZero dtostrf (s.loop dtostrf out .timeSet now millis ledEnabled lcdEnabled)
          events →
        (ClockDisplay.run dtostrf
          (s.loop dtostrf out .timeSet now millis ledEnabled lcdEnabled) events).1.m_rainToday
          = rainNotified (F32.ofInt 0) events ∧
        (ClockDisplay.run dtostrf
          (s.loop dtostrf out .timeSet now millis ledEnabled lcdEnabled)
            events).1.m_rainYesterday = s.m_rainToday ∧
        (ClockDisplay.run dtostrf
          (s.loop dtostrf out .timeSet now millis ledEnabled lcdEnabled)
            events).1.m_clearedRainToday = true ∧
        ∀ (out2 : Displays) (now2 millis2 : Nat) (led2 lcd2 : Bool),
          now2 ≠ (ClockDisplay.run dtostrf
            (s.loop dtostrf out .timeSet now millis ledEnabled lcdEnabled) events).1.lastTimet →
          hour ((ClockDisplay.run dtostrf
            (s.loop dtostrf out .timeSet now millis ledEnabled lcdEnabled)
              events).1.tickLocal now2) ≠ 0 →
          ((ClockDisplay.run dtostrf
              (s.loop dtostrf out .timeSet now millis ledEnabled lcdEnabled) events).1.loop
            dtostrf out2 .timeSet now2 millis2 led2 lcd2).1.m_clearedRainToday = false ∧
          ((ClockDisplay.run dtostrf
              (s.loop dtostrf out .timeSet now millis ledEnabled lcdEnabled) events).1.loop
            dtostrf out2 .timeSet now2 millis2 led2 lcd2).1.m_rainToday
              = rainNotified (F32.ofInt 0) events) ∧
    (F32.ofInt 0 = ⟨0⟩ ∧
      rainNotified (F32.ofInt 0) (List.replicate 10 (DisplayEvent.rain ⟨0x3E99999A⟩))
        = ⟨0x403FFFFF⟩ ∧
      F32.ofInt 3 = ⟨0x40400000⟩ ∧
      F32.add ⟨0x4B800000⟩ (F32.ofInt 1) = ⟨0x4B800000⟩ ∧
      F32.add ⟨0x3F800000⟩ ⟨0x33800000⟩ = ⟨0x3F800000⟩ ∧
      (F32.add ⟨0x7FC00000⟩ (F32.ofInt 1)).isNaN = true ∧
      (F32.add (F32.ofInt 1) ⟨0x7FC00000⟩).isNaN = true) := by
  obtain ⟨e1, e2, e3, _, e5, _⟩ :=
    loop_tick_state dtostrf s out now millis ledEnabled lcdEnabled hrs hnew
  obtain ⟨_, _, _, _, _, _, _, _, _, _, _, r1, r2, r3⟩ := tickRolled_fields s now
  rw [r1] at e1
  rw [r2] at e2
  rw [r3] at e3
  refine ⟨e1, e2, e3, ?_, by set_option maxRecDepth 100000 in decide⟩
  intro h0 hm hc
  have c1 : (s.loop dtostrf out .timeSet now millis ledEnabled lcdEnabled).1.m_rainToday
      = F32.ofInt 0 := by rw [e1, if_pos ⟨h0, hm, hc⟩]
  have c2 : (s.loop dtostrf out .timeSet now millis ledEnabled lcdEnabled).1.m_rainYesterday
      = s.m_rainToday := by rw [e2, if_pos ⟨h0, hm, hc⟩]
  have c3 : (s.loop dtostrf out .timeSet now millis ledEnabled lcdEnabled).1.m_clearedRainToday
      = true := by rw [e3, if_pos h0, if_pos hm]
  refine ⟨c1, c2, c3, ?_⟩
  intro events hz
  obtain ⟨i1, i2, i3, i4⟩ := run_hour_zero dtostrf events _ c3 hz
  rw [c1] at i1
  rw [c2] at i2
  rw [e5] at i4
  refine ⟨i1, i2, i3, ?_⟩
  intro out2 now2 millis2 led2 lcd2 hn2 hh
  obtain ⟨k1, _, k3, _⟩ := loop_tick_state dtostrf _ out2 now2 millis2 led2 lcd2 i4 hn2
  obtain ⟨_, _, _, _, _, _, _, _, _, _, _, q1, _, q3⟩ := tickRolled_fields
    (ClockDisplay.run dtostrf
      (s.loop dtostrf out .timeSet now millis ledEnabled lcdEnabled) events).1 now2
  rw [k1, k3, q1, q3, if_neg hh, if_neg (fun h => hh h.1), i1]
  exact ⟨rfl, rfl⟩

/-- C28 on the renderer at UTC with 5 mm of rainfall: the tick at
2024-03-10T00:00:00Z resets; after 3 mm notified and ticks at 00:00:01 and
00:59:59 today's total is what was notified and yesterday's what was copied;
the tick at 01:00:00 lowers the mark and keeps the total. -/
theorem C28_rain_reset_once_witness :
    (displayRainy.loop dtostrfInt noDisplays .timeSet 1710028800 0 false false).1.m_rainToday
      = F32.ofInt 0 ∧
    (ClockDisplay.run dtostrfInt
      (displayRainy.loop dtostrfInt noDisplays .timeSet 1710028800 0 false false)
      [.rain (F32.ofInt 3), .tick 1710028801 1000 false false,
        .tick 1710032399 3599000 false false]).1.m_rainToday
      = F32.ofInt 3 ∧
    (ClockDisplay.run dtostrfInt
      (displayRainy.loop dtostrfInt noDisplays .timeSet 1710028800 0 false false)
      [.rain (F32.ofInt 3), .tick 1710028801 1000 false false,
        .tick 1710032399 3599000 false false]).1.m_rainYesterday
      = displayRainy.m_rainToday ∧
    ((ClockDisplay.run dtostrfInt
      (displayRainy.loop dtostrfInt noDisplays .timeSet 1710028800 0 false false)
      [.rain (F32.ofInt 3), .tick 1710028801 1000 false false,
        .tick 1710032399 3599000 false false]).1.loop dtostrfInt noDisplays .timeSet
        1710032400 3600000 false false).1.m_clearedRainToday = false :=
  have h := (C28_rain_reset_once dtostrfInt displayRainy noDisplays 1710028800 0 false false
    rfl (by decide)).2.2.2.1 (by decide) (by decide) rfl
  have h2 := h.2.2.2 [.rain (F32.ofInt 3), .tick 1710028801 1000 false false,
    .tick 1710032399 3599000 false false] (by decide)
  ⟨h.1, h2.1.trans (by set_option maxRecDepth 100000 in decide), h2.2.1,
    (h2.2.2.2 noDisplays 1710032400 3600000 false false (by decide)
    (by decide)).1⟩

/-! ## C29: the rainfall overlay and the blink phase -/

/-- The rainfall overlay starts with row 1 and `Yst:` exactly under the test
of line 308. -/
theorem lcdRain_yesterday_iff (dtostrf : F32 → Int → Nat → String) (a : ClockDisplay) :
    (∃ rest, ClockDisplay.lcdRain dtostrf a
      = LcdOp.setCursor 0 1 :: LcdOp.print "Yst:" :: rest) ↔ a.showsYesterday = true := by
  unfold ClockDisplay.lcdRain ClockDisplay.showsYesterday
  by_cases h : F32.lt (F32.ofInt 0) a.m_rainYesterday = true ∧
      (a.m_Blink = .BLINK_1 ∨ a.m_Blink = .BLINK_2)
  · rw [if_pos h]
    constructor
    · intro _; exact decide_eq_true h
    · intro _; exact ⟨_, rfl⟩
  · rw [if_neg h]
    constructor
    · rintro ⟨rest, hr⟩
      exfalso
      by_cases ht : F32.lt (F32.ofInt 0) a.m_rainToday = true
      · rw [if_pos ht] at hr
        unfold ClockDisplay.displayRain at hr
        simp at hr
      · rw [if_neg ht] at hr
        cases hr
    · intro hd
      exact absurd (of_decide_eq_true hd) h

/-- The blink phase is 1 or 2 on exactly two of four phases in a row. -/
theorem blink_two_of_four (b : Blink_t) :
    ([nextBlink b, nextBlink (nextBlink b), nextBlink (nextBlink (nextBlink b)),
      nextBlink (nextBlink (nextBlink (nextBlink b)))].filter
        (fun x => decide (x = .BLINK_1 ∨ x = .BLINK_2))).length = 2 := by
  cases b <;> decide

/-- C29, as stated, fails across local noon: the renderer holds 7 mm for
yesterday (a positive total) and is in blink phase 3 at 11:59:57. Of the four
rendering ticks at 11:59:58, 11:59:59, 12:00:00 and 12:00:01 only the second
shows `Yst:`: the third is in phase 2, but a tick in local hour 12 zeroes
yesterday's total first. -/
theorem C29_counterexample :
    F32.lt (F32.ofInt 0) displayBeforeNoon.m_rainYesterday = true ∧
    [(ClockDisplay.run dtostrfInt (displayBeforeNoon, noDisplays)
        [.tick 1710071998 0 false true]).1.m_Blink,
      (ClockDisplay.run dtostrfInt (displayBeforeNoon, noDisplays)
        [.tick 1710071998 0 false true, .tick 1710071999 1000 false true]).1.m_Blink,
      (ClockDisplay.run dtostrfInt (displayBeforeNoon, noDisplays)
        [.tick 1710071998 0 false true, .tick 1710071999 1000 false true,
          .tick 1710072000 2000 false true]).1.m_Blink,
      (ClockDisplay.run dtostrfInt (displayBeforeNoon, noDisplays)
        [.tick 1710071998 0 false true, .tick 1710071999 1000 false true,
          .tick 1710072000 2000 false true, .tick 1710072001 3000 false true]).1.m_Blink]
      = [.BLINK_4, .BLINK_1, .BLINK_2, .BLINK_3] ∧
    (ClockDisplay.run dtostrfInt (displayBeforeNoon, noDisplays)
      [.tick 1710071998 0 false true, .tick 1710071999 1000 false true,
        .tick 1710072000 2000 false true]).1.m_rainYesterday = F32.ofInt 0 ∧
    (ClockDisplay.run dtostrfInt (displayBeforeNoon, noDisplays)
      [.tick 1710071998 0 false true, .tick 1710071999 1000 false true,
        .tick 1710072000 2000 false true, .tick 1710072001 3000 false true]).2.lcd =
      [LcdOp.clear, LcdOp.printInt 11, LcdOp.printChar ':', LcdOp.printInt 59,
        LcdOp.printChar ':', LcdOp.printInt 58,
        LcdOp.clear, LcdOp.printInt 11, LcdOp.printChar ':', LcdOp.printInt 59,
        LcdOp.printChar ':', LcdOp.printInt 59,
        LcdOp.setCursor 0 1, LcdOp.print "Yst:", LcdOp.setCursor 4 1,
        LcdOp.print (String.mk [' ', ' ', '0', Char.ofNat 34]),
        LcdOp.clear, LcdOp.printInt 12, LcdOp.printChar ':', LcdOp.printChar '0',
        LcdOp.printInt 0, LcdOp.printChar ':', LcdOp.printChar '0', LcdOp.printInt 0,
        LcdOp.clear, LcdOp.printInt 12, LcdOp.printChar ':', LcdOp.printChar '0',
        LcdOp.printInt 0, LcdOp.printChar ':', LcdOp.printChar '0', LcdOp.printInt 1] ∧
    ((ClockDisplay.run dtostrfInt (displayBeforeNoon, noDisplays)
      [.tick 1710071998 0 false true, .tick 1710071999 1000 false true,
        .tick 1710072000 2000 false true, .tick 1710072001 3000 false true]).2.lcd.filter
      (fun op => decide (op = LcdOp.print "Yst:"))).length = 1 := by
  set_option maxRecDepth 100000 in decide

/-- C29, amended: a rendering tick of `ClockDisplay::loop` with the LCD enabled
advances the blink phase by one, cyclically through four values, and ends its
LCD calls with the rainfall overlay computed on the phase and the totals the
tick leaves: `Yst:` on row 1 followed by yesterday's reading exactly when
yesterday's total is above zero and the phase is 1 or 2, else today's reading
when today's total is above zero, else nothing. A reading is written by
`displayRain`: the cursor goes to column 4 of row 1, and then comes the text of
the corrected whole millimetres with `m`, or of the inches with the inch mark,
blank-padded to four columns, or a question mark from 999 mm or 10 inches on;
the millimetres are the reading times the gauge correction over 1000 in `float`
arithmetic, cut to an integer (`0x410FDB2C`, 8.99100876, with correction 1001
gives 9); zero of either sign and a NaN are not above zero, the smallest
subnormal is. Over four rendering ticks in a row the phase is 1 or 2 on exactly
two; so when yesterday's total is above zero after each of the four, `Yst:`
appears on exactly two of them. -/
theorem C29_rain_overlay (dtostrf : F32 → Int → Nat → String) (s : ClockDisplay)
    (out : Displays) (now millis : Nat) (ledEnabled : Bool)
    (hrs : s.radioSilence = false) (hnew : now ≠ s.lastTimet) :
    (s.loop dtostrf out .timeSet now millis ledEnabled true).1.m_Blink
      = nextBlink s.m_Blink ∧
    (∀ b : Blink_t, nextBlink (nextBlink (nextBlink (nextBlink b))) = b ∧ nextBlink b ≠ b ∧
      nextBlink (nextBlink b) ≠ b ∧ nextBlink (nextBlink (nextBlink b)) ≠ b) ∧
    (s.loop dtostrf out .timeSet now millis ledEnabled true).2.lcd =
      out.lcd ++
        (s.tickRolled now).lcdClock (s.tickHour now) (minute (s.tickLocal now))
          (second (s.tickLocal now)) ++
        (ClockDisplay.lcdTemperature dtostrf (s.tickRolled now) millis).2 ++
        ClockDisplay.lcdRain dtostrf (s.loop dtostrf out .timeSet now millis ledEnabled true).1 ∧
    ((F32.lt (F32.ofInt 0)
          (s.loop dtostrf out .timeSet now millis ledEnabled true).1.m_rainYesterday = true ∧
        ((s.loop dtostrf out .timeSet now millis ledEnabled true).1.m_Blink = .BLINK_1 ∨
          (s.loop dtostrf out .timeSet now millis ledEnabled true).1.m_Blink = .BLINK_2)) →
      ClockDisplay.lcdRain dtostrf (s.loop dtostrf out .timeSet now millis ledEnabled true).1 =
        [LcdOp.setCursor 0 1, LcdOp.print "Yst:"] ++
          ClockDisplay.displayRain dtostrf
            (s.loop dtostrf out .timeSet now millis ledEnabled true).1
            (s.loop dtostrf out .timeSet now millis ledEnabled true).1.m_rainYesterday) ∧
    (¬ (F32.lt (F32.ofInt 0)
          (s.loop dtostrf out .timeSet now millis ledEnabled true).1.m_rainYesterday = true ∧
        ((s.loop dtostrf out .timeSet now millis ledEnabled true).1.m_Blink = .BLINK_1 ∨
          (s.loop dtostrf out .timeSet now millis ledEnabled true).1.m_Blink = .BLINK_2)) →
      ClockDisplay.lcdRain dtostrf (s.loop dtostrf out .timeSet now millis ledEnabled true).1 =
        (if F32.lt (F32.ofInt 0)
            (s.loop dtostrf out .timeSet now millis ledEnabled true).1.m_rainToday = true then
          ClockDisplay.displayRain dtostrf
            (s.loop dtostrf out .timeSet now millis ledEnabled true).1
            (s.loop dtostrf out .timeSet now millis ledEnabled true).1.m_rainToday
        else [])) ∧
    ((∃ rest,
        ClockDisplay.lcdRain dtostrf (s.loop dtostrf out .timeSet now millis ledEnabled true).1
          = LcdOp.setCursor 0 1 :: LcdOp.print "Yst:" :: rest) ↔
      (s.loop dtostrf out .timeSet now millis ledEnabled true).1.showsYesterday = true) ∧
    (∀ (x : ClockDisplay) (rmm : F32),
      x.rainMillimetres rmm =
        F32.toUnsigned
          (F32.div (F32.mul rmm (F32.ofInt (x.m_rainGaugeCorrectionPerThousand : Int)))
            (F32.ofInt 1000)) % 65536 ∧
      (x.m_unitsInMetric = true →
        ClockDisplay.displayRain dtostrf x rmm =
          LcdOp.setCursor 4 1 ::
            (if x.rainMillimetres rmm < 999 then
              List.replicate
                (4 - (dtostrf (F32.ofInt (x.rainMillimetres rmm : Int)) 3 0 ++ "m").length)
                (LcdOp.write 32) ++
              [LcdOp.print (dtostrf (F32.ofInt (x.rainMillimetres rmm : Int)) 3 0 ++ "m")]
            else [LcdOp.printChar '?'])) ∧
      (x.m_unitsInMetric = false →
        ∃ text : String,
          text = String.mk
            ((dtostrf (F32.div (F32.ofInt (x.rainMillimetres rmm : Int)) F32.c25_4) 4
              (if F32.lt (F32.div (F32.ofInt (x.rainMillimetres rmm : Int)) F32.c25_4)
                (F32.ofInt 1) = true then 2 else 1)).toList.drop 1) ∧
          ClockDisplay.displayRain dtostrf x rmm =
            LcdOp.setCursor 4 1 ::
              (if F32.lt (F32.div (F32.ofInt (x.rainMillimetres rmm : Int)) F32.c25_4)
                  (F32.ofInt 10) = true then
                List.replicate
                  (4 - (if text.length < 4 then text ++ String.mk [Char.ofNat 34]
                    else text).length) (LcdOp.write 32) ++
                [LcdOp.print
                  (if text.length < 4 then text ++ String.mk [Char.ofNat 34] else text)]
              else [LcdOp.printChar '?'])) ∧
      (∃ body, body ≠ [] ∧
        ClockDisplay.displayRain dtostrf x rmm = LcdOp.setCursor 4 1 :: body)) ∧
    (F32.c25_4 = ⟨0x41CB3333⟩ ∧
      ClockDisplay.rainMillimetres
        { ClockDisplay.init with m_rainGaugeCorrectionPerThousand := 1001 } ⟨0x410FDB2C⟩ = 9 ∧
      ClockDisplay.rainMillimetres ClockDisplay.init ⟨0x410FDB2C⟩ = 8 ∧
      ClockDisplay.rainMillimetres
        { ClockDisplay.init with m_rainGaugeCorrectionPerThousand := 2000 } ⟨0x43F98000⟩
          = 998 ∧
      F32.div (F32.ofInt 253) F32.c25_4 = ⟨0x411F5EBE⟩ ∧
      F32.lt (F32.div (F32.ofInt 253) F32.c25_4) (F32.ofInt 10) = true ∧
      F32.lt (F32.div (F32.ofInt 254) F32.c25_4) (F32.ofInt 10) = false ∧
      F32.lt (F32.ofInt 0) ⟨0⟩ = false ∧ F32.lt (F32.ofInt 0) ⟨0x80000000⟩ = false ∧
      F32.lt (F32.ofInt 0) ⟨0x7FC00000⟩ = false ∧ F32.lt (F32.ofInt 0) ⟨1⟩ = true) ∧
    (∀ (n2 n3 n4 m2 m3 m4 : Nat) (l2 l3 l4 c1 c2 c3 c4 : Bool),
      n2 ≠ now → n3 ≠ n2 → n4 ≠ n3 →
      ([(ClockDisplay.run dtostrf (s, out) [.tick now millis ledEnabled c1]).1.m_Blink,
        (ClockDisplay.run dtostrf (s, out)
          [.tick now millis ledEnabled c1, .tick n2 m2 l2 c2]).1.m_Blink,
        (ClockDisplay.run dtostrf (s, out)
          [.tick now millis ledEnabled c1, .tick n2 m2 l2 c2, .tick n3 m3 l3 c3]).1.m_Blink,
        (ClockDisplay.run dtostrf (s, out)
          [.tick now millis ledEnabled c1, .tick n2 m2 l2 c2, .tick n3 m3 l3 c3,
            .tick n4 m4 l4 c4]).1.m_Blink].filter
          (fun x => decide (x = .BLINK_1 ∨ x = .BLINK_2))).length = 2 ∧
      (F32.lt (F32.ofInt 0) (ClockDisplay.run dtostrf (s, out)
          [.tick now millis ledEnabled c1]).1.m_rainYesterday = true →
        F32.lt (F32.ofInt 0) (ClockDisplay.run dtostrf (s, out)
          [.tick now millis ledEnabled c1, .tick n2 m2 l2 c2]).1.m_rainYesterday = true →
        F32.lt (F32.ofInt 0) (ClockDisplay.run dtostrf (s, out)
          [.tick now millis ledEnabled c1, .tick n2 m2 l2 c2,
            .tick n3 m3 l3 c3]).1.m_rainYesterday = true →
        F32.lt (F32.ofInt 0) (ClockDisplay.run dtostrf (s, out)
          [.tick now millis ledEnabled c1, .tick n2 m2 l2 c2, .tick n3 m3 l3 c3,
            .tick n4 m4 l4 c4]).1.m_rainYesterday = true →
        ([(ClockDisplay.run dtostrf (s, out) [.tick now millis ledEnabled c1]).1,
          (ClockDisplay.run dtostrf (s, out)
            [.tick now millis ledEnabled c1, .tick n2 m2 l2 c2]).1,
          (ClockDisplay.run dtostrf (s, out)
            [.tick now millis ledEnabled c1, .tick n2 m2 l2 c2, .tick n3 m3 l3 c3]).1,
          (ClockDisplay.run dtostrf (s, out)
            [.tick now millis ledEnabled c1, .tick n2 m2 l2 c2, .tick n3 m3 l3 c3,
              .tick n4 m4 l4 c4]).1].filter ClockDisplay.showsYesterday).length = 2)) := by
  obtain ⟨e1, e2, e3, e4, e5, e6, e7, e8, _⟩ :=
    loop_tick_state dtostrf s out now millis ledEnabled true hrs hnew
  obtain ⟨hlcd, _⟩ := loop_tick_lcd dtostrf s out now millis ledEnabled hrs hnew
  have hcong : ClockDisplay.lcdRain dtostrf
      (s.loop dtostrf out .timeSet now millis ledEnabled true).1
        = ClockDisplay.lcdRain dtostrf (s.tickRolled now) := by
    obtain ⟨_, _, _, _, t5, _, _, t8, _, _, t11, _⟩ := tickRolled_fields s now
    exact lcdRain_congr dtostrf _ _ e2 e1 (e4.trans t5.symm) (e7.trans t8.symm)
      (e8.trans t11.symm)
  refine ⟨e4, ?_, ?_, ?_, ?_, lcdRain_yesterday_iff dtostrf _, ?_, ?_, ?_⟩
  · intro b; cases b <;> decide
  · rw [hlcd, hcong]
  · intro h
    unfold ClockDisplay.lcdRain
    rw [if_pos h]
  · intro h
    unfold ClockDisplay.lcdRain
    rw [if_neg h]
  · intro x rmm
    refine ⟨rfl, ?_, ?_, ?_⟩
    · intro hm
      unfold ClockDisplay.displayRain
      simp only [hm, if_true]
      rfl
    · intro hm
      refine ⟨_, rfl, ?_⟩
      unfold ClockDisplay.displayRain
      simp only [hm, Bool.false_eq_true, if_false]
      rfl
    · unfold ClockDisplay.displayRain
      refine ⟨_, ?_, rfl⟩
      dsimp only
      split_ifs <;> simp
  · set_option maxRecDepth 100000 in decide
  · intro n2 n3 n4 m2 m3 m4 l2 l3 l4 c1 c2 c3 c4 h2 h3 h4
    obtain ⟨_, _, _, q1, r1, t1, _⟩ :=
      loop_tick_state dtostrf s out now millis ledEnabled c1 hrs hnew
    have b1 : (ClockDisplay.run dtostrf (s, out)
        [.tick now millis ledEnabled c1]).1.m_Blink = nextBlink s.m_Blink := q1
    obtain ⟨_, _, _, q2, r2, t2, _⟩ :=
      loop_tick_state dtostrf
        (ClockDisplay.run dtostrf (s, out) [.tick now millis ledEnabled c1]).1
        (ClockDisplay.run dtostrf (s, out) [.tick now millis ledEnabled c1]).2
        n2 m2 l2 c2 r1 (fun h => h2 (h.trans t1))
    have b2 : (ClockDisplay.run dtostrf (s, out)
        [.tick now millis ledEnabled c1, .tick n2 m2 l2 c2]).1.m_Blink
          = nextBlink (nextBlink s.m_Blink) := by rw [← b1]; exact q2
    obtain ⟨_, _, _, q3, r3, t3, _⟩ :=
      loop_tick_state dtostrf
        (ClockDisplay.run dtostrf (s, out)
          [.tick now millis ledEnabled c1, .tick n2 m2 l2 c2]).1
        (ClockDisplay.run dtostrf (s, out)
          [.tick now millis ledEnabled c1, .tick n2 m2 l2 c2]).2
        n3 m3 l3 c3 r2 (fun h => h3 (h.trans t2))
    have b3 : (ClockDisplay.run dtostrf (s, out)
        [.tick now millis ledEnabled c1, .tick n2 m2 l2 c2, .tick n3 m3 l3 c3]).1.m_Blink
          = nextBlink (nextBlink (nextBlink s.m_Blink)) := by rw [← b2]; exact q3
    obtain ⟨_, _, _, q4, _, _, _⟩ :=
      loop_tick_state dtostrf
        (ClockDisplay.run dtostrf (s, out)
          [.tick now millis ledEnabled c1, .tick n2 m2 l2 c2, .tick n3 m3 l3 c3]).1
        (ClockDisplay.run dtostrf (s, out)
          [.tick now millis ledEnabled c1, .tick n2 m2 l2 c2, .tick n3 m3 l3 c3]).2
        n4 m4 l4 c4 r3 (fun h => h4 (h.trans t3))
    have b4 : (ClockDisplay.run dtostrf (s, out)
        [.tick now millis ledEnabled c1, .tick n2 m2 l2 c2, .tick n3 m3 l3 c3,
          .tick n4 m4 l4 c4]).1.m_Blink
          = nextBlink (nextBlink (nextBlink (nextBlink s.m_Blink))) := by
      rw [← b3]; exact q4
    have sy : ∀ x : ClockDisplay, F32.lt (F32.ofInt 0) x.m_rainYesterday = true →
        x.showsYesterday = decide (x.m_Blink = .BLINK_1 ∨ x.m_Blink = .BLINK_2) := by
      intro x hx
      unfold ClockDisplay.showsYesterday
      simp only [hx, true_and]
    constructor
    · rw [b1, b2, b3, b4]
      exact blink_two_of_four s.m_Blink
    · intro p1 p2 p3 p4
      simp only [List.filter_cons, List.filter_nil, sy _ p1, sy _ p2, sy _ p3, sy _ p4,
        b1, b2, b3, b4]
      generalize s.m_Blink = b
      cases b <;> simp [nextBlink]

/-- C29 amended, on the metric renderer in blink phase 4 with 7 mm yesterday
and 2 mm today: the tick at 2024-03-10T02:00:00Z is in phase 1 and ends with
`Yst:` and `7m`; yesterday's total stays positive over the four ticks at
02:00:00 .. 02:00:03, and `Yst:` is shown on exactly two of them, the other two
showing today's `2m`. -/
theorem C29_rain_overlay_witness :
    (displayAfterRainMetric.loop dtostrfInt noDisplays .timeSet 1710036000 0 false true).1.m_Blink
      = .BLINK_1 ∧
    ClockDisplay.lcdRain dtostrfInt
      (displayAfterRainMetric.loop dtostrfInt noDisplays .timeSet 1710036000 0 false true).1 =
      [LcdOp.setCursor 0 1, LcdOp.print "Yst:", LcdOp.setCursor 4 1, LcdOp.print "  7m"] ∧
    ([(ClockDisplay.run dtostrfInt (displayAfterRainMetric, noDisplays)
        [.tick 1710036000 0 false true]).1,
      (ClockDisplay.run dtostrfInt (displayAfterRainMetric, noDisplays)
        [.tick 1710036000 0 false true, .tick 1710036001 1000 false true]).1,
      (ClockDisplay.run dtostrfInt (displayAfterRainMetric, noDisplays)
        [.tick 1710036000 0 false true, .tick 1710036001 1000 false true,
          .tick 1710036002 2000 false true]).1,
      (ClockDisplay.run dtostrfInt (displayAfterRainMetric, noDisplays)
        [.tick 1710036000 0 false true, .tick 1710036001 1000 false true,
          .tick 1710036002 2000 false true, .tick 1710036003 3000 false true]).1].filter
        ClockDisplay.showsYesterday).length = 2 ∧
    (ClockDisplay.run dtostrfInt (displayAfterRainMetric, noDisplays)
      [.tick 1710036000 0 false true, .tick 1710036001 1000 false true,
        .tick 1710036002 2000 false true, .tick 1710036003 3000 false true]).2.lcd =
      [LcdOp.clear, LcdOp.printChar '0', LcdOp.printInt 2, LcdOp.printChar ':',
        LcdOp.printChar '0', LcdOp.printInt 0, LcdOp.printChar ':', LcdOp.printChar '0',
        LcdOp.printInt 0,
        LcdOp.setCursor 0 1, LcdOp.print "Yst:", LcdOp.setCursor 4 1, LcdOp.print "  7m",
        LcdOp.clear, LcdOp.printChar '0', LcdOp.printInt 2, LcdOp.printChar ':',
        LcdOp.printChar '0', LcdOp.printInt 0, LcdOp.printChar ':', LcdOp.printChar '0',
        LcdOp.printInt 1,
        LcdOp.setCursor 0 1, LcdOp.print "Yst:", LcdOp.setCursor 4 1, LcdOp.print "  7m",
        LcdOp.clear, LcdOp.printChar '0', LcdOp.printInt 2, LcdOp.printChar ':',
        LcdOp.printChar '0', LcdOp.printInt 0, LcdOp.printChar ':', LcdOp.printChar '0',
        LcdOp.printInt 2,
        LcdOp.setCursor 4 1, LcdOp.print "  2m",
        LcdOp.clear, LcdOp.printChar '0', LcdOp.printInt 2, LcdOp.printChar ':',
        LcdOp.printChar '0', LcdOp.printInt 0, LcdOp.printChar ':', LcdOp.printChar '0',
        LcdOp.printInt 3,
        LcdOp.setCursor 4 1, LcdOp.print "  2m"] :=
  have h := C29_rain_overlay dtostrfInt displayAfterRainMetric noDisplays 1710036000 0 false
    rfl (by decide)
  ⟨h.1,
    (h.2.2.2.1 (by set_option maxRecDepth 100000 in decide)).trans
      (by set_option maxRecDepth 100000 in decide),
    (h.2.2.2.2.2.2.2.2 1710036001 1710036002 1710036003 1000 2000 3000 false false false
      true true true true (by decide) (by decide) (by decide)).2
      (by set_option maxRecDepth 100000 in decide)
      (by set_option maxRecDepth 100000 in decide)
      (by set_option maxRecDepth 100000 in decide)
      (by set_option maxRecDepth 100000 in decide),
    by set_option maxRecDepth 100000 in decide⟩

/-! ## C30: the LED digits -/

/-- The ranges of TimeLib's `hour`, `minute` and `hourFormat12`. -/
theorem hour_minute_range (L : Nat) :
    (0 ≤ hour L ∧ hour L ≤ 23) ∧ (0 ≤ minute L ∧ minute L ≤ 59) ∧
    (1 ≤ hourFormat12 L ∧ hourFormat12 L ≤ 12) ∧
    (hourFormat12 L = if hour L = 0 then 12 else if hour L > 12 then hour L - 12
      else hour L) := by
  have hh : hour L = ((L % 4294967296 / 60 / 60 % 24 : Nat) : Int) := rfl
  have hm : minute L = ((L % 4294967296 / 60 % 60 : Nat) : Int) := rfl
  have h12 : hourFormat12 L =
      if (L % 4294967296 / 60 / 60 % 24 : Nat) = 0 then 12
      else if (L % 4294967296 / 60 / 60 % 24 : Nat) > 12 then
        ((L % 4294967296 / 60 / 60 % 24 : Nat) : Int) - 12
      else ((L % 4294967296 / 60 / 60 % 24 : Nat) : Int) := rfl
  have hb : L % 4294967296 / 60 / 60 % 24 < 24 := Nat.mod_lt _ (by decide)
  have hmb : L % 4294967296 / 60 % 60 < 60 := Nat.mod_lt _ (by decide)
  generalize L % 4294967296 / 60 / 60 % 24 = h at *
  generalize L % 4294967296 / 60 % 60 = m at *
  refine ⟨by omega, by omega, ?_, ?_⟩
  · split_ifs at h12 <;> omega
  · split_ifs at h12 ⊢ <;> omega

/-- The font and the string `ledDisplayAddColon` sends depend on the style, the
blink phase and the flipped-fonts setting only. -/
theorem ledDisplayAddColon_congr (a b : ClockDisplay) (p : List Nat)
    (h1 : a.m_displayStyle = b.m_displayStyle) (h2 : a.m_Blink = b.m_Blink)
    (h3 : a.m_flippedFonts = b.m_flippedFonts) :
    a.ledDisplayAddColon p = b.ledDisplayAddColon p := by
  simp only [ClockDisplay.ledDisplayAddColon, h1, h2, h3]

/-- The LED buffer depends on the 12-hour setting only. -/
theorem ledBuffer_congr (a b : ClockDisplay) (hr min : Int) (h : a.m_12Hour = b.m_12Hour) :
    a.ledBuffer hr min = b.ledBuffer hr min := by
  simp only [ClockDisplay.ledBuffer, h]

/-- C30: for every local time `L`, with the hour `hourFormat12 L` in 12-hour
mode and `hour L` otherwise and the minute `minute L`: the hour is 1..12 in
12-hour mode and 0..23 otherwise, the minute 0..59, and the LED buffer holds
exactly four character codes, the tens and units digit of the hour and of the
minute as ASCII digits (48..57), except that in 12-hour mode below 10 the first
is a blank (32). A rendering tick with the LED enabled whose hour or minute
differs from the last one shown sends this buffer through
`ledDisplayAddColon`, which in the `OEM_FONT` and `SEG7_FONT` styles displays
it as it is. -/
theorem C30_led_digits (s : ClockDisplay) (L : Nat) :
    (s.m_12Hour = false →
      0 ≤ (if s.m_12Hour then hourFormat12 L else hour L) ∧
      (if s.m_12Hour then hourFormat12 L else hour L) ≤ 23) ∧
    (s.m_12Hour = true →
      1 ≤ (if s.m_12Hour then hourFormat12 L else hour L) ∧
      (if s.m_12Hour then hourFormat12 L else hour L) ≤ 12) ∧
    (0 ≤ minute L ∧ minute L ≤ 59) ∧
    (s.ledBuffer (if s.m_12Hour then hourFormat12 L else hour L) (minute L)).length = 4 ∧
    s.ledBuffer (if s.m_12Hour then hourFormat12 L else hour L) (minute L) =
      [(if s.m_12Hour = true ∧ (if s.m_12Hour then hourFormat12 L else hour L) < 10 then 32
          else 48 + ((if s.m_12Hour then hourFormat12 L else hour L) / 10).toNat),
        48 + ((if s.m_12Hour then hourFormat12 L else hour L) % 10).toNat,
        48 + (minute L / 10).toNat, 48 + (minute L % 10).toNat] ∧
    (((if s.m_12Hour then hourFormat12 L else hour L) / 10).toNat ≤ 9 ∧
      ((if s.m_12Hour then hourFormat12 L else hour L) % 10).toNat ≤ 9 ∧
      (minute L / 10).toNat ≤ 9 ∧ (minute L % 10).toNat ≤ 9) ∧
    (∀ (dtostrf : F32 → Int → Nat → String) (out : Displays) (now millis : Nat)
        (lcdEnabled : Bool),
      s.radioSilence = false → now ≠ s.lastTimet →
      (minute (s.tickLocal now) ≠ s.lastDisplayedMinute ∨
        s.tickHour now ≠ s.lastDisplayedHour) →
      s.tickHour now = (if s.m_12Hour then hourFormat12 (s.tickLocal now)
        else hour (s.tickLocal now)) ∧
      (s.loop dtostrf out .timeSet now millis true lcdEnabled).2.led =
        out.led ++
          ClockDisplay.ledDisplayAddColon
            (s.loop dtostrf out .timeSet now millis true lcdEnabled).1
            (s.ledBuffer (s.tickHour now) (minute (s.tickLocal now))) ∧
      ((s.m_displayStyle = .OEM_FONT ∨ s.m_displayStyle = .SEG7_FONT) →
        ∃ f, (s.loop dtostrf out .timeSet now millis true lcdEnabled).2.led =
          out.led ++ [LedOp.setCurrentFontIdx f,
            LedOp.displayString (s.ledBuffer (s.tickHour now) (minute (s.tickLocal now)))])) := by
  obtain ⟨⟨a1, a2⟩, ⟨m1, m2⟩, ⟨b1, b2⟩, _⟩ := hour_minute_range L
  have hbuf : ∀ (hr mn : Int), 0 ≤ hr → hr ≤ 23 → 0 ≤ mn → mn ≤ 59 →
      s.ledBuffer hr mn =
        [(if s.m_12Hour = true ∧ hr < 10 then 32 else 48 + (hr / 10).toNat),
          48 + (hr % 10).toNat, 48 + (mn / 10).toNat, 48 + (mn % 10).toNat] := by
    intro hr mn h1 h2 h3 h4
    unfold ClockDisplay.ledBuffer
    dsimp only
    simp only [List.cons.injEq, and_true]
    refine ⟨?_, by omega, by omega, by omega⟩
    split_ifs <;> omega
  have hr0 : 0 ≤ (if s.m_12Hour then hourFormat12 L else hour L) ∧
      (if s.m_12Hour then hourFormat12 L else hour L) ≤ 23 := by
    split_ifs <;> constructor <;> omega
  refine ⟨?_, ?_, ⟨m1, m2⟩, rfl, hbuf _ _ hr0.1 hr0.2 m1 m2, ⟨by omega, by omega, by omega,
    by omega⟩, ?_⟩
  · intro h; rw [h]; exact ⟨a1, a2⟩
  · intro h; rw [h]; exact ⟨b1, b2⟩
  · intro dtostrf out now millis lcdEnabled hrs hnew hch
    refine ⟨rfl, ?_⟩
    obtain ⟨t1, _, _, t4, _⟩ := tickRolled_fields s now
    obtain ⟨g1, g2, _⟩ := lcdTemperature_fields dtostrf (s.tickRolled now) millis
    have hX12 : (if lcdEnabled then
          (ClockDisplay.lcdTemperature dtostrf (s.tickRolled now) millis).1
        else s.tickRolled now).m_12Hour = s.m_12Hour := by
      cases lcdEnabled
      · exact t1
      · exact g1.trans t1
    have hXst : (if lcdEnabled then
          (ClockDisplay.lcdTemperature dtostrf (s.tickRolled now) millis).1
        else s.tickRolled now).m_displayStyle = s.m_displayStyle := by
      cases lcdEnabled
      · exact t4
      · exact g2.trans t4
    have hsty : (s.loop dtostrf out .timeSet now millis true lcdEnabled).1.m_displayStyle
        = s.m_displayStyle := by
      rw [loop_tick dtostrf s out now millis true lcdEnabled hrs hnew]
      exact hXst
    have hled : (s.loop dtostrf out .timeSet now millis true lcdEnabled).2.led =
        out.led ++
          ClockDisplay.ledDisplayAddColon
            (s.loop dtostrf out .timeSet now millis true lcdEnabled).1
            (s.ledBuffer (s.tickHour now) (minute (s.tickLocal now))) := by
      rw [loop_tick dtostrf s out now millis true lcdEnabled hrs hnew]
      dsimp only
      rw [if_pos (Or.inl hch), if_pos rfl, ledBuffer_congr _ s _ _ hX12]
      congr 1
    refine ⟨hled, ?_⟩
    intro hstyle
    rw [hled]
    rcases hstyle with h | h
    · simp only [ClockDisplay.ledDisplayAddColon, hsty, h]
      exact ⟨_, rfl⟩
    · simp only [ClockDisplay.ledDisplayAddColon, hsty, h]
      exact ⟨_, rfl⟩

/-- C30 on 2024-03-10T07:05:09Z and T19:45:00Z, in 24-hour and in 12-hour mode:
`0705`, ` 705`, `1945` and ` 745` as character codes. -/
theorem C30_led_digits_witness :
    ClockDisplay.init.ledBuffer (hour 1710054309) (minute 1710054309) = [48, 55, 48, 53] ∧
    ClockDisplay.ledBuffer { ClockDisplay.init with m_12Hour := true }
      (hourFormat12 1710054309) (minute 1710054309) = [32, 55, 48, 53] ∧
    ClockDisplay.init.ledBuffer (hour 1710099900) (minute 1710099900) = [49, 57, 52, 53] ∧
    ClockDisplay.ledBuffer { ClockDisplay.init with m_12Hour := true }
      (hourFormat12 1710099900) (minute 1710099900) = [32, 55, 52, 53] :=
  ⟨(C30_led_digits ClockDisplay.init 1710054309).2.2.2.2.1,
    (C30_led_digits { ClockDisplay.init with m_12Hour := true } 1710054309).2.2.2.2.1,
    (C30_led_digits ClockDisplay.init 1710099900).2.2.2.2.1,
    (C30_led_digits { ClockDisplay.init with m_12Hour := true } 1710099900).2.2.2.2.1⟩

/-! ## C31: the LED style bands -/

/-- The LED buffer for an hour in 0..23 and a minute in 0..59: a blank or the
tens digit, then three digits. -/
theorem ledBuffer_digits (s : ClockDisplay) (hr mn : Int) (h1 : 0 ≤ hr) (h2 : hr ≤ 23)
    (h3 : 0 ≤ mn) (h4 : mn ≤ 59) :
    ∃ d0 d1 d2 d3 : Nat, d0 ≤ 9 ∧ d1 ≤ 9 ∧ d2 ≤ 9 ∧ d3 ≤ 9 ∧
      s.ledBuffer hr mn =
        [(if s.m_12Hour = true ∧ hr < 10 then 32 else 48 + d0), 48 + d1, 48 + d2, 48 + d3] := by
  refine ⟨(hr / 10).toNat, (hr % 10).toNat, (mn / 10).toNat, (mn % 10).toNat,
    by omega, by omega, by omega, by omega, ?_⟩
  unfold ClockDisplay.ledBuffer
  dsimp only
  simp only [List.cons.injEq, and_true]
  refine ⟨?_, by omega, by omega, by omega⟩
  split_ifs <;> omega

/-- What `ledDisplayAddColon` sends for four character codes, style by style. -/
theorem ledDisplayAddColon_styles (s : ClockDisplay) (a b c d : Nat) :
    ∃ f : Nat, s.ledDisplayAddColon [a, b, c, d] =
      [LedOp.setCurrentFontIdx f,
        LedOp.displayString
          (match s.m_displayStyle with
          | .USE_DECIMAL =>
            [(if a ≠ 32 then (a + 20) % 256 else a), (b + 30) % 256, (c + 40) % 256,
              (d + 20) % 256]
          | .SMALL_COLON =>
            if s.m_Blink = .BLINK_1 ∨ s.m_Blink = .BLINK_3 then [a, (b + 10) % 256, c, d]
            else [a, b, c, d]
          | _ => [a, b, c, d])] := by
  unfold ClockDisplay.ledDisplayAddColon
  cases s.m_displayStyle <;> exact ⟨_, rfl⟩

/-- C31: the glyph bands `5x7Rasters.cpp` writes are, in order, plain (from
'0' + 0), colon (+10), shifted up (+20), right decimal (+30) and left decimal
(+40), 50 glyphs in all. `ledDisplayAddColon` sends, for codes `a b c d` that
do not overflow a `char`: in the `USE_DECIMAL` style `a+20` (a blank stays a
blank), `b+30`, `c+40`, `d+20`; in the `SMALL_COLON` style `b+10` in blink
phases 1 and 3 and the codes as they are in phases 2 and 4; in every other
style the codes as they are. For the buffer of every local time each code sent
is a blank or lies in '0' .. '0' + 49. -/
theorem C31_led_style_bands (s : ClockDisplay) (L : Nat) :
    writeDeclarationsBands overlays =
      ([(.AS_IS, 0), (.COLON, 10), (.NO_DECIMAL, 20), (.RIGHT_DECIMAL, 30),
        (.LEFT_DECIMAL, 40)], 50) ∧
    initialFontCharacter = 48 ∧
    (∀ a b c d : Nat, a ≤ 215 → b ≤ 215 → c ≤ 215 → d ≤ 215 →
      (s.m_displayStyle = .USE_DECIMAL →
        ∃ f, s.ledDisplayAddColon [a, b, c, d] =
          [LedOp.setCurrentFontIdx f,
            LedOp.displayString [(if a ≠ 32 then a + 20 else a), b + 30, c + 40, d + 20]]) ∧
      (s.m_displayStyle = .SMALL_COLON →
        (s.m_Blink = .BLINK_1 ∨ s.m_Blink = .BLINK_3) →
        ∃ f, s.ledDisplayAddColon [a, b, c, d] =
          [LedOp.setCurrentFontIdx f, LedOp.displayString [a, b + 10, c, d]]) ∧
      (s.m_displayStyle = .SMALL_COLON →
        (s.m_Blink = .BLINK_2 ∨ s.m_Blink = .BLINK_4) →
        ∃ f, s.ledDisplayAddColon [a, b, c, d] =
          [LedOp.setCurrentFontIdx f, LedOp.displayString [a, b, c, d]]) ∧
      (s.m_displayStyle ≠ .USE_DECIMAL → s.m_displayStyle ≠ .SMALL_COLON →
        ∃ f, s.ledDisplayAddColon [a, b, c, d] =
          [LedOp.setCurrentFontIdx f, LedOp.displayString [a, b, c, d]])) ∧
    (∃ (f : Nat) (q : List Nat),
      s.ledDisplayAddColon
          (s.ledBuffer (if s.m_12Hour then hourFormat12 L else hour L) (minute L)) =
        [LedOp.setCurrentFontIdx f, LedOp.displayString q] ∧
      q.length = 4 ∧
      ∀ x ∈ q, x = 32 ∨
        (initialFontCharacter ≤ x ∧
          x - initialFontCharacter < (writeDeclarationsBands overlays).2 ∧
          x ≤ 48 + 49)) := by
  refine ⟨rfl, rfl, ?_, ?_⟩
  · intro a b c d ha hb hc hd
    obtain ⟨f, hf⟩ := ledDisplayAddColon_styles s a b c d
    have ea : (a + 20) % 256 = a + 20 := Nat.mod_eq_of_lt (by omega)
    have eb : (b + 30) % 256 = b + 30 := Nat.mod_eq_of_lt (by omega)
    have eb2 : (b + 10) % 256 = b + 10 := Nat.mod_eq_of_lt (by omega)
    have ec : (c + 40) % 256 = c + 40 := Nat.mod_eq_of_lt (by omega)
    have ed : (d + 20) % 256 = d + 20 := Nat.mod_eq_of_lt (by omega)
    rw [ea, eb, eb2, ec, ed] at hf
    refine ⟨?_, ?_, ?_, ?_⟩
    · intro h
      rw [h] at hf
      exact ⟨f, hf⟩
    · intro h hb1
      rw [h] at hf
      refine ⟨f, ?_⟩
      rw [hf]
      dsimp only
      rw [if_pos hb1]
    · intro h hb2
      rw [h] at hf
      have hn : ¬ (s.m_Blink = .BLINK_1 ∨ s.m_Blink = .BLINK_3) := by
        rcases hb2 with h2 | h2 <;> rw [h2] <;> decide
      refine ⟨f, ?_⟩
      rw [hf]
      dsimp only
      rw [if_neg hn]
    · intro h1 h2
      refine ⟨f, ?_⟩
      rw [hf]
      cases hs : s.m_displayStyle
      · rfl
      · rfl
      · exact absurd hs h1
      · exact absurd hs h2
      · rfl
  · obtain ⟨⟨a1, a2⟩, ⟨m1, m2⟩, ⟨b1, b2⟩, _⟩ := hour_minute_range L
    have hr0 : 0 ≤ (if s.m_12Hour then hourFormat12 L else hour L) ∧
        (if s.m_12Hour then hourFormat12 L else hour L) ≤ 23 := by
      split_ifs <;> constructor <;> omega
    obtain ⟨d0, d1, d2, d3, h0, h1, h2, h3, hbuf⟩ :=
      ledBuffer_digits s _ (minute L) hr0.1 hr0.2 m1 m2
    rw [hbuf]
    obtain ⟨f, hf⟩ := ledDisplayAddColon_styles s
      (if s.m_12Hour = true ∧ (if s.m_12Hour then hourFormat12 L else hour L) < 10 then 32
        else 48 + d0) (48 + d1) (48 + d2) (48 + d3)
    refine ⟨f, _, hf, ?_, ?_⟩
    · cases s.m_displayStyle <;> dsimp only <;> split_ifs <;> rfl
    · have hN : (writeDeclarationsBands overlays).2 = 50 := rfl
      rw [hN]
      unfold initialFontCharacter
      intro x hx
      have e1 : (48 + d1 + 30) % 256 = 48 + d1 + 30 := Nat.mod_eq_of_lt (by omega)
      have e1b : (48 + d1 + 10) % 256 = 48 + d1 + 10 := Nat.mod_eq_of_lt (by omega)
      have e2 : (48 + d2 + 40) % 256 = 48 + d2 + 40 := Nat.mod_eq_of_lt (by omega)
      have e3 : (48 + d3 + 20) % 256 = 48 + d3 + 20 := Nat.mod_eq_of_lt (by omega)
      have e0 : (48 + d0 + 20) % 256 = 48 + d0 + 20 := Nat.mod_eq_of_lt (by omega)
      rw [e1, e1b, e2, e3] at hx
      by_cases hblank : s.m_12Hour = true ∧
          (if s.m_12Hour then hourFormat12 L else hour L) < 10
      · rw [if_pos hblank] at hx
        cases hs : s.m_displayStyle <;> rw [hs] at hx <;> dsimp only at hx
        all_goals (try split_ifs at hx)
        all_goals
          simp only [List.mem_cons, List.mem_singleton, List.not_mem_nil, or_false,
            ne_eq, not_true_eq_false, if_false] at hx
          omega
      · rw [if_neg hblank] at hx
        cases hs : s.m_displayStyle <;> rw [hs] at hx <;> dsimp only at hx
        all_goals (try split_ifs at hx)
        all_goals
          simp only [List.mem_cons, List.mem_singleton, List.not_mem_nil, or_false, e0] at hx
          omega

/-- C31 on the codes of `0705`: the `USE_DECIMAL` style sends 68 85 88 73, the
`SMALL_COLON` style in blink phase 1 sends 48 65 48 53. -/
theorem C31_led_style_bands_witness :
    (∃ f, ClockDisplay.ledDisplayAddColon
        { ClockDisplay.init with m_displayStyle := .USE_DECIMAL } [48, 55, 48, 53] =
      [LedOp.setCurrentFontIdx f, LedOp.displayString [68, 85, 88, 73]]) ∧
    (∃ f, ClockDisplay.ledDisplayAddColon
        { ClockDisplay.init with m_displayStyle := .SMALL_COLON } [48, 55, 48, 53] =
      [LedOp.setCurrentFontIdx f, LedOp.displayString [48, 65, 48, 53]]) :=
  ⟨((C31_led_style_bands { ClockDisplay.init with m_displayStyle := .USE_DECIMAL }
      0).2.2.1 48 55 48 53 (by decide) (by decide) (by decide) (by decide)).1 rfl,
    ((C31_led_style_bands { ClockDisplay.init with m_displayStyle := .SMALL_COLON }
      0).2.2.1 48 55 48 53 (by decide) (by decide) (by decide) (by decide)).2.1 rfl
      (Or.inl rfl)⟩

/-! ## C32, C33: radio silence and the rain-gauge correction -/

/-- C32: while `radioSilence` is set, `ClockDisplay::loop` returns at once: the
renderer and both display logs are exactly as before, whatever the time status,
the time and the enable flags. `setRadioSilence` with the value already in force
issues no display call and changes nothing; muting issues `noDisplay` on both
displays (no `clear`, no text) and changes only the `radioSilence` field,
unmuting issues `display` on both. -/
theorem C32_radio_silence_skips (dtostrf : F32 → Int → Nat → String) (s : ClockDisplay)
    (out : Displays) (status : timeStatus_t) (now millis : Nat)
    (ledEnabled lcdEnabled : Bool) :
    (s.radioSilence = true →
      s.loop dtostrf out status now millis ledEnabled lcdEnabled = (s, out) ∧
      (s.loop dtostrf out status now millis ledEnabled lcdEnabled).1.m_Blink = s.m_Blink ∧
      (s.loop dtostrf out status now millis ledEnabled lcdEnabled).1.lastTimet
        = s.lastTimet ∧
      (s.loop dtostrf out status now millis ledEnabled lcdEnabled).1.DST = s.DST ∧
      (s.loop dtostrf out status now millis ledEnabled lcdEnabled).1.m_DstChangesWhen
        = s.m_DstChangesWhen ∧
      (s.loop dtostrf out status now millis ledEnabled lcdEnabled).1.m_rainToday
        = s.m_rainToday ∧
      (s.loop dtostrf out status now millis ledEnabled lcdEnabled).1.m_outdoortempC
        = s.m_outdoortempC) ∧
    (∀ v : Bool, v = s.radioSilence → s.setRadioSilence out v = (s, out)) ∧
    (s.radioSilence = false →
      (s.setRadioSilence out true).2 =
        { lcd := out.lcd ++ [LcdOp.noDisplay], led := out.led ++ [LedOp.noDisplay] } ∧
      (s.setRadioSilence out true).1 = { s with radioSilence := true } ∧
      ((s.setRadioSilence out true).1.loop dtostrf (s.setRadioSilence out true).2 status now
        millis ledEnabled lcdEnabled) = s.setRadioSilence out true) ∧
    (s.radioSilence = true →
      (s.setRadioSilence out false).2 =
        { lcd := out.lcd ++ [LcdOp.display], led := out.led ++ [LedOp.display] } ∧
      (s.setRadioSilence out false).1 = { s with radioSilence := false }) := by
  have hloop : ∀ (a : ClockDisplay) (o : Displays), a.radioSilence = true →
      a.loop dtostrf o status now millis ledEnabled lcdEnabled = (a, o) := by
    intro a o h
    simp only [ClockDisplay.loop, h, if_true]
  refine ⟨?_, ?_, ?_, ?_⟩
  · intro h
    rw [hloop s out h]
    exact ⟨rfl, rfl, rfl, rfl, rfl, rfl, rfl⟩
  · intro v hv
    subst hv
    unfold ClockDisplay.setRadioSilence
    simp only [ne_eq, not_true_eq_false, if_false]
  · intro h
    have e : s.setRadioSilence out true =
        ({ s with radioSilence := true },
          { lcd := out.lcd ++ [LcdOp.noDisplay], led := out.led ++ [LedOp.noDisplay] }) := by
      unfold ClockDisplay.setRadioSilence
      simp only [h, ne_eq, Bool.true_eq_false, not_false_eq_true, if_true]
    rw [e]
    exact ⟨rfl, rfl, hloop _ _ rfl⟩
  · intro h
    have e : s.setRadioSilence out false =
        ({ s with radioSilence := false },
          { lcd := out.lcd ++ [LcdOp.display], led := out.led ++ [LedOp.display] }) := by
      unfold ClockDisplay.setRadioSilence
      simp only [h, ne_eq, Bool.false_eq_true, not_false_eq_true, if_true, if_false]
    rw [e]
    exact ⟨rfl, rfl⟩

/-- C32 on the muted renderer with an armed transition due: the tick at
1710054000 changes nothing and writes nothing, and muting it again issues no
display call. -/
theorem C32_radio_silence_skips_witness :
    displayMuted.loop dtostrfInt noDisplays .timeSet 1710054000 5000 true true
      = (displayMuted, noDisplays) ∧
    displayMuted.setRadioSilence noDisplays true = (displayMuted, noDisplays) :=
  ⟨((C32_radio_silence_skips dtostrfInt displayMuted noDisplays .timeSet 1710054000 5000
      true true).1 rfl).1,
    (C32_radio_silence_skips dtostrfInt displayMuted noDisplays .timeSet 1710054000 5000
      true true).2.1 true rfl⟩

/-- C33: `setRainGaugeCorrection t` returns `true` exactly when
500 <= t <= 2000; then the stored correction becomes `t`, otherwise it is
kept; no other field changes either way. -/
theorem C33_rain_gauge_correction_range (s : ClockDisplay) (t : Nat) :
    ((s.setRainGaugeCorrection t).1 = true ↔ (500 ≤ t ∧ t ≤ 2000)) ∧
    ((s.setRainGaugeCorrection t).1 = true →
      (s.setRainGaugeCorrection t).2.m_rainGaugeCorrectionPerThousand = t ∧
      (s.setRainGaugeCorrection t).2 = { s with m_rainGaugeCorrectionPerThousand := t }) ∧
    ((s.setRainGaugeCorrection t).1 = false →
      (s.setRainGaugeCorrection t).2.m_rainGaugeCorrectionPerThousand
        = s.m_rainGaugeCorrectionPerThousand ∧
      (s.setRainGaugeCorrection t).2 = s) := by
  unfold ClockDisplay.setRainGaugeCorrection
  by_cases h : t ≥ 500 ∧ t ≤ 2000
  · rw [if_pos h]
    refine ⟨⟨fun _ => h, fun _ => rfl⟩, fun _ => ⟨rfl, rfl⟩, ?_⟩
    intro hf; cases hf
  · rw [if_neg h]
    refine ⟨⟨?_, fun h2 => absurd h2 h⟩, ?_, fun _ => ⟨rfl, rfl⟩⟩
    · intro hf; cases hf
    · intro hf; cases hf

/-- C33 at the bounds: 499 and 2001 are refused and the constructor's 1000 is
kept, 500 and 2000 are stored. -/
theorem C33_rain_gauge_correction_range_witness :
    ((ClockDisplay.init.setRainGaugeCorrection 499).1 = false ∧
      (ClockDisplay.init.setRainGaugeCorrection 499).2.m_rainGaugeCorrectionPerThousand
        = 1000) ∧
    ((ClockDisplay.init.setRainGaugeCorrection 2001).1 = false ∧
      (ClockDisplay.init.setRainGaugeCorrection 2001).2.m_rainGaugeCorrectionPerThousand
        = 1000) ∧
    (ClockDisplay.init.setRainGaugeCorrection 500).2.m_rainGaugeCorrectionPerThousand = 500 ∧
    (ClockDisplay.init.setRainGaugeCorrection 2000).2.m_rainGaugeCorrectionPerThousand
      = 2000 :=
  ⟨⟨rfl, ((C33_rain_gauge_correction_range ClockDisplay.init 499).2.2 rfl).1⟩,
    ⟨rfl, ((C33_rain_gauge_correction_range ClockDisplay.init 2001).2.2 rfl).1⟩,
    ((C33_rain_gauge_correction_range ClockDisplay.init 500).2.1 rfl).1,
    ((C33_rain_gauge_correction_range ClockDisplay.init 2000).2.1 rfl).1⟩

/-! ## C34: names and the 8-character LCD row -/

/-- C34 fails on the `Rotate` parameter: every parameter name and every other
option name of the table has at most 8 characters, but options 2 and 3 of
`Rotate` (`No&Mirror`, `Yes&Mirro`) have 9, one more than the LCD row the
declaration's comment says each fits in; `displayCurrentSw1` prints them
unpadded on row 1. -/
theorem C34_rotate_option_names_too_long :
    (∀ p ∈ setupParameters, p.ParamName.length ≤ 8) ∧
    (∀ p ∈ setupParameters, ∀ o ∈ p.OptionNames,
      o.length ≤ 8 ∨ (p = r180.p ∧ o.length = 9)) ∧
    setupParameterAt 4 = r180.p ∧
    (optionName 4 2 = "No&Mirror" ∧ (optionName 4 2).length = 9) ∧
    (optionName 4 3 = "Yes&Mirro" ∧ (optionName 4 3).length = 9) ∧
    (ClockSettings.displayCurrentSw1
        { ClockSettings.init with
          m_state := .SW1_IN_PROGRESS, m_curParam := 4, m_curOption := 2 } quietWorld).lcd =
      [LcdOp.clear, LcdOp.setCursor 0 0, LcdOp.printChar ' ', LcdOp.print "Rotate",
        LcdOp.setCursor 0 1, LcdOp.print "No&Mirror"] := by
  decide

/-! ## C35: the instant an armed DST transition fires -/

/-- C35 fails: the local standard time at the instant `scheduleDSTchangeAt`
arms, `instant + utcSecondsOffset`, is `utcMidnight + 2 * utcSecondsOffset +
3600 * localHour` (in `time_t` arithmetic), which is the scheduled
`utcMidnight + 3600 * localHour` only when twice the offset vanishes. At
UTC-5 h, for 2024-03-10 and local hour 2, the armed instant is 1710018000
(2024-03-09T21:00:00Z), where the local clock reads 16:00 of March 9th and not
02:00 of March 10th (1710036000); the tick at that instant switches `DST` on. -/
theorem C35_armed_instant_off_by_twice_offset (s : ClockDisplay) (begins : Bool)
    (utcMidnight localHour : Nat) :
    timeAdd (s.scheduleDSTchangeAt begins utcMidnight localHour).m_DstChangesWhen
        s.utcSecondsOffset =
      (((utcMidnight : Int) + 2 * s.utcSecondsOffset + 3600 * (localHour : Int))
        % 4294967296).toNat ∧
    (timeAdd (s.scheduleDSTchangeAt begins utcMidnight localHour).m_DstChangesWhen
        s.utcSecondsOffset =
      (((utcMidnight : Int) + 3600 * (localHour : Int)) % 4294967296).toNat ↔
      (2 * s.utcSecondsOffset) % 4294967296 = 0) ∧
    displayArmed.utcSecondsOffset = -18000 ∧
    (displayArmed.scheduleDSTchangeAt true 1710028800 2).m_DstChangesWhen = 1710018000 ∧
    timeAdd (displayArmed.scheduleDSTchangeAt true 1710028800 2).m_DstChangesWhen
      displayArmed.utcSecondsOffset = 1710000000 ∧
    (1710028800 + 3600 * 2 = 1710036000 ∧ (1710000000 : Nat) ≠ 1710036000) ∧
    (hour 1710000000 = 16 ∧ day 1710000000 = 9 ∧ hour 1710036000 = 2 ∧
      day 1710036000 = 10) ∧
    ((displayArmed.scheduleDSTchangeAt true 1710028800 2).loop dtostrfInt noDisplays .timeSet
      1710018000 0 false false).1.DST = true := by
  have h1 : timeAdd (s.scheduleDSTchangeAt begins utcMidnight localHour).m_DstChangesWhen
      s.utcSecondsOffset =
      (((utcMidnight : Int) + 2 * s.utcSecondsOffset + 3600 * (localHour : Int))
        % 4294967296).toNat := by
    simp only [ClockDisplay.scheduleDSTchangeAt, timeAdd_timeAdd]
    unfold timeAdd
    rw [Int.toNat_of_nonneg (Int.emod_nonneg _ (by decide))]
    congr 1
    omega
  refine ⟨h1, ?_, by decide, by decide, by decide, by decide, by decide, by decide⟩
  rw [h1]
  have n1 := Int.emod_nonneg ((utcMidnight : Int) + 2 * s.utcSecondsOffset
    + 3600 * (localHour : Int)) (show (4294967296 : Int) ≠ 0 by decide)
  have n2 := Int.emod_nonneg ((utcMidnight : Int) + 3600 * (localHour : Int))
    (show (4294967296 : Int) ≠ 0 by decide)
  constructor
  · intro h
    have h2 := congrArg (fun n : Nat => (n : Int)) h
    simp only [Int.toNat_of_nonneg n1, Int.toNat_of_nonneg n2] at h2
    omega
  · intro h
    congr 1
    omega

/-! ## C36: a failed IRQ-status read -/

/-- A listening tick with the interrupt flag pending starts with the
IRQ-status read. -/
theorem loop_active_log (self : Es100Wire) (hw : Board)
    (hst : self.m_state = ReceptionState.ACTIVE) (ht : self.isrTriggered = true) :
    ∃ rest, (loop self hw false).2.2.log =
      hw.log ++ [BusOp.readReg ES100_IRQ_STATUS_REG] ++ rest := by
  generalize hL : loop self hw false = L
  simp only [loop, hst, readRegister_fst, readRegister_snd, Bool.false_eq_true, if_false,
    ne_eq, not_true_eq_false, ht, if_true] at hL
  by_cases h0 : readValue (hw.reply hw.count) < 0
  · rw [if_pos h0] at hL; subst hL; exact ⟨[], by simp⟩
  rw [if_neg h0] at hL
  by_cases hb : ¬(readValue (hw.reply hw.count)).toNat &&& IRQSTATUS_RX_COMPLETE = 0
  swap
  · rw [if_neg hb] at hL; subst hL; exact ⟨[], by simp⟩
  rw [if_pos hb] at hL
  by_cases h1 : readValue (hw.reply (hw.count + 1)) < 0
  · rw [if_pos h1] at hL; subst hL
    exact ⟨[BusOp.readReg ES100_YEAR_REG], by simp⟩
  rw [if_neg h1] at hL
  by_cases h2 : readValue (hw.reply (hw.count + 1 + 1)) < 0
  · rw [if_pos h2] at hL; subst hL
    exact ⟨[BusOp.readReg ES100_YEAR_REG, BusOp.readReg ES100_MONTH_REG], by simp⟩
  rw [if_neg h2] at hL
  by_cases h3 : readValue (hw.reply (hw.count + 1 + 1 + 1)) < 0
  · rw [if_pos h3] at hL; subst hL
    exact ⟨[BusOp.readReg ES100_YEAR_REG, BusOp.readReg ES100_MONTH_REG, BusOp.readReg ES100_DAY_REG], by simp⟩
  rw [if_neg h3] at hL
  by_cases h4 : readValue (hw.reply (hw.count + 1 + 1 + 1 + 1)) < 0
  · rw [if_pos h4] at hL; subst hL
    exact ⟨[BusOp.readReg ES100_YEAR_REG, BusOp.readReg ES100_MONTH_REG, BusOp.readReg ES100_DAY_REG, BusOp.readReg ES100_HOUR_REG], by simp⟩
  rw [if_neg h4] at hL
  by_cases h5 : readValue (hw.reply (hw.count + 1 + 1 + 1 + 1 + 1)) < 0
  · rw [if_pos h5] at hL; subst hL
    exact ⟨[BusOp.readReg ES100_YEAR_REG, BusOp.readReg ES100_MONTH_REG, BusOp.readReg ES100_DAY_REG, BusOp.readReg ES100_HOUR_REG, BusOp.readReg ES100_MINUTE_REG], by simp⟩
  rw [if_neg h5] at hL
  by_cases h6 : readValue (hw.reply (hw.count + 1 + 1 + 1 + 1 + 1 + 1)) < 0
  · rw [if_pos h6] at hL; subst hL
    exact ⟨[BusOp.readReg ES100_YEAR_REG, BusOp.readReg ES100_MONTH_REG, BusOp.readReg ES100_DAY_REG, BusOp.readReg ES100_HOUR_REG, BusOp.readReg ES100_MINUTE_REG, BusOp.readReg ES100_SECOND_REG], by simp⟩
  rw [if_neg h6] at hL
  subst hL
  exact ⟨[BusOp.readReg ES100_YEAR_REG, BusOp.readReg ES100_MONTH_REG, BusOp.readReg ES100_DAY_REG, BusOp.readReg ES100_HOUR_REG, BusOp.readReg ES100_MINUTE_REG, BusOp.readReg ES100_SECOND_REG, BusOp.readReg ES100_NEXT_DST_MONTH_REG, BusOp.readReg ES100_NEXT_DST_DAY_REG, BusOp.readReg ES100_NEXT_DST_HOUR_REG, BusOp.readReg ES100_STATUS0_REG], by simp⟩

/-- C36, as stated, fails: on the listening session with the interrupt flag
pending and a board that does not acknowledge the next transaction, the tick
issues the IRQ-status read, returns no fix and leaves the flag cleared; the
following tick, with no new interrupt, issues no transaction at all although
the board would now answer. -/
theorem C36_counterexample :
    listeningSession.isrTriggered = true ∧
    (loop listeningSession flakyBoard false).1 = false ∧
    (loop listeningSession flakyBoard false).2.2.log = [BusOp.readReg ES100_IRQ_STATUS_REG] ∧
    (loop listeningSession flakyBoard false).2.1.isrTriggered = false ∧
    (loop (loop listeningSession flakyBoard false).2.1
      (loop listeningSession flakyBoard false).2.2 false).1 = false ∧
    (loop (loop listeningSession flakyBoard false).2.1
      (loop listeningSession flakyBoard false).2.2 false).2.2.log
        = [BusOp.readReg ES100_IRQ_STATUS_REG] ∧
    (loop (loop listeningSession flakyBoard false).2.1
      (loop listeningSession flakyBoard false).2.2 false).2.2.count = 1 := by
  decide

/-- C36, amended: in Listening state with the interrupt flag pending, a tick
whose IRQ-status read fails issues that one read, returns no fix and leaves the
session as it was except that the flag is now cleared (it is cleared before the
read). The following tick, unless an interrupt has set the flag again, issues no
transaction and changes nothing; once the flag is set again, the tick starts
with the IRQ-status read. -/
theorem C36_failed_irq_read_clears_flag (self : Es100Wire) (hw : Board)
    (hst : self.m_state = ReceptionState.ACTIVE) (htrig : self.isrTriggered = true)
    (hfail : readValue (hw.reply hw.count) < 0) :
    (loop self hw false).1 = false ∧
    (loop self hw false).2.1 = { self with isrTriggered := false } ∧
    ((loop self hw false).2.1.m_state = ReceptionState.ACTIVE ∧
      (loop self hw false).2.1.m_time = self.m_time ∧
      (loop self hw false).2.1.m_status0 = self.m_status0 ∧
      (loop self hw false).2.1.m_yearOfDst = self.m_yearOfDst ∧
      (loop self hw false).2.1.m_nextDstMonthStatus = self.m_nextDstMonthStatus ∧
      (loop self hw false).2.1.m_nextDstDayStatus = self.m_nextDstDayStatus ∧
      (loop self hw false).2.1.m_nextDstHourStatus = self.m_nextDstHourStatus) ∧
    (loop self hw false).2.2.log = hw.log ++ [BusOp.readReg ES100_IRQ_STATUS_REG] ∧
    (loop self hw false).2.2.count = hw.count + 1 ∧
    loop (loop self hw false).2.1 (loop self hw false).2.2 false
      = (false, (loop self hw false).2.1, (loop self hw false).2.2) ∧
    (∃ rest,
      (loop { (loop self hw false).2.1 with isrTriggered := true } (loop self hw false).2.2
        false).2.2.log =
        hw.log ++ [BusOp.readReg ES100_IRQ_STATUS_REG] ++
          [BusOp.readReg ES100_IRQ_STATUS_REG] ++ rest) := by
  have e : loop self hw false =
      (false, { self with isrTriggered := false },
        { hw with count := hw.count + 1,
                  log := hw.log ++ [BusOp.readReg ES100_IRQ_STATUS_REG] }) := by
    simp only [loop, hst, readRegister_fst, readRegister_snd, Bool.false_eq_true, if_false,
      ne_eq, not_true_eq_false, htrig, if_true, hfail]
  rw [e]
  refine ⟨rfl, rfl, ⟨hst, rfl, rfl, rfl, rfl, rfl, rfl⟩, rfl, rfl, ?_, ?_⟩
  · simp only [loop, hst, Bool.false_eq_true, if_false, ne_eq, not_true_eq_false]
  · exact loop_active_log _ _ hst rfl

/-- C36 amended, on the listening session and the board that does not
acknowledge the next transaction: no fix, the flag cleared, one read issued, and
the next tick does nothing. -/
theorem C36_failed_irq_read_clears_flag_witness :
    (loop listeningSession flakyBoard false).1 = false ∧
    (loop listeningSession flakyBoard false).2.1
      = { listeningSession with isrTriggered := false } ∧
    loop (loop listeningSession flakyBoard false).2.1
        (loop listeningSession flakyBoard false).2.2 false
      = (false, (loop listeningSession flakyBoard false).2.1,
          (loop listeningSession flakyBoard false).2.2) :=
  have h := C36_failed_irq_read_clears_flag listeningSession flakyBoard rfl rfl (by decide)
  ⟨h.1, h.2.1, h.2.2.2.2.2.1⟩

/-! ## C37: the cursor of the settings menu stays inside the table -/

/-- `processSw1Buttons` keeps the cursor inside the table and makes apply calls
with in-range indices only (`Q` holds of the entries already logged and of every
in-range entry). -/
theorem processSw1_preserves (CLOCKCOMMANDS : Nat → String) (self : ClockSettings)
    (w : SettingsWorld) (now : Nat) (sw1 sw2 : Bool)
    (Q : Nat × Nat → Prop) (hQ : ∀ e, applyInRange e → Q e)
    (hinv : cursorInRange self) (hap : ∀ e ∈ w.applied, Q e) :
    cursorInRange (self.processSw1Buttons CLOCKCOMMANDS w now sw1 sw2).1 ∧
    (∀ e ∈ (self.processSw1Buttons CLOCKCOMMANDS w now sw1 sw2).2.applied, Q e) := by
  obtain ⟨hp, ho, hx⟩ := hinv
  have hN : NUM_SETUP_PARAMETERS = 11 := rfl
  by_cases c1 : sw1 = true ∧ ¬ self.m_prevSw1 = true ∧
      msecSince now self.m_lastButtonMsec > DEBOUNCE_MSEC
  · have e : self.processSw1Buttons CLOCKCOMMANDS w now sw1 sw2 =
        (({ self with
            m_curParam := if ((self.m_curParam + 1) % 256 : Nat) ≥ (11 : Int) then 0
              else (self.m_curParam + 1) % 256,
            m_curOption := NO_OPTION } : ClockSettings),
          ClockSettings.displayCurrentSw1
            { self with
              m_curParam := if ((self.m_curParam + 1) % 256 : Nat) ≥ (11 : Int) then 0
                else (self.m_curParam + 1) % 256,
              m_curOption := NO_OPTION }
            (if self.m_curOption ≠ NO_OPTION then
              callApplyFcn CLOCKCOMMANDS w self.m_curParam self.m_curOption
            else w)) := by
      unfold ClockSettings.processSw1Buttons
      dsimp only
      rw [if_pos c1, hN]
      split_ifs <;> rfl
    rw [e]
    constructor
    · refine ⟨?_, Or.inl rfl, fun _ => rfl⟩
      show (if ((self.m_curParam + 1) % 256 : Nat) ≥ (11 : Int) then 0
        else (self.m_curParam + 1) % 256) < 11
      split_ifs <;> omega
    · intro e he
      have he2 : e ∈ (if self.m_curOption ≠ NO_OPTION then
          callApplyFcn CLOCKCOMMANDS w self.m_curParam self.m_curOption else w).applied := he
      by_cases hn : self.m_curOption ≠ NO_OPTION
      · rw [if_pos hn, callApplyFcn_applied, List.mem_append, List.mem_singleton] at he2
        rcases he2 with h | h
        · exact hap e h
        · rw [h]
          rcases ho with ho | ho
          · exact absurd ho hn
          · exact hQ _ ⟨hp, hn, ho⟩
      · rw [if_neg hn] at he2
        exact hap e he2
  · by_cases c2 : sw2 = true ∧ ¬ self.m_prevSw2 = true ∧
        msecSince now self.m_lastButtonMsec > DEBOUNCE_MSEC
    · by_cases c3 : self.m_curParam = 10
      · have e : self.processSw1Buttons CLOCKCOMMANDS w now sw1 sw2 =
            ({ self with m_state := .WAIT_FOR_SW_RELEASE }, w) := by
          unfold ClockSettings.processSw1Buttons
          dsimp only
          rw [if_neg c1, if_pos c2, hN, if_pos (by rw [c3]; rfl)]
        rw [e]
        exact ⟨⟨hp, ho, hx⟩, hap⟩
      · have e : self.processSw1Buttons CLOCKCOMMANDS w now sw1 sw2 =
            (({ self with
                m_curOption := optionStep (setupParameterAt self.m_curParam).NumOptions
                  self.m_curOption } : ClockSettings),
              ClockSettings.displayCurrentSw1
                { self with
                  m_curOption := optionStep (setupParameterAt self.m_curParam).NumOptions
                    self.m_curOption } w) := by
          unfold ClockSettings.processSw1Buttons
          dsimp only
          rw [if_neg c1, if_pos c2, hN, if_neg (by omega)]
          unfold optionStep
          split_ifs <;> rfl
        rw [e]
        have key : ∀ (n : Int) (o : Nat),
            optionStep n o = NO_OPTION ∨ ((optionStep n o : Nat) : Int) < n := by
          intro n o
          unfold optionStep
          split_ifs with h
          · exact Or.inl rfl
          · right; omega
        exact ⟨⟨hp, key _ _, fun h => absurd h c3⟩, hap⟩
    · have e : self.processSw1Buttons CLOCKCOMMANDS w now sw1 sw2 = (self, w) := by
        unfold ClockSettings.processSw1Buttons
        dsimp only
        rw [if_neg c1, if_neg c2]
      rw [e]
      exact ⟨⟨hp, ho, hx⟩, hap⟩

/-- `processSw2Buttons` does not move the cursor. -/
theorem processSw2_cursor (self : ClockSettings) (w : SettingsWorld) (tm : Nat)
    (sw1 sw2 : Bool) :
    (self.processSw2Buttons w tm sw1 sw2).1.m_curParam = self.m_curParam ∧
    (self.processSw2Buttons w tm sw1 sw2).1.m_curOption = self.m_curOption := by
  unfold ClockSettings.processSw2Buttons
  dsimp only
  split_ifs <;> exact ⟨rfl, rfl⟩

/-- The invariant speaks of the cursor only. -/
theorem cursorInRange_congr (a b : ClockSettings) (h1 : a.m_curParam = b.m_curParam)
    (h2 : a.m_curOption = b.m_curOption) (h : cursorInRange b) : cursorInRange a := by
  unfold cursorInRange at *
  rw [h1, h2]
  exact h

/-- Every tick of `ClockSettings::loop` keeps the cursor inside the table and
makes apply calls with in-range indices only. -/
theorem loop_preserves (CLOCKCOMMANDS : Nat → String) (self : ClockSettings)
    (w : SettingsWorld) (now : Nat) (sw1 sw2 : Bool)
    (Q : Nat × Nat → Prop) (hQ : ∀ e, applyInRange e → Q e)
    (hinv : cursorInRange self) (hap : ∀ e ∈ w.applied, Q e) :
    cursorInRange (self.loop CLOCKCOMMANDS w now sw1 sw2).2.1 ∧
    (∀ e ∈ (self.loop CLOCKCOMMANDS w now sw1 sw2).2.2.applied, Q e) := by
  have hreset : ∀ s : ClockSettings, s.m_curParam = 0 → s.m_curOption = NO_OPTION →
      cursorInRange s := by
    intro s h1 h2
    refine ⟨by omega, Or.inl h2, fun h => by omega⟩
  cases hst : self.m_state
  · -- IDLE
    simp only [ClockSettings.loop, hst]
    split_ifs <;> exact ⟨cursorInRange_congr _ self rfl rfl hinv, hap⟩
  · -- HOLD_SW1_FOR_START
    rw [loop_hold_sw1 CLOCKCOMMANDS self w now sw1 sw2 hst]
    split_ifs
    · exact ⟨cursorInRange_congr _ self rfl rfl hinv, hap⟩
    · exact ⟨hreset _ rfl rfl, hap⟩
    · exact ⟨cursorInRange_congr _ self rfl rfl hinv, hap⟩
  · -- SW1_IN_PROGRESS
    obtain ⟨p1, p2⟩ := processSw1_preserves CLOCKCOMMANDS self w now sw1 sw2 Q hQ hinv hap
    rw [loop_menu CLOCKCOMMANDS self w now sw1 sw2 hst]
    split_ifs <;> first
      | exact ⟨cursorInRange_congr _ _ rfl rfl p1, p2⟩
  · -- HOLD_SW2_FOR_START
    rw [loop_hold_sw2 CLOCKCOMMANDS self w now sw1 sw2 hst]
    split_ifs
    · exact ⟨cursorInRange_congr _ self rfl rfl hinv, hap⟩
    · exact ⟨hreset _ rfl rfl, hap⟩
    · exact ⟨cursorInRange_congr _ self rfl rfl hinv, hap⟩
  · -- SW2_IN_PROGRESS
    obtain ⟨q1, q2⟩ := processSw2_cursor self w now sw1 sw2
    have q3 := (processSw2_cases self w now sw1 sw2).2.2.2.2.2.1
    have p1 : cursorInRange (self.processSw2Buttons w now sw1 sw2).1 :=
      cursorInRange_congr _ self q1 q2 hinv
    have p2 : ∀ e ∈ (self.processSw2Buttons w now sw1 sw2).2.applied, Q e := by
      rw [q3]; exact hap
    rw [loop_adjust CLOCKCOMMANDS self w now sw1 sw2 hst]
    split_ifs <;> first
      | exact ⟨cursorInRange_congr _ _ rfl rfl p1, p2⟩
  · -- WAIT_FOR_SW_RELEASE
    rw [loop_wait CLOCKCOMMANDS self w now sw1 sw2 hst]
    split_ifs <;> exact ⟨cursorInRange_congr _ self rfl rfl hinv, hap⟩

/-- A run of ticks keeps the cursor inside the table and makes apply calls with
in-range indices only. -/
theorem run_preserves (CLOCKCOMMANDS : Nat → String) (Q : Nat × Nat → Prop)
    (hQ : ∀ e, applyInRange e → Q e) (ticks : List (Nat × Bool × Bool)) :
    ∀ (s : ClockSettings) (w : SettingsWorld), cursorInRange s → (∀ e ∈ w.applied, Q e) →
      cursorInRange (ClockSettings.run CLOCKCOMMANDS (s, w) ticks).1 ∧
      (∀ e ∈ (ClockSettings.run CLOCKCOMMANDS (s, w) ticks).2.applied, Q e) := by
  induction ticks with
  | nil => intro s w h1 h2; exact ⟨h1, h2⟩
  | cons t rest ih =>
    intro s w h1 h2
    rw [run_cons]
    obtain ⟨a, b⟩ := loop_preserves CLOCKCOMMANDS s w t.1 t.2.1 t.2.2 Q hQ h1 h2
    exact ih _ _ a b

/-- In every table entry whose option names come from the table, `NumOptions`
is the length of `OptionNames`. -/
theorem numOptions_eq_length (p : Nat) (hp : p < 11)
    (hf : (setupParameterAt p).optionNameFcn = OptionNameFcn_t.optionName) :
    (setupParameterAt p).NumOptions = ((setupParameterAt p).OptionNames.length : Nat) := by
  interval_cases p <;> first | rfl | exact absurd hf (by decide)

/-- C37: from the constructed state, after any list of `ClockSettings::loop`
ticks (any button samples, any millisecond times, so in particular
non-decreasing ones) the parameter index is below the 11 entries of
`setupParameters`; the option index is `NO_OPTION` (0xFF) or below the
`NumOptions` of the current parameter; when the option index is not `NO_OPTION`
and the names come from the table, the index is inside `OptionNames`; every
apply call the run added to the log has a parameter index below 11 and an option
index that is not `NO_OPTION` and is below that parameter's `NumOptions`; and on
the EXIT parameter (index 10) the option index is `NO_OPTION`. -/
theorem C37_cursor_in_range (CLOCKCOMMANDS : Nat → String) (w0 : SettingsWorld)
    (ticks : List (Nat × Bool × Bool)) :
    setupParameters.length = 11 ∧
    (ClockSettings.run CLOCKCOMMANDS (ClockSettings.init, w0) ticks).1.m_curParam
      < setupParameters.length ∧
    ((ClockSettings.run CLOCKCOMMANDS (ClockSettings.init, w0) ticks).1.m_curOption = NO_OPTION ∨
      (((ClockSettings.run CLOCKCOMMANDS (ClockSettings.init, w0) ticks).1.m_curOption : Nat) : Int)
        < (setupParameterAt
            (ClockSettings.run CLOCKCOMMANDS (ClockSettings.init, w0) ticks).1.m_curParam).NumOptions) ∧
    ((ClockSettings.run CLOCKCOMMANDS (ClockSettings.init, w0) ticks).1.m_curOption ≠ NO_OPTION →
      (setupParameterAt
        (ClockSettings.run CLOCKCOMMANDS (ClockSettings.init, w0) ticks).1.m_curParam).optionNameFcn
          = OptionNameFcn_t.optionName →
      (ClockSettings.run CLOCKCOMMANDS (ClockSettings.init, w0) ticks).1.m_curOption
        < (setupParameterAt
            (ClockSettings.run CLOCKCOMMANDS (ClockSettings.init, w0) ticks).1.m_curParam).OptionNames.length) ∧
    (∀ e ∈ (ClockSettings.run CLOCKCOMMANDS (ClockSettings.init, w0) ticks).2.applied,
      e ∈ w0.applied ∨
        (e.1 < setupParameters.length ∧ e.2 ≠ NO_OPTION ∧
          (e.2 : Int) < (setupParameterAt e.1).NumOptions)) ∧
    ((ClockSettings.run CLOCKCOMMANDS (ClockSettings.init, w0) ticks).1.m_curParam = 10 →
      (ClockSettings.run CLOCKCOMMANDS (ClockSettings.init, w0) ticks).1.m_curOption = NO_OPTION) := by
  have h0 : cursorInRange ClockSettings.init := by decide
  obtain ⟨⟨a, b, c⟩, d⟩ := run_preserves CLOCKCOMMANDS
    (fun e => e ∈ w0.applied ∨ applyInRange e) (fun e h => Or.inr h) ticks
    ClockSettings.init w0 h0 (fun e h => Or.inl h)
  refine ⟨rfl, a, b, ?_, d, c⟩
  intro hn hf
  rcases b with b | b
  · exact absurd b hn
  · rw [numOptions_eq_length _ a hf] at b
    exact_mod_cast b

/-- C37 on a concrete run: button 1 held into the menu, one click of button 2
(option 0 of TimeZone), one click of button 1 (apply call (0, 0), cursor on
parameter 1 with no option). -/
theorem C37_cursor_in_range_witness :
    (ClockSettings.run commandNames (ClockSettings.init, quietWorld)
      [(1000, true, false), (4000, true, false), (4100, false, false), (4300, false, true),
        (4500, false, false), (4700, true, false)]).1.m_curParam = 1 ∧
    (ClockSettings.run commandNames (ClockSettings.init, quietWorld)
      [(1000, true, false), (4000, true, false), (4100, false, false), (4300, false, true),
        (4500, false, false), (4700, true, false)]).2.applied = [(0, 0)] ∧
    (ClockSettings.run commandNames (ClockSettings.init, quietWorld)
      [(1000, true, false), (4000, true, false), (4100, false, false), (4300, false, true),
        (4500, false, false), (4700, true, false)]).1.m_curParam < setupParameters.length :=
  ⟨by decide, by decide,
    (C37_cursor_in_range commandNames quietWorld
      [(1000, true, false), (4000, true, false), (4100, false, false), (4300, false, true),
        (4500, false, false), (4700, true, false)]).2.1⟩

/-! ## C38: same-day announcement and a definite DST answer -/

/-- C38: for every stored status value (and whatever the other registers and the
clock hold), if `isDstNow` returns 0 (No) or 1 (Yes) then `ScheduledDst` does
not take the same-day path, and if `ScheduledDst` takes the same-day path then
`isDstNow` returns -1 (Unknown). -/
theorem C38_same_day_excludes_definite (self : Es100Wire) (now : Nat) (b0 : Bool)
    (w0 l0 : Nat) :
    ((isDstNow self = 0 ∨ isDstNow self = 1) →
      (ScheduledDst self now b0 w0 l0).path ≠ DstPath.fromStatus0) ∧
    ((ScheduledDst self now b0 w0 l0).path = DstPath.fromStatus0 → isDstNow self = -1) := by
  have key : (ScheduledDst self now b0 w0 l0).path = DstPath.fromStatus0 →
      isDstNow self = -1 := by
    intro hp
    obtain ⟨hs, h0, h56⟩ := (scheduledDst_path_iff self now b0 w0 l0).1 hp
    rw [isDstNow_of_bits self hs, h0]
    revert h56
    cases self.m_status0.toNat.testBit 5 <;> cases self.m_status0.toNat.testBit 6 <;>
      intro h56 <;> first | rfl | exact absurd rfl h56
  refine ⟨?_, key⟩
  intro h hp
  have hk := key hp
  rcases h with h | h <;> rw [hk] at h <;> exact absurd h (by decide)

/-- C38 on concrete snapshots: a status with RXOK and one DST bit takes the
same-day path and reads Unknown; status 0x61 reads Yes and does not take it. -/
theorem C38_same_day_excludes_definite_witness :
    (ScheduledDst snapshotBoth 1710036000 false 0 0).path = DstPath.fromStatus0 ∧
    isDstNow snapshotBoth = -1 ∧
    isDstNow { snapshotBoth with m_status0 := 0x61 } = 1 ∧
    (ScheduledDst { snapshotBoth with m_status0 := 0x61 } 1710036000 false 0 0).path
      ≠ DstPath.fromStatus0 :=
  ⟨by decide,
    (C38_same_day_excludes_definite snapshotBoth 1710036000 false 0 0).2 (by decide),
    by decide,
    (C38_same_day_excludes_definite { snapshotBoth with m_status0 := 0x61 }
      1710036000 false 0 0).1 (Or.inr (by decide))⟩

/-! ## C39: the time-zone commands -/

/-- C39: for every TimeZone option index `i` in 0..6, `tz::tzApply` hands
exactly one command to `routeCommand`: the name of `TimeZoneOffset` followed by
the decimal text of `-60 * (4 + i)`, with nothing else changed, and the menu's
apply call on parameter 0 (TimeZone) does the same; the texts for the names
Atlantic, Eastern, Central, Mountain, Pacific, Alaska, Hawaii are -240, -300,
-360, -420, -480, -540, -600; each value is a whole number of hours, and
`setUtcMinutesOffset` of it stores `-3600 * (4 + i)` seconds. -/
theorem C39_timezone_offset_command (CLOCKCOMMANDS : Nat → String) (w : SettingsWorld)
    (i : Nat) (hi : i ≤ 6) :
    (tzApply CLOCKCOMMANDS w i).routed = w.routed ++
      [(CLOCKCOMMANDS ClockCommands_t.TimeZoneOffset ++ itoa (-60 * (4 + (i : Int))),
        (1 + (CLOCKCOMMANDS ClockCommands_t.TimeZoneOffset
          ++ itoa (-60 * (4 + (i : Int)))).length) % 256)] ∧
    (tzApply CLOCKCOMMANDS w i).lcd = w.lcd ∧
    (tzApply CLOCKCOMMANDS w i).applied = w.applied ∧
    (tzApply CLOCKCOMMANDS w i).sysTime = w.sysTime ∧
    (tzApply CLOCKCOMMANDS w i).rtc = w.rtc ∧
    (setupParameterAt 0).ParamName = "TimeZone" ∧
    (setupParameterAt 0).NumOptions = 7 ∧
    (callApplyFcn CLOCKCOMMANDS w 0 i).routed = (tzApply CLOCKCOMMANDS w i).routed ∧
    (optionName 0 i, itoa (-60 * (4 + (i : Int)))) ∈
      [("Atlantic", "-240"), ("Eastern", "-300"), ("Central", "-360"), ("Mountain", "-420"),
        ("Pacific", "-480"), ("Alaska", "-540"), ("Hawaii", "-600")] ∧
    (-60 * (4 + (i : Int))) % 60 = 0 ∧
    (∀ d : ClockDisplay,
      (d.setUtcMinutesOffset (-60 * (4 + (i : Int)))).utcSecondsOffset
        = 3600 * (-(4 + (i : Int)))) := by
  refine ⟨rfl, rfl, rfl, rfl, rfl, rfl, rfl, rfl, ?_, by omega, ?_⟩
  · interval_cases i <;> decide
  · intro d
    show -60 * (4 + (i : Int)) * 60 = 3600 * (-(4 + (i : Int)))
    ring

/-- C39 at index 1 (Eastern): the one command is the name followed by `-300`. -/
theorem C39_timezone_offset_command_witness :
    (tzApply commandNames quietWorld 1).routed = [("C1=-300", 8)] ∧
    (callApplyFcn commandNames quietWorld 0 1).routed = [("C1=-300", 8)] :=
  ⟨(C39_timezone_offset_command commandNames quietWorld 1 (by decide)).1.trans (by decide),
    ((C39_timezone_offset_command commandNames quietWorld 1 (by decide)).2.2.2.2.2.2.2.1).trans
      (by decide)⟩

/-! ## C40: the brightness commands -/

/-- C40, the divergence: `bright::apply` treats only indices at or above
`NUM_BRITES` (6) as off, while the option table has 6 entries with `Off` at
index 5. For index 5 the switch has no case, so the first command is `LedPwm=`
with an empty argument (length argument 8) and it is followed by the
`LedCurrent` command with the digit 0; the text `LedPwm=0` alone is handed over
only for indices from 6 on, which the 6-entry table does not have. For indices
0..4 the first command is `LedPwm=1`, `LedPwm=5`, `LedPwm=8`, `LedPwm=12`,
`LedPwm=15`, each followed by the `LedCurrent` command with the digit 0, 0, 1,
2, 3. -/
theorem C40_bright_off_sends_empty_pwm (CLOCKCOMMANDS : Nat → String) (w : SettingsWorld) :
    setupParameterAt 3 = bright.p ∧
    bright.p.NumOptions = 6 ∧
    optionName 3 5 = "Off" ∧
    (brightApply CLOCKCOMMANDS w 5).routed = w.routed ++
      [("LedPwm=", 8),
        (CLOCKCOMMANDS ClockCommands_t.LedCurrent ++ "0",
          (1 + (CLOCKCOMMANDS ClockCommands_t.LedCurrent ++ "0").length) % 256)] ∧
    (callApplyFcn CLOCKCOMMANDS w 3 5).routed = (brightApply CLOCKCOMMANDS w 5).routed ∧
    (brightApply CLOCKCOMMANDS w 5).routed ≠ w.routed ++ [("LedPwm=0", 9)] ∧
    (∀ brite, 6 ≤ brite →
      (brightApply CLOCKCOMMANDS w brite).routed = w.routed ++ [("LedPwm=0", 9)]) ∧
    (∀ brite, brite ≤ 4 →
      (brightApply CLOCKCOMMANDS w brite).routed = w.routed ++
        [("LedPwm=" ++ ["1", "5", "8", "12", "15"].getD brite "",
            (1 + ("LedPwm=" ++ ["1", "5", "8", "12", "15"].getD brite "").length) % 256),
          (CLOCKCOMMANDS ClockCommands_t.LedCurrent
              ++ String.mk [['0', '0', '1', '2', '3'].getD brite '0'],
            (1 + (CLOCKCOMMANDS ClockCommands_t.LedCurrent
              ++ String.mk [['0', '0', '1', '2', '3'].getD brite '0']).length) % 256)]) := by
  have h5 : (brightApply CLOCKCOMMANDS w 5).routed = w.routed ++
      [("LedPwm=", 8),
        (CLOCKCOMMANDS ClockCommands_t.LedCurrent ++ "0",
          (1 + (CLOCKCOMMANDS ClockCommands_t.LedCurrent ++ "0").length) % 256)] := by
    show (w.routed ++ [_]) ++ [_] = _
    rw [List.append_assoc]
    rfl
  refine ⟨rfl, rfl, by decide, h5, rfl, ?_, ?_, ?_⟩
  · rw [h5]
    intro h
    have hl := congrArg List.length h
    simp only [List.length_append, List.length_cons, List.length_nil] at hl
    omega
  · intro brite hb
    have hge : brite ≥ bright.NUM_BRITES := hb
    unfold brightApply
    rw [if_pos hge]
    rfl
  · intro brite hb
    interval_cases brite <;>
    · show (w.routed ++ [_]) ++ [_] = _
      rw [List.append_assoc]
      rfl

end WWVBclock
